import Mathlib

/-!
Verification development for the sf-nnue-aio chess engine / NNUE training
pipeline.  The definitions below are shallow embeddings of the C++ sources:

* src/learn/learner.cpp       — self-play data generation (gensfen), the
                                training-record filter chain, and the newbob
                                learning-rate schedule of LearnerThink::save.
* src/src/eval/nnue/nnue_accumulator.h (second half of the file,
                                trainer_affine_transform.h)
                                — QuantizeParameters / DequantizeParameters.
* src/unnamed/part_003        — the EnPassant feature functions.
* src/src/position.cpp        — Position::do_move / undo_move / do_castling.
* src/src/eval/nnue/features/half_kp.cpp — HalfKP feature index functions.

Machine integers are modelled as Nat/Int, doubles and LearnFloatType as ℚ.
-/

namespace SfNnue

/-! # 1. Self-play data generation (gensfen), src/learn/learner.cpp

One training record, `PackedSfenValue` (learn.h, struct PackedSfenValue):
we keep the fields the claims are about (`score`, `gamePly`, `game_result`).
`srcValue1` is a ghost field recording the Learner::search value `value1`
observed at the ply where the record was buffered (learner.cpp:539-541);
the C++ struct does not store it, it only gates buffering (line 551). -/
structure PSV where
  score : Int
  gamePly : Nat
  srcValue1 : Int
  deriving DecidableEq, Repr

/-- One written record: the buffered PSV together with the back-filled
`game_result` assigned by flush_psv (learner.cpp:425). -/
structure WrittenPSV where
  psv : PSV
  game_result : Int
  deriving DecidableEq, Repr

/-- gensfen configuration (learner.cpp:820-990).  `useDrawResult` is the
build flag LEARN_GENSFEN_USE_DRAW_RESULT, which IS defined in this build
(learn.h, src/unnamed/part_004 line 167). -/
structure GensfenCfg where
  maxPly2 : Nat
  evalLimit : Int
  writeMinply : Int
  useDrawResult : Bool
  deriving Repr

/-- What the external collaborators (search, draw detection, move legality,
the dedup hash table, the PRNG) produce at one ply of the game loop
(learner.cpp:483-809).  The spec excludes these from the core, so they are
oracles here. -/
structure PlyInfo where
  value1 : Int
  leafValue : Int
  isDrawTop : Bool
  noLegalMoves : Bool
  pvBad : Bool
  isDrawAfter : Bool
  hashHit : Bool
  pvEmpty : Bool
  randomMove : Bool
  deriving Repr

/-- The write loop of flush_psv (learner.cpp:421-445), iterating the buffered
records from the last one backwards (`rbegin` to `rend`).  Per record:
`isWin = -isWin`, then get_next_loop_count() — modelled from the spec: a
global loop counter capped at loop_max whose exhaustion (sentinel
UINT64_MAX) sets the quit flag; here `budget` is the number of loop counts
left — and only then the record is written.  Returns the records written in
write order, the remaining budget, and the quit flag. -/
def flushLoop (isWin : Int) (budget : Nat) :
    List PSV → List WrittenPSV × Nat × Bool
  | [] => ([], budget, false)
  | p :: rest =>
    let w := -isWin
    match budget with
    | 0 => ([], 0, true)
    | Nat.succ b =>
      let r := flushLoop w b rest
      (⟨p, w⟩ :: r.1, r.2)

/-- flush_psv(lastTurnIsWin) (learner.cpp:415-446): back-fill the outcome
over the buffered game walking backward, writing each record while the
shared loop counter allows. -/
def flush_psv (lastTurnIsWin : Int) (a_psv : List PSV) (budget : Nat) :
    List WrittenPSV × Nat × Bool :=
  flushLoop lastTurnIsWin budget a_psv.reverse

/-- One game of the gensfen worker loop (learner.cpp:483-809), as a function
of the per-ply oracle list.  Returns the buffered record list and
`some lastTurnIsWin` when the game ends in a call to flush_psv, `none` when
the game ends without writing (top-of-loop draw at line 502, strange PV
move at line 561, empty PV at line 711, or the oracle list ends).

Branch order mirrors the source:
  * line 492: ply ≥ MAX_PLY2 → flush_psv(0) under LEARN_GENSFEN_USE_DRAW_RESULT;
  * line 502: pos.is_draw(ply) → break, nothing written;
  * line 508: no legal moves → flush_psv(-1);
  * line 551: |value1| ≥ eval_limit → flush_psv(±1);
  * line 561: pv1[0] is MOVE_NONE/MOVE_NULL → break;
  * line 574: pos.is_draw(0) → flush_psv(1) under LEARN_GENSFEN_USE_DRAW_RESULT;
  * line 655: ply < write_minply-1 → a_psv.clear();
  * line 664: dedup hash hit → a_psv.clear();
  * line 682: otherwise buffer the record with score = evaluate_leaf
    (learner.cpp:698) and gamePly = ply (line 699);
  * line 711: pv empty → break;
  * line 721: a random move this ply → a_psv.clear() (line 800). -/
def runGame (cfg : GensfenCfg) : Nat → List PSV → List PlyInfo →
    List PSV × Option Int
  | _, a_psv, [] => (a_psv, none)
  | ply, a_psv, pi :: rest =>
    if cfg.maxPly2 ≤ ply then
      (a_psv, if cfg.useDrawResult then some 0 else none)
    else if pi.isDrawTop then (a_psv, none)
    else if pi.noLegalMoves then (a_psv, some (-1))
    else if cfg.evalLimit ≤ |pi.value1| then
      (a_psv, some (if cfg.evalLimit ≤ pi.value1 then 1 else -1))
    else if pi.pvBad then (a_psv, none)
    else if pi.isDrawAfter then
      (a_psv, if cfg.useDrawResult then some 1 else none)
    else
      let a1 := if (ply : Int) < cfg.writeMinply - 1 then []
                else if pi.hashHit then []
                else a_psv ++ [⟨pi.leafValue, ply, pi.value1⟩]
      if pi.pvEmpty then (a1, none)
      else runGame cfg (ply + 1) (if pi.randomMove then [] else a1) rest

/-- The per-thread worker loop (learner.cpp:382-811): play games until the
shared loop counter is exhausted, flushing each finished game.  Returns all
written records. -/
def runWorker (cfg : GensfenCfg) : Nat → List (List PlyInfo) →
    List WrittenPSV
  | _, [] => []
  | budget, g :: gs =>
    let r := runGame cfg 0 [] g
    match r.2 with
    | none => runWorker cfg budget gs
    | some lastWin =>
      let f := flush_psv lastWin r.1 budget
      if f.2.2 then f.1 else f.1 ++ runWorker cfg f.2.1 gs

/-! # 2. Newbob convergence policy, LearnerThink::save (learner.cpp:2097-2158)

Doubles are modelled as ℚ; `best_loss` starts at +infinity
(learner.cpp:1507), modelled as `none`. -/

structure NewbobState where
  trials : Int
  bestLoss : Option ℚ
  bestDir : Option Nat
  scale : ℚ

/-- `latest_loss < best_loss` (learner.cpp:2127) with best_loss possibly
+infinity. -/
def lossLt (l : ℚ) (best : Option ℚ) : Bool :=
  match best with
  | none => true
  | some b => decide (l < b)

/-- Result of one newbob evaluation inside LearnerThink::save:
whether `converged` (save returns true, line 2150-2153), whether
Eval::NNUE::RestoreParameters was called (line 2140), and the new state. -/
structure SaveResult where
  converged : Bool
  restored : Bool
  state : NewbobState

/-- The newbob branch of LearnerThink::save (learner.cpp:2121-2154), for a
non-final save (is_final == false).  `dirName` is the numbered save
directory of this call (line 2117-2118). -/
def newbobStep (decay : ℚ) (numTrials : Int) (dirName : Nat)
    (s : NewbobState) (latestLoss : ℚ) : SaveResult :=
  if lossLt latestLoss s.bestLoss then
    ⟨false, false,
      { trials := numTrials, bestLoss := some latestLoss,
        bestDir := some dirName, scale := s.scale }⟩
  else
    let restored := s.bestDir.isSome
    let trials1 := s.trials - 1
    let scale1 := if 0 < trials1 then s.scale * decay else s.scale
    ⟨trials1 = 0, restored,
      { trials := trials1, bestLoss := s.bestLoss,
        bestDir := s.bestDir, scale := scale1 }⟩

/-- Run newbobStep over a sequence of per-interval held-out losses until the
step signals convergence.  Returns `some b` when convergence was signalled,
where `b` records whether RestoreParameters had been called on that step and
on every earlier step of the run; `none` when the loss sequence ends without
convergence. -/
def newbobRun (decay : ℚ) (numTrials : Int) (dirName : Nat) :
    NewbobState → List ℚ → Option Bool
  | _, [] => none
  | s, l :: ls =>
    let r := newbobStep decay numTrials dirName s l
    if r.converged then some r.restored
    else
      match newbobRun decay numTrials dirName r.state ls with
      | none => none
      | some b => some (r.restored && b)

/-! # 3. Quantize/dequantize round trip,
Trainer of AffineTransform (src/src/eval/nnue/nnue_accumulator.h:228-266)

LearnFloatType is modelled as ℚ.  `S` stands for kWeightScale
(= kBiasScale / kActivationScale, line 281), a positive rational;
LayerType::WeightType is std::int8_t (affine_transform.h:205) whose maximum
is 127, so kMaxWeightMagnitude = 127 / S (line 284-285).
Modelled from the spec: the helper Round of trainer.h, absent from src,
"rounds-to-nearest into the Network's quantized storage" (spec 4.5); we use
round-to-nearest `round : ℚ → ℤ`. -/

/-- int8 maximum, std::numeric_limits of WeightType (line 285). -/
def weightTypeMax : ℚ := 127

/-- kMaxWeightMagnitude (line 284-285). -/
def kMaxWeightMagnitude (S : ℚ) : ℚ := weightTypeMax / S

/-- The clipping step of QuantizeParameters (line 230-231):
`std::max(-kMaxWeightMagnitude, std::min(+kMaxWeightMagnitude, w))`. -/
def clipWeight (S w : ℚ) : ℚ :=
  max (-kMaxWeightMagnitude S) (min (kMaxWeightMagnitude S) w)

/-- QuantizeParameters on one weight (line 228-246): clip the trainer weight
in place, then store Round(weight * kWeightScale) into the deployed layer. -/
def quantizeWeight (S w : ℚ) : ℤ := round (clipWeight S w * S)

/-- DequantizeParameters on one weight (line 254-261):
`weights_[...] = target_layer_->weights_[...] / kWeightScale`. -/
def dequantizeWeight (S : ℚ) (q : ℤ) : ℚ := (q : ℚ) / S

/-! # 4. Training-record filter chain,
LearnerThink::thread_worker (learner.cpp:1897-1958)

Each pulled record either reaches the gradient step or is skipped by
`goto RetryRead`, which pulls the next record.  Build flags:
`evalNNUE` is EVAL_NNUE (the validation-set / recent-hash exclusion at
lines 1937-1951 is compiled only when EVAL_NNUE is NOT defined), and
`useDrawResult` is LEARN_GENSFEN_USE_DRAW_RESULT (the draw filter at lines
1914-1917 is compiled only when it is NOT defined). -/

structure TrainRecord where
  score : Int
  game_result : Int
  gamePly : Nat
  key : Nat
  decodeOk : Bool
  hasLegalMoves : Bool
  plyThresh : Nat
  deriving DecidableEq, Repr

/-- `plyThresh` above is the value drawn by prng.rand(reduction_gameply) for
this pull (line 1920); the PRNG is an external collaborator, so the drawn
value travels with the record oracle. -/
structure TrainEnv where
  evalLimit : Int
  useDrawResult : Bool
  evalNNUE : Bool
  isForRmse : Nat → Bool
  recentHash : Nat → Bool

/-- Whether the record is skipped (`goto RetryRead`), in source order:
eval_limit (line 1911), draw (line 1914-1917), opening ply (line 1920),
packed-sfen decode failure (line 1930), validation-set / recent-hash
exclusion (lines 1937-1951, non-NNUE build only), no legal moves
(line 1957). -/
def rejected (env : TrainEnv) (r : TrainRecord) : Bool :=
  (decide (env.evalLimit < |r.score|)) ||
  (!env.useDrawResult && decide (r.game_result = 0)) ||
  (decide (r.gamePly < r.plyThresh)) ||
  (!r.decodeOk) ||
  (!env.evalNNUE && (env.isForRmse r.key || env.recentHash r.key)) ||
  (!r.hasLegalMoves)

/-- The RetryRead loop: pull records until one passes every filter
(that record feeds the gradient step) or the stream is exhausted
(read_to_thread_buffer fails, line 1899: the worker stops). -/
def nextTrainable (env : TrainEnv) : List TrainRecord → Option TrainRecord
  | [] => none
  | r :: rest => if rejected env r then nextTrainable env rest else some r

/-! # 5. EnPassant feature (src/unnamed/part_003)

`rawMaxActive` is RawFeatures::kMaxActiveDimensions;
EnPassant::kMaxActiveDimensions = 1.  `Inv` (types.h:484) turns the board
180 degrees. -/

/-- EnPassant::AppendActiveIndices (part_003:12-28). -/
def enPassantAppendActiveIndices (rawMaxActive : Nat)
    (epSquare : Option Nat) (perspective : Nat) (active : List Nat) :
    Except String (List Nat) :=
  if rawMaxActive < 1 then .ok active
  else
    match epSquare with
    | none => .ok active
    | some sq =>
      let sq1 := if perspective = 1 then 63 - sq else sq
      .ok (active ++ [sq1 % 8])

/-- EnPassant::AppendChangedIndices (part_003:31-36): the body is
`assert(false)` with the comment "Not implemented", so every invocation
is an assertion failure; no input returns normally. -/
def enPassantAppendChangedIndices (_epSquare : Option Nat)
    (_perspective : Nat) (_removed _added : List Nat) :
    Except String (List Nat × List Nat) :=
  .error "assert(false): Not implemented"

/-! # 6. The position core: Position::do_move / undo_move
(src/src/position.cpp:708-1107) over the encodings of src/src/types.h.

Squares, pieces, colors and moves are the integer codes of types.h:
WHITE = 0, BLACK = 1; piece = (color << 3) + type with PAWN = 1 … KING = 6;
square = 8*rank + file, SQ_NONE = 64; move = (type << 14) +
(promo-KNIGHT << 12) + (from << 6) + to. -/

def NO_PIECE : Nat := 0
def PAWN : Nat := 1
def KNIGHT : Nat := 2
def BISHOP : Nat := 3
def ROOK : Nat := 4
def QUEEN : Nat := 5
def KING : Nat := 6
def WHITE : Nat := 0
def BLACK : Nat := 1
def SQ_NONE : Nat := 64
def PIECE_NUMBER_KING : Nat := 30
def PIECE_NUMBER_NB : Nat := 32

/-- operator~(Color) (types.h): the other color. -/
def flipColor (c : Nat) : Nat := c ^^^ 1

/-- make_piece (types.h:405): (c << 3) + pt. -/
def make_piece (c pt : Nat) : Nat := (c <<< 3) + pt

/-- type_of(Piece) (types.h:409): pc & 7. -/
def piece_type (pc : Nat) : Nat := pc % 8

/-- color_of(Piece) (types.h:413): pc >> 3. -/
def piece_color (pc : Nat) : Nat := pc / 8

/-- file_of (types.h:422): s & 7. -/
def file_of (s : Nat) : Nat := s % 8

/-- rank_of (types.h:426): s >> 3. -/
def rank_of (s : Nat) : Nat := s / 8

/-- relative_square (types.h:430): s ^ (c * 56). -/
def relative_square (c s : Nat) : Nat := s ^^^ (c * 56)

/-- Inv (types.h:484): SQUARE_NB - 1 - sq. -/
def InvSq (s : Nat) : Nat := 63 - s

/-- from_sq (types.h:446): (m >> 6) & 0x3F. -/
def from_sq (m : Nat) : Nat := (m >>> 6) % 64

/-- to_sq (types.h:450): m & 0x3F. -/
def to_sq (m : Nat) : Nat := m % 64

def NORMAL : Nat := 0
def PROMOTION : Nat := 1 <<< 14
def ENPASSANT : Nat := 2 <<< 14
def CASTLING : Nat := 3 <<< 14

/-- type_of(Move) (types.h:458): m & (3 << 14). -/
def move_type (m : Nat) : Nat := m &&& (3 <<< 14)

/-- promotion_type (types.h:462): ((m >> 12) & 3) + KNIGHT. -/
def promotion_type (m : Nat) : Nat := ((m >>> 12) % 4) + KNIGHT

/-- PieceValue[MG] (types.h:230-232). -/
def PieceValueMg (pc : Nat) : Int :=
  match piece_type pc with
  | 1 => 124
  | 2 => 781
  | 3 => 825
  | 4 => 1276
  | 5 => 2538
  | _ => 0

/-- `to - pawn_push(us)` on square codes (types.h:442, pawn_push = ±8):
the square one step behind `to` from `us`'s point of view.  Used both for
the en-passant capture square (position.cpp:777) and the en-passant square
set after a double push (position.cpp:882). -/
def behindSq (us toSq : Nat) : Nat := if us = WHITE then toSq - 8 else toSq + 8

/-- Zobrist tables (position.cpp, namespace Zobrist, filled from a PRNG in
Position::init).  The claims never depend on the drawn values; a fixed
injective congruential mix stands in for the PRNG stream. -/
def zmix (n : Nat) : Nat := (n * 6364136223846793005 + 1442695040888963407) % 2 ^ 64

def Zpsq (pc sq : Nat) : Nat := zmix (pc * 64 + sq + 1)

def Zenpassant (f : Nat) : Nat := zmix (1100 + f)

def Zcastling (cr : Nat) : Nat := zmix (1120 + cr)

def Zside : Nat := zmix 1200

/-! ## BonaPiece encoding (Eval::BonaPiece, evaluate.h)

Modelled from the spec: the BonaPiece constants and the EvalList helper
functions are declared in evaluate.h, which is not among the source files;
their behavior is fixed by spec section 3 (EvalList / PieceNumber mapping),
by the kpp_board_index table and EvalList::is_valid in src/unnamed/part_005
(pieceListFw entries decode as kpp_board_index[pc].fw + sq), and by the
uses in position.cpp.  BonaPiece blocks are 64 wide: f_pawn = 1,
e_pawn = 65, …, fe_end = 641 = f_king, e_king = 705. -/

def BONA_PIECE_ZERO : Nat := 0
def f_pawn : Nat := 1
def e_pawn : Nat := 65
def f_knight : Nat := 129
def e_knight : Nat := 193
def f_bishop : Nat := 257
def e_bishop : Nat := 321
def f_rook : Nat := 385
def e_rook : Nat := 449
def f_queen : Nat := 513
def e_queen : Nat := 577
def fe_end : Nat := 641
def f_king : Nat := 641
def e_king : Nat := 705

/-- Eval::ExtBonaPiece: the same board piece seen from the white (`fw`) and
black (`fb`) perspectives; the union member from[WHITE] is `fw` and
from[BLACK] is `fb` (used by HalfKP::AppendChangedIndices as
`.from[perspective]`). -/
structure ExtBonaPiece where
  fw : Nat
  fb : Nat
  deriving DecidableEq, Repr

/-- ExtBonaPiece::from[perspective]. -/
def ExtBonaPiece.fromPersp (p : ExtBonaPiece) (c : Nat) : Nat :=
  if c = WHITE then p.fw else p.fb

/-- Eval::kpp_board_index (src/unnamed/part_005:943-962): BonaPiece block
start per piece code, white perspective first. -/
def kpp_board_index (pc : Nat) : ExtBonaPiece :=
  match pc with
  | 1 => ⟨f_pawn, e_pawn⟩
  | 2 => ⟨f_knight, e_knight⟩
  | 3 => ⟨f_bishop, e_bishop⟩
  | 4 => ⟨f_rook, e_rook⟩
  | 5 => ⟨f_queen, e_queen⟩
  | 6 => ⟨f_king, e_king⟩
  | 9 => ⟨e_pawn, f_pawn⟩
  | 10 => ⟨e_knight, f_knight⟩
  | 11 => ⟨e_bishop, f_bishop⟩
  | 12 => ⟨e_rook, f_rook⟩
  | 13 => ⟨e_queen, f_queen⟩
  | 14 => ⟨e_king, f_king⟩
  | _ => ⟨BONA_PIECE_ZERO, BONA_PIECE_ZERO⟩

/-- Eval::ChangedBonaPiece (evaluate.h): the before/after feature identity
of one changed piece number. -/
structure ChangedBonaPiece where
  old_piece : ExtBonaPiece
  new_piece : ExtBonaPiece
  deriving DecidableEq, Repr

/-- Eval::DirtyPiece (evaluate.h): up to two changed piece numbers per move;
entry `i` is meaningful only for i < dirty_num. -/
structure DirtyPiece where
  cp0 : ChangedBonaPiece
  cp1 : ChangedBonaPiece
  no0 : Nat
  no1 : Nat
  dirty_num : Nat
  deriving DecidableEq, Repr

/-- Eval::EvalList (evaluate.h; modelled from the spec, see above):
piece-number → BonaPiece per perspective, and square → piece-number
(PIECE_NUMBER_NB = 32 for an empty square). -/
@[ext] structure EvalList where
  pieceListFw : Nat → Nat
  pieceListFb : Nat → Nat
  piece_no_list_board : Nat → Nat

/-- EvalList::bona_piece(piece_no). -/
def EvalList.bona_piece (el : EvalList) (n : Nat) : ExtBonaPiece :=
  ⟨el.pieceListFw n, el.pieceListFb n⟩

/-- EvalList::piece_no_of_board(sq). -/
def EvalList.piece_no_of_board (el : EvalList) (sq : Nat) : Nat :=
  el.piece_no_list_board sq

/-- EvalList::set_piece_on_board(piece_no, fw, fb, sq). -/
def EvalList.set_piece_on_board (el : EvalList) (n fw fb sq : Nat) : EvalList :=
  { pieceListFw := Function.update el.pieceListFw n fw
    pieceListFb := Function.update el.pieceListFb n fb
    piece_no_list_board := Function.update el.piece_no_list_board sq n }

/-- EvalList::put_piece(piece_no, sq, pc): the white-perspective entry is
kpp_board_index[pc].fw + sq, the black-perspective entry is
kpp_board_index[pc].fb + Inv(sq). -/
def EvalList.put_piece (el : EvalList) (n sq pc : Nat) : EvalList :=
  el.set_piece_on_board n ((kpp_board_index pc).fw + sq)
    ((kpp_board_index pc).fb + InvSq sq) sq

/-- `evalList.piece_no_list_board[sq] = PIECE_NUMBER_NB` (raw assignment,
position.cpp:791, 835, 869, 1009, 1090, …). -/
def EvalList.setBoardNB (el : EvalList) (sq : Nat) : EvalList :=
  { el with piece_no_list_board := Function.update el.piece_no_list_board sq PIECE_NUMBER_NB }

/-- StateInfo (position.h): the per-ply snapshot.  The fields before `key`
are copied by do_move's memcpy (position.cpp:719); checkersBB and the
check-info bitboards are derived attack caches outside this model (the
claims do not mention them), and the NNUE accumulator holds no game
state. -/
structure StateInfo where
  pawnKey : Nat
  materialKey : Nat
  nonPawnMaterial : Nat → Int
  castlingRights : Nat
  rule50 : Nat
  pliesFromNull : Nat
  epSquare : Nat
  key : Nat
  capturedPiece : Nat
  repetition : Int
  dirtyPiece : DirtyPiece

instance : Inhabited StateInfo :=
  ⟨{ pawnKey := 0, materialKey := 0, nonPawnMaterial := fun _ => 0,
     castlingRights := 0, rule50 := 0, pliesFromNull := 0, epSquare := SQ_NONE,
     key := 0, capturedPiece := NO_PIECE, repetition := 0,
     dirtyPiece := ⟨⟨⟨0, 0⟩, ⟨0, 0⟩⟩, ⟨⟨0, 0⟩, ⟨0, 0⟩⟩, 0, 0, 0⟩ }⟩

/-- Position (position.h): board and counts, side to move, game ply, the
castling-rights masks fixed at set() time, the EvalList, and the StateInfo
chain (`st` is the current state, `prevStates` the previous-pointer chain,
nearest first).  byTypeBB/byColorBB are redundant encodings of `board`
outside this model. -/
@[ext] structure Position where
  board : Nat → Nat
  pieceCount : Nat → Nat
  sideToMove : Nat
  gamePly : Nat
  castlingRightsMask : Nat → Nat
  evalList : EvalList
  st : StateInfo
  prevStates : List StateInfo

/-- Position::put_piece(pc, s) — modelled from the spec (position.h inline
helper absent from src): writes the board square and bumps pieceCount[pc]
(the per-piece count that indexes Zobrist::psq in the material key). -/
def Position.putPiece (pos : Position) (pc sq : Nat) : Position :=
  { pos with board := Function.update pos.board sq pc
             pieceCount := Function.update pos.pieceCount pc (pos.pieceCount pc + 1) }

/-- Position::remove_piece(s) — modelled from the spec (position.h inline
helper absent from src): decrements pieceCount of the occupant; it does NOT
clear board[s] (position.cpp:789 and :1082 state so explicitly). -/
def Position.removePiece (pos : Position) (sq : Nat) : Position :=
  let pc := pos.board sq
  { pos with pieceCount := Function.update pos.pieceCount pc (pos.pieceCount pc - 1) }

/-- Position::move_piece(from, to) — modelled from the spec (position.h
inline helper absent from src): board[from] = NO_PIECE; board[to] = pc. -/
def Position.movePiece (pos : Position) (fromSq toSq : Nat) : Position :=
  let pc := pos.board fromSq
  { pos with board :=
      Function.update (Function.update pos.board fromSq NO_PIECE) toSq pc }

/-- `cr & ~mask` on the 4-bit castling-rights field (position.cpp:854). -/
def clearRights (cr mask : Nat) : Nat := cr &&& (15 ^^^ (mask &&& 15))

/-- The two pawn-attack squares test of position.cpp:879-880:
`pawn_attacks_bb(us, to - pawn_push(us)) & pieces(them, PAWN)`; the attack
squares of the pushed-past square are the neighbors of `to` on its rank. -/
def epAttackersExist (board : Nat → Nat) (them toSq : Nat) : Bool :=
  (decide (0 < file_of toSq) && decide (board (toSq - 1) = make_piece them PAWN)) ||
  (decide (file_of toSq < 7) && decide (board (toSq + 1) = make_piece them PAWN))

/-- The repetition scan of do_move (position.cpp:939-952): walk the
previous chain two plies at a time comparing keys; `chain` lists the
previous states nearest-first, so the loop's `stp` at distance `i` is
chain[i-1]. -/
def computeRepetition (chain : List StateInfo) (key : Nat) (e : Nat) : Int :=
  if e < 4 then 0
  else
    match (List.range ((e - 4) / 2 + 1)).findSome? (fun j =>
      let i := 4 + 2 * j
      match chain.get? (i - 1) with
      | some stp => if stp.key = key
          then some (if stp.repetition ≠ 0 then -(i : Int) else (i : Int))
          else none
      | none => none) with
    | some r => r
    | none => 0

/-- Result of the Do branch of Position::do_castling (position.cpp:1052-1107):
the mutated board/counts/evalList, the DirtyPiece entries, and the helper's
out-parameters. -/
structure CastlingResult where
  pos : Position
  dp01 : DirtyPiece
  kto : Nat
  rfrom : Nat
  rto : Nat

/-- Position::do_castling with Do = true (position.cpp:1052-1099), called
with `to` = the rook's square (castling is encoded as king captures rook).
Removes both pieces before re-placing either, then records both piece
numbers in the DirtyPiece. -/
def do_castling_do (pos : Position) (us fromSq toSq0 : Nat) : CastlingResult :=
  let n0 := pos.evalList.piece_no_of_board fromSq
  let n1 := pos.evalList.piece_no_of_board toSq0
  let kingSide := decide (fromSq < toSq0)
  let rfrom := toSq0
  let rto := relative_square us (if kingSide then 5 else 3)
  let kto := relative_square us (if kingSide then 6 else 2)
  let p1 := (pos.removePiece fromSq).removePiece rfrom
  let b2 := Function.update (Function.update p1.board fromSq NO_PIECE) rfrom NO_PIECE
  let p2 := { p1 with board := b2 }
  let p3 := (p2.putPiece (make_piece us KING) kto).putPiece (make_piece us ROOK) rto
  let el0 := p3.evalList
  let old0 := el0.bona_piece n0
  let el1 := (el0.setBoardNB fromSq).put_piece n0 kto (make_piece us KING)
  let new0 := el1.bona_piece n0
  let old1 := el1.bona_piece n1
  let el2 := (el1.setBoardNB rfrom).put_piece n1 rto (make_piece us ROOK)
  let new1 := el2.bona_piece n1
  { pos := { p3 with evalList := el2 }
    dp01 := { cp0 := ⟨old0, new0⟩, cp1 := ⟨old1, new1⟩,
              no0 := n0, no1 := n1, dirty_num := 2 }
    kto := kto, rfrom := rfrom, rto := rto }

/-- Position::do_castling with Do = false (position.cpp:1052-1107,
else-branch of the EVAL_NNUE block): the inverse rearrangement. -/
def do_castling_undo (pos : Position) (us fromSq toSq0 : Nat) : Position :=
  let kingSide := decide (fromSq < toSq0)
  let rfrom := toSq0
  let rto := relative_square us (if kingSide then 5 else 3)
  let kto := relative_square us (if kingSide then 6 else 2)
  let n0 := pos.evalList.piece_no_of_board kto
  let n1 := pos.evalList.piece_no_of_board rto
  let p1 := (pos.removePiece kto).removePiece rto
  let b2 := Function.update (Function.update p1.board kto NO_PIECE) rto NO_PIECE
  let p2 := { p1 with board := b2 }
  let p3 := (p2.putPiece (make_piece us KING) fromSq).putPiece (make_piece us ROOK) rfrom
  let el1 := (p3.evalList.setBoardNB kto).put_piece n0 fromSq (make_piece us KING)
  let el2 := (el1.setBoardNB rto).put_piece n1 rfrom (make_piece us ROOK)
  { p3 with evalList := el2 }

/-- The mutable locals of Position::do_move threaded through its blocks:
the board/counts/evalList under mutation, the DirtyPiece being built, the
running key `k`, the new StateInfo fields copied from the old state and
updated in place, the (possibly castling-updated) `to` square, and
`captured`. -/
structure DM where
  pos : Position
  dp : DirtyPiece
  k : Nat
  pawnKey : Nat
  materialKey : Nat
  npm : Nat → Int
  rule50 : Nat
  epSq : Nat
  cr : Nat
  toSq : Nat
  captured : Nat

/-- Position::do_move (position.cpp:708-960).  The new StateInfo copies the
fields before `key` from the old one (line 719) and is pushed on the chain;
gamePly, rule50 and pliesFromNull are incremented (725-727); `captured` is
the en-passant pawn for an en-passant move, else the occupant of `to`
(line 739).  The stale DirtyPiece memory of the new StateInfo (not part of
the memcpy) is modelled as the old state's record; only entries below
dirty_num are meaningful.  checkersBB/set_check_info are derived attack
caches outside this model. -/
def do_move (pos : Position) (m : Nat) : Position :=
  let st0 := pos.st
  let us := pos.sideToMove
  let them := flipColor us
  let fromSq := from_sq m
  let mt := move_type m
  let pc := pos.board fromSq
  let s0 : DM :=
    { pos := pos
      dp := { st0.dirtyPiece with dirty_num := 1 }
      k := st0.key ^^^ Zside
      pawnKey := st0.pawnKey
      materialKey := st0.materialKey
      npm := st0.nonPawnMaterial
      rule50 := st0.rule50 + 1
      epSq := st0.epSquare
      cr := st0.castlingRights
      toSq := to_sq m
      captured := if mt = ENPASSANT then make_piece them PAWN
                  else pos.board (to_sq m) }
  -- lines 755-765: castling rearrangement; the rook's key terms; captured
  -- is reset so the capture block is skipped
  let s1 : DM :=
    if mt = CASTLING then
      let c := do_castling_do s0.pos us fromSq s0.toSq
      { s0 with pos := c.pos
                dp := c.dp01
                toSq := c.kto
                k := s0.k ^^^ Zpsq s0.captured c.rfrom ^^^ Zpsq s0.captured c.rto
                captured := NO_PIECE }
    else s0
  -- lines 767-838: remove the captured piece, record DirtyPiece entry 1
  let s2 : DM :=
    if s1.captured ≠ NO_PIECE then
      let cap := s1.captured
      let capsq := if mt = ENPASSANT then behindSq us s1.toSq else s1.toSq
      let n1 := s1.pos.evalList.piece_no_of_board capsq
      let pk := if piece_type cap = PAWN then s1.pawnKey ^^^ Zpsq cap capsq
                else s1.pawnKey
      let npm1 := if piece_type cap = PAWN then s1.npm
                  else Function.update s1.npm them (s1.npm them - PieceValueMg cap)
      let el0 := if mt = ENPASSANT then s1.pos.evalList.setBoardNB capsq
                 else s1.pos.evalList
      let p2 := { s1.pos with evalList := el0 }.removePiece capsq
      let p3 := if mt = ENPASSANT
                then { p2 with board := Function.update p2.board capsq NO_PIECE }
                else p2
      let old1 := p3.evalList.bona_piece n1
      let el1 := (p3.evalList.set_piece_on_board n1 BONA_PIECE_ZERO
                    BONA_PIECE_ZERO capsq).setBoardNB capsq
      let p4 := { p3 with evalList := el1 }
      let new1 := el1.bona_piece n1
      { s1 with pos := p4
                dp := { s1.dp with dirty_num := 2, no1 := n1, cp1 := ⟨old1, new1⟩ }
                k := s1.k ^^^ Zpsq cap capsq
                pawnKey := pk
                materialKey := s1.materialKey ^^^ Zpsq cap (p4.pieceCount cap)
                npm := npm1
                rule50 := 0 }
    else s1
  -- line 841: the moving piece's key terms
  let s3 : DM := { s2 with k := s2.k ^^^ Zpsq pc fromSq ^^^ Zpsq pc s2.toSq }
  -- lines 844-848: reset the en-passant square
  let s4 : DM :=
    if s3.epSq ≠ SQ_NONE then
      { s3 with k := s3.k ^^^ Zenpassant (file_of s3.epSq), epSq := SQ_NONE }
    else s3
  -- lines 851-856: castling-rights update (`to` is the updated square)
  let s5 : DM :=
    let mask := pos.castlingRightsMask fromSq ||| pos.castlingRightsMask s4.toSq
    if s4.cr ≠ 0 ∧ mask ≠ 0 then
      let cr1 := clearRights s4.cr mask
      { s4 with k := s4.k ^^^ Zcastling s4.cr ^^^ Zcastling cr1, cr := cr1 }
    else s4
  -- lines 859-873: move the piece, record DirtyPiece entry 0
  let s6 : DM :=
    if mt ≠ CASTLING then
      let n0 := s5.pos.evalList.piece_no_of_board fromSq
      let p1 := s5.pos.movePiece fromSq s5.toSq
      let old0 := p1.evalList.bona_piece n0
      let el1 := (p1.evalList.setBoardNB fromSq).put_piece n0 s5.toSq pc
      let new0 := el1.bona_piece n0
      { s5 with pos := { p1 with evalList := el1 }
                dp := { s5.dp with no0 := n0, cp0 := ⟨old0, new0⟩ } }
    else s5
  -- lines 876-920: pawn extra work (double-push EP square / promotion),
  -- pawn hash update, rule-50 reset
  let s7 : DM :=
    if piece_type pc = PAWN then
      let sA :=
        if (s6.toSq ^^^ fromSq) = 16 ∧ epAttackersExist s6.pos.board them s6.toSq
        then
          let eps := behindSq us s6.toSq
          { s6 with epSq := eps, k := s6.k ^^^ Zenpassant (file_of eps) }
        else if mt = PROMOTION then
          let promo := make_piece us (promotion_type m)
          let p1 := (s6.pos.removePiece s6.toSq).putPiece promo s6.toSq
          let n0 := p1.evalList.piece_no_of_board s6.toSq
          let el1 := p1.evalList.put_piece n0 s6.toSq promo
          let new0 := el1.bona_piece n0
          { s6 with pos := { p1 with evalList := el1 }
                    dp := { s6.dp with cp0 := ⟨s6.dp.cp0.old_piece, new0⟩ }
                    k := s6.k ^^^ Zpsq pc s6.toSq ^^^ Zpsq promo s6.toSq
                    pawnKey := s6.pawnKey ^^^ Zpsq pc s6.toSq
                    materialKey := s6.materialKey
                      ^^^ Zpsq promo (p1.pieceCount promo - 1)
                      ^^^ Zpsq pc (p1.pieceCount pc)
                    npm := Function.update s6.npm us
                      (s6.npm us + PieceValueMg promo) }
        else s6
      { sA with pawnKey := sA.pawnKey ^^^ Zpsq pc fromSq ^^^ Zpsq pc sA.toSq
                rule50 := 0 }
    else s6
  let e := min s7.rule50 (st0.pliesFromNull + 1)
  let newSt : StateInfo :=
    { pawnKey := s7.pawnKey
      materialKey := s7.materialKey
      nonPawnMaterial := s7.npm
      castlingRights := s7.cr
      rule50 := s7.rule50
      pliesFromNull := st0.pliesFromNull + 1
      epSquare := s7.epSq
      key := s7.k
      capturedPiece := s7.captured
      repetition := computeRepetition (st0 :: pos.prevStates) s7.k e
      dirtyPiece := s7.dp }
  { s7.pos with st := newSt
                prevStates := st0 :: pos.prevStates
                sideToMove := them
                gamePly := pos.gamePly + 1 }

/-- Position::undo_move (position.cpp:966-1046): the exact inverse
rearrangement, finishing by popping the StateInfo chain. -/
def undo_move (pos : Position) (m : Nat) : Position :=
  let us := flipColor pos.sideToMove
  let fromSq := from_sq m
  let toSq0 := to_sq m
  let mt := move_type m
  let st := pos.st
  -- lines 980-994: a promotion is first turned back into the pawn
  let s1 : Position × Nat :=
    if mt = PROMOTION then
      let pcP := make_piece us PAWN
      let p1 := (pos.removePiece toSq0).putPiece pcP toSq0
      let p2 := { p1 with evalList := p1.evalList.put_piece st.dirtyPiece.no0 toSq0 pcP }
      (p2, pcP)
    else (pos, pos.board toSq0)
  let pos1 := s1.1
  let pc := s1.2
  let pos2 :=
    if mt = CASTLING then do_castling_undo pos1 us fromSq toSq0
    else
      -- lines 1004-1010: put the piece back at the source square
      let p1 := pos1.movePiece toSq0 fromSq
      let el1 := (p1.evalList.put_piece st.dirtyPiece.no0 fromSq pc).setBoardNB toSq0
      let p2 := { p1 with evalList := el1 }
      -- lines 1012-1035: restore the captured piece
      if st.capturedPiece ≠ NO_PIECE then
        let capsq := if mt = ENPASSANT then behindSq us toSq0 else toSq0
        let p3 := p2.putPiece st.capturedPiece capsq
        let el3 := p3.evalList.put_piece st.dirtyPiece.no1 capsq st.capturedPiece
        { p3 with evalList := el3 }
      else p2
  { pos2 with st := pos.prevStates.headI
              prevStates := pos.prevStates.tail
              sideToMove := us
              gamePly := pos.gamePly - 1 }

/-! # 7. HalfKP feature indices
(src/src/eval/nnue/features/half_kp.cpp:12-70) -/

/-- Features::Side (features_common.h): which king the feature is relative
to. -/
inductive Side
  | kFriend
  | kEnemy
  deriving DecidableEq, Repr

/-- HalfKP::MakeIndex (half_kp.cpp:13-15). -/
def MakeIndex (sq_k p : Nat) : Nat := fe_end * sq_k + p

/-- HalfKP::GetPieces (half_kp.cpp:19-29): the perspective's piece list and
the associated king's square, decoded as (pieces[target] - f_king) %
SQUARE_NB. -/
def GetPieces (pos : Position) (side : Side) (perspective : Nat) :
    (Nat → Nat) × Nat :=
  let pieces := if perspective = BLACK then pos.evalList.pieceListFb
                else pos.evalList.pieceListFw
  let target := match side with
    | Side.kFriend => PIECE_NUMBER_KING + perspective
    | Side.kEnemy => PIECE_NUMBER_KING + flipColor perspective
  (pieces, (pieces target - f_king) % 64)

/-- HalfKP::AppendActiveIndices (half_kp.cpp:33-46): one index per non-king
piece number with a nonzero BonaPiece.  (The kMaxActiveDimensions guard of
line 36 is statically false for the compiled HalfKP feature set.) -/
def AppendActiveIndices (pos : Position) (side : Side) (perspective : Nat) :
    List Nat :=
  let gp := GetPieces pos side perspective
  (List.range PIECE_NUMBER_KING).filterMap fun i =>
    if gp.1 i ≠ BONA_PIECE_ZERO then some (MakeIndex gp.2 (gp.1 i)) else none

/-- HalfKP::AppendChangedIndices (half_kp.cpp:50-70): for each DirtyPiece
entry below dirty_num whose piece number is not a king, the nonzero old
BonaPiece goes to `removed` and the nonzero new BonaPiece to `added`. -/
def AppendChangedIndices (pos : Position) (side : Side) (perspective : Nat) :
    List Nat × List Nat :=
  let gp := GetPieces pos side perspective
  let dp := pos.st.dirtyPiece
  let entries := List.take dp.dirty_num [(dp.no0, dp.cp0), (dp.no1, dp.cp1)]
  let removed := entries.filterMap fun en =>
    if PIECE_NUMBER_KING ≤ en.1 then none
    else
      let oldp := en.2.old_piece.fromPersp perspective
      if oldp ≠ BONA_PIECE_ZERO then some (MakeIndex gp.2 oldp) else none
  let added := entries.filterMap fun en =>
    if PIECE_NUMBER_KING ≤ en.1 then none
    else
      let newp := en.2.new_piece.fromPersp perspective
      if newp ≠ BONA_PIECE_ZERO then some (MakeIndex gp.2 newp) else none
  (removed, added)

/-! ## Concrete position builders (for evaluating the model at witnesses)

A placement is a list of (square, piece code, piece number) triples; the
builders produce the board, count, and EvalList functions that Position::set
and EvalList would have produced for that placement. -/

def mkBoard (l : List (Nat × Nat × Nat)) : Nat → Nat := fun sq =>
  match l.find? (fun e => e.1 = sq) with
  | some e => e.2.1
  | none => NO_PIECE

def mkCount (l : List (Nat × Nat × Nat)) : Nat → Nat := fun pc =>
  if pc = NO_PIECE then 0 else (l.filter (fun e => e.2.1 = pc)).length

def mkMap (l : List (Nat × Nat × Nat)) : Nat → Nat := fun sq =>
  match l.find? (fun e => e.1 = sq) with
  | some e => e.2.2
  | none => PIECE_NUMBER_NB

def mkFw (l : List (Nat × Nat × Nat)) : Nat → Nat := fun n =>
  match l.find? (fun e => e.2.2 = n) with
  | some e => (kpp_board_index e.2.1).fw + e.1
  | none => BONA_PIECE_ZERO

def mkFb (l : List (Nat × Nat × Nat)) : Nat → Nat := fun n =>
  match l.find? (fun e => e.2.2 = n) with
  | some e => (kpp_board_index e.2.1).fb + InvSq e.1
  | none => BONA_PIECE_ZERO

def mkEvalList (l : List (Nat × Nat × Nat)) : EvalList :=
  { pieceListFw := mkFw l, pieceListFb := mkFb l, piece_no_list_board := mkMap l }

def mkPosition (l : List (Nat × Nat × Nat)) (stm : Nat) (st : StateInfo) :
    Position :=
  { board := mkBoard l
    pieceCount := mkCount l
    sideToMove := stm
    gamePly := 10
    castlingRightsMask := fun _ => 0
    evalList := mkEvalList l
    st := st
    prevStates := [] }

/-- A baseline StateInfo for concrete positions. -/
def baseSt : StateInfo :=
  { pawnKey := 7, materialKey := 11, nonPawnMaterial := fun _ => 0,
    castlingRights := 0, rule50 := 3, pliesFromNull := 3, epSquare := SQ_NONE,
    key := 99, capturedPiece := NO_PIECE, repetition := 0,
    dirtyPiece := ⟨⟨⟨0, 0⟩, ⟨0, 0⟩⟩, ⟨⟨0, 0⟩, ⟨0, 0⟩⟩, 0, 0, 0⟩ }

/-! # 8. Well-formedness and move preconditions

The preconditions mirror the asserts of do_move and the invariant checked
by EvalList::is_valid plus the piece-number layout established by
Position::set (pawn/minor/rook/queen numbers below PIECE_NUMBER_KING = 30,
the two kings at 30 + color). -/

/-- A valid piece code: piece type PAWN..KING, color WHITE or BLACK. -/
def validPiece (pc : Nat) : Prop :=
  1 ≤ piece_type pc ∧ piece_type pc ≤ 6 ∧ piece_color pc ≤ 1

/-- Board/EvalList consistency at one square. -/
def WFsq (pos : Position) (sq : Nat) : Prop :=
  (pos.board sq = NO_PIECE →
    pos.evalList.piece_no_list_board sq = PIECE_NUMBER_NB) ∧
  (pos.board sq ≠ NO_PIECE →
    validPiece (pos.board sq) ∧
    pos.evalList.piece_no_list_board sq < PIECE_NUMBER_NB ∧
    (piece_type (pos.board sq) = KING →
      pos.evalList.piece_no_list_board sq
        = PIECE_NUMBER_KING + piece_color (pos.board sq)) ∧
    (piece_type (pos.board sq) ≠ KING →
      pos.evalList.piece_no_list_board sq < PIECE_NUMBER_KING) ∧
    pos.evalList.pieceListFw (pos.evalList.piece_no_list_board sq)
      = (kpp_board_index (pos.board sq)).fw + sq ∧
    pos.evalList.pieceListFb (pos.evalList.piece_no_list_board sq)
      = (kpp_board_index (pos.board sq)).fb + InvSq sq)

/-- EvalList/board consistency at one piece number: a live list entry is
backed by an occupied square, and the two perspective lists are zero
together. -/
def WFn (pos : Position) (n : Nat) : Prop :=
  (pos.evalList.pieceListFw n ≠ BONA_PIECE_ZERO →
    ∃ sq, sq < 64 ∧ pos.evalList.piece_no_list_board sq = n ∧
      pos.board sq ≠ NO_PIECE) ∧
  (pos.evalList.pieceListFw n = BONA_PIECE_ZERO →
    pos.evalList.pieceListFb n = BONA_PIECE_ZERO)

/-- The EvalList well-formedness invariant (EvalList::is_valid,
src/unnamed/part_005:966-1058, strengthened with the king/non-king
piece-number split of Position::set). -/
def WFEval (pos : Position) : Prop :=
  (∀ sq, sq < 64 → WFsq pos sq) ∧ (∀ n, n < PIECE_NUMBER_NB → WFn pos n)

/-- The castling geometry available to do_move: the four squares involved
are pairwise distinct and the two destination squares are empty (standard
chess; the chess960 overlap cases are outside this precondition). -/
def castleGeom (pos : Position) (us fromSq toSq : Nat) : Prop :=
  let kingSide := fromSq < toSq
  let rto := relative_square us (if kingSide then 5 else 3)
  let kto := relative_square us (if kingSide then 6 else 2)
  fromSq ≠ kto ∧ fromSq ≠ rto ∧ toSq ≠ kto ∧ toSq ≠ rto ∧ kto ≠ rto ∧
  pos.board kto = NO_PIECE ∧ pos.board rto = NO_PIECE

/-- Common preconditions of every move: is_ok(m) (from ≠ to), a mover of
the side to move on the source square, and a live count for it. -/
def MovePreBasic (pos : Position) (m : Nat) : Prop :=
  pos.sideToMove ≤ 1 ∧
  from_sq m ≠ to_sq m ∧
  pos.board (from_sq m) ≠ NO_PIECE ∧
  piece_color (pos.board (from_sq m)) = pos.sideToMove ∧
  1 ≤ pos.pieceCount (pos.board (from_sq m))

/-- The capture-target assert of do_move (lines 747-748): on a normal or
promotion move the target square is empty or holds an enemy non-king with
a live count. -/
def MovePreTarget (pos : Position) (m : Nat) : Prop :=
  (move_type m = NORMAL ∨ move_type m = PROMOTION) →
    (pos.board (to_sq m) = NO_PIECE ∨
      (piece_color (pos.board (to_sq m)) = flipColor pos.sideToMove ∧
       piece_type (pos.board (to_sq m)) ≠ KING ∧
       1 ≤ pos.pieceCount (pos.board (to_sq m))))

/-- Promotion geometry (position.cpp:890: the target is on the back rank,
so the double-push test at line 879 cannot fire). -/
def MovePrePromo (pos : Position) (m : Nat) : Prop :=
  move_type m = PROMOTION →
    piece_type (pos.board (from_sq m)) = PAWN ∧ (to_sq m ^^^ from_sq m) ≠ 16

/-- En-passant geometry, per the asserts at position.cpp:779-783. -/
def MovePreEp (pos : Position) (m : Nat) : Prop :=
  move_type m = ENPASSANT →
    pos.board (from_sq m) = make_piece pos.sideToMove PAWN ∧
    to_sq m = pos.st.epSquare ∧
    pos.board (to_sq m) = NO_PIECE ∧
    pos.board (behindSq pos.sideToMove (to_sq m))
      = make_piece (flipColor pos.sideToMove) PAWN ∧
    1 ≤ pos.pieceCount (make_piece (flipColor pos.sideToMove) PAWN) ∧
    from_sq m ≠ behindSq pos.sideToMove (to_sq m) ∧
    (to_sq m ^^^ from_sq m) ≠ 16 ∧
    (pos.sideToMove = WHITE → 40 ≤ to_sq m ∧ to_sq m ≤ 47) ∧
    (pos.sideToMove = BLACK → 16 ≤ to_sq m ∧ to_sq m ≤ 23)

/-- Castling: king takes own rook (asserts at position.cpp:757-758) with
the standard-chess square geometry. -/
def MovePreCastle (pos : Position) (m : Nat) : Prop :=
  move_type m = CASTLING →
    pos.board (from_sq m) = make_piece pos.sideToMove KING ∧
    pos.board (to_sq m) = make_piece pos.sideToMove ROOK ∧
    1 ≤ pos.pieceCount (make_piece pos.sideToMove ROOK) ∧
    castleGeom pos pos.sideToMove (from_sq m) (to_sq m)

/-- The preconditions of Position::do_move for a legal move: the asserts of
do_move, the EvalList invariant, and piece counts covering the pieces about
to be removed. -/
def MovePre (pos : Position) (m : Nat) : Prop :=
  MovePreBasic pos m ∧ WFEval pos ∧ MovePreTarget pos m ∧
  MovePrePromo pos m ∧ MovePreEp pos m ∧ MovePreCastle pos m

instance (pos : Position) (sq : Nat) : Decidable (WFsq pos sq) := by
  unfold WFsq validPiece; infer_instance

instance (pos : Position) (n : Nat) : Decidable (WFn pos n) := by
  unfold WFn; infer_instance

instance (pos : Position) : Decidable (WFEval pos) := by
  unfold WFEval; infer_instance

instance (pos : Position) (m : Nat) : Decidable (MovePreBasic pos m) := by
  unfold MovePreBasic; infer_instance

instance (pos : Position) (m : Nat) : Decidable (MovePreTarget pos m) := by
  unfold MovePreTarget; infer_instance

instance (pos : Position) (m : Nat) : Decidable (MovePrePromo pos m) := by
  unfold MovePrePromo; infer_instance

instance (pos : Position) (m : Nat) : Decidable (MovePreEp pos m) := by
  unfold MovePreEp; infer_instance

instance (pos : Position) (m : Nat) : Decidable (MovePreCastle pos m) := by
  unfold MovePreCastle castleGeom; dsimp only; infer_instance

instance (pos : Position) (m : Nat) : Decidable (MovePre pos m) := by
  unfold MovePre; infer_instance

/-- The color of the king a HalfKP instantiation is relative to
(Side::kFriend: the perspective's own king; Side::kEnemy: the opponent's). -/
def assocColor (side : Side) (perspective : Nat) : Nat :=
  match side with
  | Side.kFriend => perspective
  | Side.kEnemy => flipColor perspective

/-- The feature-delta property claimed by the spec for HalfKP (claim C2),
stated from the spec's words: the active-index multiset of the position
before the move, minus the indices of the `removed` list produced by
AppendChangedIndices on the position after the move, plus the `added`
indices, equals the active-index multiset of the position after the move,
the removed indices all occur among the active ones, and no list contains
a duplicate. -/
def featureDeltaCorrect (pos : Position) (m : Nat) (side : Side)
    (persp : Nat) : Prop :=
  (↑(AppendChangedIndices (do_move pos m) side persp).1 : Multiset Nat)
      ≤ ↑(AppendActiveIndices pos side persp) ∧
  (↑(AppendActiveIndices pos side persp) : Multiset Nat)
      - ↑(AppendChangedIndices (do_move pos m) side persp).1
      + ↑(AppendChangedIndices (do_move pos m) side persp).2
    = ↑(AppendActiveIndices (do_move pos m) side persp) ∧
  (AppendActiveIndices pos side persp).Nodup ∧
  (AppendActiveIndices (do_move pos m) side persp).Nodup ∧
  (AppendChangedIndices (do_move pos m) side persp).1.Nodup ∧
  (AppendChangedIndices (do_move pos m) side persp).2.Nodup

instance (pos : Position) (m : Nat) (side : Side) (persp : Nat) :
    Decidable (featureDeltaCorrect pos m side persp) := by
  unfold featureDeltaCorrect
  infer_instance

/-! ## Concrete inputs for witnesses and counterexamples -/

/-- White Ke1(#30), Pe2(#0), Rh1(#24); black Ke8(#31), Pd7(#1), Nf3(#16). -/
def plBase : List (Nat × Nat × Nat) :=
  [(4, 6, 30), (12, 1, 0), (7, 4, 24), (60, 14, 31), (51, 9, 1), (21, 10, 16)]

def posBase : Position := mkPosition plBase WHITE baseSt

/-- The quiet pawn push e2e3. -/
def mvPawnPush : Nat := (12 <<< 6) + 20

/-- The pawn capture e2xf3. -/
def mvPawnCapture : Nat := (12 <<< 6) + 21

/-- The quiet king move e1d1. -/
def mvKingMove : Nat := (4 <<< 6) + 3

/-- A dummy written record for List.getD defaults. -/
def wjunk : WrittenPSV := ⟨⟨0, 0, 0⟩, 7⟩

/-- gensfen configuration of the C3 scenario: depth mix is an oracle;
eval_limit 3000 (the command default), write_minply = 1, and the draw-result
build flag defined as in learn.h. -/
def cfgC3 : GensfenCfg :=
  { maxPly2 := 400, evalLimit := 3000, writeMinply := 1, useDrawResult := true }

/-- A two-ply game: the first position is buffered (search value 0, leaf
value 3001), then the side to move is found checkmated/stalemated, so
flush_psv(-1) writes the game. -/
def gameC3 : List PlyInfo :=
  [{ value1 := 0, leafValue := 3001, isDrawTop := false, noLegalMoves := false,
     pvBad := false, isDrawAfter := false, hashHit := false, pvEmpty := false,
     randomMove := false },
   { value1 := 0, leafValue := 0, isDrawTop := false, noLegalMoves := true,
     pvBad := false, isDrawAfter := false, hashHit := false, pvEmpty := false,
     randomMove := false }]

/-- A game that buffers two positions and then hits the repetition-draw
branch after the search (pos.is_draw(0), learner.cpp:574). -/
def gameC4 : List PlyInfo :=
  [{ value1 := 10, leafValue := 12, isDrawTop := false, noLegalMoves := false,
     pvBad := false, isDrawAfter := false, hashHit := false, pvEmpty := false,
     randomMove := false },
   { value1 := -11, leafValue := -9, isDrawTop := false, noLegalMoves := false,
     pvBad := false, isDrawAfter := false, hashHit := false, pvEmpty := false,
     randomMove := false },
   { value1 := 0, leafValue := 0, isDrawTop := false, noLegalMoves := false,
     pvBad := false, isDrawAfter := true, hashHit := false, pvEmpty := false,
     randomMove := false }]

/-- The same two buffered positions, but the game runs into the
maximum-ply cutoff (maxPly2 = 2 here), learner.cpp:492-500. -/
def gameC4maxply : List PlyInfo :=
  [{ value1 := 10, leafValue := 12, isDrawTop := false, noLegalMoves := false,
     pvBad := false, isDrawAfter := false, hashHit := false, pvEmpty := false,
     randomMove := false },
   { value1 := -11, leafValue := -9, isDrawTop := false, noLegalMoves := false,
     pvBad := false, isDrawAfter := false, hashHit := false, pvEmpty := false,
     randomMove := false },
   { value1 := 0, leafValue := 0, isDrawTop := false, noLegalMoves := false,
     pvBad := false, isDrawAfter := false, hashHit := false, pvEmpty := false,
     randomMove := false }]

def cfgC4maxply : GensfenCfg :=
  { maxPly2 := 2, evalLimit := 3000, writeMinply := 1, useDrawResult := true }

/-- Training-filter environment of the EVAL_NNUE build: the validation
set contains the key 42. -/
def envC8 : TrainEnv :=
  { evalLimit := 3000, useDrawResult := true, evalNNUE := true,
    isForRmse := fun k => k = 42, recentHash := fun _ => false }

/-- A record whose position key collides with the validation set but which
passes every other filter. -/
def recC8 : TrainRecord :=
  { score := 100, game_result := 1, gamePly := 20, key := 42,
    decodeOk := true, hasLegalMoves := true, plyThresh := 0 }

/-! # Theorems -/

/-! ## Projection-through-ite helpers -/

@[simp] theorem dm_dp_ite (c : Prop) [Decidable c] (a b : DM) :
    DM.dp (if c then a else b) = if c then a.dp else b.dp :=
  apply_ite DM.dp c a b

@[simp] theorem dp_dn_ite (c : Prop) [Decidable c] (a b : DirtyPiece) :
    DirtyPiece.dirty_num (if c then a else b)
      = if c then a.dirty_num else b.dirty_num :=
  apply_ite DirtyPiece.dirty_num c a b

@[simp] theorem dm_pos_ite (c : Prop) [Decidable c] (a b : DM) :
    DM.pos (if c then a else b) = if c then a.pos else b.pos :=
  apply_ite DM.pos c a b

@[simp] theorem dm_k_ite (c : Prop) [Decidable c] (a b : DM) :
    DM.k (if c then a else b) = if c then a.k else b.k :=
  apply_ite DM.k c a b

@[simp] theorem dm_pawnKey_ite (c : Prop) [Decidable c] (a b : DM) :
    DM.pawnKey (if c then a else b) = if c then a.pawnKey else b.pawnKey :=
  apply_ite DM.pawnKey c a b

@[simp] theorem dm_materialKey_ite (c : Prop) [Decidable c] (a b : DM) :
    DM.materialKey (if c then a else b)
      = if c then a.materialKey else b.materialKey :=
  apply_ite DM.materialKey c a b

@[simp] theorem dm_npm_ite (c : Prop) [Decidable c] (a b : DM) :
    DM.npm (if c then a else b) = if c then a.npm else b.npm :=
  apply_ite DM.npm c a b

@[simp] theorem dm_rule50_ite (c : Prop) [Decidable c] (a b : DM) :
    DM.rule50 (if c then a else b) = if c then a.rule50 else b.rule50 :=
  apply_ite DM.rule50 c a b

@[simp] theorem dm_epSq_ite (c : Prop) [Decidable c] (a b : DM) :
    DM.epSq (if c then a else b) = if c then a.epSq else b.epSq :=
  apply_ite DM.epSq c a b

@[simp] theorem dm_cr_ite (c : Prop) [Decidable c] (a b : DM) :
    DM.cr (if c then a else b) = if c then a.cr else b.cr :=
  apply_ite DM.cr c a b

@[simp] theorem dm_toSq_ite (c : Prop) [Decidable c] (a b : DM) :
    DM.toSq (if c then a else b) = if c then a.toSq else b.toSq :=
  apply_ite DM.toSq c a b

@[simp] theorem dm_captured_ite (c : Prop) [Decidable c] (a b : DM) :
    DM.captured (if c then a else b) = if c then a.captured else b.captured :=
  apply_ite DM.captured c a b

@[simp] theorem position_board_ite (c : Prop) [Decidable c] (a b : Position) :
    Position.board (if c then a else b) = if c then a.board else b.board :=
  apply_ite Position.board c a b

@[simp] theorem position_pieceCount_ite (c : Prop) [Decidable c]
    (a b : Position) :
    Position.pieceCount (if c then a else b)
      = if c then a.pieceCount else b.pieceCount :=
  apply_ite Position.pieceCount c a b

@[simp] theorem position_sideToMove_ite (c : Prop) [Decidable c]
    (a b : Position) :
    Position.sideToMove (if c then a else b)
      = if c then a.sideToMove else b.sideToMove :=
  apply_ite Position.sideToMove c a b

@[simp] theorem position_gamePly_ite (c : Prop) [Decidable c]
    (a b : Position) :
    Position.gamePly (if c then a else b)
      = if c then a.gamePly else b.gamePly :=
  apply_ite Position.gamePly c a b

@[simp] theorem position_crm_ite (c : Prop) [Decidable c] (a b : Position) :
    Position.castlingRightsMask (if c then a else b)
      = if c then a.castlingRightsMask else b.castlingRightsMask :=
  apply_ite Position.castlingRightsMask c a b

@[simp] theorem position_evalList_ite (c : Prop) [Decidable c]
    (a b : Position) :
    Position.evalList (if c then a else b)
      = if c then a.evalList else b.evalList :=
  apply_ite Position.evalList c a b

@[simp] theorem position_st_ite (c : Prop) [Decidable c] (a b : Position) :
    Position.st (if c then a else b) = if c then a.st else b.st :=
  apply_ite Position.st c a b

@[simp] theorem position_prevStates_ite (c : Prop) [Decidable c]
    (a b : Position) :
    Position.prevStates (if c then a else b)
      = if c then a.prevStates else b.prevStates :=
  apply_ite Position.prevStates c a b

@[simp] theorem evalList_fw_ite (c : Prop) [Decidable c] (a b : EvalList) :
    EvalList.pieceListFw (if c then a else b)
      = if c then a.pieceListFw else b.pieceListFw :=
  apply_ite EvalList.pieceListFw c a b

@[simp] theorem evalList_fb_ite (c : Prop) [Decidable c] (a b : EvalList) :
    EvalList.pieceListFb (if c then a else b)
      = if c then a.pieceListFb else b.pieceListFb :=
  apply_ite EvalList.pieceListFb c a b

@[simp] theorem evalList_map_ite (c : Prop) [Decidable c] (a b : EvalList) :
    EvalList.piece_no_list_board (if c then a else b)
      = if c then a.piece_no_list_board else b.piece_no_list_board :=
  apply_ite EvalList.piece_no_list_board c a b

@[simp] theorem dp_cp0_ite (c : Prop) [Decidable c] (a b : DirtyPiece) :
    DirtyPiece.cp0 (if c then a else b) = if c then a.cp0 else b.cp0 :=
  apply_ite DirtyPiece.cp0 c a b

@[simp] theorem dp_cp1_ite (c : Prop) [Decidable c] (a b : DirtyPiece) :
    DirtyPiece.cp1 (if c then a else b) = if c then a.cp1 else b.cp1 :=
  apply_ite DirtyPiece.cp1 c a b

@[simp] theorem dp_no0_ite (c : Prop) [Decidable c] (a b : DirtyPiece) :
    DirtyPiece.no0 (if c then a else b) = if c then a.no0 else b.no0 :=
  apply_ite DirtyPiece.no0 c a b

@[simp] theorem dp_no1_ite (c : Prop) [Decidable c] (a b : DirtyPiece) :
    DirtyPiece.no1 (if c then a else b) = if c then a.no1 else b.no1 :=
  apply_ite DirtyPiece.no1 c a b

/-! ## Move-type discrimination -/

theorem from_sq_lt (m : Nat) : from_sq m < 64 :=
  Nat.mod_lt _ (by norm_num)

theorem to_sq_lt (m : Nat) : to_sq m < 64 :=
  Nat.mod_lt _ (by norm_num)

/-- A move's type is one of the four MoveType values. -/
theorem move_type_cases (m : Nat) :
    move_type m = NORMAL ∨ move_type m = PROMOTION ∨
    move_type m = ENPASSANT ∨ move_type m = CASTLING := by
  have h : (3 <<< 14 : Nat) = 2 ^ 14 ||| 2 ^ 15 := by decide
  unfold move_type
  rw [h, Nat.and_or_distrib_left, Nat.and_two_pow, Nat.and_two_pow]
  cases h14 : m.testBit 14 <;> cases h15 : m.testBit 15 <;>
    simp [h14, h15] <;> decide

@[simp] theorem normal_eq_promotion_iff : (NORMAL = PROMOTION) ↔ False := by
  decide

@[simp] theorem normal_eq_enpassant_iff : (NORMAL = ENPASSANT) ↔ False := by
  decide

@[simp] theorem normal_eq_castling_iff : (NORMAL = CASTLING) ↔ False := by
  decide

@[simp] theorem promotion_eq_normal_iff : (PROMOTION = NORMAL) ↔ False := by
  decide

@[simp] theorem promotion_eq_enpassant_iff : (PROMOTION = ENPASSANT) ↔ False := by
  decide

@[simp] theorem promotion_eq_castling_iff : (PROMOTION = CASTLING) ↔ False := by
  decide

@[simp] theorem enpassant_eq_normal_iff : (ENPASSANT = NORMAL) ↔ False := by
  decide

@[simp] theorem enpassant_eq_promotion_iff : (ENPASSANT = PROMOTION) ↔ False := by
  decide

@[simp] theorem enpassant_eq_castling_iff : (ENPASSANT = CASTLING) ↔ False := by
  decide

@[simp] theorem castling_eq_normal_iff : (CASTLING = NORMAL) ↔ False := by
  decide

@[simp] theorem castling_eq_promotion_iff : (CASTLING = PROMOTION) ↔ False := by
  decide

@[simp] theorem castling_eq_enpassant_iff : (CASTLING = ENPASSANT) ↔ False := by
  decide

/-! ## Piece-coding, square-geometry and feature-index helper lemmas -/

theorem flipColor_flipColor (c : Nat) : flipColor (flipColor c) = c := by
  simp [flipColor, Nat.xor_assoc]

theorem flipColor_ne (c : Nat) : flipColor c ≠ c := by
  unfold flipColor
  intro h
  have h0 := congrArg (fun x => x.testBit 0) h
  simp [Nat.testBit_xor] at h0
  omega

theorem validPiece_cases (pc : Nat) (h : validPiece pc) :
    pc = 1 ∨ pc = 2 ∨ pc = 3 ∨ pc = 4 ∨ pc = 5 ∨ pc = 6 ∨
    pc = 9 ∨ pc = 10 ∨ pc = 11 ∨ pc = 12 ∨ pc = 13 ∨ pc = 14 := by
  obtain ⟨h1, h2, h3⟩ := h
  unfold piece_type at h1 h2
  unfold piece_color at h3
  omega

set_option maxHeartbeats 4000000 in
theorem kpp_fw_inj (p1 p2 s1 s2 : Nat) (h1 : validPiece p1)
    (h2 : validPiece p2) (hs1 : s1 < 64) (hs2 : s2 < 64)
    (he : (kpp_board_index p1).fw + s1 = (kpp_board_index p2).fw + s2) :
    p1 = p2 ∧ s1 = s2 := by
  rcases validPiece_cases p1 h1 with rfl|rfl|rfl|rfl|rfl|rfl|rfl|rfl|rfl|rfl|rfl|rfl <;>
    rcases validPiece_cases p2 h2 with rfl|rfl|rfl|rfl|rfl|rfl|rfl|rfl|rfl|rfl|rfl|rfl <;>
    simp only [kpp_board_index, f_pawn, e_pawn, f_knight, e_knight, f_bishop,
      e_bishop, f_rook, e_rook, f_queen, e_queen, f_king, e_king] at he ⊢ <;>
    first
      | exact ⟨trivial, by omega⟩
      | omega

theorem piece_type_make_piece (c pt : Nat) (h : pt < 8) :
    piece_type (make_piece c pt) = pt := by
  unfold piece_type make_piece
  rw [Nat.shiftLeft_eq]
  omega

theorem piece_color_make_piece (c pt : Nat) (h : pt < 8) :
    piece_color (make_piece c pt) = c := by
  unfold piece_color make_piece
  rw [Nat.shiftLeft_eq]
  omega

theorem make_piece_ne_zero (c pt : Nat) (h : 1 ≤ pt) :
    make_piece c pt ≠ NO_PIECE := by
  unfold make_piece NO_PIECE
  rw [Nat.shiftLeft_eq]
  omega

theorem make_piece_ne_of_pt_ne (c pt1 pt2 : Nat) (h1 : pt1 < 8) (h2 : pt2 < 8)
    (h : pt1 ≠ pt2) : make_piece c pt1 ≠ make_piece c pt2 := by
  unfold make_piece
  rw [Nat.shiftLeft_eq]
  omega

theorem piece_decomp (pc : Nat) (h : validPiece pc) :
    pc = make_piece (piece_color pc) (piece_type pc) := by
  unfold make_piece piece_color piece_type
  rw [Nat.shiftLeft_eq]
  omega

theorem promotion_type_bounds (m : Nat) :
    2 ≤ promotion_type m ∧ promotion_type m ≤ 5 := by
  unfold promotion_type KNIGHT
  have h := Nat.and_le_right (n := m >>> 12) (m := 3)
  omega

theorem relative_square_lt (c s : Nat) (hc : c ≤ 1) (hs : s < 64) :
    relative_square c s < 64 := by
  unfold relative_square
  have h1 : c * 56 < 64 := by omega
  exact Nat.xor_lt_two_pow (n := 6) hs h1

/-! ## C1 case lemmas: undo_move inverts do_move, one lemma per move shape -/

set_option maxHeartbeats 4000000 in
theorem C1_case_normal_noncap (pos : Position) (m : Nat)
    (h : MovePre pos m) (hmt : move_type m = NORMAL)
    (hcap : pos.board (to_sq m) = NO_PIECE) :
    undo_move (do_move pos m) m = pos := by
  obtain ⟨⟨hus, hft, hpc, hcol, hcount⟩, hwf, htarget, hpromo, hep, hcastle⟩ := h
  have hflt := from_sq_lt m
  have htlt := to_sq_lt m
  obtain ⟨hwsq, hwn⟩ := hwf
  obtain ⟨hvalid_f, hn0lt, hking_f, hnking_f, hfw_f, hfb_f⟩ :=
    (hwsq (from_sq m) hflt).2 hpc
  have hmap_t : pos.evalList.piece_no_list_board (to_sq m) = PIECE_NUMBER_NB :=
    (hwsq (to_sq m) htlt).1 hcap
  have hboard : (do_move pos m).board
      = Function.update (Function.update pos.board (from_sq m) NO_PIECE)
          (to_sq m) (pos.board (from_sq m)) := by
    simp [do_move, hmt, hcap, Position.movePiece, Position.removePiece,
      Position.putPiece, do_castling_do]
  have hcount' : (do_move pos m).pieceCount = pos.pieceCount := by
    simp [do_move, hmt, hcap, Position.movePiece, Position.removePiece,
      Position.putPiece, do_castling_do]
  have hstm : (do_move pos m).sideToMove = flipColor pos.sideToMove := by
    simp [do_move]
  have hply : (do_move pos m).gamePly = pos.gamePly + 1 := by
    simp [do_move]
  have hcrm : (do_move pos m).castlingRightsMask = pos.castlingRightsMask := by
    simp [do_move, hmt, hcap, Position.movePiece, Position.removePiece,
      Position.putPiece, do_castling_do]
  have hprev : (do_move pos m).prevStates = pos.st :: pos.prevStates := by
    simp [do_move, hmt, hcap, Position.movePiece, Position.removePiece,
      Position.putPiece, do_castling_do]
  have hel : (do_move pos m).evalList
      = ((pos.evalList.setBoardNB (from_sq m)).put_piece
          (pos.evalList.piece_no_list_board (from_sq m)) (to_sq m)
          (pos.board (from_sq m))) := by
    simp [do_move, hmt, hcap, Position.movePiece, Position.removePiece,
      Position.putPiece, do_castling_do, EvalList.piece_no_of_board]
  have hdn0 : (do_move pos m).st.dirtyPiece.no0
      = pos.evalList.piece_no_list_board (from_sq m) := by
    simp [do_move, hmt, hcap, do_castling_do, EvalList.piece_no_of_board,
      Position.movePiece, Position.removePiece, Position.putPiece]
  have hcappc : (do_move pos m).st.capturedPiece = NO_PIECE := by
    simp [do_move, hmt, hcap, do_castling_do, Position.movePiece,
      Position.removePiece, Position.putPiece]
  have hb_t : (do_move pos m).board (to_sq m) = pos.board (from_sq m) := by
    rw [hboard, Function.update_same]
  rw [undo_move]
  simp only [hmt, normal_eq_promotion_iff, normal_eq_castling_iff, iff_false,
    if_false, hcappc, ne_eq, not_true_eq_false, not_false_eq_true,
    Position.movePiece, hstm, hply, hcrm, hcount', hprev, hdn0, hb_t,
    flipColor_flipColor, List.headI, List.tail_cons]
  refine Position.ext ?_ ?_ ?_ ?_ ?_ ?_ ?_ ?_
  · show Function.update (Function.update (do_move pos m).board (to_sq m)
        NO_PIECE) (from_sq m) (pos.board (from_sq m)) = pos.board
    rw [hboard]
    funext sq
    rcases eq_or_ne sq (from_sq m) with rfl | hsf
    · simp [Function.update_apply]
    · rcases eq_or_ne sq (to_sq m) with rfl | hst
      · simp [Function.update_apply, hsf, hcap]
      · simp [Function.update_apply, hsf, hst]
  · rfl
  · rfl
  · show pos.gamePly + 1 - 1 = pos.gamePly
    omega
  · rfl
  · show ((do_move pos m).evalList.put_piece
        (pos.evalList.piece_no_list_board (from_sq m)) (from_sq m)
        (pos.board (from_sq m))).setBoardNB (to_sq m) = pos.evalList
    rw [hel]
    refine EvalList.ext ?_ ?_ ?_
    · funext n
      simp only [EvalList.put_piece, EvalList.set_piece_on_board,
        EvalList.setBoardNB]
      rcases eq_or_ne n (pos.evalList.piece_no_list_board (from_sq m)) with
        rfl | hn
      · simp [Function.update_apply, hfw_f]
      · simp [Function.update_apply, hn]
    · funext n
      simp only [EvalList.put_piece, EvalList.set_piece_on_board,
        EvalList.setBoardNB]
      rcases eq_or_ne n (pos.evalList.piece_no_list_board (from_sq m)) with
        rfl | hn
      · simp [Function.update_apply, hfb_f]
      · simp [Function.update_apply, hn]
    · funext sq
      simp only [EvalList.put_piece, EvalList.set_piece_on_board,
        EvalList.setBoardNB]
      rcases eq_or_ne sq (from_sq m) with rfl | hsf
      · simp [Function.update_apply, hft]
      · rcases eq_or_ne sq (to_sq m) with rfl | hst
        · simp [Function.update_apply, hsf, hmap_t]
        · simp [Function.update_apply, hsf, hst]
  · rfl
  · rfl

set_option maxHeartbeats 8000000 in
theorem C1_case_normal_cap (pos : Position) (m : Nat)
    (h : MovePre pos m) (hmt : move_type m = NORMAL)
    (hcap : pos.board (to_sq m) ≠ NO_PIECE) :
    undo_move (do_move pos m) m = pos := by
  obtain ⟨⟨hus, hft, hpc, hcol, hcount⟩, hwf, htarget, hpromo, hep, hcastle⟩ := h
  have hflt := from_sq_lt m
  have htlt := to_sq_lt m
  obtain ⟨hwsq, hwn⟩ := hwf
  obtain ⟨hvalid_f, hn0lt, hking_f, hnking_f, hfw_f, hfb_f⟩ :=
    (hwsq (from_sq m) hflt).2 hpc
  obtain ⟨hvalid_t, hn1lt, hking_t, hnking_t, hfw_t, hfb_t⟩ :=
    (hwsq (to_sq m) htlt).2 hcap
  have henemy := htarget (Or.inl hmt)
  rcases henemy with habs | ⟨hcolc, hkc, hcntc⟩
  · exact absurd habs hcap
  have hne01 : pos.evalList.piece_no_list_board (from_sq m)
      ≠ pos.evalList.piece_no_list_board (to_sq m) := by
    intro heq
    have : pos.evalList.pieceListFw (pos.evalList.piece_no_list_board (from_sq m))
        = pos.evalList.pieceListFw (pos.evalList.piece_no_list_board (to_sq m)) := by
      rw [heq]
    rw [hfw_f, hfw_t] at this
    obtain ⟨hp, hs⟩ := kpp_fw_inj _ _ _ _ hvalid_f hvalid_t hflt htlt this
    exact hft hs
  have hboard : (do_move pos m).board
      = Function.update (Function.update pos.board (from_sq m) NO_PIECE)
          (to_sq m) (pos.board (from_sq m)) := by
    simp [do_move, hmt, hcap, Position.movePiece, Position.removePiece,
      Position.putPiece, do_castling_do]
  have hcount' : (do_move pos m).pieceCount
      = Function.update pos.pieceCount (pos.board (to_sq m))
          (pos.pieceCount (pos.board (to_sq m)) - 1) := by
    simp [do_move, hmt, hcap, Position.movePiece, Position.removePiece,
      Position.putPiece, do_castling_do]
  have hstm : (do_move pos m).sideToMove = flipColor pos.sideToMove := by
    simp [do_move]
  have hply : (do_move pos m).gamePly = pos.gamePly + 1 := by
    simp [do_move]
  have hcrm : (do_move pos m).castlingRightsMask = pos.castlingRightsMask := by
    simp [do_move, hmt, hcap, Position.movePiece, Position.removePiece,
      Position.putPiece, do_castling_do]
  have hprev : (do_move pos m).prevStates = pos.st :: pos.prevStates := by
    simp [do_move, hmt, hcap, Position.movePiece, Position.removePiece,
      Position.putPiece, do_castling_do]
  have hel : (do_move pos m).evalList =
      { pieceListFw :=
          Function.update
            (Function.update pos.evalList.pieceListFw
              (pos.evalList.piece_no_list_board (to_sq m)) BONA_PIECE_ZERO)
            (pos.evalList.piece_no_list_board (from_sq m))
            ((kpp_board_index (pos.board (from_sq m))).fw + to_sq m)
        pieceListFb :=
          Function.update
            (Function.update pos.evalList.pieceListFb
              (pos.evalList.piece_no_list_board (to_sq m)) BONA_PIECE_ZERO)
            (pos.evalList.piece_no_list_board (from_sq m))
            ((kpp_board_index (pos.board (from_sq m))).fb + InvSq (to_sq m))
        piece_no_list_board :=
          Function.update
            (Function.update
              (Function.update pos.evalList.piece_no_list_board (to_sq m)
                PIECE_NUMBER_NB)
              (from_sq m) PIECE_NUMBER_NB)
            (to_sq m) (pos.evalList.piece_no_list_board (from_sq m)) } := by
    simp [do_move, hmt, hcap, Position.movePiece, Position.removePiece,
      Position.putPiece, do_castling_do, EvalList.piece_no_of_board,
      EvalList.put_piece, EvalList.set_piece_on_board, EvalList.setBoardNB,
      hft]
  have hdn0 : (do_move pos m).st.dirtyPiece.no0
      = pos.evalList.piece_no_list_board (from_sq m) := by
    simp [do_move, hmt, hcap, do_castling_do, EvalList.piece_no_of_board,
      EvalList.setBoardNB, EvalList.set_piece_on_board, EvalList.put_piece,
      Position.movePiece, Position.removePiece, Position.putPiece, hft]
  have hdn1 : (do_move pos m).st.dirtyPiece.no1
      = pos.evalList.piece_no_list_board (to_sq m) := by
    simp [do_move, hmt, hcap, do_castling_do, EvalList.piece_no_of_board,
      EvalList.setBoardNB, EvalList.set_piece_on_board, EvalList.put_piece,
      Position.movePiece, Position.removePiece, Position.putPiece, hft]
  have hcappc : (do_move pos m).st.capturedPiece = pos.board (to_sq m) := by
    simp [do_move, hmt, hcap, do_castling_do, Position.movePiece,
      Position.removePiece, Position.putPiece]
  have hb_t : (do_move pos m).board (to_sq m) = pos.board (from_sq m) := by
    rw [hboard, Function.update_same]
  rw [undo_move]
  simp only [hmt, normal_eq_promotion_iff, normal_eq_castling_iff,
    normal_eq_enpassant_iff, iff_false, if_false, hcappc, ne_eq, hcap,
    not_false_eq_true, if_true, hstm, hply, hcrm, hprev, hdn0, hdn1, hb_t,
    flipColor_flipColor, List.headI, List.tail_cons, Position.movePiece,
    Position.putPiece]
  refine Position.ext ?_ ?_ ?_ ?_ ?_ ?_ ?_ ?_
  · show Function.update (Function.update (Function.update (do_move pos m).board
        (to_sq m) NO_PIECE) (from_sq m) (pos.board (from_sq m))) (to_sq m)
        (pos.board (to_sq m)) = pos.board
    rw [hboard]
    funext sq
    rcases eq_or_ne sq (to_sq m) with rfl | hst
    · simp [Function.update_apply]
    · rcases eq_or_ne sq (from_sq m) with rfl | hsf
      · simp [Function.update_apply, hst]
      · simp [Function.update_apply, hst, hsf]
  · show Function.update (do_move pos m).pieceCount (pos.board (to_sq m))
        ((do_move pos m).pieceCount (pos.board (to_sq m)) + 1) = pos.pieceCount
    rw [hcount']
    funext p
    rcases eq_or_ne p (pos.board (to_sq m)) with rfl | hp
    · simp only [Function.update_apply, if_pos rfl, if_true]
      omega
    · simp [Function.update_apply, hp]
  · rfl
  · show pos.gamePly + 1 - 1 = pos.gamePly
    omega
  · rfl
  · rw [hel]
    refine EvalList.ext ?_ ?_ ?_
    · funext n
      simp only [EvalList.put_piece, EvalList.set_piece_on_board,
        EvalList.setBoardNB]
      rcases eq_or_ne n (pos.evalList.piece_no_list_board (to_sq m)) with
        rfl | hn1
      · simp [Function.update_apply, hfw_t]
      · rcases eq_or_ne n (pos.evalList.piece_no_list_board (from_sq m)) with
          rfl | hn0
        · simp [Function.update_apply, hn1, hfw_f]
        · simp [Function.update_apply, hn1, hn0]
    · funext n
      simp only [EvalList.put_piece, EvalList.set_piece_on_board,
        EvalList.setBoardNB]
      rcases eq_or_ne n (pos.evalList.piece_no_list_board (to_sq m)) with
        rfl | hn1
      · simp [Function.update_apply, hfb_t]
      · rcases eq_or_ne n (pos.evalList.piece_no_list_board (from_sq m)) with
          rfl | hn0
        · simp [Function.update_apply, hn1, hfb_f]
        · simp [Function.update_apply, hn1, hn0]
    · funext sq
      simp only [EvalList.put_piece, EvalList.set_piece_on_board,
        EvalList.setBoardNB]
      rcases eq_or_ne sq (to_sq m) with rfl | hst
      · simp [Function.update_apply]
      · rcases eq_or_ne sq (from_sq m) with rfl | hsf
        · simp [Function.update_apply, hst]
        · simp [Function.update_apply, hst, hsf]
  · rfl
  · rfl

set_option maxHeartbeats 8000000 in
theorem C1_case_enpassant (pos : Position) (m : Nat)
    (h : MovePre pos m) (hmt : move_type m = ENPASSANT) :
    undo_move (do_move pos m) m = pos := by
  obtain ⟨⟨hus, hft, hpc, hcol, hcount⟩, hwf, htarget, hpromo, hep, hcastle⟩ := h
  obtain ⟨hpcp, hteps, hempty_t, hcapb, hcnt, hfcap, hxor, hrankW, hrankB⟩ := hep hmt
  have hflt := from_sq_lt m
  have htlt := to_sq_lt m
  obtain ⟨hwsq, hwn⟩ := hwf
  have hcsf : behindSq pos.sideToMove (to_sq m) < 64 ∧
      behindSq pos.sideToMove (to_sq m) ≠ to_sq m := by
    rcases Nat.le_one_iff_eq_zero_or_eq_one.1 hus with h0 | h1
    · have hr := hrankW h0
      unfold behindSq WHITE
      rw [h0]
      rw [if_pos rfl]
      omega
    · have hr := hrankB h1
      unfold behindSq WHITE
      rw [h1]
      rw [if_neg (by omega)]
      omega
  have hcslt := hcsf.1
  have hcsnt := hcsf.2
  have htns : to_sq m ≠ behindSq pos.sideToMove (to_sq m) := Ne.symm hcsnt
  have hcapnz : make_piece (flipColor pos.sideToMove) PAWN ≠ NO_PIECE :=
    make_piece_ne_zero _ _ (by decide)
  have hcapocc : pos.board (behindSq pos.sideToMove (to_sq m)) ≠ NO_PIECE := by
    rw [hcapb]; exact hcapnz
  have hptpc : piece_type (pos.board (from_sq m)) = PAWN := by
    rw [hpcp]; exact piece_type_make_piece _ _ (by decide)
  obtain ⟨hvalid_f, hn0lt, hking_f, hnking_f, hfw_f, hfb_f⟩ :=
    (hwsq (from_sq m) hflt).2 hpc
  obtain ⟨hvalid_cs, hn1lt, hking_cs, hnking_cs, hfw_cs, hfb_cs⟩ :=
    (hwsq (behindSq pos.sideToMove (to_sq m)) hcslt).2 hcapocc
  have hmap_t : pos.evalList.piece_no_list_board (to_sq m) = PIECE_NUMBER_NB :=
    (hwsq (to_sq m) htlt).1 hempty_t
  have hne01 : pos.evalList.piece_no_list_board (from_sq m)
      ≠ pos.evalList.piece_no_list_board (behindSq pos.sideToMove (to_sq m)) := by
    intro heq
    have hfweq : pos.evalList.pieceListFw
          (pos.evalList.piece_no_list_board (from_sq m))
        = pos.evalList.pieceListFw
          (pos.evalList.piece_no_list_board
            (behindSq pos.sideToMove (to_sq m))) := by
      rw [heq]
    rw [hfw_f, hfw_cs] at hfweq
    obtain ⟨hp, hs⟩ := kpp_fw_inj _ _ _ _ hvalid_f hvalid_cs hflt hcslt hfweq
    exact hfcap hs
  have hboard : (do_move pos m).board
      = Function.update (Function.update
          (Function.update pos.board (behindSq pos.sideToMove (to_sq m))
            NO_PIECE)
          (from_sq m) NO_PIECE) (to_sq m) (pos.board (from_sq m)) := by
    simp [do_move, hmt, hcapnz, hptpc, hxor, hfcap, Function.update_apply,
      Position.movePiece, Position.removePiece, Position.putPiece,
      do_castling_do]
  have hcount' : (do_move pos m).pieceCount
      = Function.update pos.pieceCount
          (make_piece (flipColor pos.sideToMove) PAWN)
          (pos.pieceCount (make_piece (flipColor pos.sideToMove) PAWN) - 1) := by
    simp [do_move, hmt, hcapnz, hptpc, hxor, hcapb, Function.update_apply,
      Position.movePiece, Position.removePiece, Position.putPiece,
      do_castling_do]
  have hstm : (do_move pos m).sideToMove = flipColor pos.sideToMove := by
    simp [do_move]
  have hply : (do_move pos m).gamePly = pos.gamePly + 1 := by
    simp [do_move]
  have hcrm : (do_move pos m).castlingRightsMask = pos.castlingRightsMask := by
    simp [do_move, hmt, hcapnz, hptpc, hxor, Position.movePiece,
      Position.removePiece, Position.putPiece, do_castling_do]
  have hprev : (do_move pos m).prevStates = pos.st :: pos.prevStates := by
    simp [do_move, hmt, hcapnz, hptpc, hxor, Position.movePiece,
      Position.removePiece, Position.putPiece, do_castling_do]
  have hel : (do_move pos m).evalList =
      { pieceListFw :=
          Function.update
            (Function.update pos.evalList.pieceListFw
              (pos.evalList.piece_no_list_board
                (behindSq pos.sideToMove (to_sq m))) BONA_PIECE_ZERO)
            (pos.evalList.piece_no_list_board (from_sq m))
            ((kpp_board_index (pos.board (from_sq m))).fw + to_sq m)
        pieceListFb :=
          Function.update
            (Function.update pos.evalList.pieceListFb
              (pos.evalList.piece_no_list_board
                (behindSq pos.sideToMove (to_sq m))) BONA_PIECE_ZERO)
            (pos.evalList.piece_no_list_board (from_sq m))
            ((kpp_board_index (pos.board (from_sq m))).fb + InvSq (to_sq m))
        piece_no_list_board :=
          Function.update
            (Function.update
              (Function.update pos.evalList.piece_no_list_board
                (behindSq pos.sideToMove (to_sq m)) PIECE_NUMBER_NB)
              (from_sq m) PIECE_NUMBER_NB)
            (to_sq m) (pos.evalList.piece_no_list_board (from_sq m)) } := by
    simp [do_move, hmt, hcapnz, hptpc, hxor, hfcap, Function.update_apply,
      Position.movePiece, Position.removePiece, Position.putPiece,
      do_castling_do, EvalList.piece_no_of_board, EvalList.put_piece,
      EvalList.set_piece_on_board, EvalList.setBoardNB, hft]
  have hdn0 : (do_move pos m).st.dirtyPiece.no0
      = pos.evalList.piece_no_list_board (from_sq m) := by
    simp [do_move, hmt, hcapnz, hptpc, hxor, hfcap, Function.update_apply,
      do_castling_do, EvalList.piece_no_of_board, EvalList.setBoardNB,
      EvalList.set_piece_on_board, EvalList.put_piece, Position.movePiece,
      Position.removePiece, Position.putPiece, hft]
  have hdn1 : (do_move pos m).st.dirtyPiece.no1
      = pos.evalList.piece_no_list_board (behindSq pos.sideToMove (to_sq m)) := by
    simp [do_move, hmt, hcapnz, hptpc, hxor, hfcap, Function.update_apply,
      do_castling_do, EvalList.piece_no_of_board, EvalList.setBoardNB,
      EvalList.set_piece_on_board, EvalList.put_piece, Position.movePiece,
      Position.removePiece, Position.putPiece, hft]
  have hcappc : (do_move pos m).st.capturedPiece
      = make_piece (flipColor pos.sideToMove) PAWN := by
    simp [do_move, hmt, hcapnz, hptpc, hxor, do_castling_do,
      Position.movePiece, Position.removePiece, Position.putPiece]
  have hb_t : (do_move pos m).board (to_sq m) = pos.board (from_sq m) := by
    rw [hboard, Function.update_same]
  rw [undo_move]
  simp only [hmt, enpassant_eq_promotion_iff, enpassant_eq_castling_iff,
    iff_false, if_false, hcappc, ne_eq, hcapnz, not_false_eq_true, if_true,
    hstm, hply, hcrm, hprev, hdn0, hdn1, hb_t, flipColor_flipColor,
    List.headI, List.tail_cons, Position.movePiece, Position.putPiece,
    eq_self_iff_true]
  refine Position.ext ?_ ?_ ?_ ?_ ?_ ?_ ?_ ?_
  · show Function.update (Function.update (Function.update (do_move pos m).board
        (to_sq m) NO_PIECE) (from_sq m) (pos.board (from_sq m)))
        (behindSq pos.sideToMove (to_sq m))
        (make_piece (flipColor pos.sideToMove) PAWN) = pos.board
    rw [hboard]
    funext sq
    rcases eq_or_ne sq (behindSq pos.sideToMove (to_sq m)) with rfl | hscs
    · simp [Function.update_apply, hcapb]
    · rcases eq_or_ne sq (from_sq m) with rfl | hsf
      · simp [Function.update_apply, hscs]
      · rcases eq_or_ne sq (to_sq m) with rfl | hst
        · simp [Function.update_apply, hscs, hsf, hempty_t]
        · simp [Function.update_apply, hscs, hsf, hst]
  · show Function.update (do_move pos m).pieceCount
        (make_piece (flipColor pos.sideToMove) PAWN)
        ((do_move pos m).pieceCount (make_piece (flipColor pos.sideToMove) PAWN)
          + 1) = pos.pieceCount
    rw [hcount']
    funext p
    rcases eq_or_ne p (make_piece (flipColor pos.sideToMove) PAWN) with rfl | hp
    · simp only [Function.update_apply, if_pos rfl, if_true]
      omega
    · simp [Function.update_apply, hp]
  · rfl
  · show pos.gamePly + 1 - 1 = pos.gamePly
    omega
  · rfl
  · rw [hel]
    refine EvalList.ext ?_ ?_ ?_
    · funext n
      simp only [EvalList.put_piece, EvalList.set_piece_on_board,
        EvalList.setBoardNB]
      rcases eq_or_ne n (pos.evalList.piece_no_list_board
          (behindSq pos.sideToMove (to_sq m))) with rfl | hn1
      · simp [Function.update_apply, hfw_cs, hcapb]
      · rcases eq_or_ne n (pos.evalList.piece_no_list_board (from_sq m)) with
          rfl | hn0
        · simp [Function.update_apply, hn1, hfw_f]
        · simp [Function.update_apply, hn1, hn0]
    · funext n
      simp only [EvalList.put_piece, EvalList.set_piece_on_board,
        EvalList.setBoardNB]
      rcases eq_or_ne n (pos.evalList.piece_no_list_board
          (behindSq pos.sideToMove (to_sq m))) with rfl | hn1
      · simp [Function.update_apply, hfb_cs, hcapb]
      · rcases eq_or_ne n (pos.evalList.piece_no_list_board (from_sq m)) with
          rfl | hn0
        · simp [Function.update_apply, hn1, hfb_f]
        · simp [Function.update_apply, hn1, hn0]
    · funext sq
      simp only [EvalList.put_piece, EvalList.set_piece_on_board,
        EvalList.setBoardNB]
      rcases eq_or_ne sq (behindSq pos.sideToMove (to_sq m)) with rfl | hscs
      · simp [Function.update_apply]
      · rcases eq_or_ne sq (to_sq m) with rfl | hst
        · simp [Function.update_apply, hscs, hmap_t]
        · rcases eq_or_ne sq (from_sq m) with rfl | hsf
          · simp [Function.update_apply, hscs, hst]
          · simp [Function.update_apply, hscs, hst, hsf]
  · rfl
  · rfl

set_option maxHeartbeats 8000000 in
theorem C1_case_promo_noncap (pos : Position) (m : Nat)
    (h : MovePre pos m) (hmt : move_type m = PROMOTION)
    (hcap : pos.board (to_sq m) = NO_PIECE) :
    undo_move (do_move pos m) m = pos := by
  obtain ⟨⟨hus, hft, hpc, hcol, hcount⟩, hwf, htarget, hpromo, hep, hcastle⟩ := h
  obtain ⟨hptpc, hxor⟩ := hpromo hmt
  have hflt := from_sq_lt m
  have htlt := to_sq_lt m
  obtain ⟨hwsq, hwn⟩ := hwf
  obtain ⟨hvalid_f, hn0lt, hking_f, hnking_f, hfw_f, hfb_f⟩ :=
    (hwsq (from_sq m) hflt).2 hpc
  have hmap_t : pos.evalList.piece_no_list_board (to_sq m) = PIECE_NUMBER_NB :=
    (hwsq (to_sq m) htlt).1 hcap
  have hpceq : pos.board (from_sq m) = make_piece pos.sideToMove PAWN := by
    rw [piece_decomp _ hvalid_f, hcol, hptpc]
  have hptb := promotion_type_bounds m
  have hpromone : make_piece pos.sideToMove (promotion_type m)
      ≠ make_piece pos.sideToMove PAWN :=
    make_piece_ne_of_pt_ne _ _ _ (by omega) (by decide) (by unfold PAWN; omega)
  rw [hpceq] at hpc hcount hfw_f hfb_f hptpc
  have hboard : (do_move pos m).board
      = Function.update (Function.update pos.board (from_sq m) NO_PIECE)
          (to_sq m) (make_piece pos.sideToMove (promotion_type m)) := by
    simp [do_move, hmt, hcap, hpceq, hptpc, hxor, Position.movePiece,
      Position.removePiece, Position.putPiece, do_castling_do]
  have hcount' : (do_move pos m).pieceCount
      = Function.update
          (Function.update pos.pieceCount (make_piece pos.sideToMove PAWN)
            (pos.pieceCount (make_piece pos.sideToMove PAWN) - 1))
          (make_piece pos.sideToMove (promotion_type m))
          (pos.pieceCount (make_piece pos.sideToMove (promotion_type m)) + 1) := by
    simp [do_move, hmt, hcap, hpceq, hptpc, hxor, hpromone,
      Function.update_apply, Position.movePiece, Position.removePiece,
      Position.putPiece, do_castling_do]
  have hstm : (do_move pos m).sideToMove = flipColor pos.sideToMove := by
    simp [do_move]
  have hply : (do_move pos m).gamePly = pos.gamePly + 1 := by
    simp [do_move]
  have hcrm : (do_move pos m).castlingRightsMask = pos.castlingRightsMask := by
    simp [do_move, hmt, hcap, hpceq, hptpc, hxor, Position.movePiece,
      Position.removePiece, Position.putPiece, do_castling_do]
  have hprev : (do_move pos m).prevStates = pos.st :: pos.prevStates := by
    simp [do_move, hmt, hcap, hpceq, hptpc, hxor, Position.movePiece,
      Position.removePiece, Position.putPiece, do_castling_do]
  have hel : (do_move pos m).evalList =
      { pieceListFw :=
          Function.update pos.evalList.pieceListFw
            (pos.evalList.piece_no_list_board (from_sq m))
            ((kpp_board_index (make_piece pos.sideToMove
              (promotion_type m))).fw + to_sq m)
        pieceListFb :=
          Function.update pos.evalList.pieceListFb
            (pos.evalList.piece_no_list_board (from_sq m))
            ((kpp_board_index (make_piece pos.sideToMove
              (promotion_type m))).fb + InvSq (to_sq m))
        piece_no_list_board :=
          Function.update
            (Function.update pos.evalList.piece_no_list_board (from_sq m)
              PIECE_NUMBER_NB)
            (to_sq m) (pos.evalList.piece_no_list_board (from_sq m)) } := by
    simp [do_move, hmt, hcap, hpceq, hptpc, hxor, hpromone,
      Function.update_apply, Position.movePiece, Position.removePiece,
      Position.putPiece, do_castling_do, EvalList.piece_no_of_board,
      EvalList.put_piece, EvalList.set_piece_on_board, EvalList.setBoardNB,
      hft]
  have hdn0 : (do_move pos m).st.dirtyPiece.no0
      = pos.evalList.piece_no_list_board (from_sq m) := by
    simp [do_move, hmt, hcap, hpceq, hptpc, hxor, Function.update_apply,
      do_castling_do, EvalList.piece_no_of_board, EvalList.setBoardNB,
      EvalList.set_piece_on_board, EvalList.put_piece, Position.movePiece,
      Position.removePiece, Position.putPiece, hft]
  have hcappc : (do_move pos m).st.capturedPiece = NO_PIECE := by
    simp [do_move, hmt, hcap, hpceq, hptpc, hxor, do_castling_do,
      Position.movePiece, Position.removePiece, Position.putPiece]
  have hb_t : (do_move pos m).board (to_sq m)
      = make_piece pos.sideToMove (promotion_type m) := by
    rw [hboard, Function.update_same]
  rw [undo_move]
  simp only [hmt, promotion_eq_castling_iff, iff_false, if_false, hcappc,
    ne_eq, not_true_eq_false, not_false_eq_true, eq_self_iff_true, if_true,
    hstm, hply, hcrm, hprev, hdn0, hb_t, flipColor_flipColor, List.headI,
    List.tail_cons, Position.movePiece, Position.putPiece,
    Position.removePiece]
  refine Position.ext ?_ ?_ ?_ ?_ ?_ ?_ ?_ ?_
  · rw [hboard]
    funext sq
    rcases eq_or_ne sq (from_sq m) with rfl | hsf
    · simp [Function.update_apply, hpceq]
    · rcases eq_or_ne sq (to_sq m) with rfl | hst
      · simp [Function.update_apply, hsf, hcap]
      · simp [Function.update_apply, hsf, hst]
  · rw [hcount']
    funext p
    rcases eq_or_ne p (make_piece pos.sideToMove (promotion_type m)) with
      rfl | hpr
    · simp only [Function.update_apply, if_pos rfl, if_true, hpromone,
        if_neg hpromone, if_false]
      omega
    · rcases eq_or_ne p (make_piece pos.sideToMove PAWN) with rfl | hpw
      · simp only [Function.update_apply, if_pos rfl, if_true,
          if_neg (Ne.symm hpromone), if_false]
        omega
      · simp [Function.update_apply, hpr, hpw]
  · rfl
  · show pos.gamePly + 1 - 1 = pos.gamePly
    omega
  · rfl
  · rw [hel]
    refine EvalList.ext ?_ ?_ ?_
    · funext n
      simp only [EvalList.put_piece, EvalList.set_piece_on_board,
        EvalList.setBoardNB]
      rcases eq_or_ne n (pos.evalList.piece_no_list_board (from_sq m)) with
        rfl | hn
      · simp [Function.update_apply, hfw_f]
      · simp [Function.update_apply, hn]
    · funext n
      simp only [EvalList.put_piece, EvalList.set_piece_on_board,
        EvalList.setBoardNB]
      rcases eq_or_ne n (pos.evalList.piece_no_list_board (from_sq m)) with
        rfl | hn
      · simp [Function.update_apply, hfb_f]
      · simp [Function.update_apply, hn]
    · funext sq
      simp only [EvalList.put_piece, EvalList.set_piece_on_board,
        EvalList.setBoardNB]
      rcases eq_or_ne sq (from_sq m) with rfl | hsf
      · simp [Function.update_apply, hft]
      · rcases eq_or_ne sq (to_sq m) with rfl | hst
        · simp [Function.update_apply, hsf, hmap_t]
        · simp [Function.update_apply, hsf, hst]
  · rfl
  · rfl

set_option maxHeartbeats 8000000 in
theorem C1_case_promo_cap (pos : Position) (m : Nat)
    (h : MovePre pos m) (hmt : move_type m = PROMOTION)
    (hcap : pos.board (to_sq m) ≠ NO_PIECE) :
    undo_move (do_move pos m) m = pos := by
  obtain ⟨⟨hus, hft, hpc, hcol, hcount⟩, hwf, htarget, hpromo, hep, hcastle⟩ := h
  obtain ⟨hptpc, hxor⟩ := hpromo hmt
  have hflt := from_sq_lt m
  have htlt := to_sq_lt m
  obtain ⟨hwsq, hwn⟩ := hwf
  obtain ⟨hvalid_f, hn0lt, hking_f, hnking_f, hfw_f, hfb_f⟩ :=
    (hwsq (from_sq m) hflt).2 hpc
  obtain ⟨hvalid_t, hn1lt, hking_t, hnking_t, hfw_t, hfb_t⟩ :=
    (hwsq (to_sq m) htlt).2 hcap
  have henemy := htarget (Or.inr hmt)
  rcases henemy with habs | ⟨hcolc, hkc, hcntc⟩
  · exact absurd habs hcap
  have hpceq : pos.board (from_sq m) = make_piece pos.sideToMove PAWN := by
    rw [piece_decomp _ hvalid_f, hcol, hptpc]
  have hptb := promotion_type_bounds m
  have hpromone : make_piece pos.sideToMove (promotion_type m)
      ≠ make_piece pos.sideToMove PAWN :=
    make_piece_ne_of_pt_ne _ _ _ (by omega) (by decide) (by unfold PAWN; omega)
  have hcap_ne_pcP : pos.board (to_sq m) ≠ make_piece pos.sideToMove PAWN := by
    intro heq
    have hcc := congrArg piece_color heq
    rw [hcolc, piece_color_make_piece _ _ (by decide)] at hcc
    exact flipColor_ne _ hcc
  have hcap_ne_promo : pos.board (to_sq m)
      ≠ make_piece pos.sideToMove (promotion_type m) := by
    intro heq
    have hcc := congrArg piece_color heq
    rw [hcolc, piece_color_make_piece _ _ (by omega)] at hcc
    exact flipColor_ne _ hcc
  have hne01 : pos.evalList.piece_no_list_board (from_sq m)
      ≠ pos.evalList.piece_no_list_board (to_sq m) := by
    intro heq
    have hfweq : pos.evalList.pieceListFw
          (pos.evalList.piece_no_list_board (from_sq m))
        = pos.evalList.pieceListFw
          (pos.evalList.piece_no_list_board (to_sq m)) := by
      rw [heq]
    rw [hfw_f, hfw_t] at hfweq
    obtain ⟨hp, hs⟩ := kpp_fw_inj _ _ _ _ hvalid_f hvalid_t hflt htlt hfweq
    exact hft hs
  rw [hpceq] at hpc hcount hfw_f hfb_f hptpc
  have hpcP_ne_cap := Ne.symm hcap_ne_pcP
  have hpromo_ne_cap := Ne.symm hcap_ne_promo
  have hboard : (do_move pos m).board
      = Function.update (Function.update pos.board (from_sq m) NO_PIECE)
          (to_sq m) (make_piece pos.sideToMove (promotion_type m)) := by
    simp [do_move, hmt, hcap, hpceq, hptpc, hxor, Position.movePiece,
      Position.removePiece, Position.putPiece, do_castling_do]
  have hcount' : (do_move pos m).pieceCount
      = Function.update
          (Function.update
            (Function.update pos.pieceCount (pos.board (to_sq m))
              (pos.pieceCount (pos.board (to_sq m)) - 1))
            (make_piece pos.sideToMove PAWN)
            (pos.pieceCount (make_piece pos.sideToMove PAWN) - 1))
          (make_piece pos.sideToMove (promotion_type m))
          (pos.pieceCount (make_piece pos.sideToMove (promotion_type m)) + 1) := by
    simp [do_move, hmt, hcap, hpceq, hptpc, hxor, hpromone, hpcP_ne_cap,
      hpromo_ne_cap, Function.update_apply, Position.movePiece,
      Position.removePiece, Position.putPiece, do_castling_do]
  have hstm : (do_move pos m).sideToMove = flipColor pos.sideToMove := by
    simp [do_move]
  have hply : (do_move pos m).gamePly = pos.gamePly + 1 := by
    simp [do_move]
  have hcrm : (do_move pos m).castlingRightsMask = pos.castlingRightsMask := by
    simp [do_move, hmt, hcap, hpceq, hptpc, hxor, Position.movePiece,
      Position.removePiece, Position.putPiece, do_castling_do]
  have hprev : (do_move pos m).prevStates = pos.st :: pos.prevStates := by
    simp [do_move, hmt, hcap, hpceq, hptpc, hxor, Position.movePiece,
      Position.removePiece, Position.putPiece, do_castling_do]
  have hel : (do_move pos m).evalList =
      { pieceListFw :=
          Function.update
            (Function.update pos.evalList.pieceListFw
              (pos.evalList.piece_no_list_board (to_sq m)) BONA_PIECE_ZERO)
            (pos.evalList.piece_no_list_board (from_sq m))
            ((kpp_board_index (make_piece pos.sideToMove
              (promotion_type m))).fw + to_sq m)
        pieceListFb :=
          Function.update
            (Function.update pos.evalList.pieceListFb
              (pos.evalList.piece_no_list_board (to_sq m)) BONA_PIECE_ZERO)
            (pos.evalList.piece_no_list_board (from_sq m))
            ((kpp_board_index (make_piece pos.sideToMove
              (promotion_type m))).fb + InvSq (to_sq m))
        piece_no_list_board :=
          Function.update
            (Function.update
              (Function.update pos.evalList.piece_no_list_board (to_sq m)
                PIECE_NUMBER_NB)
              (from_sq m) PIECE_NUMBER_NB)
            (to_sq m) (pos.evalList.piece_no_list_board (from_sq m)) } := by
    simp [do_move, hmt, hcap, hpceq, hptpc, hxor, hpromone,
      Function.update_apply, Position.movePiece, Position.removePiece,
      Position.putPiece, do_castling_do, EvalList.piece_no_of_board,
      EvalList.put_piece, EvalList.set_piece_on_board, EvalList.setBoardNB,
      hft]
  have hdn0 : (do_move pos m).st.dirtyPiece.no0
      = pos.evalList.piece_no_list_board (from_sq m) := by
    simp [do_move, hmt, hcap, hpceq, hptpc, hxor, Function.update_apply,
      do_castling_do, EvalList.piece_no_of_board, EvalList.setBoardNB,
      EvalList.set_piece_on_board, EvalList.put_piece, Position.movePiece,
      Position.removePiece, Position.putPiece, hft]
  have hdn1 : (do_move pos m).st.dirtyPiece.no1
      = pos.evalList.piece_no_list_board (to_sq m) := by
    simp [do_move, hmt, hcap, hpceq, hptpc, hxor, Function.update_apply,
      do_castling_do, EvalList.piece_no_of_board, EvalList.setBoardNB,
      EvalList.set_piece_on_board, EvalList.put_piece, Position.movePiece,
      Position.removePiece, Position.putPiece, hft]
  have hcappc : (do_move pos m).st.capturedPiece = pos.board (to_sq m) := by
    simp [do_move, hmt, hcap, hpceq, hptpc, hxor, do_castling_do,
      Position.movePiece, Position.removePiece, Position.putPiece]
  have hb_t : (do_move pos m).board (to_sq m)
      = make_piece pos.sideToMove (promotion_type m) := by
    rw [hboard, Function.update_same]
  rw [undo_move]
  simp only [hmt, promotion_eq_castling_iff, iff_false, if_false, hcappc,
    ne_eq, hcap, not_false_eq_true, eq_self_iff_true, if_true, hstm, hply,
    hcrm, hprev, hdn0, hdn1, hb_t, flipColor_flipColor, List.headI,
    List.tail_cons, Position.movePiece, Position.putPiece,
    Position.removePiece]
  refine Position.ext ?_ ?_ ?_ ?_ ?_ ?_ ?_ ?_
  · rw [hboard]
    funext sq
    rcases eq_or_ne sq (to_sq m) with rfl | hst
    · simp [Function.update_apply]
    · rcases eq_or_ne sq (from_sq m) with rfl | hsf
      · simp [Function.update_apply, hst, hpceq]
      · simp [Function.update_apply, hst, hsf]
  · rw [hcount']
    funext p
    rcases eq_or_ne p (pos.board (to_sq m)) with rfl | hpcap
    · simp only [Function.update_apply, if_pos rfl, if_true,
        if_neg hcap_ne_pcP, if_neg hcap_ne_promo, if_false]
      omega
    · rcases eq_or_ne p (make_piece pos.sideToMove (promotion_type m)) with
        rfl | hpr
      · simp only [Function.update_apply, if_pos rfl, if_true,
          if_neg hpromone, if_neg hpromo_ne_cap, if_false]
        omega
      · rcases eq_or_ne p (make_piece pos.sideToMove PAWN) with rfl | hpw
        · simp only [Function.update_apply, if_pos rfl, if_true,
            if_neg (Ne.symm hpromone), if_neg hpcP_ne_cap, if_false]
          omega
        · simp [Function.update_apply, hpcap, hpr, hpw]
  · rfl
  · show pos.gamePly + 1 - 1 = pos.gamePly
    omega
  · rfl
  · rw [hel]
    refine EvalList.ext ?_ ?_ ?_
    · funext n
      simp only [EvalList.put_piece, EvalList.set_piece_on_board,
        EvalList.setBoardNB]
      rcases eq_or_ne n (pos.evalList.piece_no_list_board (to_sq m)) with
        rfl | hn1
      · simp [Function.update_apply, hfw_t]
      · rcases eq_or_ne n (pos.evalList.piece_no_list_board (from_sq m)) with
          rfl | hn0
        · simp [Function.update_apply, hn1, hfw_f]
        · simp [Function.update_apply, hn1, hn0]
    · funext n
      simp only [EvalList.put_piece, EvalList.set_piece_on_board,
        EvalList.setBoardNB]
      rcases eq_or_ne n (pos.evalList.piece_no_list_board (to_sq m)) with
        rfl | hn1
      · simp [Function.update_apply, hfb_t]
      · rcases eq_or_ne n (pos.evalList.piece_no_list_board (from_sq m)) with
          rfl | hn0
        · simp [Function.update_apply, hn1, hfb_f]
        · simp [Function.update_apply, hn1, hn0]
    · funext sq
      simp only [EvalList.put_piece, EvalList.set_piece_on_board,
        EvalList.setBoardNB]
      rcases eq_or_ne sq (to_sq m) with rfl | hst
      · simp [Function.update_apply]
      · rcases eq_or_ne sq (from_sq m) with rfl | hsf
        · simp [Function.update_apply, hst]
        · simp [Function.update_apply, hst, hsf]
  · rfl
  · rfl

set_option maxHeartbeats 16000000 in
theorem C1_case_castling (pos : Position) (m : Nat)
    (h : MovePre pos m) (hmt : move_type m = CASTLING) :
    undo_move (do_move pos m) m = pos := by
  obtain ⟨⟨hus, hft, hpc, hcol, hcount⟩, hwf, htarget, hpromo, hep, hcastle⟩ := h
  obtain ⟨hkingb, hrookb, hcntr, hgeom⟩ := hcastle hmt
  simp only [castleGeom] at hgeom
  obtain ⟨hfk, hfr, htk, htr, hkr, hbk, hbr⟩ := hgeom
  have hflt := from_sq_lt m
  have htlt := to_sq_lt m
  obtain ⟨hwsq, hwn⟩ := hwf
  have hklt : relative_square pos.sideToMove
      (if from_sq m < to_sq m then 6 else 2) < 64 :=
    relative_square_lt _ _ hus (by split <;> omega)
  have hrlt : relative_square pos.sideToMove
      (if from_sq m < to_sq m then 5 else 3) < 64 :=
    relative_square_lt _ _ hus (by split <;> omega)
  have hmap_kto := (hwsq _ hklt).1 hbk
  have hmap_rto := (hwsq _ hrlt).1 hbr
  have hrocc : pos.board (to_sq m) ≠ NO_PIECE := by
    rw [hrookb]; exact make_piece_ne_zero _ _ (by decide)
  obtain ⟨hvalid_f, hn0lt, hking_f, hnking_f, hfw_f, hfb_f⟩ :=
    (hwsq (from_sq m) hflt).2 hpc
  obtain ⟨hvalid_t, hn1lt, hking_t, hnking_t, hfw_t, hfb_t⟩ :=
    (hwsq (to_sq m) htlt).2 hrocc
  have hne01 : pos.evalList.piece_no_list_board (from_sq m)
      ≠ pos.evalList.piece_no_list_board (to_sq m) := by
    intro heq
    have hfweq : pos.evalList.pieceListFw
          (pos.evalList.piece_no_list_board (from_sq m))
        = pos.evalList.pieceListFw
          (pos.evalList.piece_no_list_board (to_sq m)) := by
      rw [heq]
    rw [hfw_f, hfw_t] at hfweq
    obtain ⟨hp, hs⟩ := kpp_fw_inj _ _ _ _ hvalid_f hvalid_t hflt htlt hfweq
    exact hft hs
  have hKgRk : make_piece pos.sideToMove KING
      ≠ make_piece pos.sideToMove ROOK :=
    make_piece_ne_of_pt_ne _ _ _ (by decide) (by decide) (by decide)
  have hnp : piece_type (pos.board (from_sq m)) ≠ PAWN := by
    rw [hkingb, piece_type_make_piece _ _ (by decide)]
    decide
  rw [hkingb] at hcount hfw_f hfb_f
  rw [hrookb] at hfw_t hfb_t
  have hboard : (do_move pos m).board
      = Function.update (Function.update
          (Function.update (Function.update pos.board (from_sq m) NO_PIECE)
            (to_sq m) NO_PIECE)
          (relative_square pos.sideToMove (if from_sq m < to_sq m then 6 else 2))
          (make_piece pos.sideToMove KING))
          (relative_square pos.sideToMove (if from_sq m < to_sq m then 5 else 3))
          (make_piece pos.sideToMove ROOK) := by
    simp [do_move, hmt, hkingb, hrookb, hnp, do_castling_do,
      Position.movePiece, Position.removePiece, Position.putPiece]
  have hcount' : (do_move pos m).pieceCount
      = Function.update (Function.update (Function.update (Function.update
          pos.pieceCount
          (make_piece pos.sideToMove KING)
          (pos.pieceCount (make_piece pos.sideToMove KING) - 1))
          (make_piece pos.sideToMove ROOK)
          (pos.pieceCount (make_piece pos.sideToMove ROOK) - 1))
          (make_piece pos.sideToMove KING)
          (pos.pieceCount (make_piece pos.sideToMove KING) - 1 + 1))
          (make_piece pos.sideToMove ROOK)
          (pos.pieceCount (make_piece pos.sideToMove ROOK) - 1 + 1) := by
    simp [do_move, hmt, hkingb, hrookb, hnp, hKgRk, Ne.symm hKgRk,
      Function.update_apply, do_castling_do, Position.movePiece,
      Position.removePiece, Position.putPiece]
  have hstm : (do_move pos m).sideToMove = flipColor pos.sideToMove := by
    simp [do_move]
  have hply : (do_move pos m).gamePly = pos.gamePly + 1 := by
    simp [do_move]
  have hcrm : (do_move pos m).castlingRightsMask = pos.castlingRightsMask := by
    simp [do_move, hmt, hkingb, hrookb, hnp, do_castling_do,
      Position.movePiece, Position.removePiece, Position.putPiece]
  have hprev : (do_move pos m).prevStates = pos.st :: pos.prevStates := by
    simp [do_move, hmt, hkingb, hrookb, hnp, do_castling_do,
      Position.movePiece, Position.removePiece, Position.putPiece]
  have hel : (do_move pos m).evalList =
      { pieceListFw :=
          Function.update
            (Function.update pos.evalList.pieceListFw
              (pos.evalList.piece_no_list_board (from_sq m))
              ((kpp_board_index (make_piece pos.sideToMove KING)).fw
                + relative_square pos.sideToMove
                  (if from_sq m < to_sq m then 6 else 2)))
            (pos.evalList.piece_no_list_board (to_sq m))
            ((kpp_board_index (make_piece pos.sideToMove ROOK)).fw
              + relative_square pos.sideToMove
                (if from_sq m < to_sq m then 5 else 3))
        pieceListFb :=
          Function.update
            (Function.update pos.evalList.pieceListFb
              (pos.evalList.piece_no_list_board (from_sq m))
              ((kpp_board_index (make_piece pos.sideToMove KING)).fb
                + InvSq (relative_square pos.sideToMove
                  (if from_sq m < to_sq m then 6 else 2))))
            (pos.evalList.piece_no_list_board (to_sq m))
            ((kpp_board_index (make_piece pos.sideToMove ROOK)).fb
              + InvSq (relative_square pos.sideToMove
                (if from_sq m < to_sq m then 5 else 3)))
        piece_no_list_board :=
          Function.update (Function.update (Function.update (Function.update
            pos.evalList.piece_no_list_board
            (from_sq m) PIECE_NUMBER_NB)
            (relative_square pos.sideToMove
              (if from_sq m < to_sq m then 6 else 2))
            (pos.evalList.piece_no_list_board (from_sq m)))
            (to_sq m) PIECE_NUMBER_NB)
            (relative_square pos.sideToMove
              (if from_sq m < to_sq m then 5 else 3))
            (pos.evalList.piece_no_list_board (to_sq m)) } := by
    simp [do_move, hmt, hkingb, hrookb, hnp, do_castling_do,
      Position.movePiece, Position.removePiece, Position.putPiece,
      EvalList.piece_no_of_board, EvalList.put_piece,
      EvalList.set_piece_on_board, EvalList.setBoardNB]
  have hcappc : (do_move pos m).st.capturedPiece = NO_PIECE := by
    simp [do_move, hmt, hkingb, hrookb, hnp, do_castling_do,
      Position.movePiece, Position.removePiece, Position.putPiece]
  rw [undo_move]
  simp only [hmt, castling_eq_promotion_iff, iff_false, if_false,
    eq_self_iff_true, if_true, hstm, hply, hcrm, hprev, flipColor_flipColor,
    List.headI, List.tail_cons]
  rw [do_castling_undo]
  simp only [hel, hboard, hcount', EvalList.piece_no_of_board,
    EvalList.put_piece, EvalList.set_piece_on_board, EvalList.setBoardNB,
    Position.movePiece, Position.removePiece, Position.putPiece,
    Function.update_apply, decide_eq_true_eq, hfk, Ne.symm hfk, hfr,
    Ne.symm hfr, htk, Ne.symm htk, htr, Ne.symm htr, hkr, Ne.symm hkr,
    hft, Ne.symm hft, hbk, hbr, hkingb, hrookb, hmap_kto, hmap_rto,
    hKgRk, Ne.symm hKgRk, hne01, Ne.symm hne01, if_true, if_false,
    eq_self_iff_true, ite_true, ite_false]
  refine Position.ext ?_ ?_ ?_ ?_ ?_ ?_ ?_ ?_
  · funext sq
    rcases eq_or_ne sq (relative_square pos.sideToMove
        (if from_sq m < to_sq m then 5 else 3)) with rfl | hsr
    · simp [Function.update_apply, hfr, htr, hkr, Ne.symm hfr, Ne.symm htr,
        Ne.symm hkr, hbr]
    · rcases eq_or_ne sq (relative_square pos.sideToMove
          (if from_sq m < to_sq m then 6 else 2)) with rfl | hsk
      · simp [Function.update_apply, hfk, htk, hkr, Ne.symm hfk,
          Ne.symm htk, hsr, hbk]
      · rcases eq_or_ne sq (to_sq m) with rfl | hst
        · simp [Function.update_apply, hsr, hsk, htk, htr, hrookb]
        · rcases eq_or_ne sq (from_sq m) with rfl | hsf
          · simp [Function.update_apply, hsr, hsk, hst, hfk, hfr, hkingb]
          · simp [Function.update_apply, hsr, hsk, hst, hsf]
  · funext p
    rcases eq_or_ne p (make_piece pos.sideToMove KING) with rfl | hpk
    · simp only [Function.update_apply, if_pos rfl, if_true, hKgRk,
        if_neg hKgRk, if_false]
      omega
    · rcases eq_or_ne p (make_piece pos.sideToMove ROOK) with rfl | hpr
      · simp only [Function.update_apply, if_pos rfl, if_true,
          if_neg (Ne.symm hKgRk), if_false]
        omega
      · simp [Function.update_apply, hpk, hpr]
  · rfl
  · show pos.gamePly + 1 - 1 = pos.gamePly
    omega
  · exact hcrm
  · refine EvalList.ext ?_ ?_ ?_
    · funext n
      rcases eq_or_ne n (pos.evalList.piece_no_list_board (to_sq m)) with
        rfl | hn1
      · simp [Function.update_apply, hfk, htk, hkr, Ne.symm htk, Ne.symm hkr,
          hfw_t]
      · rcases eq_or_ne n (pos.evalList.piece_no_list_board (from_sq m)) with
          rfl | hn0
        · simp [Function.update_apply, hn1, hfk, htk, hkr, Ne.symm htk,
            Ne.symm hkr, hfw_f]
        · simp [Function.update_apply, hn1, hn0, hfk, htk, hkr, Ne.symm htk,
            Ne.symm hkr]
    · funext n
      rcases eq_or_ne n (pos.evalList.piece_no_list_board (to_sq m)) with
        rfl | hn1
      · simp [Function.update_apply, hfk, htk, hkr, Ne.symm htk, Ne.symm hkr,
          hfb_t]
      · rcases eq_or_ne n (pos.evalList.piece_no_list_board (from_sq m)) with
          rfl | hn0
        · simp [Function.update_apply, hn1, hfk, htk, hkr, Ne.symm htk,
            Ne.symm hkr, hfb_f]
        · simp [Function.update_apply, hn1, hn0, hfk, htk, hkr, Ne.symm htk,
            Ne.symm hkr]
    · funext sq
      rcases eq_or_ne sq (to_sq m) with rfl | hst
      · simp [Function.update_apply, htk, htr, Ne.symm htk, Ne.symm htr]
      · rcases eq_or_ne sq (relative_square pos.sideToMove
            (if from_sq m < to_sq m then 5 else 3)) with rfl | hsr
        · simp [Function.update_apply, hst, hkr, Ne.symm hkr, Ne.symm htr,
            hmap_rto]
        · rcases eq_or_ne sq (from_sq m) with rfl | hsf
          · simp [Function.update_apply, hst, hsr, hfk, hfr, Ne.symm hfk]
          · rcases eq_or_ne sq (relative_square pos.sideToMove
                (if from_sq m < to_sq m then 6 else 2)) with rfl | hsk
            · simp [Function.update_apply, hst, hsr, hsf, Ne.symm htk,
                Ne.symm hfk, hkr, hmap_kto]
            · simp [Function.update_apply, hst, hsr, hsf, hsk]
  · rfl
  · rfl

/-- C1: Position::do_move followed by Position::undo_move of the same move
restores the position exactly — board, piece counts, side to move, game
ply, castling-rights masks, EvalList and the StateInfo chain — for every
move type (normal, capture, promotion, en passant, castling), given
do_move's preconditions (its asserts plus the EvalList invariant). -/
theorem C1_make_undo_involution (pos : Position) (m : Nat)
    (h : MovePre pos m) :
    undo_move (do_move pos m) m = pos := by
  rcases move_type_cases m with hmt | hmt | hmt | hmt
  · by_cases hcap : pos.board (to_sq m) = NO_PIECE
    · exact C1_case_normal_noncap pos m h hmt hcap
    · exact C1_case_normal_cap pos m h hmt hcap
  · by_cases hcap : pos.board (to_sq m) = NO_PIECE
    · exact C1_case_promo_noncap pos m h hmt hcap
    · exact C1_case_promo_cap pos m h hmt hcap
  · exact C1_case_enpassant pos m h hmt
  · exact C1_case_castling pos m h hmt

set_option maxRecDepth 10000 in
/-- Witness for C1 at a concrete position and pawn push. -/
theorem C1_make_undo_involution_witness :
    MovePre posBase mvPawnPush ∧
    undo_move (do_move posBase mvPawnPush) mvPawnPush = posBase :=
  ⟨by decide, C1_make_undo_involution posBase mvPawnPush (by decide)⟩


/-! ## C2 machinery: multiset bookkeeping for HalfKP feature deltas -/

set_option maxHeartbeats 4000000 in
theorem kpp_fb_inj (p1 p2 s1 s2 : Nat) (h1 : validPiece p1)
    (h2 : validPiece p2) (hs1 : s1 < 64) (hs2 : s2 < 64)
    (he : (kpp_board_index p1).fb + InvSq s1 = (kpp_board_index p2).fb + InvSq s2) :
    p1 = p2 ∧ s1 = s2 := by
  rcases validPiece_cases p1 h1 with rfl|rfl|rfl|rfl|rfl|rfl|rfl|rfl|rfl|rfl|rfl|rfl <;>
    rcases validPiece_cases p2 h2 with rfl|rfl|rfl|rfl|rfl|rfl|rfl|rfl|rfl|rfl|rfl|rfl <;>
    simp only [kpp_board_index, InvSq, f_pawn, e_pawn, f_knight, e_knight,
      f_bishop, e_bishop, f_rook, e_rook, f_queen, e_queen, f_king, e_king]
      at he ⊢ <;>
    first
      | exact ⟨trivial, by omega⟩
      | omega

theorem kpp_fw_pos (pc : Nat) (h : validPiece pc) :
    1 ≤ (kpp_board_index pc).fw := by
  rcases validPiece_cases pc h with rfl|rfl|rfl|rfl|rfl|rfl|rfl|rfl|rfl|rfl|rfl|rfl <;>
    decide

theorem kpp_fb_pos (pc : Nat) (h : validPiece pc) :
    1 ≤ (kpp_board_index pc).fb := by
  rcases validPiece_cases pc h with rfl|rfl|rfl|rfl|rfl|rfl|rfl|rfl|rfl|rfl|rfl|rfl <;>
    decide

theorem live_inj_fw (pos : Position) (hwf : WFEval pos) (i j : Nat)
    (hi : i < PIECE_NUMBER_NB) (hj : j < PIECE_NUMBER_NB)
    (hne : pos.evalList.pieceListFw i ≠ BONA_PIECE_ZERO)
    (heq : pos.evalList.pieceListFw i = pos.evalList.pieceListFw j) : i = j := by
  obtain ⟨hwsq, hwn⟩ := hwf
  obtain ⟨sqi, hsqi, hmapi, hocci⟩ := (hwn i hi).1 hne
  obtain ⟨sqj, hsqj, hmapj, hoccj⟩ := (hwn j hj).1 (heq ▸ hne)
  obtain ⟨hvi, _, _, _, hfwi, _⟩ := (hwsq sqi hsqi).2 hocci
  obtain ⟨hvj, _, _, _, hfwj, _⟩ := (hwsq sqj hsqj).2 hoccj
  rw [hmapi] at hfwi
  rw [hmapj] at hfwj
  rw [hfwi, hfwj] at heq
  obtain ⟨hp, hs⟩ := kpp_fw_inj _ _ _ _ hvi hvj hsqi hsqj heq
  rw [← hmapi, ← hmapj, hs]

theorem live_inj_fb (pos : Position) (hwf : WFEval pos) (i j : Nat)
    (hi : i < PIECE_NUMBER_NB) (hj : j < PIECE_NUMBER_NB)
    (hne : pos.evalList.pieceListFb i ≠ BONA_PIECE_ZERO)
    (heq : pos.evalList.pieceListFb i = pos.evalList.pieceListFb j) : i = j := by
  obtain ⟨hwsq, hwn⟩ := hwf
  have hfwne_i : pos.evalList.pieceListFw i ≠ BONA_PIECE_ZERO := by
    intro h0
    exact hne ((hwn i hi).2 h0)
  have hfwne_j : pos.evalList.pieceListFw j ≠ BONA_PIECE_ZERO := by
    intro h0
    exact (heq ▸ hne) ((hwn j hj).2 h0)
  obtain ⟨sqi, hsqi, hmapi, hocci⟩ := (hwn i hi).1 hfwne_i
  obtain ⟨sqj, hsqj, hmapj, hoccj⟩ := (hwn j hj).1 hfwne_j
  obtain ⟨hvi, _, _, _, _, hfbi⟩ := (hwsq sqi hsqi).2 hocci
  obtain ⟨hvj, _, _, _, _, hfbj⟩ := (hwsq sqj hsqj).2 hoccj
  rw [hmapi] at hfbi
  rw [hmapj] at hfbj
  rw [hfbi, hfbj] at heq
  obtain ⟨hp, hs⟩ := kpp_fb_inj _ _ _ _ hvi hvj hsqi hsqj heq
  rw [← hmapi, ← hmapj, hs]

theorem swap_lemma (f g : Nat → Option Nat) (n j : Nat) (hj0 : j < n)
    (hagree0 : ∀ i, i < n → i ≠ j → g i = f i) :
    (↑(List.filterMap g (List.range n)) + ↑(f j).toList : Multiset Nat)
      = ↑(List.filterMap f (List.range n)) + ↑(g j).toList := by
  induction n with
  | zero =>
    omega
  | succ n ih =>
    rw [List.range_succ, List.filterMap_append, List.filterMap_append]
    rcases Nat.lt_or_ge j n with hlt | hge
    · have hne : (n : Nat) ≠ j := by omega
      have hfg : List.filterMap g [n] = List.filterMap f [n] := by
        simp [List.filterMap, hagree0 n (by omega) hne]
      rw [hfg, ← Multiset.coe_add, ← Multiset.coe_add, add_right_comm,
        ih hlt (fun i hi hij => hagree0 i (by omega) hij), add_right_comm]
    · have hjn : j = n := by omega
      subst hjn
      have hfg : List.filterMap g (List.range j)
          = List.filterMap f (List.range j) := by
        apply List.filterMap_congr
        intro x hx
        exact hagree0 x (by simp at hx; omega) (by simp at hx; omega)
      have h1 : List.filterMap f [j] = (f j).toList := by
        cases h : f j <;> simp [List.filterMap, h]
      have h2 : List.filterMap g [j] = (g j).toList := by
        cases h : g j <;> simp [List.filterMap, h]
      rw [hfg, h1, h2, ← Multiset.coe_add, ← Multiset.coe_add, add_right_comm]

theorem swap_lemma2 (f g : Nat → Option Nat) (n j0 j1 : Nat) (hj0 : j0 < n)
    (hj1 : j1 < n) (hne : j0 ≠ j1)
    (hagree : ∀ i, i < n → i ≠ j0 → i ≠ j1 → g i = f i) :
    (↑(List.filterMap g (List.range n)) + ↑(f j0).toList + ↑(f j1).toList
      : Multiset Nat)
      = ↑(List.filterMap f (List.range n)) + ↑(g j0).toList
        + ↑(g j1).toList := by
  have h1 := swap_lemma f (fun i => if i = j1 then f i else g i) n j0 hj0
    (fun i hlt hi => by
      by_cases h : i = j1
      · simp [h]
      · simp [h, hagree i hlt hi h])
  have h2 := swap_lemma (fun i => if i = j1 then f i else g i) g n j1 hj1
    (fun i hlt hi => by simp [hi])
  simp only [eq_self_iff_true, if_true, if_neg hne] at h1 h2
  calc (↑(List.filterMap g (List.range n)) + ↑(f j0).toList
        + ↑(f j1).toList : Multiset Nat)
      = ↑(List.filterMap g (List.range n)) + ↑(f j1).toList
        + ↑(f j0).toList := by rw [add_right_comm]
    _ = ↑(List.filterMap (fun i => if i = j1 then f i else g i)
          (List.range n)) + ↑(g j1).toList + ↑(f j0).toList := by rw [h2]
    _ = ↑(List.filterMap (fun i => if i = j1 then f i else g i)
          (List.range n)) + ↑(f j0).toList + ↑(g j1).toList := by
        rw [add_right_comm]
    _ = ↑(List.filterMap f (List.range n)) + ↑(g j0).toList
        + ↑(g j1).toList := by rw [h1]

theorem sub_form (A B R Ad : Multiset Nat) (hE : B + R = A + Ad)
    (hR : R ≤ A) : A - R + Ad = B := by
  have h1 : A - R + Ad + R = B + R := by
    rw [hE, add_right_comm, tsub_add_cancel_of_le hR]
  exact add_right_cancel h1

theorem single_le_of_mem (a : Nat) (l : List Nat) (h : a ∈ l) :
    (↑[a] : Multiset Nat) ≤ ↑l := by
  rw [Multiset.coe_singleton]
  exact Multiset.singleton_le.2 (Multiset.mem_coe.2 h)

theorem pair_le_of_mem (a b : Nat) (l : List Nat) (hab : a ≠ b)
    (ha : a ∈ l) (hb : b ∈ l) : (↑[a, b] : Multiset Nat) ≤ ↑l := by
  rw [Multiset.le_iff_subset (by simp [hab])]
  intro x hx
  simp only [Multiset.mem_coe, List.mem_cons, List.not_mem_nil, or_false]
    at hx
  rcases hx with rfl | rfl <;> simpa

theorem live_inj_update1 (L : Nat → Nat) (n0 v : Nat)
    (hinjL : ∀ i j, i < 30 → j < 30 → L i ≠ 0 → L i = L j → i = j)
    (hfresh : ∀ j, j < 30 → j ≠ n0 → L j ≠ 0 → L j ≠ v) :
    ∀ i j, i < 30 → j < 30 → Function.update L n0 v i ≠ 0 →
      Function.update L n0 v i = Function.update L n0 v j → i = j := by
  intro i j hi hj hlive heq
  rcases eq_or_ne i n0 with rfl | hin0
  · rcases eq_or_ne j i with rfl | hjn0
    · rfl
    · rw [Function.update_same] at hlive heq
      rw [Function.update_noteq hjn0] at heq
      exact absurd heq.symm
        (hfresh j hj hjn0 (heq ▸ hlive))
  · rcases eq_or_ne j n0 with rfl | hjn0
    · rw [Function.update_noteq hin0] at hlive heq
      rw [Function.update_same] at heq
      exact absurd heq (hfresh i hi hin0 hlive)
    · rw [Function.update_noteq hin0] at hlive heq
      rw [Function.update_noteq hjn0] at heq
      exact hinjL i j hi hj hlive heq

theorem live_inj_update2 (L : Nat → Nat) (n0 n1 v : Nat) (h01 : n0 ≠ n1)
    (hinjL : ∀ i j, i < 30 → j < 30 → L i ≠ 0 → L i = L j → i = j)
    (hfresh : ∀ j, j < 30 → j ≠ n0 → j ≠ n1 → L j ≠ 0 → L j ≠ v) :
    ∀ i j, i < 30 → j < 30 →
      Function.update (Function.update L n1 0) n0 v i ≠ 0 →
      Function.update (Function.update L n1 0) n0 v i
        = Function.update (Function.update L n1 0) n0 v j → i = j := by
  intro i j hi hj hlive heq
  rcases eq_or_ne i n0 with rfl | hin0
  · rcases eq_or_ne j i with rfl | hjn0
    · rfl
    · rw [Function.update_same] at hlive heq
      rcases eq_or_ne j n1 with rfl | hjn1
      · rw [Function.update_noteq hjn0, Function.update_same] at heq
        exact absurd heq hlive
      · rw [Function.update_noteq hjn0, Function.update_noteq hjn1] at heq
        exact absurd heq.symm
          (hfresh j hj hjn0 hjn1 (heq ▸ hlive))
  · rcases eq_or_ne i n1 with rfl | hin1
    · rw [Function.update_noteq hin0, Function.update_same] at hlive
      exact absurd rfl hlive
    · rw [Function.update_noteq hin0, Function.update_noteq hin1]
        at hlive heq
      rcases eq_or_ne j n0 with rfl | hjn0
      · rw [Function.update_same] at heq
        exact absurd heq (hfresh i hi hin0 hin1 hlive)
      · rcases eq_or_ne j n1 with rfl | hjn1
        · rw [Function.update_noteq hjn0, Function.update_same] at heq
          exact absurd heq hlive
        · rw [Function.update_noteq hjn0, Function.update_noteq hjn1] at heq
          exact hinjL i j hi hj hlive heq

theorem live_inj_update2b (L : Nat → Nat) (n0 n1 v0 v1 : Nat) (h01 : n0 ≠ n1)
    (hv01 : v0 ≠ v1)
    (hinjL : ∀ i j, i < 30 → j < 30 → L i ≠ 0 → L i = L j → i = j)
    (hfresh0 : ∀ j, j < 30 → j ≠ n0 → j ≠ n1 → L j ≠ 0 → L j ≠ v0)
    (hfresh1 : ∀ j, j < 30 → j ≠ n0 → j ≠ n1 → L j ≠ 0 → L j ≠ v1) :
    ∀ i j, i < 30 → j < 30 →
      Function.update (Function.update L n1 v1) n0 v0 i ≠ 0 →
      Function.update (Function.update L n1 v1) n0 v0 i
        = Function.update (Function.update L n1 v1) n0 v0 j → i = j := by
  intro i j hi hj hlive heq
  rcases eq_or_ne i n0 with rfl | hin0
  · rcases eq_or_ne j i with rfl | hjn0
    · rfl
    · rw [Function.update_same] at hlive heq
      rcases eq_or_ne j n1 with rfl | hjn1
      · rw [Function.update_noteq hjn0, Function.update_same] at heq
        exact absurd heq hv01
      · rw [Function.update_noteq hjn0, Function.update_noteq hjn1] at heq
        exact absurd heq.symm
          (hfresh0 j hj hjn0 hjn1 (heq ▸ hlive))
  · rcases eq_or_ne i n1 with rfl | hin1
    · rw [Function.update_noteq hin0, Function.update_same] at hlive heq
      rcases eq_or_ne j n0 with rfl | hjn0
      · rw [Function.update_same] at heq
        exact absurd heq.symm hv01
      · rcases eq_or_ne j i with rfl | hjn1
        · rfl
        · rw [Function.update_noteq hjn0, Function.update_noteq hjn1] at heq
          exact absurd heq.symm (hfresh1 j hj hjn0 hjn1
            (heq ▸ hlive))
    · rw [Function.update_noteq hin0, Function.update_noteq hin1]
        at hlive heq
      rcases eq_or_ne j n0 with rfl | hjn0
      · rw [Function.update_same] at heq
        exact absurd heq (hfresh0 i hi hin0 hin1 hlive)
      · rcases eq_or_ne j n1 with rfl | hjn1
        · rw [Function.update_noteq hjn0, Function.update_same] at heq
          exact absurd heq (hfresh1 i hi hin0 hin1 hlive)
        · rw [Function.update_noteq hjn0, Function.update_noteq hjn1] at heq
          exact hinjL i j hi hj hlive heq

theorem nodup_filterMap_range (n : Nat) (f : Nat → Option Nat)
    (hinj : ∀ i j b, i < n → j < n → b ∈ f i → b ∈ f j → i = j) :
    ((List.range n).filterMap f).Nodup := by
  induction n with
  | zero => simp
  | succ n ih =>
    rw [List.range_succ, List.filterMap_append]
    rw [List.nodup_append]
    refine ⟨ih (fun i j b hi hj h1 h2 => hinj i j b (by omega) (by omega) h1 h2),
      ?_, ?_⟩
    · cases h : f n <;> simp [List.filterMap, h]
    · intro b hb hb'
      obtain ⟨i, hi, hfi⟩ := List.mem_filterMap.1 hb
      have hilt : i < n := by simpa using hi
      have hbn : b ∈ f n := by
        cases h : f n
        · simp [List.filterMap, h] at hb'
        · simp [List.filterMap, h] at hb'
          simpa [h, hb']
      have := hinj i n b (by omega) (by omega) hfi hbn
      omega

theorem package_one (L Lp : Nat → Nat) (k j : Nat) (hj : j < 30)
    (hagree : ∀ i, i < 30 → i ≠ j → Lp i = L i)
    (hinjB : ∀ a b, a < 30 → b < 30 → L a ≠ 0 → L a = L b → a = b)
    (hinjA : ∀ a b, a < 30 → b < 30 → Lp a ≠ 0 → Lp a = Lp b → a = b) :
    (↑((if L j ≠ 0 then some (MakeIndex k (L j)) else none).toList)
        : Multiset Nat)
      ≤ ↑((List.range 30).filterMap
          (fun i => if L i ≠ 0 then some (MakeIndex k (L i)) else none)) ∧
    (↑((List.range 30).filterMap
        (fun i => if L i ≠ 0 then some (MakeIndex k (L i)) else none))
        : Multiset Nat)
      - ↑((if L j ≠ 0 then some (MakeIndex k (L j)) else none).toList)
      + ↑((if Lp j ≠ 0 then some (MakeIndex k (Lp j)) else none).toList)
      = ↑((List.range 30).filterMap
          (fun i => if Lp i ≠ 0 then some (MakeIndex k (Lp i)) else none)) ∧
    ((List.range 30).filterMap
      (fun i => if L i ≠ 0 then some (MakeIndex k (L i)) else none)).Nodup ∧
    ((List.range 30).filterMap
      (fun i => if Lp i ≠ 0 then some (MakeIndex k (Lp i)) else none)).Nodup ∧
    ((if L j ≠ 0 then some (MakeIndex k (L j)) else none).toList).Nodup ∧
    ((if Lp j ≠ 0 then some (MakeIndex k (Lp j)) else none).toList).Nodup := by
  have hgagree : ∀ i, i < 30 → i ≠ j →
      (fun i => if Lp i ≠ 0 then some (MakeIndex k (Lp i)) else none) i
        = (fun i => if L i ≠ 0 then some (MakeIndex k (L i)) else none) i := by
    intro i hlt hi
    dsimp only
    rw [hagree i hlt hi]
  have hE := swap_lemma
    (fun i => if L i ≠ 0 then some (MakeIndex k (L i)) else none)
    (fun i => if Lp i ≠ 0 then some (MakeIndex k (Lp i)) else none)
    30 j hj hgagree
  have hle : (↑((if L j ≠ 0 then some (MakeIndex k (L j)) else none).toList)
      : Multiset Nat)
      ≤ ↑((List.range 30).filterMap
          (fun i => if L i ≠ 0 then some (MakeIndex k (L i)) else none)) := by
    by_cases h : L j ≠ 0
    · rw [if_pos h]
      exact single_le_of_mem _ _ (List.mem_filterMap.2
        ⟨j, List.mem_range.2 hj, by simp [h]⟩)
    · rw [if_neg h]
      simp
  refine ⟨hle, sub_form _ _ _ _ hE hle, ?_, ?_, ?_, ?_⟩
  · exact nodup_filterMap_range 30 _ (by
      intro a b c ha hb hca hcb
      simp only [Option.mem_def, ite_eq_iff] at hca hcb
      rcases hca with ⟨ha0, hca⟩ | ⟨_, hfalse⟩
      · rcases hcb with ⟨hb0, hcb⟩ | ⟨_, hfalse⟩
        · have : L a = L b := by
            have := hca.trans hcb.symm
            injection this with hh
            unfold MakeIndex at hh
            omega
          exact hinjB a b ha hb ha0 this
        · exact absurd hfalse (by simp)
      · exact absurd hfalse (by simp))
  · exact nodup_filterMap_range 30 _ (by
      intro a b c ha hb hca hcb
      simp only [Option.mem_def, ite_eq_iff] at hca hcb
      rcases hca with ⟨ha0, hca⟩ | ⟨_, hfalse⟩
      · rcases hcb with ⟨hb0, hcb⟩ | ⟨_, hfalse⟩
        · have : Lp a = Lp b := by
            have := hca.trans hcb.symm
            injection this with hh
            unfold MakeIndex at hh
            omega
          exact hinjA a b ha hb ha0 this
        · exact absurd hfalse (by simp)
      · exact absurd hfalse (by simp))
  · by_cases h : L j ≠ 0 <;> simp [h]
  · by_cases h : Lp j ≠ 0 <;> simp [h]

theorem package_two (L Lp : Nat → Nat) (k j0 j1 : Nat) (hj0 : j0 < 30)
    (hj1 : j1 < 30) (hne : j0 ≠ j1)
    (hagree : ∀ i, i < 30 → i ≠ j0 → i ≠ j1 → Lp i = L i)
    (hinjB : ∀ a b, a < 30 → b < 30 → L a ≠ 0 → L a = L b → a = b)
    (hinjA : ∀ a b, a < 30 → b < 30 → Lp a ≠ 0 → Lp a = Lp b → a = b) :
    (↑((if L j0 ≠ 0 then some (MakeIndex k (L j0)) else none).toList
        ++ (if L j1 ≠ 0 then some (MakeIndex k (L j1)) else none).toList)
        : Multiset Nat)
      ≤ ↑((List.range 30).filterMap
          (fun i => if L i ≠ 0 then some (MakeIndex k (L i)) else none)) ∧
    (↑((List.range 30).filterMap
        (fun i => if L i ≠ 0 then some (MakeIndex k (L i)) else none))
        : Multiset Nat)
      - ↑((if L j0 ≠ 0 then some (MakeIndex k (L j0)) else none).toList
          ++ (if L j1 ≠ 0 then some (MakeIndex k (L j1)) else none).toList)
      + ↑((if Lp j0 ≠ 0 then some (MakeIndex k (Lp j0)) else none).toList
          ++ (if Lp j1 ≠ 0 then some (MakeIndex k (Lp j1)) else none).toList)
      = ↑((List.range 30).filterMap
          (fun i => if Lp i ≠ 0 then some (MakeIndex k (Lp i)) else none)) ∧
    ((List.range 30).filterMap
      (fun i => if L i ≠ 0 then some (MakeIndex k (L i)) else none)).Nodup ∧
    ((List.range 30).filterMap
      (fun i => if Lp i ≠ 0 then some (MakeIndex k (Lp i)) else none)).Nodup ∧
    ((if L j0 ≠ 0 then some (MakeIndex k (L j0)) else none).toList
      ++ (if L j1 ≠ 0 then some (MakeIndex k (L j1)) else none).toList).Nodup ∧
    ((if Lp j0 ≠ 0 then some (MakeIndex k (Lp j0)) else none).toList
      ++ (if Lp j1 ≠ 0 then some (MakeIndex k (Lp j1)) else none).toList).Nodup
    := by
  have hgagree : ∀ i, i < 30 → i ≠ j0 → i ≠ j1 →
      (fun i => if Lp i ≠ 0 then some (MakeIndex k (Lp i)) else none) i
        = (fun i => if L i ≠ 0 then some (MakeIndex k (L i)) else none) i := by
    intro i hlt hi0 hi1
    dsimp only
    rw [hagree i hlt hi0 hi1]
  have hE2 := swap_lemma2
    (fun i => if L i ≠ 0 then some (MakeIndex k (L i)) else none)
    (fun i => if Lp i ≠ 0 then some (MakeIndex k (Lp i)) else none)
    30 j0 j1 hj0 hj1 hne hgagree
  have hMne : ∀ x y, x ≠ 0 → x ≠ y → MakeIndex k x ≠ MakeIndex k y := by
    intro x y hx hxy he
    unfold MakeIndex at he
    omega
  have hvne : L j0 ≠ 0 → L j1 ≠ 0 → L j0 ≠ L j1 := by
    intro h0 h1 he
    exact hne (hinjB j0 j1 hj0 hj1 h0 he)
  have hvne2 : Lp j0 ≠ 0 → Lp j1 ≠ 0 → Lp j0 ≠ Lp j1 := by
    intro h0 h1 he
    exact hne (hinjA j0 j1 hj0 hj1 h0 he)
  have hle : (↑((if L j0 ≠ 0 then some (MakeIndex k (L j0)) else none).toList
      ++ (if L j1 ≠ 0 then some (MakeIndex k (L j1)) else none).toList)
      : Multiset Nat)
      ≤ ↑((List.range 30).filterMap
          (fun i => if L i ≠ 0 then some (MakeIndex k (L i)) else none)) := by
    by_cases h0 : L j0 ≠ 0
    · by_cases h1 : L j1 ≠ 0
      · rw [if_pos h0, if_pos h1]
        exact pair_le_of_mem _ _ _
          (hMne _ _ h0 (hvne h0 h1))
          (List.mem_filterMap.2 ⟨j0, List.mem_range.2 hj0, by simp [h0]⟩)
          (List.mem_filterMap.2 ⟨j1, List.mem_range.2 hj1, by simp [h1]⟩)
      · rw [if_pos h0, if_neg h1]
        simp only [Option.toList_some, Option.toList_none, List.append_nil]
        exact single_le_of_mem _ _ (List.mem_filterMap.2
          ⟨j0, List.mem_range.2 hj0, by simp [h0]⟩)
    · rw [if_neg h0]
      by_cases h1 : L j1 ≠ 0
      · rw [if_pos h1]
        simp only [Option.toList_none, List.nil_append, Option.toList_some]
        exact single_le_of_mem _ _ (List.mem_filterMap.2
          ⟨j1, List.mem_range.2 hj1, by simp [h1]⟩)
      · rw [if_neg h1]
        simp
  have hE2' : (↑((List.range 30).filterMap
        (fun i => if Lp i ≠ 0 then some (MakeIndex k (Lp i)) else none))
        : Multiset Nat)
      + ↑((if L j0 ≠ 0 then some (MakeIndex k (L j0)) else none).toList
          ++ (if L j1 ≠ 0 then some (MakeIndex k (L j1)) else none).toList)
      = ↑((List.range 30).filterMap
          (fun i => if L i ≠ 0 then some (MakeIndex k (L i)) else none))
      + ↑((if Lp j0 ≠ 0 then some (MakeIndex k (Lp j0)) else none).toList
          ++ (if Lp j1 ≠ 0 then some (MakeIndex k (Lp j1)) else none).toList)
      := by
    rw [← Multiset.coe_add, ← Multiset.coe_add, ← add_assoc, ← add_assoc]
    exact hE2
  refine ⟨hle, sub_form _ _ _ _ hE2' hle, ?_, ?_, ?_, ?_⟩
  · exact nodup_filterMap_range 30 _ (by
      intro a b c ha hb hca hcb
      simp only [Option.mem_def, ite_eq_iff] at hca hcb
      rcases hca with ⟨ha0, hca⟩ | ⟨_, hfalse⟩
      · rcases hcb with ⟨hb0, hcb⟩ | ⟨_, hfalse⟩
        · have : L a = L b := by
            have := hca.trans hcb.symm
            injection this with hh
            unfold MakeIndex at hh
            omega
          exact hinjB a b ha hb ha0 this
        · exact absurd hfalse (by simp)
      · exact absurd hfalse (by simp))
  · exact nodup_filterMap_range 30 _ (by
      intro a b c ha hb hca hcb
      simp only [Option.mem_def, ite_eq_iff] at hca hcb
      rcases hca with ⟨ha0, hca⟩ | ⟨_, hfalse⟩
      · rcases hcb with ⟨hb0, hcb⟩ | ⟨_, hfalse⟩
        · have : Lp a = Lp b := by
            have := hca.trans hcb.symm
            injection this with hh
            unfold MakeIndex at hh
            omega
          exact hinjA a b ha hb ha0 this
        · exact absurd hfalse (by simp)
      · exact absurd hfalse (by simp))
  · by_cases h0 : L j0 ≠ 0
    · by_cases h1 : L j1 ≠ 0
      · rw [if_pos h0, if_pos h1]
        simp [hMne _ _ h0 (hvne h0 h1)]
      · rw [if_pos h0, if_neg h1]
        simp
    · rw [if_neg h0]
      by_cases h1 : L j1 ≠ 0
      · rw [if_pos h1]
        simp
      · rw [if_neg h1]
        simp
  · by_cases h0 : Lp j0 ≠ 0
    · by_cases h1 : Lp j1 ≠ 0
      · rw [if_pos h0, if_pos h1]
        simp [hMne _ _ h0 (hvne2 h0 h1)]
      · rw [if_pos h0, if_neg h1]
        simp
    · rw [if_neg h0]
      by_cases h1 : Lp j1 ≠ 0
      · rw [if_pos h1]
        simp
      · rw [if_neg h1]
        simp

theorem activeEq_of_agree (L Lp : Nat → Nat) (k : Nat)
    (hagree : ∀ i, i < 30 → Lp i = L i) :
    (List.range 30).filterMap
        (fun i => if Lp i ≠ 0 then some (MakeIndex k (Lp i)) else none)
      = (List.range 30).filterMap
        (fun i => if L i ≠ 0 then some (MakeIndex k (L i)) else none) := by
  apply List.filterMap_congr
  intro x hx
  rw [List.mem_range] at hx
  dsimp only
  rw [hagree x hx]

theorem fresh_fw (pos : Position) (hwf : WFEval pos) (pcv sq : Nat)
    (hv : validPiece pcv) (hsq : sq < 64) :
    ∀ j, j < 30 → j ≠ pos.evalList.piece_no_list_board sq →
      pos.evalList.pieceListFw j ≠ BONA_PIECE_ZERO →
      pos.evalList.pieceListFw j ≠ (kpp_board_index pcv).fw + sq := by
  intro j hj hjm hne heq
  obtain ⟨hwsq, hwn⟩ := hwf
  have hj32 : j < PIECE_NUMBER_NB := by unfold PIECE_NUMBER_NB; omega
  obtain ⟨sqj, hsqj, hmapj, hoccj⟩ := (hwn j hj32).1 hne
  obtain ⟨hvj, _, _, _, hfwj, _⟩ := (hwsq sqj hsqj).2 hoccj
  rw [hmapj] at hfwj
  rw [hfwj] at heq
  obtain ⟨hp, hs⟩ := kpp_fw_inj _ _ _ _ hvj hv hsqj hsq heq
  exact hjm (by rw [← hmapj, hs])

theorem fresh_fb (pos : Position) (hwf : WFEval pos) (pcv sq : Nat)
    (hv : validPiece pcv) (hsq : sq < 64) :
    ∀ j, j < 30 → j ≠ pos.evalList.piece_no_list_board sq →
      pos.evalList.pieceListFb j ≠ BONA_PIECE_ZERO →
      pos.evalList.pieceListFb j ≠ (kpp_board_index pcv).fb + InvSq sq := by
  intro j hj hjm hne heq
  obtain ⟨hwsq, hwn⟩ := hwf
  have hj32 : j < PIECE_NUMBER_NB := by unfold PIECE_NUMBER_NB; omega
  have hfwne : pos.evalList.pieceListFw j ≠ BONA_PIECE_ZERO := by
    intro h0
    exact hne ((hwn j hj32).2 h0)
  obtain ⟨sqj, hsqj, hmapj, hoccj⟩ := (hwn j hj32).1 hfwne
  obtain ⟨hvj, _, _, _, _, hfbj⟩ := (hwsq sqj hsqj).2 hoccj
  rw [hmapj] at hfbj
  rw [hfbj] at heq
  obtain ⟨hp, hs⟩ := kpp_fb_inj _ _ _ _ hvj hv hsqj hsq heq
  exact hjm (by rw [← hmapj, hs])


/-! ## C2: HalfKP feature-delta correctness, per move shape -/

set_option maxHeartbeats 8000000 in
theorem C2_delta_normal_noncap (pos : Position) (m : Nat) (side : Side)
    (persp : Nat) (h : MovePre pos m) (hp : persp ≤ 1)
    (hnk : ¬(piece_type (pos.board (from_sq m)) = KING ∧
      piece_color (pos.board (from_sq m)) = assocColor side persp))
    (hmt : move_type m = NORMAL) (hcap : pos.board (to_sq m) = NO_PIECE) :
    featureDeltaCorrect pos m side persp := by
  obtain ⟨⟨hus, hft, hpc, hcol, hcount⟩, hwf, htarget, hpromo, hep, hcastle⟩ := h
  have hwf' : WFEval pos := hwf
  have hflt := from_sq_lt m
  have htlt := to_sq_lt m
  obtain ⟨hwsq, hwn⟩ := hwf
  obtain ⟨hvalid_f, hn0lt, hking_f, hnking_f, hfw_f, hfb_f⟩ :=
    (hwsq (from_sq m) hflt).2 hpc
  have hmap_t : pos.evalList.piece_no_list_board (to_sq m) = PIECE_NUMBER_NB :=
    (hwsq (to_sq m) htlt).1 hcap
  have hFw : (do_move pos m).evalList.pieceListFw
      = Function.update pos.evalList.pieceListFw
          (pos.evalList.piece_no_list_board (from_sq m))
          ((kpp_board_index (pos.board (from_sq m))).fw + to_sq m) := by
    simp [do_move, hmt, hcap, Position.movePiece, Position.removePiece,
      Position.putPiece, do_castling_do, EvalList.piece_no_of_board,
      EvalList.put_piece, EvalList.set_piece_on_board, EvalList.setBoardNB]
  have hFb : (do_move pos m).evalList.pieceListFb
      = Function.update pos.evalList.pieceListFb
          (pos.evalList.piece_no_list_board (from_sq m))
          ((kpp_board_index (pos.board (from_sq m))).fb + InvSq (to_sq m)) := by
    simp [do_move, hmt, hcap, Position.movePiece, Position.removePiece,
      Position.putPiece, do_castling_do, EvalList.piece_no_of_board,
      EvalList.put_piece, EvalList.set_piece_on_board, EvalList.setBoardNB]
  have hdnum : (do_move pos m).st.dirtyPiece.dirty_num = 1 := by
    simp [do_move, hmt, hcap, do_castling_do, Position.movePiece,
      Position.removePiece, Position.putPiece]
  have hdn0 : (do_move pos m).st.dirtyPiece.no0
      = pos.evalList.piece_no_list_board (from_sq m) := by
    simp [do_move, hmt, hcap, do_castling_do, EvalList.piece_no_of_board,
      Position.movePiece, Position.removePiece, Position.putPiece]
  have hcp0o : (do_move pos m).st.dirtyPiece.cp0.old_piece
      = ⟨pos.evalList.pieceListFw (pos.evalList.piece_no_list_board (from_sq m)),
         pos.evalList.pieceListFb (pos.evalList.piece_no_list_board (from_sq m))⟩
      := by
    simp [do_move, hmt, hcap, do_castling_do, EvalList.piece_no_of_board,
      EvalList.bona_piece, EvalList.put_piece, EvalList.set_piece_on_board,
      EvalList.setBoardNB, Position.movePiece, Position.removePiece,
      Position.putPiece]
  have hcp0n : (do_move pos m).st.dirtyPiece.cp0.new_piece
      = ⟨(kpp_board_index (pos.board (from_sq m))).fw + to_sq m,
         (kpp_board_index (pos.board (from_sq m))).fb + InvSq (to_sq m)⟩ := by
    simp [do_move, hmt, hcap, do_castling_do, EvalList.piece_no_of_board,
      EvalList.bona_piece, EvalList.put_piece, EvalList.set_piece_on_board,
      EvalList.setBoardNB, Position.movePiece, Position.removePiece,
      Position.putPiece]
  rcases Nat.le_one_iff_eq_zero_or_eq_one.1 hp with rfl | rfl
  · cases side
    · have hn0t : pos.evalList.piece_no_list_board (from_sq m)
          ≠ PIECE_NUMBER_KING + 0 := by
        by_cases hk : piece_type (pos.board (from_sq m)) = KING
        · have hc : piece_color (pos.board (from_sq m)) ≠ 0 := by
            intro hceq
            exact hnk ⟨hk, by rw [hceq]; rfl⟩
          have hn0 := hking_f hk
          unfold PIECE_NUMBER_KING at hn0
          unfold PIECE_NUMBER_KING
          omega
        · have h30 := hnking_f hk
          unfold PIECE_NUMBER_KING at h30
          unfold PIECE_NUMBER_KING
          omega
      have hGA1 : (GetPieces (do_move pos m) Side.kFriend 0).1
          = Function.update pos.evalList.pieceListFw
              (pos.evalList.piece_no_list_board (from_sq m))
              ((kpp_board_index (pos.board (from_sq m))).fw + to_sq m) := hFw
      have hGA2 : (GetPieces (do_move pos m) Side.kFriend 0).2
          = (pos.evalList.pieceListFw (PIECE_NUMBER_KING + 0) - f_king) % 64
          := by
        show ((do_move pos m).evalList.pieceListFw (PIECE_NUMBER_KING + 0)
          - f_king) % 64 = _
        rw [hFw, Function.update_noteq (Ne.symm hn0t)]

      by_cases hk : piece_type (pos.board (from_sq m)) = KING
      · -- a non-associated king moves: the dirty entry is skipped and no
        -- feature of this perspective changes
        have hn0v := hking_f hk
        have hn0ge : PIECE_NUMBER_KING
            ≤ pos.evalList.piece_no_list_board (from_sq m) := by
          rw [hn0v]
          omega
        have hagree : ∀ i, i < 30 →
            Function.update pos.evalList.pieceListFw
              (pos.evalList.piece_no_list_board (from_sq m))
              ((kpp_board_index (pos.board (from_sq m))).fw + to_sq m) i
            = pos.evalList.pieceListFw i := by
          intro i hi
          apply Function.update_noteq
          unfold PIECE_NUMBER_KING at hn0ge
          omega
        have hrem : (AppendChangedIndices (do_move pos m) Side.kFriend 0).1
            = [] := by
          simp [AppendChangedIndices, hdnum, hdn0, hn0ge]
        have hadd : (AppendChangedIndices (do_move pos m) Side.kFriend 0).2
            = [] := by
          simp [AppendChangedIndices, hdnum, hdn0, hn0ge]
        have hinjB : ∀ a b, a < 30 → b < 30 → pos.evalList.pieceListFw a ≠ 0 →
            pos.evalList.pieceListFw a = pos.evalList.pieceListFw b → a = b := by
          intro a b ha hb hne heq
          exact live_inj_fw pos hwf' a b (by unfold PIECE_NUMBER_NB; omega)
            (by unfold PIECE_NUMBER_NB; omega) hne heq
        have hAA : AppendActiveIndices (do_move pos m) Side.kFriend 0
            = AppendActiveIndices pos Side.kFriend 0 := by
          simp only [AppendActiveIndices]
          rw [hGA1, hGA2]
          exact activeEq_of_agree _ _ _ hagree
        unfold featureDeltaCorrect
        rw [hrem, hadd, hAA]
        have hnodup : (AppendActiveIndices pos Side.kFriend 0).Nodup := by
          show ((List.range 30).filterMap (fun i =>
            if pos.evalList.pieceListFw i ≠ 0
            then some (MakeIndex ((pos.evalList.pieceListFw
              (PIECE_NUMBER_KING + 0) - f_king) % 64)
              (pos.evalList.pieceListFw i)) else none)).Nodup
          exact (package_one pos.evalList.pieceListFw pos.evalList.pieceListFw
            ((pos.evalList.pieceListFw (PIECE_NUMBER_KING + 0) - f_king) % 64)
            0 (by omega) (fun i hlt hi => rfl) hinjB hinjB).2.2.1
        exact ⟨by simp, by simp, hnodup, hnodup, by simp, by simp⟩
      · -- a non-king mover: one dirty slot below PIECE_NUMBER_KING
        have hn0lt30 := hnking_f hk
        have hn0lt30' : pos.evalList.piece_no_list_board (from_sq m) < 30 := by
          unfold PIECE_NUMBER_KING at hn0lt30
          omega
        have hnotle : ¬ (PIECE_NUMBER_KING
            ≤ pos.evalList.piece_no_list_board (from_sq m)) := by
          unfold PIECE_NUMBER_KING
          omega
        have hnzB : pos.evalList.pieceListFw
            (pos.evalList.piece_no_list_board (from_sq m)) ≠ 0 := by
          rw [hfw_f]
          have := kpp_fw_pos _ hvalid_f
          omega
        have hnzA : (kpp_board_index (pos.board (from_sq m))).fw + to_sq m ≠ 0 := by
          have := kpp_fw_pos _ hvalid_f
          omega
        have hinjB : ∀ a b, a < 30 → b < 30 → pos.evalList.pieceListFw a ≠ 0 →
            pos.evalList.pieceListFw a = pos.evalList.pieceListFw b → a = b := by
          intro a b ha hb hne heq
          exact live_inj_fw pos hwf' a b (by unfold PIECE_NUMBER_NB; omega)
            (by unfold PIECE_NUMBER_NB; omega) hne heq
        have hfresh : ∀ j, j < 30 →
            j ≠ pos.evalList.piece_no_list_board (from_sq m) →
            pos.evalList.pieceListFw j ≠ 0 →
            pos.evalList.pieceListFw j
              ≠ (kpp_board_index (pos.board (from_sq m))).fw + to_sq m := by
          intro j hj hjn0 hne
          exact fresh_fw pos hwf' (pos.board (from_sq m)) (to_sq m) hvalid_f htlt
            j hj (by rw [hmap_t]; unfold PIECE_NUMBER_NB; omega) hne
        have hinjA := live_inj_update1 pos.evalList.pieceListFw
          (pos.evalList.piece_no_list_board (from_sq m))
          ((kpp_board_index (pos.board (from_sq m))).fw + to_sq m) hinjB hfresh
        have hagree1 : ∀ i, i ≠ pos.evalList.piece_no_list_board (from_sq m) →
            Function.update pos.evalList.pieceListFw
              (pos.evalList.piece_no_list_board (from_sq m))
              ((kpp_board_index (pos.board (from_sq m))).fw + to_sq m) i
            = pos.evalList.pieceListFw i :=
          fun i hi => Function.update_noteq hi _ _
        have hpack := package_one pos.evalList.pieceListFw
          (Function.update pos.evalList.pieceListFw
            (pos.evalList.piece_no_list_board (from_sq m))
            ((kpp_board_index (pos.board (from_sq m))).fw + to_sq m))
          ((pos.evalList.pieceListFw (PIECE_NUMBER_KING + 0) - f_king) % 64)
          (pos.evalList.piece_no_list_board (from_sq m))
          hn0lt30' (fun i hlt hi => hagree1 i hi) hinjB hinjA
        rw [Function.update_same] at hpack
        rw [if_pos hnzB, if_pos hnzA] at hpack
        simp only [Option.toList_some] at hpack
        have hrem : (AppendChangedIndices (do_move pos m) Side.kFriend 0).1
            = [MakeIndex ((pos.evalList.pieceListFw
                (PIECE_NUMBER_KING + 0) - f_king) % 64)
                (pos.evalList.pieceListFw
                  (pos.evalList.piece_no_list_board (from_sq m)))] := by
          simp [AppendChangedIndices, hdnum, hdn0, hcp0o, hGA2, hnotle, hnzB,
            ExtBonaPiece.fromPersp, BONA_PIECE_ZERO, WHITE]
        have hadd : (AppendChangedIndices (do_move pos m) Side.kFriend 0).2
            = [MakeIndex ((pos.evalList.pieceListFw
                (PIECE_NUMBER_KING + 0) - f_king) % 64)
                ((kpp_board_index (pos.board (from_sq m))).fw + to_sq m)] := by
          simp [AppendChangedIndices, hdnum, hdn0, hcp0n, hGA2, hnotle, hnzA,
            ExtBonaPiece.fromPersp, BONA_PIECE_ZERO, WHITE]
        have hactB : AppendActiveIndices pos Side.kFriend 0
            = (List.range 30).filterMap (fun i =>
                if pos.evalList.pieceListFw i ≠ 0
                then some (MakeIndex ((pos.evalList.pieceListFw
                  (PIECE_NUMBER_KING + 0) - f_king) % 64)
                  (pos.evalList.pieceListFw i)) else none) := rfl
        have hactA : AppendActiveIndices (do_move pos m) Side.kFriend 0
            = (List.range 30).filterMap (fun i =>
                if Function.update pos.evalList.pieceListFw
                  (pos.evalList.piece_no_list_board (from_sq m))
                  ((kpp_board_index (pos.board (from_sq m))).fw + to_sq m) i ≠ 0
                then some (MakeIndex ((pos.evalList.pieceListFw
                  (PIECE_NUMBER_KING + 0) - f_king) % 64)
                  (Function.update pos.evalList.pieceListFw
                    (pos.evalList.piece_no_list_board (from_sq m))
                    ((kpp_board_index (pos.board (from_sq m))).fw + to_sq m) i))
                else none) := by
          simp only [AppendActiveIndices]
          rw [hGA1, hGA2]
          rfl
        unfold featureDeltaCorrect
        rw [hrem, hadd, hactB, hactA]
        exact hpack

    · have hn0t : pos.evalList.piece_no_list_board (from_sq m)
          ≠ PIECE_NUMBER_KING + 1 := by
        by_cases hk : piece_type (pos.board (from_sq m)) = KING
        · have hc : piece_color (pos.board (from_sq m)) ≠ 1 := by
            intro hceq
            exact hnk ⟨hk, by rw [hceq]; rfl⟩
          have hn0 := hking_f hk
          unfold PIECE_NUMBER_KING at hn0
          unfold PIECE_NUMBER_KING
          omega
        · have h30 := hnking_f hk
          unfold PIECE_NUMBER_KING at h30
          unfold PIECE_NUMBER_KING
          omega
      have hGA1 : (GetPieces (do_move pos m) Side.kEnemy 0).1
          = Function.update pos.evalList.pieceListFw
              (pos.evalList.piece_no_list_board (from_sq m))
              ((kpp_board_index (pos.board (from_sq m))).fw + to_sq m) := hFw
      have hGA2 : (GetPieces (do_move pos m) Side.kEnemy 0).2
          = (pos.evalList.pieceListFw (PIECE_NUMBER_KING + 1) - f_king) % 64
          := by
        show ((do_move pos m).evalList.pieceListFw (PIECE_NUMBER_KING + 1)
          - f_king) % 64 = _
        rw [hFw, Function.update_noteq (Ne.symm hn0t)]

      by_cases hk : piece_type (pos.board (from_sq m)) = KING
      · -- a non-associated king moves: the dirty entry is skipped and no
        -- feature of this perspective changes
        have hn0v := hking_f hk
        have hn0ge : PIECE_NUMBER_KING
            ≤ pos.evalList.piece_no_list_board (from_sq m) := by
          rw [hn0v]
          omega
        have hagree : ∀ i, i < 30 →
            Function.update pos.evalList.pieceListFw
              (pos.evalList.piece_no_list_board (from_sq m))
              ((kpp_board_index (pos.board (from_sq m))).fw + to_sq m) i
            = pos.evalList.pieceListFw i := by
          intro i hi
          apply Function.update_noteq
          unfold PIECE_NUMBER_KING at hn0ge
          omega
        have hrem : (AppendChangedIndices (do_move pos m) Side.kEnemy 0).1
            = [] := by
          simp [AppendChangedIndices, hdnum, hdn0, hn0ge]
        have hadd : (AppendChangedIndices (do_move pos m) Side.kEnemy 0).2
            = [] := by
          simp [AppendChangedIndices, hdnum, hdn0, hn0ge]
        have hinjB : ∀ a b, a < 30 → b < 30 → pos.evalList.pieceListFw a ≠ 0 →
            pos.evalList.pieceListFw a = pos.evalList.pieceListFw b → a = b := by
          intro a b ha hb hne heq
          exact live_inj_fw pos hwf' a b (by unfold PIECE_NUMBER_NB; omega)
            (by unfold PIECE_NUMBER_NB; omega) hne heq
        have hAA : AppendActiveIndices (do_move pos m) Side.kEnemy 0
            = AppendActiveIndices pos Side.kEnemy 0 := by
          simp only [AppendActiveIndices]
          rw [hGA1, hGA2]
          exact activeEq_of_agree _ _ _ hagree
        unfold featureDeltaCorrect
        rw [hrem, hadd, hAA]
        have hnodup : (AppendActiveIndices pos Side.kEnemy 0).Nodup := by
          show ((List.range 30).filterMap (fun i =>
            if pos.evalList.pieceListFw i ≠ 0
            then some (MakeIndex ((pos.evalList.pieceListFw
              (PIECE_NUMBER_KING + 1) - f_king) % 64)
              (pos.evalList.pieceListFw i)) else none)).Nodup
          exact (package_one pos.evalList.pieceListFw pos.evalList.pieceListFw
            ((pos.evalList.pieceListFw (PIECE_NUMBER_KING + 1) - f_king) % 64)
            0 (by omega) (fun i hlt hi => rfl) hinjB hinjB).2.2.1
        exact ⟨by simp, by simp, hnodup, hnodup, by simp, by simp⟩
      · -- a non-king mover: one dirty slot below PIECE_NUMBER_KING
        have hn0lt30 := hnking_f hk
        have hn0lt30' : pos.evalList.piece_no_list_board (from_sq m) < 30 := by
          unfold PIECE_NUMBER_KING at hn0lt30
          omega
        have hnotle : ¬ (PIECE_NUMBER_KING
            ≤ pos.evalList.piece_no_list_board (from_sq m)) := by
          unfold PIECE_NUMBER_KING
          omega
        have hnzB : pos.evalList.pieceListFw
            (pos.evalList.piece_no_list_board (from_sq m)) ≠ 0 := by
          rw [hfw_f]
          have := kpp_fw_pos _ hvalid_f
          omega
        have hnzA : (kpp_board_index (pos.board (from_sq m))).fw + to_sq m ≠ 0 := by
          have := kpp_fw_pos _ hvalid_f
          omega
        have hinjB : ∀ a b, a < 30 → b < 30 → pos.evalList.pieceListFw a ≠ 0 →
            pos.evalList.pieceListFw a = pos.evalList.pieceListFw b → a = b := by
          intro a b ha hb hne heq
          exact live_inj_fw pos hwf' a b (by unfold PIECE_NUMBER_NB; omega)
            (by unfold PIECE_NUMBER_NB; omega) hne heq
        have hfresh : ∀ j, j < 30 →
            j ≠ pos.evalList.piece_no_list_board (from_sq m) →
            pos.evalList.pieceListFw j ≠ 0 →
            pos.evalList.pieceListFw j
              ≠ (kpp_board_index (pos.board (from_sq m))).fw + to_sq m := by
          intro j hj hjn0 hne
          exact fresh_fw pos hwf' (pos.board (from_sq m)) (to_sq m) hvalid_f htlt
            j hj (by rw [hmap_t]; unfold PIECE_NUMBER_NB; omega) hne
        have hinjA := live_inj_update1 pos.evalList.pieceListFw
          (pos.evalList.piece_no_list_board (from_sq m))
          ((kpp_board_index (pos.board (from_sq m))).fw + to_sq m) hinjB hfresh
        have hagree1 : ∀ i, i ≠ pos.evalList.piece_no_list_board (from_sq m) →
            Function.update pos.evalList.pieceListFw
              (pos.evalList.piece_no_list_board (from_sq m))
              ((kpp_board_index (pos.board (from_sq m))).fw + to_sq m) i
            = pos.evalList.pieceListFw i :=
          fun i hi => Function.update_noteq hi _ _
        have hpack := package_one pos.evalList.pieceListFw
          (Function.update pos.evalList.pieceListFw
            (pos.evalList.piece_no_list_board (from_sq m))
            ((kpp_board_index (pos.board (from_sq m))).fw + to_sq m))
          ((pos.evalList.pieceListFw (PIECE_NUMBER_KING + 1) - f_king) % 64)
          (pos.evalList.piece_no_list_board (from_sq m))
          hn0lt30' (fun i hlt hi => hagree1 i hi) hinjB hinjA
        rw [Function.update_same] at hpack
        rw [if_pos hnzB, if_pos hnzA] at hpack
        simp only [Option.toList_some] at hpack
        have hrem : (AppendChangedIndices (do_move pos m) Side.kEnemy 0).1
            = [MakeIndex ((pos.evalList.pieceListFw
                (PIECE_NUMBER_KING + 1) - f_king) % 64)
                (pos.evalList.pieceListFw
                  (pos.evalList.piece_no_list_board (from_sq m)))] := by
          simp [AppendChangedIndices, hdnum, hdn0, hcp0o, hGA2, hnotle, hnzB,
            ExtBonaPiece.fromPersp, BONA_PIECE_ZERO, WHITE]
        have hadd : (AppendChangedIndices (do_move pos m) Side.kEnemy 0).2
            = [MakeIndex ((pos.evalList.pieceListFw
                (PIECE_NUMBER_KING + 1) - f_king) % 64)
                ((kpp_board_index (pos.board (from_sq m))).fw + to_sq m)] := by
          simp [AppendChangedIndices, hdnum, hdn0, hcp0n, hGA2, hnotle, hnzA,
            ExtBonaPiece.fromPersp, BONA_PIECE_ZERO, WHITE]
        have hactB : AppendActiveIndices pos Side.kEnemy 0
            = (List.range 30).filterMap (fun i =>
                if pos.evalList.pieceListFw i ≠ 0
                then some (MakeIndex ((pos.evalList.pieceListFw
                  (PIECE_NUMBER_KING + 1) - f_king) % 64)
                  (pos.evalList.pieceListFw i)) else none) := rfl
        have hactA : AppendActiveIndices (do_move pos m) Side.kEnemy 0
            = (List.range 30).filterMap (fun i =>
                if Function.update pos.evalList.pieceListFw
                  (pos.evalList.piece_no_list_board (from_sq m))
                  ((kpp_board_index (pos.board (from_sq m))).fw + to_sq m) i ≠ 0
                then some (MakeIndex ((pos.evalList.pieceListFw
                  (PIECE_NUMBER_KING + 1) - f_king) % 64)
                  (Function.update pos.evalList.pieceListFw
                    (pos.evalList.piece_no_list_board (from_sq m))
                    ((kpp_board_index (pos.board (from_sq m))).fw + to_sq m) i))
                else none) := by
          simp only [AppendActiveIndices]
          rw [hGA1, hGA2]
          rfl
        unfold featureDeltaCorrect
        rw [hrem, hadd, hactB, hactA]
        exact hpack

  · cases side
    · have hn0t : pos.evalList.piece_no_list_board (from_sq m)
          ≠ PIECE_NUMBER_KING + 1 := by
        by_cases hk : piece_type (pos.board (from_sq m)) = KING
        · have hc : piece_color (pos.board (from_sq m)) ≠ 1 := by
            intro hceq
            exact hnk ⟨hk, by rw [hceq]; rfl⟩
          have hn0 := hking_f hk
          unfold PIECE_NUMBER_KING at hn0
          unfold PIECE_NUMBER_KING
          omega
        · have h30 := hnking_f hk
          unfold PIECE_NUMBER_KING at h30
          unfold PIECE_NUMBER_KING
          omega
      have hGA1 : (GetPieces (do_move pos m) Side.kFriend 1).1
          = Function.update pos.evalList.pieceListFb
              (pos.evalList.piece_no_list_board (from_sq m))
              ((kpp_board_index (pos.board (from_sq m))).fb + InvSq (to_sq m)) := hFb
      have hGA2 : (GetPieces (do_move pos m) Side.kFriend 1).2
          = (pos.evalList.pieceListFb (PIECE_NUMBER_KING + 1) - f_king) % 64
          := by
        show ((do_move pos m).evalList.pieceListFb (PIECE_NUMBER_KING + 1)
          - f_king) % 64 = _
        rw [hFb, Function.update_noteq (Ne.symm hn0t)]

      by_cases hk : piece_type (pos.board (from_sq m)) = KING
      · -- a non-associated king moves: the dirty entry is skipped and no
        -- feature of this perspective changes
        have hn0v := hking_f hk
        have hn0ge : PIECE_NUMBER_KING
            ≤ pos.evalList.piece_no_list_board (from_sq m) := by
          rw [hn0v]
          omega
        have hagree : ∀ i, i < 30 →
            Function.update pos.evalList.pieceListFb
              (pos.evalList.piece_no_list_board (from_sq m))
              ((kpp_board_index (pos.board (from_sq m))).fb + InvSq (to_sq m)) i
            = pos.evalList.pieceListFb i := by
          intro i hi
          apply Function.update_noteq
          unfold PIECE_NUMBER_KING at hn0ge
          omega
        have hrem : (AppendChangedIndices (do_move pos m) Side.kFriend 1).1
            = [] := by
          simp [AppendChangedIndices, hdnum, hdn0, hn0ge]
        have hadd : (AppendChangedIndices (do_move pos m) Side.kFriend 1).2
            = [] := by
          simp [AppendChangedIndices, hdnum, hdn0, hn0ge]
        have hinjB : ∀ a b, a < 30 → b < 30 → pos.evalList.pieceListFb a ≠ 0 →
            pos.evalList.pieceListFb a = pos.evalList.pieceListFb b → a = b := by
          intro a b ha hb hne heq
          exact live_inj_fb pos hwf' a b (by unfold PIECE_NUMBER_NB; omega)
            (by unfold PIECE_NUMBER_NB; omega) hne heq
        have hAA : AppendActiveIndices (do_move pos m) Side.kFriend 1
            = AppendActiveIndices pos Side.kFriend 1 := by
          simp only [AppendActiveIndices]
          rw [hGA1, hGA2]
          exact activeEq_of_agree _ _ _ hagree
        unfold featureDeltaCorrect
        rw [hrem, hadd, hAA]
        have hnodup : (AppendActiveIndices pos Side.kFriend 1).Nodup := by
          show ((List.range 30).filterMap (fun i =>
            if pos.evalList.pieceListFb i ≠ 0
            then some (MakeIndex ((pos.evalList.pieceListFb
              (PIECE_NUMBER_KING + 1) - f_king) % 64)
              (pos.evalList.pieceListFb i)) else none)).Nodup
          exact (package_one pos.evalList.pieceListFb pos.evalList.pieceListFb
            ((pos.evalList.pieceListFb (PIECE_NUMBER_KING + 1) - f_king) % 64)
            0 (by omega) (fun i hlt hi => rfl) hinjB hinjB).2.2.1
        exact ⟨by simp, by simp, hnodup, hnodup, by simp, by simp⟩
      · -- a non-king mover: one dirty slot below PIECE_NUMBER_KING
        have hn0lt30 := hnking_f hk
        have hn0lt30' : pos.evalList.piece_no_list_board (from_sq m) < 30 := by
          unfold PIECE_NUMBER_KING at hn0lt30
          omega
        have hnotle : ¬ (PIECE_NUMBER_KING
            ≤ pos.evalList.piece_no_list_board (from_sq m)) := by
          unfold PIECE_NUMBER_KING
          omega
        have hnzB : pos.evalList.pieceListFb
            (pos.evalList.piece_no_list_board (from_sq m)) ≠ 0 := by
          rw [hfb_f]
          have := kpp_fb_pos _ hvalid_f
          omega
        have hnzA : (kpp_board_index (pos.board (from_sq m))).fb + InvSq (to_sq m) ≠ 0 := by
          have := kpp_fb_pos _ hvalid_f
          omega
        have hinjB : ∀ a b, a < 30 → b < 30 → pos.evalList.pieceListFb a ≠ 0 →
            pos.evalList.pieceListFb a = pos.evalList.pieceListFb b → a = b := by
          intro a b ha hb hne heq
          exact live_inj_fb pos hwf' a b (by unfold PIECE_NUMBER_NB; omega)
            (by unfold PIECE_NUMBER_NB; omega) hne heq
        have hfresh : ∀ j, j < 30 →
            j ≠ pos.evalList.piece_no_list_board (from_sq m) →
            pos.evalList.pieceListFb j ≠ 0 →
            pos.evalList.pieceListFb j
              ≠ (kpp_board_index (pos.board (from_sq m))).fb + InvSq (to_sq m) := by
          intro j hj hjn0 hne
          exact fresh_fb pos hwf' (pos.board (from_sq m)) (to_sq m) hvalid_f htlt
            j hj (by rw [hmap_t]; unfold PIECE_NUMBER_NB; omega) hne
        have hinjA := live_inj_update1 pos.evalList.pieceListFb
          (pos.evalList.piece_no_list_board (from_sq m))
          ((kpp_board_index (pos.board (from_sq m))).fb + InvSq (to_sq m)) hinjB hfresh
        have hagree1 : ∀ i, i ≠ pos.evalList.piece_no_list_board (from_sq m) →
            Function.update pos.evalList.pieceListFb
              (pos.evalList.piece_no_list_board (from_sq m))
              ((kpp_board_index (pos.board (from_sq m))).fb + InvSq (to_sq m)) i
            = pos.evalList.pieceListFb i :=
          fun i hi => Function.update_noteq hi _ _
        have hpack := package_one pos.evalList.pieceListFb
          (Function.update pos.evalList.pieceListFb
            (pos.evalList.piece_no_list_board (from_sq m))
            ((kpp_board_index (pos.board (from_sq m))).fb + InvSq (to_sq m)))
          ((pos.evalList.pieceListFb (PIECE_NUMBER_KING + 1) - f_king) % 64)
          (pos.evalList.piece_no_list_board (from_sq m))
          hn0lt30' (fun i hlt hi => hagree1 i hi) hinjB hinjA
        rw [Function.update_same] at hpack
        rw [if_pos hnzB, if_pos hnzA] at hpack
        simp only [Option.toList_some] at hpack
        have hrem : (AppendChangedIndices (do_move pos m) Side.kFriend 1).1
            = [MakeIndex ((pos.evalList.pieceListFb
                (PIECE_NUMBER_KING + 1) - f_king) % 64)
                (pos.evalList.pieceListFb
                  (pos.evalList.piece_no_list_board (from_sq m)))] := by
          simp [AppendChangedIndices, hdnum, hdn0, hcp0o, hGA2, hnotle, hnzB,
            ExtBonaPiece.fromPersp, BONA_PIECE_ZERO, WHITE]
        have hadd : (AppendChangedIndices (do_move pos m) Side.kFriend 1).2
            = [MakeIndex ((pos.evalList.pieceListFb
                (PIECE_NUMBER_KING + 1) - f_king) % 64)
                ((kpp_board_index (pos.board (from_sq m))).fb + InvSq (to_sq m))] := by
          simp [AppendChangedIndices, hdnum, hdn0, hcp0n, hGA2, hnotle, hnzA,
            ExtBonaPiece.fromPersp, BONA_PIECE_ZERO, WHITE]
        have hactB : AppendActiveIndices pos Side.kFriend 1
            = (List.range 30).filterMap (fun i =>
                if pos.evalList.pieceListFb i ≠ 0
                then some (MakeIndex ((pos.evalList.pieceListFb
                  (PIECE_NUMBER_KING + 1) - f_king) % 64)
                  (pos.evalList.pieceListFb i)) else none) := rfl
        have hactA : AppendActiveIndices (do_move pos m) Side.kFriend 1
            = (List.range 30).filterMap (fun i =>
                if Function.update pos.evalList.pieceListFb
                  (pos.evalList.piece_no_list_board (from_sq m))
                  ((kpp_board_index (pos.board (from_sq m))).fb + InvSq (to_sq m)) i ≠ 0
                then some (MakeIndex ((pos.evalList.pieceListFb
                  (PIECE_NUMBER_KING + 1) - f_king) % 64)
                  (Function.update pos.evalList.pieceListFb
                    (pos.evalList.piece_no_list_board (from_sq m))
                    ((kpp_board_index (pos.board (from_sq m))).fb + InvSq (to_sq m)) i))
                else none) := by
          simp only [AppendActiveIndices]
          rw [hGA1, hGA2]
          rfl
        unfold featureDeltaCorrect
        rw [hrem, hadd, hactB, hactA]
        exact hpack

    · have hn0t : pos.evalList.piece_no_list_board (from_sq m)
          ≠ PIECE_NUMBER_KING + 0 := by
        by_cases hk : piece_type (pos.board (from_sq m)) = KING
        · have hc : piece_color (pos.board (from_sq m)) ≠ 0 := by
            intro hceq
            exact hnk ⟨hk, by rw [hceq]; rfl⟩
          have hn0 := hking_f hk
          unfold PIECE_NUMBER_KING at hn0
          unfold PIECE_NUMBER_KING
          omega
        · have h30 := hnking_f hk
          unfold PIECE_NUMBER_KING at h30
          unfold PIECE_NUMBER_KING
          omega
      have hGA1 : (GetPieces (do_move pos m) Side.kEnemy 1).1
          = Function.update pos.evalList.pieceListFb
              (pos.evalList.piece_no_list_board (from_sq m))
              ((kpp_board_index (pos.board (from_sq m))).fb + InvSq (to_sq m)) := hFb
      have hGA2 : (GetPieces (do_move pos m) Side.kEnemy 1).2
          = (pos.evalList.pieceListFb (PIECE_NUMBER_KING + 0) - f_king) % 64
          := by
        show ((do_move pos m).evalList.pieceListFb (PIECE_NUMBER_KING + 0)
          - f_king) % 64 = _
        rw [hFb, Function.update_noteq (Ne.symm hn0t)]

      by_cases hk : piece_type (pos.board (from_sq m)) = KING
      · -- a non-associated king moves: the dirty entry is skipped and no
        -- feature of this perspective changes
        have hn0v := hking_f hk
        have hn0ge : PIECE_NUMBER_KING
            ≤ pos.evalList.piece_no_list_board (from_sq m) := by
          rw [hn0v]
          omega
        have hagree : ∀ i, i < 30 →
            Function.update pos.evalList.pieceListFb
              (pos.evalList.piece_no_list_board (from_sq m))
              ((kpp_board_index (pos.board (from_sq m))).fb + InvSq (to_sq m)) i
            = pos.evalList.pieceListFb i := by
          intro i hi
          apply Function.update_noteq
          unfold PIECE_NUMBER_KING at hn0ge
          omega
        have hrem : (AppendChangedIndices (do_move pos m) Side.kEnemy 1).1
            = [] := by
          simp [AppendChangedIndices, hdnum, hdn0, hn0ge]
        have hadd : (AppendChangedIndices (do_move pos m) Side.kEnemy 1).2
            = [] := by
          simp [AppendChangedIndices, hdnum, hdn0, hn0ge]
        have hinjB : ∀ a b, a < 30 → b < 30 → pos.evalList.pieceListFb a ≠ 0 →
            pos.evalList.pieceListFb a = pos.evalList.pieceListFb b → a = b := by
          intro a b ha hb hne heq
          exact live_inj_fb pos hwf' a b (by unfold PIECE_NUMBER_NB; omega)
            (by unfold PIECE_NUMBER_NB; omega) hne heq
        have hAA : AppendActiveIndices (do_move pos m) Side.kEnemy 1
            = AppendActiveIndices pos Side.kEnemy 1 := by
          simp only [AppendActiveIndices]
          rw [hGA1, hGA2]
          exact activeEq_of_agree _ _ _ hagree
        unfold featureDeltaCorrect
        rw [hrem, hadd, hAA]
        have hnodup : (AppendActiveIndices pos Side.kEnemy 1).Nodup := by
          show ((List.range 30).filterMap (fun i =>
            if pos.evalList.pieceListFb i ≠ 0
            then some (MakeIndex ((pos.evalList.pieceListFb
              (PIECE_NUMBER_KING + 0) - f_king) % 64)
              (pos.evalList.pieceListFb i)) else none)).Nodup
          exact (package_one pos.evalList.pieceListFb pos.evalList.pieceListFb
            ((pos.evalList.pieceListFb (PIECE_NUMBER_KING + 0) - f_king) % 64)
            0 (by omega) (fun i hlt hi => rfl) hinjB hinjB).2.2.1
        exact ⟨by simp, by simp, hnodup, hnodup, by simp, by simp⟩
      · -- a non-king mover: one dirty slot below PIECE_NUMBER_KING
        have hn0lt30 := hnking_f hk
        have hn0lt30' : pos.evalList.piece_no_list_board (from_sq m) < 30 := by
          unfold PIECE_NUMBER_KING at hn0lt30
          omega
        have hnotle : ¬ (PIECE_NUMBER_KING
            ≤ pos.evalList.piece_no_list_board (from_sq m)) := by
          unfold PIECE_NUMBER_KING
          omega
        have hnzB : pos.evalList.pieceListFb
            (pos.evalList.piece_no_list_board (from_sq m)) ≠ 0 := by
          rw [hfb_f]
          have := kpp_fb_pos _ hvalid_f
          omega
        have hnzA : (kpp_board_index (pos.board (from_sq m))).fb + InvSq (to_sq m) ≠ 0 := by
          have := kpp_fb_pos _ hvalid_f
          omega
        have hinjB : ∀ a b, a < 30 → b < 30 → pos.evalList.pieceListFb a ≠ 0 →
            pos.evalList.pieceListFb a = pos.evalList.pieceListFb b → a = b := by
          intro a b ha hb hne heq
          exact live_inj_fb pos hwf' a b (by unfold PIECE_NUMBER_NB; omega)
            (by unfold PIECE_NUMBER_NB; omega) hne heq
        have hfresh : ∀ j, j < 30 →
            j ≠ pos.evalList.piece_no_list_board (from_sq m) →
            pos.evalList.pieceListFb j ≠ 0 →
            pos.evalList.pieceListFb j
              ≠ (kpp_board_index (pos.board (from_sq m))).fb + InvSq (to_sq m) := by
          intro j hj hjn0 hne
          exact fresh_fb pos hwf' (pos.board (from_sq m)) (to_sq m) hvalid_f htlt
            j hj (by rw [hmap_t]; unfold PIECE_NUMBER_NB; omega) hne
        have hinjA := live_inj_update1 pos.evalList.pieceListFb
          (pos.evalList.piece_no_list_board (from_sq m))
          ((kpp_board_index (pos.board (from_sq m))).fb + InvSq (to_sq m)) hinjB hfresh
        have hagree1 : ∀ i, i ≠ pos.evalList.piece_no_list_board (from_sq m) →
            Function.update pos.evalList.pieceListFb
              (pos.evalList.piece_no_list_board (from_sq m))
              ((kpp_board_index (pos.board (from_sq m))).fb + InvSq (to_sq m)) i
            = pos.evalList.pieceListFb i :=
          fun i hi => Function.update_noteq hi _ _
        have hpack := package_one pos.evalList.pieceListFb
          (Function.update pos.evalList.pieceListFb
            (pos.evalList.piece_no_list_board (from_sq m))
            ((kpp_board_index (pos.board (from_sq m))).fb + InvSq (to_sq m)))
          ((pos.evalList.pieceListFb (PIECE_NUMBER_KING + 0) - f_king) % 64)
          (pos.evalList.piece_no_list_board (from_sq m))
          hn0lt30' (fun i hlt hi => hagree1 i hi) hinjB hinjA
        rw [Function.update_same] at hpack
        rw [if_pos hnzB, if_pos hnzA] at hpack
        simp only [Option.toList_some] at hpack
        have hrem : (AppendChangedIndices (do_move pos m) Side.kEnemy 1).1
            = [MakeIndex ((pos.evalList.pieceListFb
                (PIECE_NUMBER_KING + 0) - f_king) % 64)
                (pos.evalList.pieceListFb
                  (pos.evalList.piece_no_list_board (from_sq m)))] := by
          simp [AppendChangedIndices, hdnum, hdn0, hcp0o, hGA2, hnotle, hnzB,
            ExtBonaPiece.fromPersp, BONA_PIECE_ZERO, WHITE]
        have hadd : (AppendChangedIndices (do_move pos m) Side.kEnemy 1).2
            = [MakeIndex ((pos.evalList.pieceListFb
                (PIECE_NUMBER_KING + 0) - f_king) % 64)
                ((kpp_board_index (pos.board (from_sq m))).fb + InvSq (to_sq m))] := by
          simp [AppendChangedIndices, hdnum, hdn0, hcp0n, hGA2, hnotle, hnzA,
            ExtBonaPiece.fromPersp, BONA_PIECE_ZERO, WHITE]
        have hactB : AppendActiveIndices pos Side.kEnemy 1
            = (List.range 30).filterMap (fun i =>
                if pos.evalList.pieceListFb i ≠ 0
                then some (MakeIndex ((pos.evalList.pieceListFb
                  (PIECE_NUMBER_KING + 0) - f_king) % 64)
                  (pos.evalList.pieceListFb i)) else none) := rfl
        have hactA : AppendActiveIndices (do_move pos m) Side.kEnemy 1
            = (List.range 30).filterMap (fun i =>
                if Function.update pos.evalList.pieceListFb
                  (pos.evalList.piece_no_list_board (from_sq m))
                  ((kpp_board_index (pos.board (from_sq m))).fb + InvSq (to_sq m)) i ≠ 0
                then some (MakeIndex ((pos.evalList.pieceListFb
                  (PIECE_NUMBER_KING + 0) - f_king) % 64)
                  (Function.update pos.evalList.pieceListFb
                    (pos.evalList.piece_no_list_board (from_sq m))
                    ((kpp_board_index (pos.board (from_sq m))).fb + InvSq (to_sq m)) i))
                else none) := by
          simp only [AppendActiveIndices]
          rw [hGA1, hGA2]
          rfl
        unfold featureDeltaCorrect
        rw [hrem, hadd, hactB, hactA]
        exact hpack

set_option maxHeartbeats 8000000 in
theorem C2_delta_normal_cap (pos : Position) (m : Nat) (side : Side)
    (persp : Nat) (h : MovePre pos m) (hp : persp ≤ 1)
    (hnk : ¬(piece_type (pos.board (from_sq m)) = KING ∧
      piece_color (pos.board (from_sq m)) = assocColor side persp))
    (hmt : move_type m = NORMAL) (hcap : pos.board (to_sq m) ≠ NO_PIECE) :
    featureDeltaCorrect pos m side persp := by
  obtain ⟨⟨hus, hft, hpc, hcol, hcount⟩, hwf, htarget, hpromo, hep, hcastle⟩ := h
  have hwf' : WFEval pos := hwf
  have hflt := from_sq_lt m
  have htlt := to_sq_lt m
  obtain ⟨hwsq, hwn⟩ := hwf
  obtain ⟨hvalid_f, hn0lt, hking_f, hnking_f, hfw_f, hfb_f⟩ :=
    (hwsq (from_sq m) hflt).2 hpc
  obtain ⟨hvalid_t, hn1lt, hking_t, hnking_t, hfw_t, hfb_t⟩ :=
    (hwsq (to_sq m) htlt).2 hcap
  have henemy := htarget (Or.inl hmt)
  rcases henemy with habs | ⟨hcolc, hkc, hcntc⟩
  · exact absurd habs hcap
  have hne01 : pos.evalList.piece_no_list_board (from_sq m)
      ≠ pos.evalList.piece_no_list_board (to_sq m) := by
    intro heq
    have hfweq : pos.evalList.pieceListFw
          (pos.evalList.piece_no_list_board (from_sq m))
        = pos.evalList.pieceListFw
          (pos.evalList.piece_no_list_board (to_sq m)) := by
      rw [heq]
    rw [hfw_f, hfw_t] at hfweq
    obtain ⟨hp, hs⟩ := kpp_fw_inj _ _ _ _ hvalid_f hvalid_t hflt htlt hfweq
    exact hft hs
  have hn1lt30 := hnking_t hkc
  have hn1lt30' : pos.evalList.piece_no_list_board (to_sq m) < 30 := by
    unfold PIECE_NUMBER_KING at hn1lt30
    omega
  have hFw : (do_move pos m).evalList.pieceListFw
      = Function.update
          (Function.update pos.evalList.pieceListFw
            (pos.evalList.piece_no_list_board (to_sq m)) 0)
          (pos.evalList.piece_no_list_board (from_sq m))
          ((kpp_board_index (pos.board (from_sq m))).fw + to_sq m) := by
    simp [do_move, hmt, hcap, Position.movePiece, Position.removePiece,
      Position.putPiece, do_castling_do, EvalList.piece_no_of_board,
      EvalList.put_piece, EvalList.set_piece_on_board, EvalList.setBoardNB,
      hft, BONA_PIECE_ZERO]
  have hFb : (do_move pos m).evalList.pieceListFb
      = Function.update
          (Function.update pos.evalList.pieceListFb
            (pos.evalList.piece_no_list_board (to_sq m)) 0)
          (pos.evalList.piece_no_list_board (from_sq m))
          ((kpp_board_index (pos.board (from_sq m))).fb + InvSq (to_sq m)) := by
    simp [do_move, hmt, hcap, Position.movePiece, Position.removePiece,
      Position.putPiece, do_castling_do, EvalList.piece_no_of_board,
      EvalList.put_piece, EvalList.set_piece_on_board, EvalList.setBoardNB,
      hft, BONA_PIECE_ZERO]
  have hdnum : (do_move pos m).st.dirtyPiece.dirty_num = 2 := by
    simp [do_move, hmt, hcap, do_castling_do, Position.movePiece,
      Position.removePiece, Position.putPiece]
  have hdn0 : (do_move pos m).st.dirtyPiece.no0
      = pos.evalList.piece_no_list_board (from_sq m) := by
    simp [do_move, hmt, hcap, do_castling_do, EvalList.piece_no_of_board,
      EvalList.put_piece, EvalList.set_piece_on_board, EvalList.setBoardNB,
      Position.movePiece, Position.removePiece, Position.putPiece, hft]
  have hdn1 : (do_move pos m).st.dirtyPiece.no1
      = pos.evalList.piece_no_list_board (to_sq m) := by
    simp [do_move, hmt, hcap, do_castling_do, EvalList.piece_no_of_board,
      EvalList.put_piece, EvalList.set_piece_on_board, EvalList.setBoardNB,
      Position.movePiece, Position.removePiece, Position.putPiece, hft]
  have hcp0o : (do_move pos m).st.dirtyPiece.cp0.old_piece
      = ⟨pos.evalList.pieceListFw (pos.evalList.piece_no_list_board (from_sq m)),
         pos.evalList.pieceListFb (pos.evalList.piece_no_list_board (from_sq m))⟩
      := by
    simp [do_move, hmt, hcap, do_castling_do, EvalList.piece_no_of_board,
      EvalList.bona_piece, EvalList.put_piece, EvalList.set_piece_on_board,
      EvalList.setBoardNB, Position.movePiece, Position.removePiece,
      Position.putPiece, hft, Function.update_apply, hne01]
  have hcp0n : (do_move pos m).st.dirtyPiece.cp0.new_piece
      = ⟨(kpp_board_index (pos.board (from_sq m))).fw + to_sq m,
         (kpp_board_index (pos.board (from_sq m))).fb + InvSq (to_sq m)⟩ := by
    simp [do_move, hmt, hcap, do_castling_do, EvalList.piece_no_of_board,
      EvalList.bona_piece, EvalList.put_piece, EvalList.set_piece_on_board,
      EvalList.setBoardNB, Position.movePiece, Position.removePiece,
      Position.putPiece, hft, Function.update_apply]
  have hcp1o : (do_move pos m).st.dirtyPiece.cp1.old_piece
      = ⟨pos.evalList.pieceListFw (pos.evalList.piece_no_list_board (to_sq m)),
         pos.evalList.pieceListFb (pos.evalList.piece_no_list_board (to_sq m))⟩
      := by
    simp [do_move, hmt, hcap, do_castling_do, EvalList.piece_no_of_board,
      EvalList.bona_piece, EvalList.put_piece, EvalList.set_piece_on_board,
      EvalList.setBoardNB, Position.movePiece, Position.removePiece,
      Position.putPiece, hft, Function.update_apply]
  have hcp1n : (do_move pos m).st.dirtyPiece.cp1.new_piece
      = ⟨(0 : Nat), (0 : Nat)⟩ := by
    simp [do_move, hmt, hcap, do_castling_do, EvalList.piece_no_of_board,
      EvalList.bona_piece, EvalList.put_piece, EvalList.set_piece_on_board,
      EvalList.setBoardNB, Position.movePiece, Position.removePiece,
      Position.putPiece, hft, Function.update_apply, BONA_PIECE_ZERO]
  rcases Nat.le_one_iff_eq_zero_or_eq_one.1 hp with rfl | rfl
  · cases side
    · have hn0t : pos.evalList.piece_no_list_board (from_sq m)
          ≠ PIECE_NUMBER_KING + 0 := by
        by_cases hk : piece_type (pos.board (from_sq m)) = KING
        · have hc : piece_color (pos.board (from_sq m)) ≠ 0 := by
            intro hceq
            exact hnk ⟨hk, by rw [hceq]; rfl⟩
          have hn0 := hking_f hk
          unfold PIECE_NUMBER_KING at hn0
          unfold PIECE_NUMBER_KING
          omega
        · have h30 := hnking_f hk
          unfold PIECE_NUMBER_KING at h30
          unfold PIECE_NUMBER_KING
          omega
      have hn1t : pos.evalList.piece_no_list_board (to_sq m)
          ≠ PIECE_NUMBER_KING + 0 := by
        unfold PIECE_NUMBER_KING
        omega
      have hnotle1 : ¬ (PIECE_NUMBER_KING
          ≤ pos.evalList.piece_no_list_board (to_sq m)) := by
        unfold PIECE_NUMBER_KING
        omega
      have hGA1 : (GetPieces (do_move pos m) Side.kFriend 0).1
          = Function.update
              (Function.update pos.evalList.pieceListFw
                (pos.evalList.piece_no_list_board (to_sq m)) 0)
              (pos.evalList.piece_no_list_board (from_sq m))
              ((kpp_board_index (pos.board (from_sq m))).fw + to_sq m) := hFw
      have hGA2 : (GetPieces (do_move pos m) Side.kFriend 0).2
          = (pos.evalList.pieceListFw (PIECE_NUMBER_KING + 0) - f_king) % 64 := by
        show ((do_move pos m).evalList.pieceListFw (PIECE_NUMBER_KING + 0)
          - f_king) % 64 = _
        rw [hFw, Function.update_noteq (Ne.symm hn0t),
          Function.update_noteq (Ne.symm hn1t)]
      have hinjB : ∀ a b, a < 30 → b < 30 → pos.evalList.pieceListFw a ≠ 0 →
          pos.evalList.pieceListFw a = pos.evalList.pieceListFw b → a = b := by
        intro a b ha hb hne heq
        exact live_inj_fw pos hwf' a b (by unfold PIECE_NUMBER_NB; omega)
          (by unfold PIECE_NUMBER_NB; omega) hne heq
      have hnzB1 : pos.evalList.pieceListFw
          (pos.evalList.piece_no_list_board (to_sq m)) ≠ 0 := by
        rw [hfw_t]
        have := kpp_fw_pos _ hvalid_t
        omega
      by_cases hk : piece_type (pos.board (from_sq m)) = KING
      · have hn0v := hking_f hk
        have hn0ge : PIECE_NUMBER_KING
            ≤ pos.evalList.piece_no_list_board (from_sq m) := by
          rw [hn0v]
          omega
        have hn0ge' : 30 ≤ pos.evalList.piece_no_list_board (from_sq m) := by
          unfold PIECE_NUMBER_KING at hn0ge
          omega
        have hagree : ∀ i, i < 30 →
            i ≠ pos.evalList.piece_no_list_board (to_sq m) →
            Function.update
              (Function.update pos.evalList.pieceListFw
                (pos.evalList.piece_no_list_board (to_sq m)) 0)
              (pos.evalList.piece_no_list_board (from_sq m))
              ((kpp_board_index (pos.board (from_sq m))).fw + to_sq m) i
            = pos.evalList.pieceListFw i := by
          intro i hi hin1
          rw [Function.update_noteq (by omega), Function.update_noteq hin1]
        have hinjA : ∀ a b, a < 30 → b < 30 →
            Function.update
              (Function.update pos.evalList.pieceListFw
                (pos.evalList.piece_no_list_board (to_sq m)) 0)
              (pos.evalList.piece_no_list_board (from_sq m))
              ((kpp_board_index (pos.board (from_sq m))).fw + to_sq m) a ≠ 0 →
            Function.update
              (Function.update pos.evalList.pieceListFw
                (pos.evalList.piece_no_list_board (to_sq m)) 0)
              (pos.evalList.piece_no_list_board (from_sq m))
              ((kpp_board_index (pos.board (from_sq m))).fw + to_sq m) a
            = Function.update
              (Function.update pos.evalList.pieceListFw
                (pos.evalList.piece_no_list_board (to_sq m)) 0)
              (pos.evalList.piece_no_list_board (from_sq m))
              ((kpp_board_index (pos.board (from_sq m))).fw + to_sq m) b
            → a = b := by
          intro a b ha hb hlive heq
          rw [Function.update_noteq (by omega : a ≠
            pos.evalList.piece_no_list_board (from_sq m))] at hlive heq
          rw [Function.update_noteq (by omega : b ≠
            pos.evalList.piece_no_list_board (from_sq m))] at heq
          rcases eq_or_ne a (pos.evalList.piece_no_list_board (to_sq m)) with
            rfl | han1
          · rw [Function.update_same] at hlive
            exact absurd rfl hlive
          · rw [Function.update_noteq han1] at hlive heq
            rcases eq_or_ne b (pos.evalList.piece_no_list_board (to_sq m)) with
              rfl | hbn1
            · rw [Function.update_same] at heq
              exact absurd heq hlive
            · rw [Function.update_noteq hbn1] at heq
              exact hinjB a b ha hb hlive heq
        have hpack := package_one pos.evalList.pieceListFw
          (Function.update
            (Function.update pos.evalList.pieceListFw
              (pos.evalList.piece_no_list_board (to_sq m)) 0)
            (pos.evalList.piece_no_list_board (from_sq m))
            ((kpp_board_index (pos.board (from_sq m))).fw + to_sq m))
          ((pos.evalList.pieceListFw (PIECE_NUMBER_KING + 0) - f_king) % 64)
          (pos.evalList.piece_no_list_board (to_sq m))
          hn1lt30' hagree hinjB hinjA
        rw [Function.update_noteq (Ne.symm hne01), Function.update_same] at hpack
        rw [if_pos hnzB1, if_neg (by omega : ¬ ((0:Nat) ≠ 0))] at hpack
        simp only [Option.toList_some, Option.toList_none] at hpack
        have hrem : (AppendChangedIndices (do_move pos m) Side.kFriend 0).1
            = [MakeIndex ((pos.evalList.pieceListFw
                (PIECE_NUMBER_KING + 0) - f_king) % 64)
                (pos.evalList.pieceListFw
                  (pos.evalList.piece_no_list_board (to_sq m)))] := by
          simp [AppendChangedIndices, hdnum, hdn0, hdn1, hcp1o, hGA2, hn0ge,
            hnotle1, hnzB1, ExtBonaPiece.fromPersp, BONA_PIECE_ZERO, WHITE]
        have hadd : (AppendChangedIndices (do_move pos m) Side.kFriend 0).2
            = [] := by
          simp [AppendChangedIndices, hdnum, hdn0, hdn1, hcp1n, hGA2, hn0ge,
            hnotle1, ExtBonaPiece.fromPersp, BONA_PIECE_ZERO, WHITE]
        have hactB : AppendActiveIndices pos Side.kFriend 0
            = (List.range 30).filterMap (fun i =>
                if pos.evalList.pieceListFw i ≠ 0
                then some (MakeIndex ((pos.evalList.pieceListFw
                  (PIECE_NUMBER_KING + 0) - f_king) % 64)
                  (pos.evalList.pieceListFw i)) else none) := rfl
        have hactA : AppendActiveIndices (do_move pos m) Side.kFriend 0
            = (List.range 30).filterMap (fun i =>
                if Function.update
                  (Function.update pos.evalList.pieceListFw
                    (pos.evalList.piece_no_list_board (to_sq m)) 0)
                  (pos.evalList.piece_no_list_board (from_sq m))
                  ((kpp_board_index (pos.board (from_sq m))).fw + to_sq m) i ≠ 0
                then some (MakeIndex ((pos.evalList.pieceListFw
                  (PIECE_NUMBER_KING + 0) - f_king) % 64)
                  (Function.update
                    (Function.update pos.evalList.pieceListFw
                      (pos.evalList.piece_no_list_board (to_sq m)) 0)
                    (pos.evalList.piece_no_list_board (from_sq m))
                    ((kpp_board_index (pos.board (from_sq m))).fw + to_sq m) i))
                else none) := by
          simp only [AppendActiveIndices]
          rw [hGA1, hGA2]
          rfl
        unfold featureDeltaCorrect
        rw [hrem, hadd, hactB, hactA]
        exact hpack
      · have hn0lt30 := hnking_f hk
        have hn0lt30' : pos.evalList.piece_no_list_board (from_sq m) < 30 := by
          unfold PIECE_NUMBER_KING at hn0lt30
          omega
        have hnotle0 : ¬ (PIECE_NUMBER_KING
            ≤ pos.evalList.piece_no_list_board (from_sq m)) := by
          unfold PIECE_NUMBER_KING
          omega
        have hnzB0 : pos.evalList.pieceListFw
            (pos.evalList.piece_no_list_board (from_sq m)) ≠ 0 := by
          rw [hfw_f]
          have := kpp_fw_pos _ hvalid_f
          omega
        have hnzA : (kpp_board_index (pos.board (from_sq m))).fw + to_sq m ≠ 0 := by
          have := kpp_fw_pos _ hvalid_f
          omega
        have hfresh : ∀ j, j < 30 →
            j ≠ pos.evalList.piece_no_list_board (from_sq m) →
            j ≠ pos.evalList.piece_no_list_board (to_sq m) →
            pos.evalList.pieceListFw j ≠ 0 →
            pos.evalList.pieceListFw j
              ≠ (kpp_board_index (pos.board (from_sq m))).fw + to_sq m := by
          intro j hj hjn0 hjn1 hne
          exact fresh_fw pos hwf' (pos.board (from_sq m)) (to_sq m) hvalid_f htlt
            j hj hjn1 hne
        have hinjA := live_inj_update2 pos.evalList.pieceListFw
          (pos.evalList.piece_no_list_board (from_sq m))
          (pos.evalList.piece_no_list_board (to_sq m))
          ((kpp_board_index (pos.board (from_sq m))).fw + to_sq m)
          hne01 hinjB hfresh
        have hagree : ∀ i, i < 30 →
            i ≠ pos.evalList.piece_no_list_board (from_sq m) →
            i ≠ pos.evalList.piece_no_list_board (to_sq m) →
            Function.update
              (Function.update pos.evalList.pieceListFw
                (pos.evalList.piece_no_list_board (to_sq m)) 0)
              (pos.evalList.piece_no_list_board (from_sq m))
              ((kpp_board_index (pos.board (from_sq m))).fw + to_sq m) i
            = pos.evalList.pieceListFw i := by
          intro i hi hin0 hin1
          rw [Function.update_noteq hin0, Function.update_noteq hin1]
        have hpack := package_two pos.evalList.pieceListFw
          (Function.update
            (Function.update pos.evalList.pieceListFw
              (pos.evalList.piece_no_list_board (to_sq m)) 0)
            (pos.evalList.piece_no_list_board (from_sq m))
            ((kpp_board_index (pos.board (from_sq m))).fw + to_sq m))
          ((pos.evalList.pieceListFw (PIECE_NUMBER_KING + 0) - f_king) % 64)
          (pos.evalList.piece_no_list_board (from_sq m))
          (pos.evalList.piece_no_list_board (to_sq m))
          hn0lt30' hn1lt30' hne01 hagree hinjB hinjA
        rw [Function.update_same] at hpack
        rw [Function.update_noteq (Ne.symm hne01), Function.update_same] at hpack
        rw [if_pos hnzB0, if_pos hnzB1, if_pos hnzA,
          if_neg (by omega : ¬ ((0:Nat) ≠ 0))] at hpack
        simp only [Option.toList_some, Option.toList_none, List.singleton_append,
          List.append_nil] at hpack
        have hrem : (AppendChangedIndices (do_move pos m) Side.kFriend 0).1
            = [MakeIndex ((pos.evalList.pieceListFw
                (PIECE_NUMBER_KING + 0) - f_king) % 64)
                (pos.evalList.pieceListFw
                  (pos.evalList.piece_no_list_board (from_sq m))),
               MakeIndex ((pos.evalList.pieceListFw
                (PIECE_NUMBER_KING + 0) - f_king) % 64)
                (pos.evalList.pieceListFw
                  (pos.evalList.piece_no_list_board (to_sq m)))] := by
          simp [AppendChangedIndices, hdnum, hdn0, hdn1, hcp0o, hcp1o, hGA2,
            hnotle0, hnotle1, hnzB0, hnzB1, ExtBonaPiece.fromPersp,
            BONA_PIECE_ZERO, WHITE]
        have hadd : (AppendChangedIndices (do_move pos m) Side.kFriend 0).2
            = [MakeIndex ((pos.evalList.pieceListFw
                (PIECE_NUMBER_KING + 0) - f_king) % 64)
                ((kpp_board_index (pos.board (from_sq m))).fw + to_sq m)] := by
          simp [AppendChangedIndices, hdnum, hdn0, hdn1, hcp0n, hcp1n, hGA2,
            hnotle0, hnotle1, hnzA, ExtBonaPiece.fromPersp, BONA_PIECE_ZERO,
            WHITE]
        have hactB : AppendActiveIndices pos Side.kFriend 0
            = (List.range 30).filterMap (fun i =>
                if pos.evalList.pieceListFw i ≠ 0
                then some (MakeIndex ((pos.evalList.pieceListFw
                  (PIECE_NUMBER_KING + 0) - f_king) % 64)
                  (pos.evalList.pieceListFw i)) else none) := rfl
        have hactA : AppendActiveIndices (do_move pos m) Side.kFriend 0
            = (List.range 30).filterMap (fun i =>
                if Function.update
                  (Function.update pos.evalList.pieceListFw
                    (pos.evalList.piece_no_list_board (to_sq m)) 0)
                  (pos.evalList.piece_no_list_board (from_sq m))
                  ((kpp_board_index (pos.board (from_sq m))).fw + to_sq m) i ≠ 0
                then some (MakeIndex ((pos.evalList.pieceListFw
                  (PIECE_NUMBER_KING + 0) - f_king) % 64)
                  (Function.update
                    (Function.update pos.evalList.pieceListFw
                      (pos.evalList.piece_no_list_board (to_sq m)) 0)
                    (pos.evalList.piece_no_list_board (from_sq m))
                    ((kpp_board_index (pos.board (from_sq m))).fw + to_sq m) i))
                else none) := by
          simp only [AppendActiveIndices]
          rw [hGA1, hGA2]
          rfl
        unfold featureDeltaCorrect
        rw [hrem, hadd, hactB, hactA]
        exact hpack

    · have hn0t : pos.evalList.piece_no_list_board (from_sq m)
          ≠ PIECE_NUMBER_KING + 1 := by
        by_cases hk : piece_type (pos.board (from_sq m)) = KING
        · have hc : piece_color (pos.board (from_sq m)) ≠ 1 := by
            intro hceq
            exact hnk ⟨hk, by rw [hceq]; rfl⟩
          have hn0 := hking_f hk
          unfold PIECE_NUMBER_KING at hn0
          unfold PIECE_NUMBER_KING
          omega
        · have h30 := hnking_f hk
          unfold PIECE_NUMBER_KING at h30
          unfold PIECE_NUMBER_KING
          omega
      have hn1t : pos.evalList.piece_no_list_board (to_sq m)
          ≠ PIECE_NUMBER_KING + 1 := by
        unfold PIECE_NUMBER_KING
        omega
      have hnotle1 : ¬ (PIECE_NUMBER_KING
          ≤ pos.evalList.piece_no_list_board (to_sq m)) := by
        unfold PIECE_NUMBER_KING
        omega
      have hGA1 : (GetPieces (do_move pos m) Side.kEnemy 0).1
          = Function.update
              (Function.update pos.evalList.pieceListFw
                (pos.evalList.piece_no_list_board (to_sq m)) 0)
              (pos.evalList.piece_no_list_board (from_sq m))
              ((kpp_board_index (pos.board (from_sq m))).fw + to_sq m) := hFw
      have hGA2 : (GetPieces (do_move pos m) Side.kEnemy 0).2
          = (pos.evalList.pieceListFw (PIECE_NUMBER_KING + 1) - f_king) % 64 := by
        show ((do_move pos m).evalList.pieceListFw (PIECE_NUMBER_KING + 1)
          - f_king) % 64 = _
        rw [hFw, Function.update_noteq (Ne.symm hn0t),
          Function.update_noteq (Ne.symm hn1t)]
      have hinjB : ∀ a b, a < 30 → b < 30 → pos.evalList.pieceListFw a ≠ 0 →
          pos.evalList.pieceListFw a = pos.evalList.pieceListFw b → a = b := by
        intro a b ha hb hne heq
        exact live_inj_fw pos hwf' a b (by unfold PIECE_NUMBER_NB; omega)
          (by unfold PIECE_NUMBER_NB; omega) hne heq
      have hnzB1 : pos.evalList.pieceListFw
          (pos.evalList.piece_no_list_board (to_sq m)) ≠ 0 := by
        rw [hfw_t]
        have := kpp_fw_pos _ hvalid_t
        omega
      by_cases hk : piece_type (pos.board (from_sq m)) = KING
      · have hn0v := hking_f hk
        have hn0ge : PIECE_NUMBER_KING
            ≤ pos.evalList.piece_no_list_board (from_sq m) := by
          rw [hn0v]
          omega
        have hn0ge' : 30 ≤ pos.evalList.piece_no_list_board (from_sq m) := by
          unfold PIECE_NUMBER_KING at hn0ge
          omega
        have hagree : ∀ i, i < 30 →
            i ≠ pos.evalList.piece_no_list_board (to_sq m) →
            Function.update
              (Function.update pos.evalList.pieceListFw
                (pos.evalList.piece_no_list_board (to_sq m)) 0)
              (pos.evalList.piece_no_list_board (from_sq m))
              ((kpp_board_index (pos.board (from_sq m))).fw + to_sq m) i
            = pos.evalList.pieceListFw i := by
          intro i hi hin1
          rw [Function.update_noteq (by omega), Function.update_noteq hin1]
        have hinjA : ∀ a b, a < 30 → b < 30 →
            Function.update
              (Function.update pos.evalList.pieceListFw
                (pos.evalList.piece_no_list_board (to_sq m)) 0)
              (pos.evalList.piece_no_list_board (from_sq m))
              ((kpp_board_index (pos.board (from_sq m))).fw + to_sq m) a ≠ 0 →
            Function.update
              (Function.update pos.evalList.pieceListFw
                (pos.evalList.piece_no_list_board (to_sq m)) 0)
              (pos.evalList.piece_no_list_board (from_sq m))
              ((kpp_board_index (pos.board (from_sq m))).fw + to_sq m) a
            = Function.update
              (Function.update pos.evalList.pieceListFw
                (pos.evalList.piece_no_list_board (to_sq m)) 0)
              (pos.evalList.piece_no_list_board (from_sq m))
              ((kpp_board_index (pos.board (from_sq m))).fw + to_sq m) b
            → a = b := by
          intro a b ha hb hlive heq
          rw [Function.update_noteq (by omega : a ≠
            pos.evalList.piece_no_list_board (from_sq m))] at hlive heq
          rw [Function.update_noteq (by omega : b ≠
            pos.evalList.piece_no_list_board (from_sq m))] at heq
          rcases eq_or_ne a (pos.evalList.piece_no_list_board (to_sq m)) with
            rfl | han1
          · rw [Function.update_same] at hlive
            exact absurd rfl hlive
          · rw [Function.update_noteq han1] at hlive heq
            rcases eq_or_ne b (pos.evalList.piece_no_list_board (to_sq m)) with
              rfl | hbn1
            · rw [Function.update_same] at heq
              exact absurd heq hlive
            · rw [Function.update_noteq hbn1] at heq
              exact hinjB a b ha hb hlive heq
        have hpack := package_one pos.evalList.pieceListFw
          (Function.update
            (Function.update pos.evalList.pieceListFw
              (pos.evalList.piece_no_list_board (to_sq m)) 0)
            (pos.evalList.piece_no_list_board (from_sq m))
            ((kpp_board_index (pos.board (from_sq m))).fw + to_sq m))
          ((pos.evalList.pieceListFw (PIECE_NUMBER_KING + 1) - f_king) % 64)
          (pos.evalList.piece_no_list_board (to_sq m))
          hn1lt30' hagree hinjB hinjA
        rw [Function.update_noteq (Ne.symm hne01), Function.update_same] at hpack
        rw [if_pos hnzB1, if_neg (by omega : ¬ ((0:Nat) ≠ 0))] at hpack
        simp only [Option.toList_some, Option.toList_none] at hpack
        have hrem : (AppendChangedIndices (do_move pos m) Side.kEnemy 0).1
            = [MakeIndex ((pos.evalList.pieceListFw
                (PIECE_NUMBER_KING + 1) - f_king) % 64)
                (pos.evalList.pieceListFw
                  (pos.evalList.piece_no_list_board (to_sq m)))] := by
          simp [AppendChangedIndices, hdnum, hdn0, hdn1, hcp1o, hGA2, hn0ge,
            hnotle1, hnzB1, ExtBonaPiece.fromPersp, BONA_PIECE_ZERO, WHITE]
        have hadd : (AppendChangedIndices (do_move pos m) Side.kEnemy 0).2
            = [] := by
          simp [AppendChangedIndices, hdnum, hdn0, hdn1, hcp1n, hGA2, hn0ge,
            hnotle1, ExtBonaPiece.fromPersp, BONA_PIECE_ZERO, WHITE]
        have hactB : AppendActiveIndices pos Side.kEnemy 0
            = (List.range 30).filterMap (fun i =>
                if pos.evalList.pieceListFw i ≠ 0
                then some (MakeIndex ((pos.evalList.pieceListFw
                  (PIECE_NUMBER_KING + 1) - f_king) % 64)
                  (pos.evalList.pieceListFw i)) else none) := rfl
        have hactA : AppendActiveIndices (do_move pos m) Side.kEnemy 0
            = (List.range 30).filterMap (fun i =>
                if Function.update
                  (Function.update pos.evalList.pieceListFw
                    (pos.evalList.piece_no_list_board (to_sq m)) 0)
                  (pos.evalList.piece_no_list_board (from_sq m))
                  ((kpp_board_index (pos.board (from_sq m))).fw + to_sq m) i ≠ 0
                then some (MakeIndex ((pos.evalList.pieceListFw
                  (PIECE_NUMBER_KING + 1) - f_king) % 64)
                  (Function.update
                    (Function.update pos.evalList.pieceListFw
                      (pos.evalList.piece_no_list_board (to_sq m)) 0)
                    (pos.evalList.piece_no_list_board (from_sq m))
                    ((kpp_board_index (pos.board (from_sq m))).fw + to_sq m) i))
                else none) := by
          simp only [AppendActiveIndices]
          rw [hGA1, hGA2]
          rfl
        unfold featureDeltaCorrect
        rw [hrem, hadd, hactB, hactA]
        exact hpack
      · have hn0lt30 := hnking_f hk
        have hn0lt30' : pos.evalList.piece_no_list_board (from_sq m) < 30 := by
          unfold PIECE_NUMBER_KING at hn0lt30
          omega
        have hnotle0 : ¬ (PIECE_NUMBER_KING
            ≤ pos.evalList.piece_no_list_board (from_sq m)) := by
          unfold PIECE_NUMBER_KING
          omega
        have hnzB0 : pos.evalList.pieceListFw
            (pos.evalList.piece_no_list_board (from_sq m)) ≠ 0 := by
          rw [hfw_f]
          have := kpp_fw_pos _ hvalid_f
          omega
        have hnzA : (kpp_board_index (pos.board (from_sq m))).fw + to_sq m ≠ 0 := by
          have := kpp_fw_pos _ hvalid_f
          omega
        have hfresh : ∀ j, j < 30 →
            j ≠ pos.evalList.piece_no_list_board (from_sq m) →
            j ≠ pos.evalList.piece_no_list_board (to_sq m) →
            pos.evalList.pieceListFw j ≠ 0 →
            pos.evalList.pieceListFw j
              ≠ (kpp_board_index (pos.board (from_sq m))).fw + to_sq m := by
          intro j hj hjn0 hjn1 hne
          exact fresh_fw pos hwf' (pos.board (from_sq m)) (to_sq m) hvalid_f htlt
            j hj hjn1 hne
        have hinjA := live_inj_update2 pos.evalList.pieceListFw
          (pos.evalList.piece_no_list_board (from_sq m))
          (pos.evalList.piece_no_list_board (to_sq m))
          ((kpp_board_index (pos.board (from_sq m))).fw + to_sq m)
          hne01 hinjB hfresh
        have hagree : ∀ i, i < 30 →
            i ≠ pos.evalList.piece_no_list_board (from_sq m) →
            i ≠ pos.evalList.piece_no_list_board (to_sq m) →
            Function.update
              (Function.update pos.evalList.pieceListFw
                (pos.evalList.piece_no_list_board (to_sq m)) 0)
              (pos.evalList.piece_no_list_board (from_sq m))
              ((kpp_board_index (pos.board (from_sq m))).fw + to_sq m) i
            = pos.evalList.pieceListFw i := by
          intro i hi hin0 hin1
          rw [Function.update_noteq hin0, Function.update_noteq hin1]
        have hpack := package_two pos.evalList.pieceListFw
          (Function.update
            (Function.update pos.evalList.pieceListFw
              (pos.evalList.piece_no_list_board (to_sq m)) 0)
            (pos.evalList.piece_no_list_board (from_sq m))
            ((kpp_board_index (pos.board (from_sq m))).fw + to_sq m))
          ((pos.evalList.pieceListFw (PIECE_NUMBER_KING + 1) - f_king) % 64)
          (pos.evalList.piece_no_list_board (from_sq m))
          (pos.evalList.piece_no_list_board (to_sq m))
          hn0lt30' hn1lt30' hne01 hagree hinjB hinjA
        rw [Function.update_same] at hpack
        rw [Function.update_noteq (Ne.symm hne01), Function.update_same] at hpack
        rw [if_pos hnzB0, if_pos hnzB1, if_pos hnzA,
          if_neg (by omega : ¬ ((0:Nat) ≠ 0))] at hpack
        simp only [Option.toList_some, Option.toList_none, List.singleton_append,
          List.append_nil] at hpack
        have hrem : (AppendChangedIndices (do_move pos m) Side.kEnemy 0).1
            = [MakeIndex ((pos.evalList.pieceListFw
                (PIECE_NUMBER_KING + 1) - f_king) % 64)
                (pos.evalList.pieceListFw
                  (pos.evalList.piece_no_list_board (from_sq m))),
               MakeIndex ((pos.evalList.pieceListFw
                (PIECE_NUMBER_KING + 1) - f_king) % 64)
                (pos.evalList.pieceListFw
                  (pos.evalList.piece_no_list_board (to_sq m)))] := by
          simp [AppendChangedIndices, hdnum, hdn0, hdn1, hcp0o, hcp1o, hGA2,
            hnotle0, hnotle1, hnzB0, hnzB1, ExtBonaPiece.fromPersp,
            BONA_PIECE_ZERO, WHITE]
        have hadd : (AppendChangedIndices (do_move pos m) Side.kEnemy 0).2
            = [MakeIndex ((pos.evalList.pieceListFw
                (PIECE_NUMBER_KING + 1) - f_king) % 64)
                ((kpp_board_index (pos.board (from_sq m))).fw + to_sq m)] := by
          simp [AppendChangedIndices, hdnum, hdn0, hdn1, hcp0n, hcp1n, hGA2,
            hnotle0, hnotle1, hnzA, ExtBonaPiece.fromPersp, BONA_PIECE_ZERO,
            WHITE]
        have hactB : AppendActiveIndices pos Side.kEnemy 0
            = (List.range 30).filterMap (fun i =>
                if pos.evalList.pieceListFw i ≠ 0
                then some (MakeIndex ((pos.evalList.pieceListFw
                  (PIECE_NUMBER_KING + 1) - f_king) % 64)
                  (pos.evalList.pieceListFw i)) else none) := rfl
        have hactA : AppendActiveIndices (do_move pos m) Side.kEnemy 0
            = (List.range 30).filterMap (fun i =>
                if Function.update
                  (Function.update pos.evalList.pieceListFw
                    (pos.evalList.piece_no_list_board (to_sq m)) 0)
                  (pos.evalList.piece_no_list_board (from_sq m))
                  ((kpp_board_index (pos.board (from_sq m))).fw + to_sq m) i ≠ 0
                then some (MakeIndex ((pos.evalList.pieceListFw
                  (PIECE_NUMBER_KING + 1) - f_king) % 64)
                  (Function.update
                    (Function.update pos.evalList.pieceListFw
                      (pos.evalList.piece_no_list_board (to_sq m)) 0)
                    (pos.evalList.piece_no_list_board (from_sq m))
                    ((kpp_board_index (pos.board (from_sq m))).fw + to_sq m) i))
                else none) := by
          simp only [AppendActiveIndices]
          rw [hGA1, hGA2]
          rfl
        unfold featureDeltaCorrect
        rw [hrem, hadd, hactB, hactA]
        exact hpack

  · cases side
    · have hn0t : pos.evalList.piece_no_list_board (from_sq m)
          ≠ PIECE_NUMBER_KING + 1 := by
        by_cases hk : piece_type (pos.board (from_sq m)) = KING
        · have hc : piece_color (pos.board (from_sq m)) ≠ 1 := by
            intro hceq
            exact hnk ⟨hk, by rw [hceq]; rfl⟩
          have hn0 := hking_f hk
          unfold PIECE_NUMBER_KING at hn0
          unfold PIECE_NUMBER_KING
          omega
        · have h30 := hnking_f hk
          unfold PIECE_NUMBER_KING at h30
          unfold PIECE_NUMBER_KING
          omega
      have hn1t : pos.evalList.piece_no_list_board (to_sq m)
          ≠ PIECE_NUMBER_KING + 1 := by
        unfold PIECE_NUMBER_KING
        omega
      have hnotle1 : ¬ (PIECE_NUMBER_KING
          ≤ pos.evalList.piece_no_list_board (to_sq m)) := by
        unfold PIECE_NUMBER_KING
        omega
      have hGA1 : (GetPieces (do_move pos m) Side.kFriend 1).1
          = Function.update
              (Function.update pos.evalList.pieceListFb
                (pos.evalList.piece_no_list_board (to_sq m)) 0)
              (pos.evalList.piece_no_list_board (from_sq m))
              ((kpp_board_index (pos.board (from_sq m))).fb + InvSq (to_sq m)) := hFb
      have hGA2 : (GetPieces (do_move pos m) Side.kFriend 1).2
          = (pos.evalList.pieceListFb (PIECE_NUMBER_KING + 1) - f_king) % 64 := by
        show ((do_move pos m).evalList.pieceListFb (PIECE_NUMBER_KING + 1)
          - f_king) % 64 = _
        rw [hFb, Function.update_noteq (Ne.symm hn0t),
          Function.update_noteq (Ne.symm hn1t)]
      have hinjB : ∀ a b, a < 30 → b < 30 → pos.evalList.pieceListFb a ≠ 0 →
          pos.evalList.pieceListFb a = pos.evalList.pieceListFb b → a = b := by
        intro a b ha hb hne heq
        exact live_inj_fb pos hwf' a b (by unfold PIECE_NUMBER_NB; omega)
          (by unfold PIECE_NUMBER_NB; omega) hne heq
      have hnzB1 : pos.evalList.pieceListFb
          (pos.evalList.piece_no_list_board (to_sq m)) ≠ 0 := by
        rw [hfb_t]
        have := kpp_fb_pos _ hvalid_t
        omega
      by_cases hk : piece_type (pos.board (from_sq m)) = KING
      · have hn0v := hking_f hk
        have hn0ge : PIECE_NUMBER_KING
            ≤ pos.evalList.piece_no_list_board (from_sq m) := by
          rw [hn0v]
          omega
        have hn0ge' : 30 ≤ pos.evalList.piece_no_list_board (from_sq m) := by
          unfold PIECE_NUMBER_KING at hn0ge
          omega
        have hagree : ∀ i, i < 30 →
            i ≠ pos.evalList.piece_no_list_board (to_sq m) →
            Function.update
              (Function.update pos.evalList.pieceListFb
                (pos.evalList.piece_no_list_board (to_sq m)) 0)
              (pos.evalList.piece_no_list_board (from_sq m))
              ((kpp_board_index (pos.board (from_sq m))).fb + InvSq (to_sq m)) i
            = pos.evalList.pieceListFb i := by
          intro i hi hin1
          rw [Function.update_noteq (by omega), Function.update_noteq hin1]
        have hinjA : ∀ a b, a < 30 → b < 30 →
            Function.update
              (Function.update pos.evalList.pieceListFb
                (pos.evalList.piece_no_list_board (to_sq m)) 0)
              (pos.evalList.piece_no_list_board (from_sq m))
              ((kpp_board_index (pos.board (from_sq m))).fb + InvSq (to_sq m)) a ≠ 0 →
            Function.update
              (Function.update pos.evalList.pieceListFb
                (pos.evalList.piece_no_list_board (to_sq m)) 0)
              (pos.evalList.piece_no_list_board (from_sq m))
              ((kpp_board_index (pos.board (from_sq m))).fb + InvSq (to_sq m)) a
            = Function.update
              (Function.update pos.evalList.pieceListFb
                (pos.evalList.piece_no_list_board (to_sq m)) 0)
              (pos.evalList.piece_no_list_board (from_sq m))
              ((kpp_board_index (pos.board (from_sq m))).fb + InvSq (to_sq m)) b
            → a = b := by
          intro a b ha hb hlive heq
          rw [Function.update_noteq (by omega : a ≠
            pos.evalList.piece_no_list_board (from_sq m))] at hlive heq
          rw [Function.update_noteq (by omega : b ≠
            pos.evalList.piece_no_list_board (from_sq m))] at heq
          rcases eq_or_ne a (pos.evalList.piece_no_list_board (to_sq m)) with
            rfl | han1
          · rw [Function.update_same] at hlive
            exact absurd rfl hlive
          · rw [Function.update_noteq han1] at hlive heq
            rcases eq_or_ne b (pos.evalList.piece_no_list_board (to_sq m)) with
              rfl | hbn1
            · rw [Function.update_same] at heq
              exact absurd heq hlive
            · rw [Function.update_noteq hbn1] at heq
              exact hinjB a b ha hb hlive heq
        have hpack := package_one pos.evalList.pieceListFb
          (Function.update
            (Function.update pos.evalList.pieceListFb
              (pos.evalList.piece_no_list_board (to_sq m)) 0)
            (pos.evalList.piece_no_list_board (from_sq m))
            ((kpp_board_index (pos.board (from_sq m))).fb + InvSq (to_sq m)))
          ((pos.evalList.pieceListFb (PIECE_NUMBER_KING + 1) - f_king) % 64)
          (pos.evalList.piece_no_list_board (to_sq m))
          hn1lt30' hagree hinjB hinjA
        rw [Function.update_noteq (Ne.symm hne01), Function.update_same] at hpack
        rw [if_pos hnzB1, if_neg (by omega : ¬ ((0:Nat) ≠ 0))] at hpack
        simp only [Option.toList_some, Option.toList_none] at hpack
        have hrem : (AppendChangedIndices (do_move pos m) Side.kFriend 1).1
            = [MakeIndex ((pos.evalList.pieceListFb
                (PIECE_NUMBER_KING + 1) - f_king) % 64)
                (pos.evalList.pieceListFb
                  (pos.evalList.piece_no_list_board (to_sq m)))] := by
          simp [AppendChangedIndices, hdnum, hdn0, hdn1, hcp1o, hGA2, hn0ge,
            hnotle1, hnzB1, ExtBonaPiece.fromPersp, BONA_PIECE_ZERO, WHITE]
        have hadd : (AppendChangedIndices (do_move pos m) Side.kFriend 1).2
            = [] := by
          simp [AppendChangedIndices, hdnum, hdn0, hdn1, hcp1n, hGA2, hn0ge,
            hnotle1, ExtBonaPiece.fromPersp, BONA_PIECE_ZERO, WHITE]
        have hactB : AppendActiveIndices pos Side.kFriend 1
            = (List.range 30).filterMap (fun i =>
                if pos.evalList.pieceListFb i ≠ 0
                then some (MakeIndex ((pos.evalList.pieceListFb
                  (PIECE_NUMBER_KING + 1) - f_king) % 64)
                  (pos.evalList.pieceListFb i)) else none) := rfl
        have hactA : AppendActiveIndices (do_move pos m) Side.kFriend 1
            = (List.range 30).filterMap (fun i =>
                if Function.update
                  (Function.update pos.evalList.pieceListFb
                    (pos.evalList.piece_no_list_board (to_sq m)) 0)
                  (pos.evalList.piece_no_list_board (from_sq m))
                  ((kpp_board_index (pos.board (from_sq m))).fb + InvSq (to_sq m)) i ≠ 0
                then some (MakeIndex ((pos.evalList.pieceListFb
                  (PIECE_NUMBER_KING + 1) - f_king) % 64)
                  (Function.update
                    (Function.update pos.evalList.pieceListFb
                      (pos.evalList.piece_no_list_board (to_sq m)) 0)
                    (pos.evalList.piece_no_list_board (from_sq m))
                    ((kpp_board_index (pos.board (from_sq m))).fb + InvSq (to_sq m)) i))
                else none) := by
          simp only [AppendActiveIndices]
          rw [hGA1, hGA2]
          rfl
        unfold featureDeltaCorrect
        rw [hrem, hadd, hactB, hactA]
        exact hpack
      · have hn0lt30 := hnking_f hk
        have hn0lt30' : pos.evalList.piece_no_list_board (from_sq m) < 30 := by
          unfold PIECE_NUMBER_KING at hn0lt30
          omega
        have hnotle0 : ¬ (PIECE_NUMBER_KING
            ≤ pos.evalList.piece_no_list_board (from_sq m)) := by
          unfold PIECE_NUMBER_KING
          omega
        have hnzB0 : pos.evalList.pieceListFb
            (pos.evalList.piece_no_list_board (from_sq m)) ≠ 0 := by
          rw [hfb_f]
          have := kpp_fb_pos _ hvalid_f
          omega
        have hnzA : (kpp_board_index (pos.board (from_sq m))).fb + InvSq (to_sq m) ≠ 0 := by
          have := kpp_fb_pos _ hvalid_f
          omega
        have hfresh : ∀ j, j < 30 →
            j ≠ pos.evalList.piece_no_list_board (from_sq m) →
            j ≠ pos.evalList.piece_no_list_board (to_sq m) →
            pos.evalList.pieceListFb j ≠ 0 →
            pos.evalList.pieceListFb j
              ≠ (kpp_board_index (pos.board (from_sq m))).fb + InvSq (to_sq m) := by
          intro j hj hjn0 hjn1 hne
          exact fresh_fb pos hwf' (pos.board (from_sq m)) (to_sq m) hvalid_f htlt
            j hj hjn1 hne
        have hinjA := live_inj_update2 pos.evalList.pieceListFb
          (pos.evalList.piece_no_list_board (from_sq m))
          (pos.evalList.piece_no_list_board (to_sq m))
          ((kpp_board_index (pos.board (from_sq m))).fb + InvSq (to_sq m))
          hne01 hinjB hfresh
        have hagree : ∀ i, i < 30 →
            i ≠ pos.evalList.piece_no_list_board (from_sq m) →
            i ≠ pos.evalList.piece_no_list_board (to_sq m) →
            Function.update
              (Function.update pos.evalList.pieceListFb
                (pos.evalList.piece_no_list_board (to_sq m)) 0)
              (pos.evalList.piece_no_list_board (from_sq m))
              ((kpp_board_index (pos.board (from_sq m))).fb + InvSq (to_sq m)) i
            = pos.evalList.pieceListFb i := by
          intro i hi hin0 hin1
          rw [Function.update_noteq hin0, Function.update_noteq hin1]
        have hpack := package_two pos.evalList.pieceListFb
          (Function.update
            (Function.update pos.evalList.pieceListFb
              (pos.evalList.piece_no_list_board (to_sq m)) 0)
            (pos.evalList.piece_no_list_board (from_sq m))
            ((kpp_board_index (pos.board (from_sq m))).fb + InvSq (to_sq m)))
          ((pos.evalList.pieceListFb (PIECE_NUMBER_KING + 1) - f_king) % 64)
          (pos.evalList.piece_no_list_board (from_sq m))
          (pos.evalList.piece_no_list_board (to_sq m))
          hn0lt30' hn1lt30' hne01 hagree hinjB hinjA
        rw [Function.update_same] at hpack
        rw [Function.update_noteq (Ne.symm hne01), Function.update_same] at hpack
        rw [if_pos hnzB0, if_pos hnzB1, if_pos hnzA,
          if_neg (by omega : ¬ ((0:Nat) ≠ 0))] at hpack
        simp only [Option.toList_some, Option.toList_none, List.singleton_append,
          List.append_nil] at hpack
        have hrem : (AppendChangedIndices (do_move pos m) Side.kFriend 1).1
            = [MakeIndex ((pos.evalList.pieceListFb
                (PIECE_NUMBER_KING + 1) - f_king) % 64)
                (pos.evalList.pieceListFb
                  (pos.evalList.piece_no_list_board (from_sq m))),
               MakeIndex ((pos.evalList.pieceListFb
                (PIECE_NUMBER_KING + 1) - f_king) % 64)
                (pos.evalList.pieceListFb
                  (pos.evalList.piece_no_list_board (to_sq m)))] := by
          simp [AppendChangedIndices, hdnum, hdn0, hdn1, hcp0o, hcp1o, hGA2,
            hnotle0, hnotle1, hnzB0, hnzB1, ExtBonaPiece.fromPersp,
            BONA_PIECE_ZERO, WHITE]
        have hadd : (AppendChangedIndices (do_move pos m) Side.kFriend 1).2
            = [MakeIndex ((pos.evalList.pieceListFb
                (PIECE_NUMBER_KING + 1) - f_king) % 64)
                ((kpp_board_index (pos.board (from_sq m))).fb + InvSq (to_sq m))] := by
          simp [AppendChangedIndices, hdnum, hdn0, hdn1, hcp0n, hcp1n, hGA2,
            hnotle0, hnotle1, hnzA, ExtBonaPiece.fromPersp, BONA_PIECE_ZERO,
            WHITE]
        have hactB : AppendActiveIndices pos Side.kFriend 1
            = (List.range 30).filterMap (fun i =>
                if pos.evalList.pieceListFb i ≠ 0
                then some (MakeIndex ((pos.evalList.pieceListFb
                  (PIECE_NUMBER_KING + 1) - f_king) % 64)
                  (pos.evalList.pieceListFb i)) else none) := rfl
        have hactA : AppendActiveIndices (do_move pos m) Side.kFriend 1
            = (List.range 30).filterMap (fun i =>
                if Function.update
                  (Function.update pos.evalList.pieceListFb
                    (pos.evalList.piece_no_list_board (to_sq m)) 0)
                  (pos.evalList.piece_no_list_board (from_sq m))
                  ((kpp_board_index (pos.board (from_sq m))).fb + InvSq (to_sq m)) i ≠ 0
                then some (MakeIndex ((pos.evalList.pieceListFb
                  (PIECE_NUMBER_KING + 1) - f_king) % 64)
                  (Function.update
                    (Function.update pos.evalList.pieceListFb
                      (pos.evalList.piece_no_list_board (to_sq m)) 0)
                    (pos.evalList.piece_no_list_board (from_sq m))
                    ((kpp_board_index (pos.board (from_sq m))).fb + InvSq (to_sq m)) i))
                else none) := by
          simp only [AppendActiveIndices]
          rw [hGA1, hGA2]
          rfl
        unfold featureDeltaCorrect
        rw [hrem, hadd, hactB, hactA]
        exact hpack

    · have hn0t : pos.evalList.piece_no_list_board (from_sq m)
          ≠ PIECE_NUMBER_KING + 0 := by
        by_cases hk : piece_type (pos.board (from_sq m)) = KING
        · have hc : piece_color (pos.board (from_sq m)) ≠ 0 := by
            intro hceq
            exact hnk ⟨hk, by rw [hceq]; rfl⟩
          have hn0 := hking_f hk
          unfold PIECE_NUMBER_KING at hn0
          unfold PIECE_NUMBER_KING
          omega
        · have h30 := hnking_f hk
          unfold PIECE_NUMBER_KING at h30
          unfold PIECE_NUMBER_KING
          omega
      have hn1t : pos.evalList.piece_no_list_board (to_sq m)
          ≠ PIECE_NUMBER_KING + 0 := by
        unfold PIECE_NUMBER_KING
        omega
      have hnotle1 : ¬ (PIECE_NUMBER_KING
          ≤ pos.evalList.piece_no_list_board (to_sq m)) := by
        unfold PIECE_NUMBER_KING
        omega
      have hGA1 : (GetPieces (do_move pos m) Side.kEnemy 1).1
          = Function.update
              (Function.update pos.evalList.pieceListFb
                (pos.evalList.piece_no_list_board (to_sq m)) 0)
              (pos.evalList.piece_no_list_board (from_sq m))
              ((kpp_board_index (pos.board (from_sq m))).fb + InvSq (to_sq m)) := hFb
      have hGA2 : (GetPieces (do_move pos m) Side.kEnemy 1).2
          = (pos.evalList.pieceListFb (PIECE_NUMBER_KING + 0) - f_king) % 64 := by
        show ((do_move pos m).evalList.pieceListFb (PIECE_NUMBER_KING + 0)
          - f_king) % 64 = _
        rw [hFb, Function.update_noteq (Ne.symm hn0t),
          Function.update_noteq (Ne.symm hn1t)]
      have hinjB : ∀ a b, a < 30 → b < 30 → pos.evalList.pieceListFb a ≠ 0 →
          pos.evalList.pieceListFb a = pos.evalList.pieceListFb b → a = b := by
        intro a b ha hb hne heq
        exact live_inj_fb pos hwf' a b (by unfold PIECE_NUMBER_NB; omega)
          (by unfold PIECE_NUMBER_NB; omega) hne heq
      have hnzB1 : pos.evalList.pieceListFb
          (pos.evalList.piece_no_list_board (to_sq m)) ≠ 0 := by
        rw [hfb_t]
        have := kpp_fb_pos _ hvalid_t
        omega
      by_cases hk : piece_type (pos.board (from_sq m)) = KING
      · have hn0v := hking_f hk
        have hn0ge : PIECE_NUMBER_KING
            ≤ pos.evalList.piece_no_list_board (from_sq m) := by
          rw [hn0v]
          omega
        have hn0ge' : 30 ≤ pos.evalList.piece_no_list_board (from_sq m) := by
          unfold PIECE_NUMBER_KING at hn0ge
          omega
        have hagree : ∀ i, i < 30 →
            i ≠ pos.evalList.piece_no_list_board (to_sq m) →
            Function.update
              (Function.update pos.evalList.pieceListFb
                (pos.evalList.piece_no_list_board (to_sq m)) 0)
              (pos.evalList.piece_no_list_board (from_sq m))
              ((kpp_board_index (pos.board (from_sq m))).fb + InvSq (to_sq m)) i
            = pos.evalList.pieceListFb i := by
          intro i hi hin1
          rw [Function.update_noteq (by omega), Function.update_noteq hin1]
        have hinjA : ∀ a b, a < 30 → b < 30 →
            Function.update
              (Function.update pos.evalList.pieceListFb
                (pos.evalList.piece_no_list_board (to_sq m)) 0)
              (pos.evalList.piece_no_list_board (from_sq m))
              ((kpp_board_index (pos.board (from_sq m))).fb + InvSq (to_sq m)) a ≠ 0 →
            Function.update
              (Function.update pos.evalList.pieceListFb
                (pos.evalList.piece_no_list_board (to_sq m)) 0)
              (pos.evalList.piece_no_list_board (from_sq m))
              ((kpp_board_index (pos.board (from_sq m))).fb + InvSq (to_sq m)) a
            = Function.update
              (Function.update pos.evalList.pieceListFb
                (pos.evalList.piece_no_list_board (to_sq m)) 0)
              (pos.evalList.piece_no_list_board (from_sq m))
              ((kpp_board_index (pos.board (from_sq m))).fb + InvSq (to_sq m)) b
            → a = b := by
          intro a b ha hb hlive heq
          rw [Function.update_noteq (by omega : a ≠
            pos.evalList.piece_no_list_board (from_sq m))] at hlive heq
          rw [Function.update_noteq (by omega : b ≠
            pos.evalList.piece_no_list_board (from_sq m))] at heq
          rcases eq_or_ne a (pos.evalList.piece_no_list_board (to_sq m)) with
            rfl | han1
          · rw [Function.update_same] at hlive
            exact absurd rfl hlive
          · rw [Function.update_noteq han1] at hlive heq
            rcases eq_or_ne b (pos.evalList.piece_no_list_board (to_sq m)) with
              rfl | hbn1
            · rw [Function.update_same] at heq
              exact absurd heq hlive
            · rw [Function.update_noteq hbn1] at heq
              exact hinjB a b ha hb hlive heq
        have hpack := package_one pos.evalList.pieceListFb
          (Function.update
            (Function.update pos.evalList.pieceListFb
              (pos.evalList.piece_no_list_board (to_sq m)) 0)
            (pos.evalList.piece_no_list_board (from_sq m))
            ((kpp_board_index (pos.board (from_sq m))).fb + InvSq (to_sq m)))
          ((pos.evalList.pieceListFb (PIECE_NUMBER_KING + 0) - f_king) % 64)
          (pos.evalList.piece_no_list_board (to_sq m))
          hn1lt30' hagree hinjB hinjA
        rw [Function.update_noteq (Ne.symm hne01), Function.update_same] at hpack
        rw [if_pos hnzB1, if_neg (by omega : ¬ ((0:Nat) ≠ 0))] at hpack
        simp only [Option.toList_some, Option.toList_none] at hpack
        have hrem : (AppendChangedIndices (do_move pos m) Side.kEnemy 1).1
            = [MakeIndex ((pos.evalList.pieceListFb
                (PIECE_NUMBER_KING + 0) - f_king) % 64)
                (pos.evalList.pieceListFb
                  (pos.evalList.piece_no_list_board (to_sq m)))] := by
          simp [AppendChangedIndices, hdnum, hdn0, hdn1, hcp1o, hGA2, hn0ge,
            hnotle1, hnzB1, ExtBonaPiece.fromPersp, BONA_PIECE_ZERO, WHITE]
        have hadd : (AppendChangedIndices (do_move pos m) Side.kEnemy 1).2
            = [] := by
          simp [AppendChangedIndices, hdnum, hdn0, hdn1, hcp1n, hGA2, hn0ge,
            hnotle1, ExtBonaPiece.fromPersp, BONA_PIECE_ZERO, WHITE]
        have hactB : AppendActiveIndices pos Side.kEnemy 1
            = (List.range 30).filterMap (fun i =>
                if pos.evalList.pieceListFb i ≠ 0
                then some (MakeIndex ((pos.evalList.pieceListFb
                  (PIECE_NUMBER_KING + 0) - f_king) % 64)
                  (pos.evalList.pieceListFb i)) else none) := rfl
        have hactA : AppendActiveIndices (do_move pos m) Side.kEnemy 1
            = (List.range 30).filterMap (fun i =>
                if Function.update
                  (Function.update pos.evalList.pieceListFb
                    (pos.evalList.piece_no_list_board (to_sq m)) 0)
                  (pos.evalList.piece_no_list_board (from_sq m))
                  ((kpp_board_index (pos.board (from_sq m))).fb + InvSq (to_sq m)) i ≠ 0
                then some (MakeIndex ((pos.evalList.pieceListFb
                  (PIECE_NUMBER_KING + 0) - f_king) % 64)
                  (Function.update
                    (Function.update pos.evalList.pieceListFb
                      (pos.evalList.piece_no_list_board (to_sq m)) 0)
                    (pos.evalList.piece_no_list_board (from_sq m))
                    ((kpp_board_index (pos.board (from_sq m))).fb + InvSq (to_sq m)) i))
                else none) := by
          simp only [AppendActiveIndices]
          rw [hGA1, hGA2]
          rfl
        unfold featureDeltaCorrect
        rw [hrem, hadd, hactB, hactA]
        exact hpack
      · have hn0lt30 := hnking_f hk
        have hn0lt30' : pos.evalList.piece_no_list_board (from_sq m) < 30 := by
          unfold PIECE_NUMBER_KING at hn0lt30
          omega
        have hnotle0 : ¬ (PIECE_NUMBER_KING
            ≤ pos.evalList.piece_no_list_board (from_sq m)) := by
          unfold PIECE_NUMBER_KING
          omega
        have hnzB0 : pos.evalList.pieceListFb
            (pos.evalList.piece_no_list_board (from_sq m)) ≠ 0 := by
          rw [hfb_f]
          have := kpp_fb_pos _ hvalid_f
          omega
        have hnzA : (kpp_board_index (pos.board (from_sq m))).fb + InvSq (to_sq m) ≠ 0 := by
          have := kpp_fb_pos _ hvalid_f
          omega
        have hfresh : ∀ j, j < 30 →
            j ≠ pos.evalList.piece_no_list_board (from_sq m) →
            j ≠ pos.evalList.piece_no_list_board (to_sq m) →
            pos.evalList.pieceListFb j ≠ 0 →
            pos.evalList.pieceListFb j
              ≠ (kpp_board_index (pos.board (from_sq m))).fb + InvSq (to_sq m) := by
          intro j hj hjn0 hjn1 hne
          exact fresh_fb pos hwf' (pos.board (from_sq m)) (to_sq m) hvalid_f htlt
            j hj hjn1 hne
        have hinjA := live_inj_update2 pos.evalList.pieceListFb
          (pos.evalList.piece_no_list_board (from_sq m))
          (pos.evalList.piece_no_list_board (to_sq m))
          ((kpp_board_index (pos.board (from_sq m))).fb + InvSq (to_sq m))
          hne01 hinjB hfresh
        have hagree : ∀ i, i < 30 →
            i ≠ pos.evalList.piece_no_list_board (from_sq m) →
            i ≠ pos.evalList.piece_no_list_board (to_sq m) →
            Function.update
              (Function.update pos.evalList.pieceListFb
                (pos.evalList.piece_no_list_board (to_sq m)) 0)
              (pos.evalList.piece_no_list_board (from_sq m))
              ((kpp_board_index (pos.board (from_sq m))).fb + InvSq (to_sq m)) i
            = pos.evalList.pieceListFb i := by
          intro i hi hin0 hin1
          rw [Function.update_noteq hin0, Function.update_noteq hin1]
        have hpack := package_two pos.evalList.pieceListFb
          (Function.update
            (Function.update pos.evalList.pieceListFb
              (pos.evalList.piece_no_list_board (to_sq m)) 0)
            (pos.evalList.piece_no_list_board (from_sq m))
            ((kpp_board_index (pos.board (from_sq m))).fb + InvSq (to_sq m)))
          ((pos.evalList.pieceListFb (PIECE_NUMBER_KING + 0) - f_king) % 64)
          (pos.evalList.piece_no_list_board (from_sq m))
          (pos.evalList.piece_no_list_board (to_sq m))
          hn0lt30' hn1lt30' hne01 hagree hinjB hinjA
        rw [Function.update_same] at hpack
        rw [Function.update_noteq (Ne.symm hne01), Function.update_same] at hpack
        rw [if_pos hnzB0, if_pos hnzB1, if_pos hnzA,
          if_neg (by omega : ¬ ((0:Nat) ≠ 0))] at hpack
        simp only [Option.toList_some, Option.toList_none, List.singleton_append,
          List.append_nil] at hpack
        have hrem : (AppendChangedIndices (do_move pos m) Side.kEnemy 1).1
            = [MakeIndex ((pos.evalList.pieceListFb
                (PIECE_NUMBER_KING + 0) - f_king) % 64)
                (pos.evalList.pieceListFb
                  (pos.evalList.piece_no_list_board (from_sq m))),
               MakeIndex ((pos.evalList.pieceListFb
                (PIECE_NUMBER_KING + 0) - f_king) % 64)
                (pos.evalList.pieceListFb
                  (pos.evalList.piece_no_list_board (to_sq m)))] := by
          simp [AppendChangedIndices, hdnum, hdn0, hdn1, hcp0o, hcp1o, hGA2,
            hnotle0, hnotle1, hnzB0, hnzB1, ExtBonaPiece.fromPersp,
            BONA_PIECE_ZERO, WHITE]
        have hadd : (AppendChangedIndices (do_move pos m) Side.kEnemy 1).2
            = [MakeIndex ((pos.evalList.pieceListFb
                (PIECE_NUMBER_KING + 0) - f_king) % 64)
                ((kpp_board_index (pos.board (from_sq m))).fb + InvSq (to_sq m))] := by
          simp [AppendChangedIndices, hdnum, hdn0, hdn1, hcp0n, hcp1n, hGA2,
            hnotle0, hnotle1, hnzA, ExtBonaPiece.fromPersp, BONA_PIECE_ZERO,
            WHITE]
        have hactB : AppendActiveIndices pos Side.kEnemy 1
            = (List.range 30).filterMap (fun i =>
                if pos.evalList.pieceListFb i ≠ 0
                then some (MakeIndex ((pos.evalList.pieceListFb
                  (PIECE_NUMBER_KING + 0) - f_king) % 64)
                  (pos.evalList.pieceListFb i)) else none) := rfl
        have hactA : AppendActiveIndices (do_move pos m) Side.kEnemy 1
            = (List.range 30).filterMap (fun i =>
                if Function.update
                  (Function.update pos.evalList.pieceListFb
                    (pos.evalList.piece_no_list_board (to_sq m)) 0)
                  (pos.evalList.piece_no_list_board (from_sq m))
                  ((kpp_board_index (pos.board (from_sq m))).fb + InvSq (to_sq m)) i ≠ 0
                then some (MakeIndex ((pos.evalList.pieceListFb
                  (PIECE_NUMBER_KING + 0) - f_king) % 64)
                  (Function.update
                    (Function.update pos.evalList.pieceListFb
                      (pos.evalList.piece_no_list_board (to_sq m)) 0)
                    (pos.evalList.piece_no_list_board (from_sq m))
                    ((kpp_board_index (pos.board (from_sq m))).fb + InvSq (to_sq m)) i))
                else none) := by
          simp only [AppendActiveIndices]
          rw [hGA1, hGA2]
          rfl
        unfold featureDeltaCorrect
        rw [hrem, hadd, hactB, hactA]
        exact hpack

set_option maxHeartbeats 8000000 in
theorem C2_delta_promo_noncap (pos : Position) (m : Nat) (side : Side)
    (persp : Nat) (h : MovePre pos m) (hp : persp ≤ 1)
    (hnk : ¬(piece_type (pos.board (from_sq m)) = KING ∧
      piece_color (pos.board (from_sq m)) = assocColor side persp))
    (hmt : move_type m = PROMOTION) (hcap : pos.board (to_sq m) = NO_PIECE) :
    featureDeltaCorrect pos m side persp := by
  obtain ⟨⟨hus, hft, hpc, hcol, hcount⟩, hwf, htarget, hpromo, hep, hcastle⟩ := h
  obtain ⟨hptpc, hxor⟩ := hpromo hmt
  have hwf' : WFEval pos := hwf
  have hflt := from_sq_lt m
  have htlt := to_sq_lt m
  obtain ⟨hwsq, hwn⟩ := hwf
  obtain ⟨hvalid_f, hn0lt, hking_f, hnking_f, hfw_f, hfb_f⟩ :=
    (hwsq (from_sq m) hflt).2 hpc
  have hmap_t : pos.evalList.piece_no_list_board (to_sq m) = PIECE_NUMBER_NB :=
    (hwsq (to_sq m) htlt).1 hcap
  have hpceq : pos.board (from_sq m) = make_piece pos.sideToMove PAWN := by
    rw [piece_decomp _ hvalid_f, hcol, hptpc]
  have hptb := promotion_type_bounds m
  have hpromone : make_piece pos.sideToMove (promotion_type m)
      ≠ make_piece pos.sideToMove PAWN :=
    make_piece_ne_of_pt_ne _ _ _ (by omega) (by decide) (by unfold PAWN; omega)
  have hvalid_promo : validPiece (make_piece pos.sideToMove
      (promotion_type m)) := by
    unfold validPiece
    rw [piece_type_make_piece _ _ (by omega),
      piece_color_make_piece _ _ (by omega)]
    refine ⟨by omega, by omega, hus⟩
  have hknot : piece_type (pos.board (from_sq m)) ≠ KING := by
    rw [hptpc]
    decide
  have hFw : (do_move pos m).evalList.pieceListFw
      = Function.update pos.evalList.pieceListFw
          (pos.evalList.piece_no_list_board (from_sq m))
          ((kpp_board_index (make_piece pos.sideToMove
            (promotion_type m))).fw + to_sq m) := by
    simp [do_move, hmt, hcap, hptpc, hxor, Position.movePiece,
      Position.removePiece, Position.putPiece, do_castling_do,
      EvalList.piece_no_of_board, EvalList.put_piece,
      EvalList.set_piece_on_board, EvalList.setBoardNB, hft]
  have hFb : (do_move pos m).evalList.pieceListFb
      = Function.update pos.evalList.pieceListFb
          (pos.evalList.piece_no_list_board (from_sq m))
          ((kpp_board_index (make_piece pos.sideToMove
            (promotion_type m))).fb + InvSq (to_sq m)) := by
    simp [do_move, hmt, hcap, hptpc, hxor, Position.movePiece,
      Position.removePiece, Position.putPiece, do_castling_do,
      EvalList.piece_no_of_board, EvalList.put_piece,
      EvalList.set_piece_on_board, EvalList.setBoardNB, hft]
  have hdnum : (do_move pos m).st.dirtyPiece.dirty_num = 1 := by
    simp [do_move, hmt, hcap, hptpc, hxor, do_castling_do,
      Position.movePiece, Position.removePiece, Position.putPiece]
  have hdn0 : (do_move pos m).st.dirtyPiece.no0
      = pos.evalList.piece_no_list_board (from_sq m) := by
    simp [do_move, hmt, hcap, hptpc, hxor, do_castling_do,
      EvalList.piece_no_of_board, EvalList.put_piece,
      EvalList.set_piece_on_board, EvalList.setBoardNB, Position.movePiece,
      Position.removePiece, Position.putPiece, hft]
  have hcp0o : (do_move pos m).st.dirtyPiece.cp0.old_piece
      = ⟨pos.evalList.pieceListFw (pos.evalList.piece_no_list_board (from_sq m)),
         pos.evalList.pieceListFb (pos.evalList.piece_no_list_board (from_sq m))⟩
      := by
    simp [do_move, hmt, hcap, hptpc, hxor, do_castling_do,
      EvalList.piece_no_of_board, EvalList.bona_piece, EvalList.put_piece,
      EvalList.set_piece_on_board, EvalList.setBoardNB, Position.movePiece,
      Position.removePiece, Position.putPiece, hft, Function.update_apply]
  have hcp0n : (do_move pos m).st.dirtyPiece.cp0.new_piece
      = ⟨(kpp_board_index (make_piece pos.sideToMove
            (promotion_type m))).fw + to_sq m,
         (kpp_board_index (make_piece pos.sideToMove
            (promotion_type m))).fb + InvSq (to_sq m)⟩ := by
    simp [do_move, hmt, hcap, hptpc, hxor, do_castling_do,
      EvalList.piece_no_of_board, EvalList.bona_piece, EvalList.put_piece,
      EvalList.set_piece_on_board, EvalList.setBoardNB, Position.movePiece,
      Position.removePiece, Position.putPiece, hft, Function.update_apply]
  rcases Nat.le_one_iff_eq_zero_or_eq_one.1 hp with rfl | rfl
  · cases side
    · have hn0t : pos.evalList.piece_no_list_board (from_sq m)
          ≠ PIECE_NUMBER_KING + 0 := by
        by_cases hk : piece_type (pos.board (from_sq m)) = KING
        · have hc : piece_color (pos.board (from_sq m)) ≠ 0 := by
            intro hceq
            exact hnk ⟨hk, by rw [hceq]; rfl⟩
          have hn0 := hking_f hk
          unfold PIECE_NUMBER_KING at hn0
          unfold PIECE_NUMBER_KING
          omega
        · have h30 := hnking_f hk
          unfold PIECE_NUMBER_KING at h30
          unfold PIECE_NUMBER_KING
          omega
      have hGA1 : (GetPieces (do_move pos m) Side.kFriend 0).1
          = Function.update pos.evalList.pieceListFw
              (pos.evalList.piece_no_list_board (from_sq m))
              ((kpp_board_index (make_piece pos.sideToMove (promotion_type m))).fw + to_sq m) := hFw
      have hGA2 : (GetPieces (do_move pos m) Side.kFriend 0).2
          = (pos.evalList.pieceListFw (PIECE_NUMBER_KING + 0) - f_king) % 64
          := by
        show ((do_move pos m).evalList.pieceListFw (PIECE_NUMBER_KING + 0)
          - f_king) % 64 = _
        rw [hFw, Function.update_noteq (Ne.symm hn0t)]
      have hGB1 : (GetPieces pos Side.kFriend 0).1
          = pos.evalList.pieceListFw := rfl
      have hGB2 : (GetPieces pos Side.kFriend 0).2
          = (pos.evalList.pieceListFw (PIECE_NUMBER_KING + 0) - f_king) % 64
          := rfl

      by_cases hk : piece_type (pos.board (from_sq m)) = KING
      · exact absurd hk hknot
      · -- a non-king mover: one dirty slot below PIECE_NUMBER_KING
        have hn0lt30 := hnking_f hk
        have hn0lt30' : pos.evalList.piece_no_list_board (from_sq m) < 30 := by
          unfold PIECE_NUMBER_KING at hn0lt30
          omega
        have hnotle : ¬ (PIECE_NUMBER_KING
            ≤ pos.evalList.piece_no_list_board (from_sq m)) := by
          unfold PIECE_NUMBER_KING
          omega
        have hnzB : pos.evalList.pieceListFw
            (pos.evalList.piece_no_list_board (from_sq m)) ≠ 0 := by
          rw [hfw_f]
          have := kpp_fw_pos _ hvalid_f
          omega
        have hnzA : (kpp_board_index (make_piece pos.sideToMove
            (promotion_type m))).fw + to_sq m ≠ 0 := by
          have := kpp_fw_pos _ hvalid_promo
          omega
        have hinjB : ∀ a b, a < 30 → b < 30 → pos.evalList.pieceListFw a ≠ 0 →
            pos.evalList.pieceListFw a = pos.evalList.pieceListFw b → a = b := by
          intro a b ha hb hne heq
          exact live_inj_fw pos hwf' a b (by unfold PIECE_NUMBER_NB; omega)
            (by unfold PIECE_NUMBER_NB; omega) hne heq
        have hfresh : ∀ j, j < 30 →
            j ≠ pos.evalList.piece_no_list_board (from_sq m) →
            pos.evalList.pieceListFw j ≠ 0 →
            pos.evalList.pieceListFw j
              ≠ (kpp_board_index (make_piece pos.sideToMove (promotion_type m))).fw + to_sq m := by
          intro j hj hjn0 hne
          exact fresh_fw pos hwf'
            (make_piece pos.sideToMove (promotion_type m)) (to_sq m)
            hvalid_promo htlt
            j hj (by rw [hmap_t]; unfold PIECE_NUMBER_NB; omega) hne
        have hinjA := live_inj_update1 pos.evalList.pieceListFw
          (pos.evalList.piece_no_list_board (from_sq m))
          ((kpp_board_index (make_piece pos.sideToMove (promotion_type m))).fw + to_sq m) hinjB hfresh
        have hagree1 : ∀ i, i ≠ pos.evalList.piece_no_list_board (from_sq m) →
            Function.update pos.evalList.pieceListFw
              (pos.evalList.piece_no_list_board (from_sq m))
              ((kpp_board_index (make_piece pos.sideToMove (promotion_type m))).fw + to_sq m) i
            = pos.evalList.pieceListFw i :=
          fun i hi => Function.update_noteq hi _ _
        have hpack := package_one pos.evalList.pieceListFw
          (Function.update pos.evalList.pieceListFw
            (pos.evalList.piece_no_list_board (from_sq m))
            ((kpp_board_index (make_piece pos.sideToMove (promotion_type m))).fw + to_sq m))
          ((pos.evalList.pieceListFw (PIECE_NUMBER_KING + 0) - f_king) % 64)
          (pos.evalList.piece_no_list_board (from_sq m))
          hn0lt30' (fun i hlt hi => hagree1 i hi) hinjB hinjA
        rw [Function.update_same] at hpack
        rw [if_pos hnzB, if_pos hnzA] at hpack
        simp only [Option.toList_some] at hpack
        have hrem : (AppendChangedIndices (do_move pos m) Side.kFriend 0).1
            = [MakeIndex ((pos.evalList.pieceListFw
                (PIECE_NUMBER_KING + 0) - f_king) % 64)
                (pos.evalList.pieceListFw
                  (pos.evalList.piece_no_list_board (from_sq m)))] := by
          simp [AppendChangedIndices, hdnum, hdn0, hcp0o, hGA2, hnotle, hnzB,
            ExtBonaPiece.fromPersp, BONA_PIECE_ZERO, WHITE]
        have hadd : (AppendChangedIndices (do_move pos m) Side.kFriend 0).2
            = [MakeIndex ((pos.evalList.pieceListFw
                (PIECE_NUMBER_KING + 0) - f_king) % 64)
                ((kpp_board_index (make_piece pos.sideToMove (promotion_type m))).fw + to_sq m)] := by
          simp [AppendChangedIndices, hdnum, hdn0, hcp0n, hGA2, hnotle, hnzA,
            ExtBonaPiece.fromPersp, BONA_PIECE_ZERO, WHITE]
        have hactB : AppendActiveIndices pos Side.kFriend 0
            = (List.range 30).filterMap (fun i =>
                if pos.evalList.pieceListFw i ≠ 0
                then some (MakeIndex ((pos.evalList.pieceListFw
                  (PIECE_NUMBER_KING + 0) - f_king) % 64)
                  (pos.evalList.pieceListFw i)) else none) := rfl
        have hactA : AppendActiveIndices (do_move pos m) Side.kFriend 0
            = (List.range 30).filterMap (fun i =>
                if Function.update pos.evalList.pieceListFw
                  (pos.evalList.piece_no_list_board (from_sq m))
                  ((kpp_board_index (make_piece pos.sideToMove (promotion_type m))).fw + to_sq m) i ≠ 0
                then some (MakeIndex ((pos.evalList.pieceListFw
                  (PIECE_NUMBER_KING + 0) - f_king) % 64)
                  (Function.update pos.evalList.pieceListFw
                    (pos.evalList.piece_no_list_board (from_sq m))
                    ((kpp_board_index (make_piece pos.sideToMove (promotion_type m))).fw + to_sq m) i))
                else none) := by
          simp only [AppendActiveIndices]
          rw [hGA1, hGA2]
          rfl
        unfold featureDeltaCorrect
        rw [hrem, hadd, hactB, hactA]
        exact hpack

    · have hn0t : pos.evalList.piece_no_list_board (from_sq m)
          ≠ PIECE_NUMBER_KING + 1 := by
        by_cases hk : piece_type (pos.board (from_sq m)) = KING
        · have hc : piece_color (pos.board (from_sq m)) ≠ 1 := by
            intro hceq
            exact hnk ⟨hk, by rw [hceq]; rfl⟩
          have hn0 := hking_f hk
          unfold PIECE_NUMBER_KING at hn0
          unfold PIECE_NUMBER_KING
          omega
        · have h30 := hnking_f hk
          unfold PIECE_NUMBER_KING at h30
          unfold PIECE_NUMBER_KING
          omega
      have hGA1 : (GetPieces (do_move pos m) Side.kEnemy 0).1
          = Function.update pos.evalList.pieceListFw
              (pos.evalList.piece_no_list_board (from_sq m))
              ((kpp_board_index (make_piece pos.sideToMove (promotion_type m))).fw + to_sq m) := hFw
      have hGA2 : (GetPieces (do_move pos m) Side.kEnemy 0).2
          = (pos.evalList.pieceListFw (PIECE_NUMBER_KING + 1) - f_king) % 64
          := by
        show ((do_move pos m).evalList.pieceListFw (PIECE_NUMBER_KING + 1)
          - f_king) % 64 = _
        rw [hFw, Function.update_noteq (Ne.symm hn0t)]
      have hGB1 : (GetPieces pos Side.kEnemy 0).1
          = pos.evalList.pieceListFw := rfl
      have hGB2 : (GetPieces pos Side.kEnemy 0).2
          = (pos.evalList.pieceListFw (PIECE_NUMBER_KING + 1) - f_king) % 64
          := rfl

      by_cases hk : piece_type (pos.board (from_sq m)) = KING
      · exact absurd hk hknot
      · -- a non-king mover: one dirty slot below PIECE_NUMBER_KING
        have hn0lt30 := hnking_f hk
        have hn0lt30' : pos.evalList.piece_no_list_board (from_sq m) < 30 := by
          unfold PIECE_NUMBER_KING at hn0lt30
          omega
        have hnotle : ¬ (PIECE_NUMBER_KING
            ≤ pos.evalList.piece_no_list_board (from_sq m)) := by
          unfold PIECE_NUMBER_KING
          omega
        have hnzB : pos.evalList.pieceListFw
            (pos.evalList.piece_no_list_board (from_sq m)) ≠ 0 := by
          rw [hfw_f]
          have := kpp_fw_pos _ hvalid_f
          omega
        have hnzA : (kpp_board_index (make_piece pos.sideToMove
            (promotion_type m))).fw + to_sq m ≠ 0 := by
          have := kpp_fw_pos _ hvalid_promo
          omega
        have hinjB : ∀ a b, a < 30 → b < 30 → pos.evalList.pieceListFw a ≠ 0 →
            pos.evalList.pieceListFw a = pos.evalList.pieceListFw b → a = b := by
          intro a b ha hb hne heq
          exact live_inj_fw pos hwf' a b (by unfold PIECE_NUMBER_NB; omega)
            (by unfold PIECE_NUMBER_NB; omega) hne heq
        have hfresh : ∀ j, j < 30 →
            j ≠ pos.evalList.piece_no_list_board (from_sq m) →
            pos.evalList.pieceListFw j ≠ 0 →
            pos.evalList.pieceListFw j
              ≠ (kpp_board_index (make_piece pos.sideToMove (promotion_type m))).fw + to_sq m := by
          intro j hj hjn0 hne
          exact fresh_fw pos hwf'
            (make_piece pos.sideToMove (promotion_type m)) (to_sq m)
            hvalid_promo htlt
            j hj (by rw [hmap_t]; unfold PIECE_NUMBER_NB; omega) hne
        have hinjA := live_inj_update1 pos.evalList.pieceListFw
          (pos.evalList.piece_no_list_board (from_sq m))
          ((kpp_board_index (make_piece pos.sideToMove (promotion_type m))).fw + to_sq m) hinjB hfresh
        have hagree1 : ∀ i, i ≠ pos.evalList.piece_no_list_board (from_sq m) →
            Function.update pos.evalList.pieceListFw
              (pos.evalList.piece_no_list_board (from_sq m))
              ((kpp_board_index (make_piece pos.sideToMove (promotion_type m))).fw + to_sq m) i
            = pos.evalList.pieceListFw i :=
          fun i hi => Function.update_noteq hi _ _
        have hpack := package_one pos.evalList.pieceListFw
          (Function.update pos.evalList.pieceListFw
            (pos.evalList.piece_no_list_board (from_sq m))
            ((kpp_board_index (make_piece pos.sideToMove (promotion_type m))).fw + to_sq m))
          ((pos.evalList.pieceListFw (PIECE_NUMBER_KING + 1) - f_king) % 64)
          (pos.evalList.piece_no_list_board (from_sq m))
          hn0lt30' (fun i hlt hi => hagree1 i hi) hinjB hinjA
        rw [Function.update_same] at hpack
        rw [if_pos hnzB, if_pos hnzA] at hpack
        simp only [Option.toList_some] at hpack
        have hrem : (AppendChangedIndices (do_move pos m) Side.kEnemy 0).1
            = [MakeIndex ((pos.evalList.pieceListFw
                (PIECE_NUMBER_KING + 1) - f_king) % 64)
                (pos.evalList.pieceListFw
                  (pos.evalList.piece_no_list_board (from_sq m)))] := by
          simp [AppendChangedIndices, hdnum, hdn0, hcp0o, hGA2, hnotle, hnzB,
            ExtBonaPiece.fromPersp, BONA_PIECE_ZERO, WHITE]
        have hadd : (AppendChangedIndices (do_move pos m) Side.kEnemy 0).2
            = [MakeIndex ((pos.evalList.pieceListFw
                (PIECE_NUMBER_KING + 1) - f_king) % 64)
                ((kpp_board_index (make_piece pos.sideToMove (promotion_type m))).fw + to_sq m)] := by
          simp [AppendChangedIndices, hdnum, hdn0, hcp0n, hGA2, hnotle, hnzA,
            ExtBonaPiece.fromPersp, BONA_PIECE_ZERO, WHITE]
        have hactB : AppendActiveIndices pos Side.kEnemy 0
            = (List.range 30).filterMap (fun i =>
                if pos.evalList.pieceListFw i ≠ 0
                then some (MakeIndex ((pos.evalList.pieceListFw
                  (PIECE_NUMBER_KING + 1) - f_king) % 64)
                  (pos.evalList.pieceListFw i)) else none) := rfl
        have hactA : AppendActiveIndices (do_move pos m) Side.kEnemy 0
            = (List.range 30).filterMap (fun i =>
                if Function.update pos.evalList.pieceListFw
                  (pos.evalList.piece_no_list_board (from_sq m))
                  ((kpp_board_index (make_piece pos.sideToMove (promotion_type m))).fw + to_sq m) i ≠ 0
                then some (MakeIndex ((pos.evalList.pieceListFw
                  (PIECE_NUMBER_KING + 1) - f_king) % 64)
                  (Function.update pos.evalList.pieceListFw
                    (pos.evalList.piece_no_list_board (from_sq m))
                    ((kpp_board_index (make_piece pos.sideToMove (promotion_type m))).fw + to_sq m) i))
                else none) := by
          simp only [AppendActiveIndices]
          rw [hGA1, hGA2]
          rfl
        unfold featureDeltaCorrect
        rw [hrem, hadd, hactB, hactA]
        exact hpack

  · cases side
    · have hn0t : pos.evalList.piece_no_list_board (from_sq m)
          ≠ PIECE_NUMBER_KING + 1 := by
        by_cases hk : piece_type (pos.board (from_sq m)) = KING
        · have hc : piece_color (pos.board (from_sq m)) ≠ 1 := by
            intro hceq
            exact hnk ⟨hk, by rw [hceq]; rfl⟩
          have hn0 := hking_f hk
          unfold PIECE_NUMBER_KING at hn0
          unfold PIECE_NUMBER_KING
          omega
        · have h30 := hnking_f hk
          unfold PIECE_NUMBER_KING at h30
          unfold PIECE_NUMBER_KING
          omega
      have hGA1 : (GetPieces (do_move pos m) Side.kFriend 1).1
          = Function.update pos.evalList.pieceListFb
              (pos.evalList.piece_no_list_board (from_sq m))
              ((kpp_board_index (make_piece pos.sideToMove (promotion_type m))).fb + InvSq (to_sq m)) := hFb
      have hGA2 : (GetPieces (do_move pos m) Side.kFriend 1).2
          = (pos.evalList.pieceListFb (PIECE_NUMBER_KING + 1) - f_king) % 64
          := by
        show ((do_move pos m).evalList.pieceListFb (PIECE_NUMBER_KING + 1)
          - f_king) % 64 = _
        rw [hFb, Function.update_noteq (Ne.symm hn0t)]
      have hGB1 : (GetPieces pos Side.kFriend 1).1
          = pos.evalList.pieceListFb := rfl
      have hGB2 : (GetPieces pos Side.kFriend 1).2
          = (pos.evalList.pieceListFb (PIECE_NUMBER_KING + 1) - f_king) % 64
          := rfl

      by_cases hk : piece_type (pos.board (from_sq m)) = KING
      · exact absurd hk hknot
      · -- a non-king mover: one dirty slot below PIECE_NUMBER_KING
        have hn0lt30 := hnking_f hk
        have hn0lt30' : pos.evalList.piece_no_list_board (from_sq m) < 30 := by
          unfold PIECE_NUMBER_KING at hn0lt30
          omega
        have hnotle : ¬ (PIECE_NUMBER_KING
            ≤ pos.evalList.piece_no_list_board (from_sq m)) := by
          unfold PIECE_NUMBER_KING
          omega
        have hnzB : pos.evalList.pieceListFb
            (pos.evalList.piece_no_list_board (from_sq m)) ≠ 0 := by
          rw [hfb_f]
          have := kpp_fb_pos _ hvalid_f
          omega
        have hnzA : (kpp_board_index (make_piece pos.sideToMove
            (promotion_type m))).fb + InvSq (to_sq m) ≠ 0 := by
          have := kpp_fb_pos _ hvalid_promo
          omega
        have hinjB : ∀ a b, a < 30 → b < 30 → pos.evalList.pieceListFb a ≠ 0 →
            pos.evalList.pieceListFb a = pos.evalList.pieceListFb b → a = b := by
          intro a b ha hb hne heq
          exact live_inj_fb pos hwf' a b (by unfold PIECE_NUMBER_NB; omega)
            (by unfold PIECE_NUMBER_NB; omega) hne heq
        have hfresh : ∀ j, j < 30 →
            j ≠ pos.evalList.piece_no_list_board (from_sq m) →
            pos.evalList.pieceListFb j ≠ 0 →
            pos.evalList.pieceListFb j
              ≠ (kpp_board_index (make_piece pos.sideToMove (promotion_type m))).fb + InvSq (to_sq m) := by
          intro j hj hjn0 hne
          exact fresh_fb pos hwf'
            (make_piece pos.sideToMove (promotion_type m)) (to_sq m)
            hvalid_promo htlt
            j hj (by rw [hmap_t]; unfold PIECE_NUMBER_NB; omega) hne
        have hinjA := live_inj_update1 pos.evalList.pieceListFb
          (pos.evalList.piece_no_list_board (from_sq m))
          ((kpp_board_index (make_piece pos.sideToMove (promotion_type m))).fb + InvSq (to_sq m)) hinjB hfresh
        have hagree1 : ∀ i, i ≠ pos.evalList.piece_no_list_board (from_sq m) →
            Function.update pos.evalList.pieceListFb
              (pos.evalList.piece_no_list_board (from_sq m))
              ((kpp_board_index (make_piece pos.sideToMove (promotion_type m))).fb + InvSq (to_sq m)) i
            = pos.evalList.pieceListFb i :=
          fun i hi => Function.update_noteq hi _ _
        have hpack := package_one pos.evalList.pieceListFb
          (Function.update pos.evalList.pieceListFb
            (pos.evalList.piece_no_list_board (from_sq m))
            ((kpp_board_index (make_piece pos.sideToMove (promotion_type m))).fb + InvSq (to_sq m)))
          ((pos.evalList.pieceListFb (PIECE_NUMBER_KING + 1) - f_king) % 64)
          (pos.evalList.piece_no_list_board (from_sq m))
          hn0lt30' (fun i hlt hi => hagree1 i hi) hinjB hinjA
        rw [Function.update_same] at hpack
        rw [if_pos hnzB, if_pos hnzA] at hpack
        simp only [Option.toList_some] at hpack
        have hrem : (AppendChangedIndices (do_move pos m) Side.kFriend 1).1
            = [MakeIndex ((pos.evalList.pieceListFb
                (PIECE_NUMBER_KING + 1) - f_king) % 64)
                (pos.evalList.pieceListFb
                  (pos.evalList.piece_no_list_board (from_sq m)))] := by
          simp [AppendChangedIndices, hdnum, hdn0, hcp0o, hGA2, hnotle, hnzB,
            ExtBonaPiece.fromPersp, BONA_PIECE_ZERO, WHITE]
        have hadd : (AppendChangedIndices (do_move pos m) Side.kFriend 1).2
            = [MakeIndex ((pos.evalList.pieceListFb
                (PIECE_NUMBER_KING + 1) - f_king) % 64)
                ((kpp_board_index (make_piece pos.sideToMove (promotion_type m))).fb + InvSq (to_sq m))] := by
          simp [AppendChangedIndices, hdnum, hdn0, hcp0n, hGA2, hnotle, hnzA,
            ExtBonaPiece.fromPersp, BONA_PIECE_ZERO, WHITE]
        have hactB : AppendActiveIndices pos Side.kFriend 1
            = (List.range 30).filterMap (fun i =>
                if pos.evalList.pieceListFb i ≠ 0
                then some (MakeIndex ((pos.evalList.pieceListFb
                  (PIECE_NUMBER_KING + 1) - f_king) % 64)
                  (pos.evalList.pieceListFb i)) else none) := rfl
        have hactA : AppendActiveIndices (do_move pos m) Side.kFriend 1
            = (List.range 30).filterMap (fun i =>
                if Function.update pos.evalList.pieceListFb
                  (pos.evalList.piece_no_list_board (from_sq m))
                  ((kpp_board_index (make_piece pos.sideToMove (promotion_type m))).fb + InvSq (to_sq m)) i ≠ 0
                then some (MakeIndex ((pos.evalList.pieceListFb
                  (PIECE_NUMBER_KING + 1) - f_king) % 64)
                  (Function.update pos.evalList.pieceListFb
                    (pos.evalList.piece_no_list_board (from_sq m))
                    ((kpp_board_index (make_piece pos.sideToMove (promotion_type m))).fb + InvSq (to_sq m)) i))
                else none) := by
          simp only [AppendActiveIndices]
          rw [hGA1, hGA2]
          rfl
        unfold featureDeltaCorrect
        rw [hrem, hadd, hactB, hactA]
        exact hpack

    · have hn0t : pos.evalList.piece_no_list_board (from_sq m)
          ≠ PIECE_NUMBER_KING + 0 := by
        by_cases hk : piece_type (pos.board (from_sq m)) = KING
        · have hc : piece_color (pos.board (from_sq m)) ≠ 0 := by
            intro hceq
            exact hnk ⟨hk, by rw [hceq]; rfl⟩
          have hn0 := hking_f hk
          unfold PIECE_NUMBER_KING at hn0
          unfold PIECE_NUMBER_KING
          omega
        · have h30 := hnking_f hk
          unfold PIECE_NUMBER_KING at h30
          unfold PIECE_NUMBER_KING
          omega
      have hGA1 : (GetPieces (do_move pos m) Side.kEnemy 1).1
          = Function.update pos.evalList.pieceListFb
              (pos.evalList.piece_no_list_board (from_sq m))
              ((kpp_board_index (make_piece pos.sideToMove (promotion_type m))).fb + InvSq (to_sq m)) := hFb
      have hGA2 : (GetPieces (do_move pos m) Side.kEnemy 1).2
          = (pos.evalList.pieceListFb (PIECE_NUMBER_KING + 0) - f_king) % 64
          := by
        show ((do_move pos m).evalList.pieceListFb (PIECE_NUMBER_KING + 0)
          - f_king) % 64 = _
        rw [hFb, Function.update_noteq (Ne.symm hn0t)]
      have hGB1 : (GetPieces pos Side.kEnemy 1).1
          = pos.evalList.pieceListFb := rfl
      have hGB2 : (GetPieces pos Side.kEnemy 1).2
          = (pos.evalList.pieceListFb (PIECE_NUMBER_KING + 0) - f_king) % 64
          := rfl

      by_cases hk : piece_type (pos.board (from_sq m)) = KING
      · exact absurd hk hknot
      · -- a non-king mover: one dirty slot below PIECE_NUMBER_KING
        have hn0lt30 := hnking_f hk
        have hn0lt30' : pos.evalList.piece_no_list_board (from_sq m) < 30 := by
          unfold PIECE_NUMBER_KING at hn0lt30
          omega
        have hnotle : ¬ (PIECE_NUMBER_KING
            ≤ pos.evalList.piece_no_list_board (from_sq m)) := by
          unfold PIECE_NUMBER_KING
          omega
        have hnzB : pos.evalList.pieceListFb
            (pos.evalList.piece_no_list_board (from_sq m)) ≠ 0 := by
          rw [hfb_f]
          have := kpp_fb_pos _ hvalid_f
          omega
        have hnzA : (kpp_board_index (make_piece pos.sideToMove
            (promotion_type m))).fb + InvSq (to_sq m) ≠ 0 := by
          have := kpp_fb_pos _ hvalid_promo
          omega
        have hinjB : ∀ a b, a < 30 → b < 30 → pos.evalList.pieceListFb a ≠ 0 →
            pos.evalList.pieceListFb a = pos.evalList.pieceListFb b → a = b := by
          intro a b ha hb hne heq
          exact live_inj_fb pos hwf' a b (by unfold PIECE_NUMBER_NB; omega)
            (by unfold PIECE_NUMBER_NB; omega) hne heq
        have hfresh : ∀ j, j < 30 →
            j ≠ pos.evalList.piece_no_list_board (from_sq m) →
            pos.evalList.pieceListFb j ≠ 0 →
            pos.evalList.pieceListFb j
              ≠ (kpp_board_index (make_piece pos.sideToMove (promotion_type m))).fb + InvSq (to_sq m) := by
          intro j hj hjn0 hne
          exact fresh_fb pos hwf'
            (make_piece pos.sideToMove (promotion_type m)) (to_sq m)
            hvalid_promo htlt
            j hj (by rw [hmap_t]; unfold PIECE_NUMBER_NB; omega) hne
        have hinjA := live_inj_update1 pos.evalList.pieceListFb
          (pos.evalList.piece_no_list_board (from_sq m))
          ((kpp_board_index (make_piece pos.sideToMove (promotion_type m))).fb + InvSq (to_sq m)) hinjB hfresh
        have hagree1 : ∀ i, i ≠ pos.evalList.piece_no_list_board (from_sq m) →
            Function.update pos.evalList.pieceListFb
              (pos.evalList.piece_no_list_board (from_sq m))
              ((kpp_board_index (make_piece pos.sideToMove (promotion_type m))).fb + InvSq (to_sq m)) i
            = pos.evalList.pieceListFb i :=
          fun i hi => Function.update_noteq hi _ _
        have hpack := package_one pos.evalList.pieceListFb
          (Function.update pos.evalList.pieceListFb
            (pos.evalList.piece_no_list_board (from_sq m))
            ((kpp_board_index (make_piece pos.sideToMove (promotion_type m))).fb + InvSq (to_sq m)))
          ((pos.evalList.pieceListFb (PIECE_NUMBER_KING + 0) - f_king) % 64)
          (pos.evalList.piece_no_list_board (from_sq m))
          hn0lt30' (fun i hlt hi => hagree1 i hi) hinjB hinjA
        rw [Function.update_same] at hpack
        rw [if_pos hnzB, if_pos hnzA] at hpack
        simp only [Option.toList_some] at hpack
        have hrem : (AppendChangedIndices (do_move pos m) Side.kEnemy 1).1
            = [MakeIndex ((pos.evalList.pieceListFb
                (PIECE_NUMBER_KING + 0) - f_king) % 64)
                (pos.evalList.pieceListFb
                  (pos.evalList.piece_no_list_board (from_sq m)))] := by
          simp [AppendChangedIndices, hdnum, hdn0, hcp0o, hGA2, hnotle, hnzB,
            ExtBonaPiece.fromPersp, BONA_PIECE_ZERO, WHITE]
        have hadd : (AppendChangedIndices (do_move pos m) Side.kEnemy 1).2
            = [MakeIndex ((pos.evalList.pieceListFb
                (PIECE_NUMBER_KING + 0) - f_king) % 64)
                ((kpp_board_index (make_piece pos.sideToMove (promotion_type m))).fb + InvSq (to_sq m))] := by
          simp [AppendChangedIndices, hdnum, hdn0, hcp0n, hGA2, hnotle, hnzA,
            ExtBonaPiece.fromPersp, BONA_PIECE_ZERO, WHITE]
        have hactB : AppendActiveIndices pos Side.kEnemy 1
            = (List.range 30).filterMap (fun i =>
                if pos.evalList.pieceListFb i ≠ 0
                then some (MakeIndex ((pos.evalList.pieceListFb
                  (PIECE_NUMBER_KING + 0) - f_king) % 64)
                  (pos.evalList.pieceListFb i)) else none) := rfl
        have hactA : AppendActiveIndices (do_move pos m) Side.kEnemy 1
            = (List.range 30).filterMap (fun i =>
                if Function.update pos.evalList.pieceListFb
                  (pos.evalList.piece_no_list_board (from_sq m))
                  ((kpp_board_index (make_piece pos.sideToMove (promotion_type m))).fb + InvSq (to_sq m)) i ≠ 0
                then some (MakeIndex ((pos.evalList.pieceListFb
                  (PIECE_NUMBER_KING + 0) - f_king) % 64)
                  (Function.update pos.evalList.pieceListFb
                    (pos.evalList.piece_no_list_board (from_sq m))
                    ((kpp_board_index (make_piece pos.sideToMove (promotion_type m))).fb + InvSq (to_sq m)) i))
                else none) := by
          simp only [AppendActiveIndices]
          rw [hGA1, hGA2]
          rfl
        unfold featureDeltaCorrect
        rw [hrem, hadd, hactB, hactA]
        exact hpack

set_option maxHeartbeats 8000000 in
theorem C2_delta_promo_cap (pos : Position) (m : Nat) (side : Side)
    (persp : Nat) (h : MovePre pos m) (hp : persp ≤ 1)
    (hnk : ¬(piece_type (pos.board (from_sq m)) = KING ∧
      piece_color (pos.board (from_sq m)) = assocColor side persp))
    (hmt : move_type m = PROMOTION) (hcap : pos.board (to_sq m) ≠ NO_PIECE) :
    featureDeltaCorrect pos m side persp := by
  obtain ⟨⟨hus, hft, hpc, hcol, hcount⟩, hwf, htarget, hpromo, hep, hcastle⟩ := h
  obtain ⟨hptpc, hxor⟩ := hpromo hmt
  have hwf' : WFEval pos := hwf
  have hflt := from_sq_lt m
  have htlt := to_sq_lt m
  obtain ⟨hwsq, hwn⟩ := hwf
  obtain ⟨hvalid_f, hn0lt, hking_f, hnking_f, hfw_f, hfb_f⟩ :=
    (hwsq (from_sq m) hflt).2 hpc
  obtain ⟨hvalid_t, hn1lt, hking_t, hnking_t, hfw_t, hfb_t⟩ :=
    (hwsq (to_sq m) htlt).2 hcap
  have henemy := htarget (Or.inr hmt)
  rcases henemy with habs | ⟨hcolc, hkc, hcntc⟩
  · exact absurd habs hcap
  have hne01 : pos.evalList.piece_no_list_board (from_sq m)
      ≠ pos.evalList.piece_no_list_board (to_sq m) := by
    intro heq
    have hfweq : pos.evalList.pieceListFw
          (pos.evalList.piece_no_list_board (from_sq m))
        = pos.evalList.pieceListFw
          (pos.evalList.piece_no_list_board (to_sq m)) := by
      rw [heq]
    rw [hfw_f, hfw_t] at hfweq
    obtain ⟨hp, hs⟩ := kpp_fw_inj _ _ _ _ hvalid_f hvalid_t hflt htlt hfweq
    exact hft hs
  have hn1lt30 := hnking_t hkc
  have hn1lt30' : pos.evalList.piece_no_list_board (to_sq m) < 30 := by
    unfold PIECE_NUMBER_KING at hn1lt30
    omega
  have hptb := promotion_type_bounds m
  have hvalid_promo : validPiece (make_piece pos.sideToMove
      (promotion_type m)) := by
    unfold validPiece
    rw [piece_type_make_piece _ _ (by omega),
      piece_color_make_piece _ _ (by omega)]
    refine ⟨by omega, by omega, hus⟩
  have hknot : piece_type (pos.board (from_sq m)) ≠ KING := by
    rw [hptpc]
    decide
  have hFw : (do_move pos m).evalList.pieceListFw
      = Function.update
          (Function.update pos.evalList.pieceListFw
            (pos.evalList.piece_no_list_board (to_sq m)) 0)
          (pos.evalList.piece_no_list_board (from_sq m))
          ((kpp_board_index (make_piece pos.sideToMove
            (promotion_type m))).fw + to_sq m) := by
    simp [do_move, hmt, hcap, hptpc, hxor, Position.movePiece, Position.removePiece,
      Position.putPiece, do_castling_do, EvalList.piece_no_of_board,
      EvalList.put_piece, EvalList.set_piece_on_board, EvalList.setBoardNB,
      hft, BONA_PIECE_ZERO]
  have hFb : (do_move pos m).evalList.pieceListFb
      = Function.update
          (Function.update pos.evalList.pieceListFb
            (pos.evalList.piece_no_list_board (to_sq m)) 0)
          (pos.evalList.piece_no_list_board (from_sq m))
          ((kpp_board_index (make_piece pos.sideToMove
            (promotion_type m))).fb + InvSq (to_sq m)) := by
    simp [do_move, hmt, hcap, hptpc, hxor, Position.movePiece, Position.removePiece,
      Position.putPiece, do_castling_do, EvalList.piece_no_of_board,
      EvalList.put_piece, EvalList.set_piece_on_board, EvalList.setBoardNB,
      hft, BONA_PIECE_ZERO]
  have hdnum : (do_move pos m).st.dirtyPiece.dirty_num = 2 := by
    simp [do_move, hmt, hcap, hptpc, hxor, do_castling_do, Position.movePiece,
      Position.removePiece, Position.putPiece]
  have hdn0 : (do_move pos m).st.dirtyPiece.no0
      = pos.evalList.piece_no_list_board (from_sq m) := by
    simp [do_move, hmt, hcap, hptpc, hxor, do_castling_do, EvalList.piece_no_of_board,
      EvalList.put_piece, EvalList.set_piece_on_board, EvalList.setBoardNB,
      Position.movePiece, Position.removePiece, Position.putPiece, hft]
  have hdn1 : (do_move pos m).st.dirtyPiece.no1
      = pos.evalList.piece_no_list_board (to_sq m) := by
    simp [do_move, hmt, hcap, hptpc, hxor, do_castling_do, EvalList.piece_no_of_board,
      EvalList.put_piece, EvalList.set_piece_on_board, EvalList.setBoardNB,
      Position.movePiece, Position.removePiece, Position.putPiece, hft]
  have hcp0o : (do_move pos m).st.dirtyPiece.cp0.old_piece
      = ⟨pos.evalList.pieceListFw (pos.evalList.piece_no_list_board (from_sq m)),
         pos.evalList.pieceListFb (pos.evalList.piece_no_list_board (from_sq m))⟩
      := by
    simp [do_move, hmt, hcap, hptpc, hxor, do_castling_do, EvalList.piece_no_of_board,
      EvalList.bona_piece, EvalList.put_piece, EvalList.set_piece_on_board,
      EvalList.setBoardNB, Position.movePiece, Position.removePiece,
      Position.putPiece, hft, Function.update_apply, hne01]
  have hcp0n : (do_move pos m).st.dirtyPiece.cp0.new_piece
      = ⟨(kpp_board_index (make_piece pos.sideToMove
            (promotion_type m))).fw + to_sq m,
         (kpp_board_index (make_piece pos.sideToMove
            (promotion_type m))).fb + InvSq (to_sq m)⟩ := by
    simp [do_move, hmt, hcap, hptpc, hxor, do_castling_do, EvalList.piece_no_of_board,
      EvalList.bona_piece, EvalList.put_piece, EvalList.set_piece_on_board,
      EvalList.setBoardNB, Position.movePiece, Position.removePiece,
      Position.putPiece, hft, Function.update_apply]
  have hcp1o : (do_move pos m).st.dirtyPiece.cp1.old_piece
      = ⟨pos.evalList.pieceListFw (pos.evalList.piece_no_list_board (to_sq m)),
         pos.evalList.pieceListFb (pos.evalList.piece_no_list_board (to_sq m))⟩
      := by
    simp [do_move, hmt, hcap, hptpc, hxor, do_castling_do, EvalList.piece_no_of_board,
      EvalList.bona_piece, EvalList.put_piece, EvalList.set_piece_on_board,
      EvalList.setBoardNB, Position.movePiece, Position.removePiece,
      Position.putPiece, hft, Function.update_apply]
  have hcp1n : (do_move pos m).st.dirtyPiece.cp1.new_piece
      = ⟨(0 : Nat), (0 : Nat)⟩ := by
    simp [do_move, hmt, hcap, hptpc, hxor, do_castling_do, EvalList.piece_no_of_board,
      EvalList.bona_piece, EvalList.put_piece, EvalList.set_piece_on_board,
      EvalList.setBoardNB, Position.movePiece, Position.removePiece,
      Position.putPiece, hft, Function.update_apply, BONA_PIECE_ZERO]
  rcases Nat.le_one_iff_eq_zero_or_eq_one.1 hp with rfl | rfl
  · cases side
    · have hn0t : pos.evalList.piece_no_list_board (from_sq m)
          ≠ PIECE_NUMBER_KING + 0 := by
        by_cases hk : piece_type (pos.board (from_sq m)) = KING
        · have hc : piece_color (pos.board (from_sq m)) ≠ 0 := by
            intro hceq
            exact hnk ⟨hk, by rw [hceq]; rfl⟩
          have hn0 := hking_f hk
          unfold PIECE_NUMBER_KING at hn0
          unfold PIECE_NUMBER_KING
          omega
        · have h30 := hnking_f hk
          unfold PIECE_NUMBER_KING at h30
          unfold PIECE_NUMBER_KING
          omega
      have hn1t : pos.evalList.piece_no_list_board (to_sq m)
          ≠ PIECE_NUMBER_KING + 0 := by
        unfold PIECE_NUMBER_KING
        omega
      have hnotle1 : ¬ (PIECE_NUMBER_KING
          ≤ pos.evalList.piece_no_list_board (to_sq m)) := by
        unfold PIECE_NUMBER_KING
        omega
      have hGA1 : (GetPieces (do_move pos m) Side.kFriend 0).1
          = Function.update
              (Function.update pos.evalList.pieceListFw
                (pos.evalList.piece_no_list_board (to_sq m)) 0)
              (pos.evalList.piece_no_list_board (from_sq m))
              ((kpp_board_index (make_piece pos.sideToMove
                (promotion_type m))).fw + to_sq m) := hFw
      have hGA2 : (GetPieces (do_move pos m) Side.kFriend 0).2
          = (pos.evalList.pieceListFw (PIECE_NUMBER_KING + 0) - f_king) % 64 := by
        show ((do_move pos m).evalList.pieceListFw (PIECE_NUMBER_KING + 0)
          - f_king) % 64 = _
        rw [hFw, Function.update_noteq (Ne.symm hn0t),
          Function.update_noteq (Ne.symm hn1t)]
      have hinjB : ∀ a b, a < 30 → b < 30 → pos.evalList.pieceListFw a ≠ 0 →
          pos.evalList.pieceListFw a = pos.evalList.pieceListFw b → a = b := by
        intro a b ha hb hne heq
        exact live_inj_fw pos hwf' a b (by unfold PIECE_NUMBER_NB; omega)
          (by unfold PIECE_NUMBER_NB; omega) hne heq
      have hnzB1 : pos.evalList.pieceListFw
          (pos.evalList.piece_no_list_board (to_sq m)) ≠ 0 := by
        rw [hfw_t]
        have := kpp_fw_pos _ hvalid_t
        omega
      by_cases hk : piece_type (pos.board (from_sq m)) = KING
      · exact absurd hk hknot
      · have hn0lt30 := hnking_f hk
        have hn0lt30' : pos.evalList.piece_no_list_board (from_sq m) < 30 := by
          unfold PIECE_NUMBER_KING at hn0lt30
          omega
        have hnotle0 : ¬ (PIECE_NUMBER_KING
            ≤ pos.evalList.piece_no_list_board (from_sq m)) := by
          unfold PIECE_NUMBER_KING
          omega
        have hnzB0 : pos.evalList.pieceListFw
            (pos.evalList.piece_no_list_board (from_sq m)) ≠ 0 := by
          rw [hfw_f]
          have := kpp_fw_pos _ hvalid_f
          omega
        have hnzA : (kpp_board_index (make_piece pos.sideToMove
            (promotion_type m))).fw + to_sq m ≠ 0 := by
          have := kpp_fw_pos _ hvalid_promo
          omega
        have hfresh : ∀ j, j < 30 →
            j ≠ pos.evalList.piece_no_list_board (from_sq m) →
            j ≠ pos.evalList.piece_no_list_board (to_sq m) →
            pos.evalList.pieceListFw j ≠ 0 →
            pos.evalList.pieceListFw j
              ≠ (kpp_board_index (make_piece pos.sideToMove (promotion_type m))).fw + to_sq m := by
          intro j hj hjn0 hjn1 hne
          exact fresh_fw pos hwf'
            (make_piece pos.sideToMove (promotion_type m)) (to_sq m)
            hvalid_promo htlt j hj hjn1 hne
        have hinjA := live_inj_update2 pos.evalList.pieceListFw
          (pos.evalList.piece_no_list_board (from_sq m))
          (pos.evalList.piece_no_list_board (to_sq m))
          ((kpp_board_index (make_piece pos.sideToMove
                (promotion_type m))).fw + to_sq m)
          hne01 hinjB hfresh
        have hagree : ∀ i, i < 30 →
            i ≠ pos.evalList.piece_no_list_board (from_sq m) →
            i ≠ pos.evalList.piece_no_list_board (to_sq m) →
            Function.update
              (Function.update pos.evalList.pieceListFw
                (pos.evalList.piece_no_list_board (to_sq m)) 0)
              (pos.evalList.piece_no_list_board (from_sq m))
              ((kpp_board_index (make_piece pos.sideToMove
                (promotion_type m))).fw + to_sq m) i
            = pos.evalList.pieceListFw i := by
          intro i hi hin0 hin1
          rw [Function.update_noteq hin0, Function.update_noteq hin1]
        have hpack := package_two pos.evalList.pieceListFw
          (Function.update
            (Function.update pos.evalList.pieceListFw
              (pos.evalList.piece_no_list_board (to_sq m)) 0)
            (pos.evalList.piece_no_list_board (from_sq m))
            ((kpp_board_index (make_piece pos.sideToMove
                (promotion_type m))).fw + to_sq m))
          ((pos.evalList.pieceListFw (PIECE_NUMBER_KING + 0) - f_king) % 64)
          (pos.evalList.piece_no_list_board (from_sq m))
          (pos.evalList.piece_no_list_board (to_sq m))
          hn0lt30' hn1lt30' hne01 hagree hinjB hinjA
        rw [Function.update_same] at hpack
        rw [Function.update_noteq (Ne.symm hne01), Function.update_same] at hpack
        rw [if_pos hnzB0, if_pos hnzB1, if_pos hnzA,
          if_neg (by omega : ¬ ((0:Nat) ≠ 0))] at hpack
        simp only [Option.toList_some, Option.toList_none, List.singleton_append,
          List.append_nil] at hpack
        have hrem : (AppendChangedIndices (do_move pos m) Side.kFriend 0).1
            = [MakeIndex ((pos.evalList.pieceListFw
                (PIECE_NUMBER_KING + 0) - f_king) % 64)
                (pos.evalList.pieceListFw
                  (pos.evalList.piece_no_list_board (from_sq m))),
               MakeIndex ((pos.evalList.pieceListFw
                (PIECE_NUMBER_KING + 0) - f_king) % 64)
                (pos.evalList.pieceListFw
                  (pos.evalList.piece_no_list_board (to_sq m)))] := by
          simp [AppendChangedIndices, hdnum, hdn0, hdn1, hcp0o, hcp1o, hGA2,
            hnotle0, hnotle1, hnzB0, hnzB1, ExtBonaPiece.fromPersp,
            BONA_PIECE_ZERO, WHITE]
        have hadd : (AppendChangedIndices (do_move pos m) Side.kFriend 0).2
            = [MakeIndex ((pos.evalList.pieceListFw
                (PIECE_NUMBER_KING + 0) - f_king) % 64)
                ((kpp_board_index (make_piece pos.sideToMove
                (promotion_type m))).fw + to_sq m)] := by
          simp [AppendChangedIndices, hdnum, hdn0, hdn1, hcp0n, hcp1n, hGA2,
            hnotle0, hnotle1, hnzA, ExtBonaPiece.fromPersp, BONA_PIECE_ZERO,
            WHITE]
        have hactB : AppendActiveIndices pos Side.kFriend 0
            = (List.range 30).filterMap (fun i =>
                if pos.evalList.pieceListFw i ≠ 0
                then some (MakeIndex ((pos.evalList.pieceListFw
                  (PIECE_NUMBER_KING + 0) - f_king) % 64)
                  (pos.evalList.pieceListFw i)) else none) := rfl
        have hactA : AppendActiveIndices (do_move pos m) Side.kFriend 0
            = (List.range 30).filterMap (fun i =>
                if Function.update
                  (Function.update pos.evalList.pieceListFw
                    (pos.evalList.piece_no_list_board (to_sq m)) 0)
                  (pos.evalList.piece_no_list_board (from_sq m))
                  ((kpp_board_index (make_piece pos.sideToMove
                (promotion_type m))).fw + to_sq m) i ≠ 0
                then some (MakeIndex ((pos.evalList.pieceListFw
                  (PIECE_NUMBER_KING + 0) - f_king) % 64)
                  (Function.update
                    (Function.update pos.evalList.pieceListFw
                      (pos.evalList.piece_no_list_board (to_sq m)) 0)
                    (pos.evalList.piece_no_list_board (from_sq m))
                    ((kpp_board_index (make_piece pos.sideToMove
                (promotion_type m))).fw + to_sq m) i))
                else none) := by
          simp only [AppendActiveIndices]
          rw [hGA1, hGA2]
          rfl
        unfold featureDeltaCorrect
        rw [hrem, hadd, hactB, hactA]
        exact hpack

    · have hn0t : pos.evalList.piece_no_list_board (from_sq m)
          ≠ PIECE_NUMBER_KING + 1 := by
        by_cases hk : piece_type (pos.board (from_sq m)) = KING
        · have hc : piece_color (pos.board (from_sq m)) ≠ 1 := by
            intro hceq
            exact hnk ⟨hk, by rw [hceq]; rfl⟩
          have hn0 := hking_f hk
          unfold PIECE_NUMBER_KING at hn0
          unfold PIECE_NUMBER_KING
          omega
        · have h30 := hnking_f hk
          unfold PIECE_NUMBER_KING at h30
          unfold PIECE_NUMBER_KING
          omega
      have hn1t : pos.evalList.piece_no_list_board (to_sq m)
          ≠ PIECE_NUMBER_KING + 1 := by
        unfold PIECE_NUMBER_KING
        omega
      have hnotle1 : ¬ (PIECE_NUMBER_KING
          ≤ pos.evalList.piece_no_list_board (to_sq m)) := by
        unfold PIECE_NUMBER_KING
        omega
      have hGA1 : (GetPieces (do_move pos m) Side.kEnemy 0).1
          = Function.update
              (Function.update pos.evalList.pieceListFw
                (pos.evalList.piece_no_list_board (to_sq m)) 0)
              (pos.evalList.piece_no_list_board (from_sq m))
              ((kpp_board_index (make_piece pos.sideToMove
                (promotion_type m))).fw + to_sq m) := hFw
      have hGA2 : (GetPieces (do_move pos m) Side.kEnemy 0).2
          = (pos.evalList.pieceListFw (PIECE_NUMBER_KING + 1) - f_king) % 64 := by
        show ((do_move pos m).evalList.pieceListFw (PIECE_NUMBER_KING + 1)
          - f_king) % 64 = _
        rw [hFw, Function.update_noteq (Ne.symm hn0t),
          Function.update_noteq (Ne.symm hn1t)]
      have hinjB : ∀ a b, a < 30 → b < 30 → pos.evalList.pieceListFw a ≠ 0 →
          pos.evalList.pieceListFw a = pos.evalList.pieceListFw b → a = b := by
        intro a b ha hb hne heq
        exact live_inj_fw pos hwf' a b (by unfold PIECE_NUMBER_NB; omega)
          (by unfold PIECE_NUMBER_NB; omega) hne heq
      have hnzB1 : pos.evalList.pieceListFw
          (pos.evalList.piece_no_list_board (to_sq m)) ≠ 0 := by
        rw [hfw_t]
        have := kpp_fw_pos _ hvalid_t
        omega
      by_cases hk : piece_type (pos.board (from_sq m)) = KING
      · exact absurd hk hknot
      · have hn0lt30 := hnking_f hk
        have hn0lt30' : pos.evalList.piece_no_list_board (from_sq m) < 30 := by
          unfold PIECE_NUMBER_KING at hn0lt30
          omega
        have hnotle0 : ¬ (PIECE_NUMBER_KING
            ≤ pos.evalList.piece_no_list_board (from_sq m)) := by
          unfold PIECE_NUMBER_KING
          omega
        have hnzB0 : pos.evalList.pieceListFw
            (pos.evalList.piece_no_list_board (from_sq m)) ≠ 0 := by
          rw [hfw_f]
          have := kpp_fw_pos _ hvalid_f
          omega
        have hnzA : (kpp_board_index (make_piece pos.sideToMove
            (promotion_type m))).fw + to_sq m ≠ 0 := by
          have := kpp_fw_pos _ hvalid_promo
          omega
        have hfresh : ∀ j, j < 30 →
            j ≠ pos.evalList.piece_no_list_board (from_sq m) →
            j ≠ pos.evalList.piece_no_list_board (to_sq m) →
            pos.evalList.pieceListFw j ≠ 0 →
            pos.evalList.pieceListFw j
              ≠ (kpp_board_index (make_piece pos.sideToMove (promotion_type m))).fw + to_sq m := by
          intro j hj hjn0 hjn1 hne
          exact fresh_fw pos hwf'
            (make_piece pos.sideToMove (promotion_type m)) (to_sq m)
            hvalid_promo htlt j hj hjn1 hne
        have hinjA := live_inj_update2 pos.evalList.pieceListFw
          (pos.evalList.piece_no_list_board (from_sq m))
          (pos.evalList.piece_no_list_board (to_sq m))
          ((kpp_board_index (make_piece pos.sideToMove
                (promotion_type m))).fw + to_sq m)
          hne01 hinjB hfresh
        have hagree : ∀ i, i < 30 →
            i ≠ pos.evalList.piece_no_list_board (from_sq m) →
            i ≠ pos.evalList.piece_no_list_board (to_sq m) →
            Function.update
              (Function.update pos.evalList.pieceListFw
                (pos.evalList.piece_no_list_board (to_sq m)) 0)
              (pos.evalList.piece_no_list_board (from_sq m))
              ((kpp_board_index (make_piece pos.sideToMove
                (promotion_type m))).fw + to_sq m) i
            = pos.evalList.pieceListFw i := by
          intro i hi hin0 hin1
          rw [Function.update_noteq hin0, Function.update_noteq hin1]
        have hpack := package_two pos.evalList.pieceListFw
          (Function.update
            (Function.update pos.evalList.pieceListFw
              (pos.evalList.piece_no_list_board (to_sq m)) 0)
            (pos.evalList.piece_no_list_board (from_sq m))
            ((kpp_board_index (make_piece pos.sideToMove
                (promotion_type m))).fw + to_sq m))
          ((pos.evalList.pieceListFw (PIECE_NUMBER_KING + 1) - f_king) % 64)
          (pos.evalList.piece_no_list_board (from_sq m))
          (pos.evalList.piece_no_list_board (to_sq m))
          hn0lt30' hn1lt30' hne01 hagree hinjB hinjA
        rw [Function.update_same] at hpack
        rw [Function.update_noteq (Ne.symm hne01), Function.update_same] at hpack
        rw [if_pos hnzB0, if_pos hnzB1, if_pos hnzA,
          if_neg (by omega : ¬ ((0:Nat) ≠ 0))] at hpack
        simp only [Option.toList_some, Option.toList_none, List.singleton_append,
          List.append_nil] at hpack
        have hrem : (AppendChangedIndices (do_move pos m) Side.kEnemy 0).1
            = [MakeIndex ((pos.evalList.pieceListFw
                (PIECE_NUMBER_KING + 1) - f_king) % 64)
                (pos.evalList.pieceListFw
                  (pos.evalList.piece_no_list_board (from_sq m))),
               MakeIndex ((pos.evalList.pieceListFw
                (PIECE_NUMBER_KING + 1) - f_king) % 64)
                (pos.evalList.pieceListFw
                  (pos.evalList.piece_no_list_board (to_sq m)))] := by
          simp [AppendChangedIndices, hdnum, hdn0, hdn1, hcp0o, hcp1o, hGA2,
            hnotle0, hnotle1, hnzB0, hnzB1, ExtBonaPiece.fromPersp,
            BONA_PIECE_ZERO, WHITE]
        have hadd : (AppendChangedIndices (do_move pos m) Side.kEnemy 0).2
            = [MakeIndex ((pos.evalList.pieceListFw
                (PIECE_NUMBER_KING + 1) - f_king) % 64)
                ((kpp_board_index (make_piece pos.sideToMove
                (promotion_type m))).fw + to_sq m)] := by
          simp [AppendChangedIndices, hdnum, hdn0, hdn1, hcp0n, hcp1n, hGA2,
            hnotle0, hnotle1, hnzA, ExtBonaPiece.fromPersp, BONA_PIECE_ZERO,
            WHITE]
        have hactB : AppendActiveIndices pos Side.kEnemy 0
            = (List.range 30).filterMap (fun i =>
                if pos.evalList.pieceListFw i ≠ 0
                then some (MakeIndex ((pos.evalList.pieceListFw
                  (PIECE_NUMBER_KING + 1) - f_king) % 64)
                  (pos.evalList.pieceListFw i)) else none) := rfl
        have hactA : AppendActiveIndices (do_move pos m) Side.kEnemy 0
            = (List.range 30).filterMap (fun i =>
                if Function.update
                  (Function.update pos.evalList.pieceListFw
                    (pos.evalList.piece_no_list_board (to_sq m)) 0)
                  (pos.evalList.piece_no_list_board (from_sq m))
                  ((kpp_board_index (make_piece pos.sideToMove
                (promotion_type m))).fw + to_sq m) i ≠ 0
                then some (MakeIndex ((pos.evalList.pieceListFw
                  (PIECE_NUMBER_KING + 1) - f_king) % 64)
                  (Function.update
                    (Function.update pos.evalList.pieceListFw
                      (pos.evalList.piece_no_list_board (to_sq m)) 0)
                    (pos.evalList.piece_no_list_board (from_sq m))
                    ((kpp_board_index (make_piece pos.sideToMove
                (promotion_type m))).fw + to_sq m) i))
                else none) := by
          simp only [AppendActiveIndices]
          rw [hGA1, hGA2]
          rfl
        unfold featureDeltaCorrect
        rw [hrem, hadd, hactB, hactA]
        exact hpack

  · cases side
    · have hn0t : pos.evalList.piece_no_list_board (from_sq m)
          ≠ PIECE_NUMBER_KING + 1 := by
        by_cases hk : piece_type (pos.board (from_sq m)) = KING
        · have hc : piece_color (pos.board (from_sq m)) ≠ 1 := by
            intro hceq
            exact hnk ⟨hk, by rw [hceq]; rfl⟩
          have hn0 := hking_f hk
          unfold PIECE_NUMBER_KING at hn0
          unfold PIECE_NUMBER_KING
          omega
        · have h30 := hnking_f hk
          unfold PIECE_NUMBER_KING at h30
          unfold PIECE_NUMBER_KING
          omega
      have hn1t : pos.evalList.piece_no_list_board (to_sq m)
          ≠ PIECE_NUMBER_KING + 1 := by
        unfold PIECE_NUMBER_KING
        omega
      have hnotle1 : ¬ (PIECE_NUMBER_KING
          ≤ pos.evalList.piece_no_list_board (to_sq m)) := by
        unfold PIECE_NUMBER_KING
        omega
      have hGA1 : (GetPieces (do_move pos m) Side.kFriend 1).1
          = Function.update
              (Function.update pos.evalList.pieceListFb
                (pos.evalList.piece_no_list_board (to_sq m)) 0)
              (pos.evalList.piece_no_list_board (from_sq m))
              ((kpp_board_index (make_piece pos.sideToMove
                (promotion_type m))).fb + InvSq (to_sq m)) := hFb
      have hGA2 : (GetPieces (do_move pos m) Side.kFriend 1).2
          = (pos.evalList.pieceListFb (PIECE_NUMBER_KING + 1) - f_king) % 64 := by
        show ((do_move pos m).evalList.pieceListFb (PIECE_NUMBER_KING + 1)
          - f_king) % 64 = _
        rw [hFb, Function.update_noteq (Ne.symm hn0t),
          Function.update_noteq (Ne.symm hn1t)]
      have hinjB : ∀ a b, a < 30 → b < 30 → pos.evalList.pieceListFb a ≠ 0 →
          pos.evalList.pieceListFb a = pos.evalList.pieceListFb b → a = b := by
        intro a b ha hb hne heq
        exact live_inj_fb pos hwf' a b (by unfold PIECE_NUMBER_NB; omega)
          (by unfold PIECE_NUMBER_NB; omega) hne heq
      have hnzB1 : pos.evalList.pieceListFb
          (pos.evalList.piece_no_list_board (to_sq m)) ≠ 0 := by
        rw [hfb_t]
        have := kpp_fb_pos _ hvalid_t
        omega
      by_cases hk : piece_type (pos.board (from_sq m)) = KING
      · exact absurd hk hknot
      · have hn0lt30 := hnking_f hk
        have hn0lt30' : pos.evalList.piece_no_list_board (from_sq m) < 30 := by
          unfold PIECE_NUMBER_KING at hn0lt30
          omega
        have hnotle0 : ¬ (PIECE_NUMBER_KING
            ≤ pos.evalList.piece_no_list_board (from_sq m)) := by
          unfold PIECE_NUMBER_KING
          omega
        have hnzB0 : pos.evalList.pieceListFb
            (pos.evalList.piece_no_list_board (from_sq m)) ≠ 0 := by
          rw [hfb_f]
          have := kpp_fb_pos _ hvalid_f
          omega
        have hnzA : (kpp_board_index (make_piece pos.sideToMove
            (promotion_type m))).fb + InvSq (to_sq m) ≠ 0 := by
          have := kpp_fb_pos _ hvalid_promo
          omega
        have hfresh : ∀ j, j < 30 →
            j ≠ pos.evalList.piece_no_list_board (from_sq m) →
            j ≠ pos.evalList.piece_no_list_board (to_sq m) →
            pos.evalList.pieceListFb j ≠ 0 →
            pos.evalList.pieceListFb j
              ≠ (kpp_board_index (make_piece pos.sideToMove (promotion_type m))).fb + InvSq (to_sq m) := by
          intro j hj hjn0 hjn1 hne
          exact fresh_fb pos hwf'
            (make_piece pos.sideToMove (promotion_type m)) (to_sq m)
            hvalid_promo htlt j hj hjn1 hne
        have hinjA := live_inj_update2 pos.evalList.pieceListFb
          (pos.evalList.piece_no_list_board (from_sq m))
          (pos.evalList.piece_no_list_board (to_sq m))
          ((kpp_board_index (make_piece pos.sideToMove
                (promotion_type m))).fb + InvSq (to_sq m))
          hne01 hinjB hfresh
        have hagree : ∀ i, i < 30 →
            i ≠ pos.evalList.piece_no_list_board (from_sq m) →
            i ≠ pos.evalList.piece_no_list_board (to_sq m) →
            Function.update
              (Function.update pos.evalList.pieceListFb
                (pos.evalList.piece_no_list_board (to_sq m)) 0)
              (pos.evalList.piece_no_list_board (from_sq m))
              ((kpp_board_index (make_piece pos.sideToMove
                (promotion_type m))).fb + InvSq (to_sq m)) i
            = pos.evalList.pieceListFb i := by
          intro i hi hin0 hin1
          rw [Function.update_noteq hin0, Function.update_noteq hin1]
        have hpack := package_two pos.evalList.pieceListFb
          (Function.update
            (Function.update pos.evalList.pieceListFb
              (pos.evalList.piece_no_list_board (to_sq m)) 0)
            (pos.evalList.piece_no_list_board (from_sq m))
            ((kpp_board_index (make_piece pos.sideToMove
                (promotion_type m))).fb + InvSq (to_sq m)))
          ((pos.evalList.pieceListFb (PIECE_NUMBER_KING + 1) - f_king) % 64)
          (pos.evalList.piece_no_list_board (from_sq m))
          (pos.evalList.piece_no_list_board (to_sq m))
          hn0lt30' hn1lt30' hne01 hagree hinjB hinjA
        rw [Function.update_same] at hpack
        rw [Function.update_noteq (Ne.symm hne01), Function.update_same] at hpack
        rw [if_pos hnzB0, if_pos hnzB1, if_pos hnzA,
          if_neg (by omega : ¬ ((0:Nat) ≠ 0))] at hpack
        simp only [Option.toList_some, Option.toList_none, List.singleton_append,
          List.append_nil] at hpack
        have hrem : (AppendChangedIndices (do_move pos m) Side.kFriend 1).1
            = [MakeIndex ((pos.evalList.pieceListFb
                (PIECE_NUMBER_KING + 1) - f_king) % 64)
                (pos.evalList.pieceListFb
                  (pos.evalList.piece_no_list_board (from_sq m))),
               MakeIndex ((pos.evalList.pieceListFb
                (PIECE_NUMBER_KING + 1) - f_king) % 64)
                (pos.evalList.pieceListFb
                  (pos.evalList.piece_no_list_board (to_sq m)))] := by
          simp [AppendChangedIndices, hdnum, hdn0, hdn1, hcp0o, hcp1o, hGA2,
            hnotle0, hnotle1, hnzB0, hnzB1, ExtBonaPiece.fromPersp,
            BONA_PIECE_ZERO, WHITE]
        have hadd : (AppendChangedIndices (do_move pos m) Side.kFriend 1).2
            = [MakeIndex ((pos.evalList.pieceListFb
                (PIECE_NUMBER_KING + 1) - f_king) % 64)
                ((kpp_board_index (make_piece pos.sideToMove
                (promotion_type m))).fb + InvSq (to_sq m))] := by
          simp [AppendChangedIndices, hdnum, hdn0, hdn1, hcp0n, hcp1n, hGA2,
            hnotle0, hnotle1, hnzA, ExtBonaPiece.fromPersp, BONA_PIECE_ZERO,
            WHITE]
        have hactB : AppendActiveIndices pos Side.kFriend 1
            = (List.range 30).filterMap (fun i =>
                if pos.evalList.pieceListFb i ≠ 0
                then some (MakeIndex ((pos.evalList.pieceListFb
                  (PIECE_NUMBER_KING + 1) - f_king) % 64)
                  (pos.evalList.pieceListFb i)) else none) := rfl
        have hactA : AppendActiveIndices (do_move pos m) Side.kFriend 1
            = (List.range 30).filterMap (fun i =>
                if Function.update
                  (Function.update pos.evalList.pieceListFb
                    (pos.evalList.piece_no_list_board (to_sq m)) 0)
                  (pos.evalList.piece_no_list_board (from_sq m))
                  ((kpp_board_index (make_piece pos.sideToMove
                (promotion_type m))).fb + InvSq (to_sq m)) i ≠ 0
                then some (MakeIndex ((pos.evalList.pieceListFb
                  (PIECE_NUMBER_KING + 1) - f_king) % 64)
                  (Function.update
                    (Function.update pos.evalList.pieceListFb
                      (pos.evalList.piece_no_list_board (to_sq m)) 0)
                    (pos.evalList.piece_no_list_board (from_sq m))
                    ((kpp_board_index (make_piece pos.sideToMove
                (promotion_type m))).fb + InvSq (to_sq m)) i))
                else none) := by
          simp only [AppendActiveIndices]
          rw [hGA1, hGA2]
          rfl
        unfold featureDeltaCorrect
        rw [hrem, hadd, hactB, hactA]
        exact hpack

    · have hn0t : pos.evalList.piece_no_list_board (from_sq m)
          ≠ PIECE_NUMBER_KING + 0 := by
        by_cases hk : piece_type (pos.board (from_sq m)) = KING
        · have hc : piece_color (pos.board (from_sq m)) ≠ 0 := by
            intro hceq
            exact hnk ⟨hk, by rw [hceq]; rfl⟩
          have hn0 := hking_f hk
          unfold PIECE_NUMBER_KING at hn0
          unfold PIECE_NUMBER_KING
          omega
        · have h30 := hnking_f hk
          unfold PIECE_NUMBER_KING at h30
          unfold PIECE_NUMBER_KING
          omega
      have hn1t : pos.evalList.piece_no_list_board (to_sq m)
          ≠ PIECE_NUMBER_KING + 0 := by
        unfold PIECE_NUMBER_KING
        omega
      have hnotle1 : ¬ (PIECE_NUMBER_KING
          ≤ pos.evalList.piece_no_list_board (to_sq m)) := by
        unfold PIECE_NUMBER_KING
        omega
      have hGA1 : (GetPieces (do_move pos m) Side.kEnemy 1).1
          = Function.update
              (Function.update pos.evalList.pieceListFb
                (pos.evalList.piece_no_list_board (to_sq m)) 0)
              (pos.evalList.piece_no_list_board (from_sq m))
              ((kpp_board_index (make_piece pos.sideToMove
                (promotion_type m))).fb + InvSq (to_sq m)) := hFb
      have hGA2 : (GetPieces (do_move pos m) Side.kEnemy 1).2
          = (pos.evalList.pieceListFb (PIECE_NUMBER_KING + 0) - f_king) % 64 := by
        show ((do_move pos m).evalList.pieceListFb (PIECE_NUMBER_KING + 0)
          - f_king) % 64 = _
        rw [hFb, Function.update_noteq (Ne.symm hn0t),
          Function.update_noteq (Ne.symm hn1t)]
      have hinjB : ∀ a b, a < 30 → b < 30 → pos.evalList.pieceListFb a ≠ 0 →
          pos.evalList.pieceListFb a = pos.evalList.pieceListFb b → a = b := by
        intro a b ha hb hne heq
        exact live_inj_fb pos hwf' a b (by unfold PIECE_NUMBER_NB; omega)
          (by unfold PIECE_NUMBER_NB; omega) hne heq
      have hnzB1 : pos.evalList.pieceListFb
          (pos.evalList.piece_no_list_board (to_sq m)) ≠ 0 := by
        rw [hfb_t]
        have := kpp_fb_pos _ hvalid_t
        omega
      by_cases hk : piece_type (pos.board (from_sq m)) = KING
      · exact absurd hk hknot
      · have hn0lt30 := hnking_f hk
        have hn0lt30' : pos.evalList.piece_no_list_board (from_sq m) < 30 := by
          unfold PIECE_NUMBER_KING at hn0lt30
          omega
        have hnotle0 : ¬ (PIECE_NUMBER_KING
            ≤ pos.evalList.piece_no_list_board (from_sq m)) := by
          unfold PIECE_NUMBER_KING
          omega
        have hnzB0 : pos.evalList.pieceListFb
            (pos.evalList.piece_no_list_board (from_sq m)) ≠ 0 := by
          rw [hfb_f]
          have := kpp_fb_pos _ hvalid_f
          omega
        have hnzA : (kpp_board_index (make_piece pos.sideToMove
            (promotion_type m))).fb + InvSq (to_sq m) ≠ 0 := by
          have := kpp_fb_pos _ hvalid_promo
          omega
        have hfresh : ∀ j, j < 30 →
            j ≠ pos.evalList.piece_no_list_board (from_sq m) →
            j ≠ pos.evalList.piece_no_list_board (to_sq m) →
            pos.evalList.pieceListFb j ≠ 0 →
            pos.evalList.pieceListFb j
              ≠ (kpp_board_index (make_piece pos.sideToMove (promotion_type m))).fb + InvSq (to_sq m) := by
          intro j hj hjn0 hjn1 hne
          exact fresh_fb pos hwf'
            (make_piece pos.sideToMove (promotion_type m)) (to_sq m)
            hvalid_promo htlt j hj hjn1 hne
        have hinjA := live_inj_update2 pos.evalList.pieceListFb
          (pos.evalList.piece_no_list_board (from_sq m))
          (pos.evalList.piece_no_list_board (to_sq m))
          ((kpp_board_index (make_piece pos.sideToMove
                (promotion_type m))).fb + InvSq (to_sq m))
          hne01 hinjB hfresh
        have hagree : ∀ i, i < 30 →
            i ≠ pos.evalList.piece_no_list_board (from_sq m) →
            i ≠ pos.evalList.piece_no_list_board (to_sq m) →
            Function.update
              (Function.update pos.evalList.pieceListFb
                (pos.evalList.piece_no_list_board (to_sq m)) 0)
              (pos.evalList.piece_no_list_board (from_sq m))
              ((kpp_board_index (make_piece pos.sideToMove
                (promotion_type m))).fb + InvSq (to_sq m)) i
            = pos.evalList.pieceListFb i := by
          intro i hi hin0 hin1
          rw [Function.update_noteq hin0, Function.update_noteq hin1]
        have hpack := package_two pos.evalList.pieceListFb
          (Function.update
            (Function.update pos.evalList.pieceListFb
              (pos.evalList.piece_no_list_board (to_sq m)) 0)
            (pos.evalList.piece_no_list_board (from_sq m))
            ((kpp_board_index (make_piece pos.sideToMove
                (promotion_type m))).fb + InvSq (to_sq m)))
          ((pos.evalList.pieceListFb (PIECE_NUMBER_KING + 0) - f_king) % 64)
          (pos.evalList.piece_no_list_board (from_sq m))
          (pos.evalList.piece_no_list_board (to_sq m))
          hn0lt30' hn1lt30' hne01 hagree hinjB hinjA
        rw [Function.update_same] at hpack
        rw [Function.update_noteq (Ne.symm hne01), Function.update_same] at hpack
        rw [if_pos hnzB0, if_pos hnzB1, if_pos hnzA,
          if_neg (by omega : ¬ ((0:Nat) ≠ 0))] at hpack
        simp only [Option.toList_some, Option.toList_none, List.singleton_append,
          List.append_nil] at hpack
        have hrem : (AppendChangedIndices (do_move pos m) Side.kEnemy 1).1
            = [MakeIndex ((pos.evalList.pieceListFb
                (PIECE_NUMBER_KING + 0) - f_king) % 64)
                (pos.evalList.pieceListFb
                  (pos.evalList.piece_no_list_board (from_sq m))),
               MakeIndex ((pos.evalList.pieceListFb
                (PIECE_NUMBER_KING + 0) - f_king) % 64)
                (pos.evalList.pieceListFb
                  (pos.evalList.piece_no_list_board (to_sq m)))] := by
          simp [AppendChangedIndices, hdnum, hdn0, hdn1, hcp0o, hcp1o, hGA2,
            hnotle0, hnotle1, hnzB0, hnzB1, ExtBonaPiece.fromPersp,
            BONA_PIECE_ZERO, WHITE]
        have hadd : (AppendChangedIndices (do_move pos m) Side.kEnemy 1).2
            = [MakeIndex ((pos.evalList.pieceListFb
                (PIECE_NUMBER_KING + 0) - f_king) % 64)
                ((kpp_board_index (make_piece pos.sideToMove
                (promotion_type m))).fb + InvSq (to_sq m))] := by
          simp [AppendChangedIndices, hdnum, hdn0, hdn1, hcp0n, hcp1n, hGA2,
            hnotle0, hnotle1, hnzA, ExtBonaPiece.fromPersp, BONA_PIECE_ZERO,
            WHITE]
        have hactB : AppendActiveIndices pos Side.kEnemy 1
            = (List.range 30).filterMap (fun i =>
                if pos.evalList.pieceListFb i ≠ 0
                then some (MakeIndex ((pos.evalList.pieceListFb
                  (PIECE_NUMBER_KING + 0) - f_king) % 64)
                  (pos.evalList.pieceListFb i)) else none) := rfl
        have hactA : AppendActiveIndices (do_move pos m) Side.kEnemy 1
            = (List.range 30).filterMap (fun i =>
                if Function.update
                  (Function.update pos.evalList.pieceListFb
                    (pos.evalList.piece_no_list_board (to_sq m)) 0)
                  (pos.evalList.piece_no_list_board (from_sq m))
                  ((kpp_board_index (make_piece pos.sideToMove
                (promotion_type m))).fb + InvSq (to_sq m)) i ≠ 0
                then some (MakeIndex ((pos.evalList.pieceListFb
                  (PIECE_NUMBER_KING + 0) - f_king) % 64)
                  (Function.update
                    (Function.update pos.evalList.pieceListFb
                      (pos.evalList.piece_no_list_board (to_sq m)) 0)
                    (pos.evalList.piece_no_list_board (from_sq m))
                    ((kpp_board_index (make_piece pos.sideToMove
                (promotion_type m))).fb + InvSq (to_sq m)) i))
                else none) := by
          simp only [AppendActiveIndices]
          rw [hGA1, hGA2]
          rfl
        unfold featureDeltaCorrect
        rw [hrem, hadd, hactB, hactA]
        exact hpack

set_option maxHeartbeats 8000000 in
theorem C2_delta_enpassant (pos : Position) (m : Nat) (side : Side)
    (persp : Nat) (h : MovePre pos m) (hp : persp ≤ 1)
    (hnk : ¬(piece_type (pos.board (from_sq m)) = KING ∧
      piece_color (pos.board (from_sq m)) = assocColor side persp))
    (hmt : move_type m = ENPASSANT) :
    featureDeltaCorrect pos m side persp := by
  obtain ⟨⟨hus, hft, hpc, hcol, hcount⟩, hwf, htarget, hpromo, hep, hcastle⟩ := h
  obtain ⟨hpcp, hteps, hempty_t, hcapb, hcnt, hfcap, hxor, hrankW, hrankB⟩ :=
    hep hmt
  have hwf' : WFEval pos := hwf
  have hflt := from_sq_lt m
  have htlt := to_sq_lt m
  obtain ⟨hwsq, hwn⟩ := hwf
  have hcsf : behindSq pos.sideToMove (to_sq m) < 64 ∧
      behindSq pos.sideToMove (to_sq m) ≠ to_sq m := by
    rcases Nat.le_one_iff_eq_zero_or_eq_one.1 hus with h0 | h1
    · have hr := hrankW h0
      unfold behindSq WHITE
      rw [h0]
      rw [if_pos rfl]
      omega
    · have hr := hrankB h1
      unfold behindSq WHITE
      rw [h1]
      rw [if_neg (by omega)]
      omega
  have hcslt := hcsf.1
  have hcsnt := hcsf.2
  have hcapnz : make_piece (flipColor pos.sideToMove) PAWN ≠ NO_PIECE :=
    make_piece_ne_zero _ _ (by decide)
  have hcapocc : pos.board (behindSq pos.sideToMove (to_sq m)) ≠ NO_PIECE := by
    rw [hcapb]
    exact hcapnz
  have hptpc : piece_type (pos.board (from_sq m)) = PAWN := by
    rw [hpcp]
    exact piece_type_make_piece _ _ (by decide)
  have hknot : piece_type (pos.board (from_sq m)) ≠ KING := by
    rw [hptpc]
    decide
  obtain ⟨hvalid_f, hn0lt, hking_f, hnking_f, hfw_f, hfb_f⟩ :=
    (hwsq (from_sq m) hflt).2 hpc
  obtain ⟨hvalid_t, hn1lt, hking_t, hnking_t, hfw_t, hfb_t⟩ :=
    (hwsq (behindSq pos.sideToMove (to_sq m)) hcslt).2 hcapocc
  have hmap_t : pos.evalList.piece_no_list_board (to_sq m) = PIECE_NUMBER_NB :=
    (hwsq (to_sq m) htlt).1 hempty_t
  have hkc : piece_type (pos.board (behindSq pos.sideToMove (to_sq m)))
      ≠ KING := by
    rw [hcapb, piece_type_make_piece _ _ (by decide)]
    decide
  have hne01 : pos.evalList.piece_no_list_board (from_sq m)
      ≠ pos.evalList.piece_no_list_board (behindSq pos.sideToMove (to_sq m))
      := by
    intro heq
    have hfweq : pos.evalList.pieceListFw
          (pos.evalList.piece_no_list_board (from_sq m))
        = pos.evalList.pieceListFw
          (pos.evalList.piece_no_list_board
            (behindSq pos.sideToMove (to_sq m))) := by
      rw [heq]
    rw [hfw_f, hfw_t] at hfweq
    obtain ⟨hp, hs⟩ := kpp_fw_inj _ _ _ _ hvalid_f hvalid_t hflt hcslt hfweq
    exact hfcap hs
  have hn1lt30 := hnking_t hkc
  have hn1lt30' : pos.evalList.piece_no_list_board
      (behindSq pos.sideToMove (to_sq m)) < 30 := by
    unfold PIECE_NUMBER_KING at hn1lt30
    omega
  have hFw : (do_move pos m).evalList.pieceListFw
      = Function.update
          (Function.update pos.evalList.pieceListFw
            (pos.evalList.piece_no_list_board (behindSq pos.sideToMove (to_sq m))) 0)
          (pos.evalList.piece_no_list_board (from_sq m))
          ((kpp_board_index (pos.board (from_sq m))).fw + to_sq m) := by
    simp [do_move, hmt, hcapnz, hptpc, hxor, hfcap, Function.update_apply,
      Position.movePiece, Position.removePiece,
      Position.putPiece, do_castling_do, EvalList.piece_no_of_board,
      EvalList.put_piece, EvalList.set_piece_on_board, EvalList.setBoardNB,
      hft, BONA_PIECE_ZERO]
  have hFb : (do_move pos m).evalList.pieceListFb
      = Function.update
          (Function.update pos.evalList.pieceListFb
            (pos.evalList.piece_no_list_board (behindSq pos.sideToMove (to_sq m))) 0)
          (pos.evalList.piece_no_list_board (from_sq m))
          ((kpp_board_index (pos.board (from_sq m))).fb + InvSq (to_sq m)) := by
    simp [do_move, hmt, hcapnz, hptpc, hxor, hfcap, Function.update_apply,
      Position.movePiece, Position.removePiece,
      Position.putPiece, do_castling_do, EvalList.piece_no_of_board,
      EvalList.put_piece, EvalList.set_piece_on_board, EvalList.setBoardNB,
      hft, BONA_PIECE_ZERO]
  have hdnum : (do_move pos m).st.dirtyPiece.dirty_num = 2 := by
    simp [do_move, hmt, hcapnz, hptpc, hxor, hfcap, Function.update_apply,
      do_castling_do, Position.movePiece,
      Position.removePiece, Position.putPiece]
  have hdn0 : (do_move pos m).st.dirtyPiece.no0
      = pos.evalList.piece_no_list_board (from_sq m) := by
    simp [do_move, hmt, hcapnz, hptpc, hxor, hfcap, Function.update_apply,
      do_castling_do, EvalList.piece_no_of_board,
      EvalList.put_piece, EvalList.set_piece_on_board, EvalList.setBoardNB,
      Position.movePiece, Position.removePiece, Position.putPiece, hft]
  have hdn1 : (do_move pos m).st.dirtyPiece.no1
      = pos.evalList.piece_no_list_board (behindSq pos.sideToMove (to_sq m)) := by
    simp [do_move, hmt, hcapnz, hptpc, hxor, hfcap, Function.update_apply,
      do_castling_do, EvalList.piece_no_of_board,
      EvalList.put_piece, EvalList.set_piece_on_board, EvalList.setBoardNB,
      Position.movePiece, Position.removePiece, Position.putPiece, hft]
  have hcp0o : (do_move pos m).st.dirtyPiece.cp0.old_piece
      = ⟨pos.evalList.pieceListFw (pos.evalList.piece_no_list_board (from_sq m)),
         pos.evalList.pieceListFb (pos.evalList.piece_no_list_board (from_sq m))⟩
      := by
    simp [do_move, hmt, hcapnz, hptpc, hxor, hfcap, Function.update_apply,
      do_castling_do, EvalList.piece_no_of_board,
      EvalList.bona_piece, EvalList.put_piece, EvalList.set_piece_on_board,
      EvalList.setBoardNB, Position.movePiece, Position.removePiece,
      Position.putPiece, hft, Function.update_apply, hne01]
  have hcp0n : (do_move pos m).st.dirtyPiece.cp0.new_piece
      = ⟨(kpp_board_index (pos.board (from_sq m))).fw + to_sq m,
         (kpp_board_index (pos.board (from_sq m))).fb + InvSq (to_sq m)⟩ := by
    simp [do_move, hmt, hcapnz, hptpc, hxor, hfcap, Function.update_apply,
      do_castling_do, EvalList.piece_no_of_board,
      EvalList.bona_piece, EvalList.put_piece, EvalList.set_piece_on_board,
      EvalList.setBoardNB, Position.movePiece, Position.removePiece,
      Position.putPiece, hft, Function.update_apply]
  have hcp1o : (do_move pos m).st.dirtyPiece.cp1.old_piece
      = ⟨pos.evalList.pieceListFw (pos.evalList.piece_no_list_board (behindSq pos.sideToMove (to_sq m))),
         pos.evalList.pieceListFb (pos.evalList.piece_no_list_board (behindSq pos.sideToMove (to_sq m)))⟩
      := by
    simp [do_move, hmt, hcapnz, hptpc, hxor, hfcap, Function.update_apply,
      do_castling_do, EvalList.piece_no_of_board,
      EvalList.bona_piece, EvalList.put_piece, EvalList.set_piece_on_board,
      EvalList.setBoardNB, Position.movePiece, Position.removePiece,
      Position.putPiece, hft, Function.update_apply]
  have hcp1n : (do_move pos m).st.dirtyPiece.cp1.new_piece
      = ⟨(0 : Nat), (0 : Nat)⟩ := by
    simp [do_move, hmt, hcapnz, hptpc, hxor, hfcap, Function.update_apply,
      do_castling_do, EvalList.piece_no_of_board,
      EvalList.bona_piece, EvalList.put_piece, EvalList.set_piece_on_board,
      EvalList.setBoardNB, Position.movePiece, Position.removePiece,
      Position.putPiece, hft, Function.update_apply, BONA_PIECE_ZERO]
  rcases Nat.le_one_iff_eq_zero_or_eq_one.1 hp with rfl | rfl
  · cases side
    · have hn0t : pos.evalList.piece_no_list_board (from_sq m)
          ≠ PIECE_NUMBER_KING + 0 := by
        by_cases hk : piece_type (pos.board (from_sq m)) = KING
        · have hc : piece_color (pos.board (from_sq m)) ≠ 0 := by
            intro hceq
            exact hnk ⟨hk, by rw [hceq]; rfl⟩
          have hn0 := hking_f hk
          unfold PIECE_NUMBER_KING at hn0
          unfold PIECE_NUMBER_KING
          omega
        · have h30 := hnking_f hk
          unfold PIECE_NUMBER_KING at h30
          unfold PIECE_NUMBER_KING
          omega
      have hn1t : pos.evalList.piece_no_list_board (behindSq pos.sideToMove (to_sq m))
          ≠ PIECE_NUMBER_KING + 0 := by
        unfold PIECE_NUMBER_KING
        omega
      have hnotle1 : ¬ (PIECE_NUMBER_KING
          ≤ pos.evalList.piece_no_list_board (behindSq pos.sideToMove (to_sq m))) := by
        unfold PIECE_NUMBER_KING
        omega
      have hGA1 : (GetPieces (do_move pos m) Side.kFriend 0).1
          = Function.update
              (Function.update pos.evalList.pieceListFw
                (pos.evalList.piece_no_list_board (behindSq pos.sideToMove (to_sq m))) 0)
              (pos.evalList.piece_no_list_board (from_sq m))
              ((kpp_board_index (pos.board (from_sq m))).fw + to_sq m) := hFw
      have hGA2 : (GetPieces (do_move pos m) Side.kFriend 0).2
          = (pos.evalList.pieceListFw (PIECE_NUMBER_KING + 0) - f_king) % 64 := by
        show ((do_move pos m).evalList.pieceListFw (PIECE_NUMBER_KING + 0)
          - f_king) % 64 = _
        rw [hFw, Function.update_noteq (Ne.symm hn0t),
          Function.update_noteq (Ne.symm hn1t)]
      have hinjB : ∀ a b, a < 30 → b < 30 → pos.evalList.pieceListFw a ≠ 0 →
          pos.evalList.pieceListFw a = pos.evalList.pieceListFw b → a = b := by
        intro a b ha hb hne heq
        exact live_inj_fw pos hwf' a b (by unfold PIECE_NUMBER_NB; omega)
          (by unfold PIECE_NUMBER_NB; omega) hne heq
      have hnzB1 : pos.evalList.pieceListFw
          (pos.evalList.piece_no_list_board (behindSq pos.sideToMove (to_sq m))) ≠ 0 := by
        rw [hfw_t]
        have := kpp_fw_pos _ hvalid_t
        omega
      by_cases hk : piece_type (pos.board (from_sq m)) = KING
      · exact absurd hk hknot
      · have hn0lt30 := hnking_f hk
        have hn0lt30' : pos.evalList.piece_no_list_board (from_sq m) < 30 := by
          unfold PIECE_NUMBER_KING at hn0lt30
          omega
        have hnotle0 : ¬ (PIECE_NUMBER_KING
            ≤ pos.evalList.piece_no_list_board (from_sq m)) := by
          unfold PIECE_NUMBER_KING
          omega
        have hnzB0 : pos.evalList.pieceListFw
            (pos.evalList.piece_no_list_board (from_sq m)) ≠ 0 := by
          rw [hfw_f]
          have := kpp_fw_pos _ hvalid_f
          omega
        have hnzA : (kpp_board_index (pos.board (from_sq m))).fw + to_sq m ≠ 0 := by
          have := kpp_fw_pos _ hvalid_f
          omega
        have hfresh : ∀ j, j < 30 →
            j ≠ pos.evalList.piece_no_list_board (from_sq m) →
            j ≠ pos.evalList.piece_no_list_board (behindSq pos.sideToMove (to_sq m)) →
            pos.evalList.pieceListFw j ≠ 0 →
            pos.evalList.pieceListFw j
              ≠ (kpp_board_index (pos.board (from_sq m))).fw + to_sq m := by
          intro j hj hjn0 hjn1 hne
          exact fresh_fw pos hwf' (pos.board (from_sq m)) (to_sq m) hvalid_f htlt
            j hj (by rw [hmap_t]; unfold PIECE_NUMBER_NB; omega) hne
        have hinjA := live_inj_update2 pos.evalList.pieceListFw
          (pos.evalList.piece_no_list_board (from_sq m))
          (pos.evalList.piece_no_list_board (behindSq pos.sideToMove (to_sq m)))
          ((kpp_board_index (pos.board (from_sq m))).fw + to_sq m)
          hne01 hinjB hfresh
        have hagree : ∀ i, i < 30 →
            i ≠ pos.evalList.piece_no_list_board (from_sq m) →
            i ≠ pos.evalList.piece_no_list_board (behindSq pos.sideToMove (to_sq m)) →
            Function.update
              (Function.update pos.evalList.pieceListFw
                (pos.evalList.piece_no_list_board (behindSq pos.sideToMove (to_sq m))) 0)
              (pos.evalList.piece_no_list_board (from_sq m))
              ((kpp_board_index (pos.board (from_sq m))).fw + to_sq m) i
            = pos.evalList.pieceListFw i := by
          intro i hi hin0 hin1
          rw [Function.update_noteq hin0, Function.update_noteq hin1]
        have hpack := package_two pos.evalList.pieceListFw
          (Function.update
            (Function.update pos.evalList.pieceListFw
              (pos.evalList.piece_no_list_board (behindSq pos.sideToMove (to_sq m))) 0)
            (pos.evalList.piece_no_list_board (from_sq m))
            ((kpp_board_index (pos.board (from_sq m))).fw + to_sq m))
          ((pos.evalList.pieceListFw (PIECE_NUMBER_KING + 0) - f_king) % 64)
          (pos.evalList.piece_no_list_board (from_sq m))
          (pos.evalList.piece_no_list_board (behindSq pos.sideToMove (to_sq m)))
          hn0lt30' hn1lt30' hne01 hagree hinjB hinjA
        rw [Function.update_same] at hpack
        rw [Function.update_noteq (Ne.symm hne01), Function.update_same] at hpack
        rw [if_pos hnzB0, if_pos hnzB1, if_pos hnzA,
          if_neg (by omega : ¬ ((0:Nat) ≠ 0))] at hpack
        simp only [Option.toList_some, Option.toList_none, List.singleton_append,
          List.append_nil] at hpack
        have hrem : (AppendChangedIndices (do_move pos m) Side.kFriend 0).1
            = [MakeIndex ((pos.evalList.pieceListFw
                (PIECE_NUMBER_KING + 0) - f_king) % 64)
                (pos.evalList.pieceListFw
                  (pos.evalList.piece_no_list_board (from_sq m))),
               MakeIndex ((pos.evalList.pieceListFw
                (PIECE_NUMBER_KING + 0) - f_king) % 64)
                (pos.evalList.pieceListFw
                  (pos.evalList.piece_no_list_board (behindSq pos.sideToMove (to_sq m))))] := by
          simp [AppendChangedIndices, hdnum, hdn0, hdn1, hcp0o, hcp1o, hGA2,
            hnotle0, hnotle1, hnzB0, hnzB1, ExtBonaPiece.fromPersp,
            BONA_PIECE_ZERO, WHITE]
        have hadd : (AppendChangedIndices (do_move pos m) Side.kFriend 0).2
            = [MakeIndex ((pos.evalList.pieceListFw
                (PIECE_NUMBER_KING + 0) - f_king) % 64)
                ((kpp_board_index (pos.board (from_sq m))).fw + to_sq m)] := by
          simp [AppendChangedIndices, hdnum, hdn0, hdn1, hcp0n, hcp1n, hGA2,
            hnotle0, hnotle1, hnzA, ExtBonaPiece.fromPersp, BONA_PIECE_ZERO,
            WHITE]
        have hactB : AppendActiveIndices pos Side.kFriend 0
            = (List.range 30).filterMap (fun i =>
                if pos.evalList.pieceListFw i ≠ 0
                then some (MakeIndex ((pos.evalList.pieceListFw
                  (PIECE_NUMBER_KING + 0) - f_king) % 64)
                  (pos.evalList.pieceListFw i)) else none) := rfl
        have hactA : AppendActiveIndices (do_move pos m) Side.kFriend 0
            = (List.range 30).filterMap (fun i =>
                if Function.update
                  (Function.update pos.evalList.pieceListFw
                    (pos.evalList.piece_no_list_board (behindSq pos.sideToMove (to_sq m))) 0)
                  (pos.evalList.piece_no_list_board (from_sq m))
                  ((kpp_board_index (pos.board (from_sq m))).fw + to_sq m) i ≠ 0
                then some (MakeIndex ((pos.evalList.pieceListFw
                  (PIECE_NUMBER_KING + 0) - f_king) % 64)
                  (Function.update
                    (Function.update pos.evalList.pieceListFw
                      (pos.evalList.piece_no_list_board (behindSq pos.sideToMove (to_sq m))) 0)
                    (pos.evalList.piece_no_list_board (from_sq m))
                    ((kpp_board_index (pos.board (from_sq m))).fw + to_sq m) i))
                else none) := by
          simp only [AppendActiveIndices]
          rw [hGA1, hGA2]
          rfl
        unfold featureDeltaCorrect
        rw [hrem, hadd, hactB, hactA]
        exact hpack

    · have hn0t : pos.evalList.piece_no_list_board (from_sq m)
          ≠ PIECE_NUMBER_KING + 1 := by
        by_cases hk : piece_type (pos.board (from_sq m)) = KING
        · have hc : piece_color (pos.board (from_sq m)) ≠ 1 := by
            intro hceq
            exact hnk ⟨hk, by rw [hceq]; rfl⟩
          have hn0 := hking_f hk
          unfold PIECE_NUMBER_KING at hn0
          unfold PIECE_NUMBER_KING
          omega
        · have h30 := hnking_f hk
          unfold PIECE_NUMBER_KING at h30
          unfold PIECE_NUMBER_KING
          omega
      have hn1t : pos.evalList.piece_no_list_board (behindSq pos.sideToMove (to_sq m))
          ≠ PIECE_NUMBER_KING + 1 := by
        unfold PIECE_NUMBER_KING
        omega
      have hnotle1 : ¬ (PIECE_NUMBER_KING
          ≤ pos.evalList.piece_no_list_board (behindSq pos.sideToMove (to_sq m))) := by
        unfold PIECE_NUMBER_KING
        omega
      have hGA1 : (GetPieces (do_move pos m) Side.kEnemy 0).1
          = Function.update
              (Function.update pos.evalList.pieceListFw
                (pos.evalList.piece_no_list_board (behindSq pos.sideToMove (to_sq m))) 0)
              (pos.evalList.piece_no_list_board (from_sq m))
              ((kpp_board_index (pos.board (from_sq m))).fw + to_sq m) := hFw
      have hGA2 : (GetPieces (do_move pos m) Side.kEnemy 0).2
          = (pos.evalList.pieceListFw (PIECE_NUMBER_KING + 1) - f_king) % 64 := by
        show ((do_move pos m).evalList.pieceListFw (PIECE_NUMBER_KING + 1)
          - f_king) % 64 = _
        rw [hFw, Function.update_noteq (Ne.symm hn0t),
          Function.update_noteq (Ne.symm hn1t)]
      have hinjB : ∀ a b, a < 30 → b < 30 → pos.evalList.pieceListFw a ≠ 0 →
          pos.evalList.pieceListFw a = pos.evalList.pieceListFw b → a = b := by
        intro a b ha hb hne heq
        exact live_inj_fw pos hwf' a b (by unfold PIECE_NUMBER_NB; omega)
          (by unfold PIECE_NUMBER_NB; omega) hne heq
      have hnzB1 : pos.evalList.pieceListFw
          (pos.evalList.piece_no_list_board (behindSq pos.sideToMove (to_sq m))) ≠ 0 := by
        rw [hfw_t]
        have := kpp_fw_pos _ hvalid_t
        omega
      by_cases hk : piece_type (pos.board (from_sq m)) = KING
      · exact absurd hk hknot
      · have hn0lt30 := hnking_f hk
        have hn0lt30' : pos.evalList.piece_no_list_board (from_sq m) < 30 := by
          unfold PIECE_NUMBER_KING at hn0lt30
          omega
        have hnotle0 : ¬ (PIECE_NUMBER_KING
            ≤ pos.evalList.piece_no_list_board (from_sq m)) := by
          unfold PIECE_NUMBER_KING
          omega
        have hnzB0 : pos.evalList.pieceListFw
            (pos.evalList.piece_no_list_board (from_sq m)) ≠ 0 := by
          rw [hfw_f]
          have := kpp_fw_pos _ hvalid_f
          omega
        have hnzA : (kpp_board_index (pos.board (from_sq m))).fw + to_sq m ≠ 0 := by
          have := kpp_fw_pos _ hvalid_f
          omega
        have hfresh : ∀ j, j < 30 →
            j ≠ pos.evalList.piece_no_list_board (from_sq m) →
            j ≠ pos.evalList.piece_no_list_board (behindSq pos.sideToMove (to_sq m)) →
            pos.evalList.pieceListFw j ≠ 0 →
            pos.evalList.pieceListFw j
              ≠ (kpp_board_index (pos.board (from_sq m))).fw + to_sq m := by
          intro j hj hjn0 hjn1 hne
          exact fresh_fw pos hwf' (pos.board (from_sq m)) (to_sq m) hvalid_f htlt
            j hj (by rw [hmap_t]; unfold PIECE_NUMBER_NB; omega) hne
        have hinjA := live_inj_update2 pos.evalList.pieceListFw
          (pos.evalList.piece_no_list_board (from_sq m))
          (pos.evalList.piece_no_list_board (behindSq pos.sideToMove (to_sq m)))
          ((kpp_board_index (pos.board (from_sq m))).fw + to_sq m)
          hne01 hinjB hfresh
        have hagree : ∀ i, i < 30 →
            i ≠ pos.evalList.piece_no_list_board (from_sq m) →
            i ≠ pos.evalList.piece_no_list_board (behindSq pos.sideToMove (to_sq m)) →
            Function.update
              (Function.update pos.evalList.pieceListFw
                (pos.evalList.piece_no_list_board (behindSq pos.sideToMove (to_sq m))) 0)
              (pos.evalList.piece_no_list_board (from_sq m))
              ((kpp_board_index (pos.board (from_sq m))).fw + to_sq m) i
            = pos.evalList.pieceListFw i := by
          intro i hi hin0 hin1
          rw [Function.update_noteq hin0, Function.update_noteq hin1]
        have hpack := package_two pos.evalList.pieceListFw
          (Function.update
            (Function.update pos.evalList.pieceListFw
              (pos.evalList.piece_no_list_board (behindSq pos.sideToMove (to_sq m))) 0)
            (pos.evalList.piece_no_list_board (from_sq m))
            ((kpp_board_index (pos.board (from_sq m))).fw + to_sq m))
          ((pos.evalList.pieceListFw (PIECE_NUMBER_KING + 1) - f_king) % 64)
          (pos.evalList.piece_no_list_board (from_sq m))
          (pos.evalList.piece_no_list_board (behindSq pos.sideToMove (to_sq m)))
          hn0lt30' hn1lt30' hne01 hagree hinjB hinjA
        rw [Function.update_same] at hpack
        rw [Function.update_noteq (Ne.symm hne01), Function.update_same] at hpack
        rw [if_pos hnzB0, if_pos hnzB1, if_pos hnzA,
          if_neg (by omega : ¬ ((0:Nat) ≠ 0))] at hpack
        simp only [Option.toList_some, Option.toList_none, List.singleton_append,
          List.append_nil] at hpack
        have hrem : (AppendChangedIndices (do_move pos m) Side.kEnemy 0).1
            = [MakeIndex ((pos.evalList.pieceListFw
                (PIECE_NUMBER_KING + 1) - f_king) % 64)
                (pos.evalList.pieceListFw
                  (pos.evalList.piece_no_list_board (from_sq m))),
               MakeIndex ((pos.evalList.pieceListFw
                (PIECE_NUMBER_KING + 1) - f_king) % 64)
                (pos.evalList.pieceListFw
                  (pos.evalList.piece_no_list_board (behindSq pos.sideToMove (to_sq m))))] := by
          simp [AppendChangedIndices, hdnum, hdn0, hdn1, hcp0o, hcp1o, hGA2,
            hnotle0, hnotle1, hnzB0, hnzB1, ExtBonaPiece.fromPersp,
            BONA_PIECE_ZERO, WHITE]
        have hadd : (AppendChangedIndices (do_move pos m) Side.kEnemy 0).2
            = [MakeIndex ((pos.evalList.pieceListFw
                (PIECE_NUMBER_KING + 1) - f_king) % 64)
                ((kpp_board_index (pos.board (from_sq m))).fw + to_sq m)] := by
          simp [AppendChangedIndices, hdnum, hdn0, hdn1, hcp0n, hcp1n, hGA2,
            hnotle0, hnotle1, hnzA, ExtBonaPiece.fromPersp, BONA_PIECE_ZERO,
            WHITE]
        have hactB : AppendActiveIndices pos Side.kEnemy 0
            = (List.range 30).filterMap (fun i =>
                if pos.evalList.pieceListFw i ≠ 0
                then some (MakeIndex ((pos.evalList.pieceListFw
                  (PIECE_NUMBER_KING + 1) - f_king) % 64)
                  (pos.evalList.pieceListFw i)) else none) := rfl
        have hactA : AppendActiveIndices (do_move pos m) Side.kEnemy 0
            = (List.range 30).filterMap (fun i =>
                if Function.update
                  (Function.update pos.evalList.pieceListFw
                    (pos.evalList.piece_no_list_board (behindSq pos.sideToMove (to_sq m))) 0)
                  (pos.evalList.piece_no_list_board (from_sq m))
                  ((kpp_board_index (pos.board (from_sq m))).fw + to_sq m) i ≠ 0
                then some (MakeIndex ((pos.evalList.pieceListFw
                  (PIECE_NUMBER_KING + 1) - f_king) % 64)
                  (Function.update
                    (Function.update pos.evalList.pieceListFw
                      (pos.evalList.piece_no_list_board (behindSq pos.sideToMove (to_sq m))) 0)
                    (pos.evalList.piece_no_list_board (from_sq m))
                    ((kpp_board_index (pos.board (from_sq m))).fw + to_sq m) i))
                else none) := by
          simp only [AppendActiveIndices]
          rw [hGA1, hGA2]
          rfl
        unfold featureDeltaCorrect
        rw [hrem, hadd, hactB, hactA]
        exact hpack

  · cases side
    · have hn0t : pos.evalList.piece_no_list_board (from_sq m)
          ≠ PIECE_NUMBER_KING + 1 := by
        by_cases hk : piece_type (pos.board (from_sq m)) = KING
        · have hc : piece_color (pos.board (from_sq m)) ≠ 1 := by
            intro hceq
            exact hnk ⟨hk, by rw [hceq]; rfl⟩
          have hn0 := hking_f hk
          unfold PIECE_NUMBER_KING at hn0
          unfold PIECE_NUMBER_KING
          omega
        · have h30 := hnking_f hk
          unfold PIECE_NUMBER_KING at h30
          unfold PIECE_NUMBER_KING
          omega
      have hn1t : pos.evalList.piece_no_list_board (behindSq pos.sideToMove (to_sq m))
          ≠ PIECE_NUMBER_KING + 1 := by
        unfold PIECE_NUMBER_KING
        omega
      have hnotle1 : ¬ (PIECE_NUMBER_KING
          ≤ pos.evalList.piece_no_list_board (behindSq pos.sideToMove (to_sq m))) := by
        unfold PIECE_NUMBER_KING
        omega
      have hGA1 : (GetPieces (do_move pos m) Side.kFriend 1).1
          = Function.update
              (Function.update pos.evalList.pieceListFb
                (pos.evalList.piece_no_list_board (behindSq pos.sideToMove (to_sq m))) 0)
              (pos.evalList.piece_no_list_board (from_sq m))
              ((kpp_board_index (pos.board (from_sq m))).fb + InvSq (to_sq m)) := hFb
      have hGA2 : (GetPieces (do_move pos m) Side.kFriend 1).2
          = (pos.evalList.pieceListFb (PIECE_NUMBER_KING + 1) - f_king) % 64 := by
        show ((do_move pos m).evalList.pieceListFb (PIECE_NUMBER_KING + 1)
          - f_king) % 64 = _
        rw [hFb, Function.update_noteq (Ne.symm hn0t),
          Function.update_noteq (Ne.symm hn1t)]
      have hinjB : ∀ a b, a < 30 → b < 30 → pos.evalList.pieceListFb a ≠ 0 →
          pos.evalList.pieceListFb a = pos.evalList.pieceListFb b → a = b := by
        intro a b ha hb hne heq
        exact live_inj_fb pos hwf' a b (by unfold PIECE_NUMBER_NB; omega)
          (by unfold PIECE_NUMBER_NB; omega) hne heq
      have hnzB1 : pos.evalList.pieceListFb
          (pos.evalList.piece_no_list_board (behindSq pos.sideToMove (to_sq m))) ≠ 0 := by
        rw [hfb_t]
        have := kpp_fb_pos _ hvalid_t
        omega
      by_cases hk : piece_type (pos.board (from_sq m)) = KING
      · exact absurd hk hknot
      · have hn0lt30 := hnking_f hk
        have hn0lt30' : pos.evalList.piece_no_list_board (from_sq m) < 30 := by
          unfold PIECE_NUMBER_KING at hn0lt30
          omega
        have hnotle0 : ¬ (PIECE_NUMBER_KING
            ≤ pos.evalList.piece_no_list_board (from_sq m)) := by
          unfold PIECE_NUMBER_KING
          omega
        have hnzB0 : pos.evalList.pieceListFb
            (pos.evalList.piece_no_list_board (from_sq m)) ≠ 0 := by
          rw [hfb_f]
          have := kpp_fb_pos _ hvalid_f
          omega
        have hnzA : (kpp_board_index (pos.board (from_sq m))).fb + InvSq (to_sq m) ≠ 0 := by
          have := kpp_fb_pos _ hvalid_f
          omega
        have hfresh : ∀ j, j < 30 →
            j ≠ pos.evalList.piece_no_list_board (from_sq m) →
            j ≠ pos.evalList.piece_no_list_board (behindSq pos.sideToMove (to_sq m)) →
            pos.evalList.pieceListFb j ≠ 0 →
            pos.evalList.pieceListFb j
              ≠ (kpp_board_index (pos.board (from_sq m))).fb + InvSq (to_sq m) := by
          intro j hj hjn0 hjn1 hne
          exact fresh_fb pos hwf' (pos.board (from_sq m)) (to_sq m) hvalid_f htlt
            j hj (by rw [hmap_t]; unfold PIECE_NUMBER_NB; omega) hne
        have hinjA := live_inj_update2 pos.evalList.pieceListFb
          (pos.evalList.piece_no_list_board (from_sq m))
          (pos.evalList.piece_no_list_board (behindSq pos.sideToMove (to_sq m)))
          ((kpp_board_index (pos.board (from_sq m))).fb + InvSq (to_sq m))
          hne01 hinjB hfresh
        have hagree : ∀ i, i < 30 →
            i ≠ pos.evalList.piece_no_list_board (from_sq m) →
            i ≠ pos.evalList.piece_no_list_board (behindSq pos.sideToMove (to_sq m)) →
            Function.update
              (Function.update pos.evalList.pieceListFb
                (pos.evalList.piece_no_list_board (behindSq pos.sideToMove (to_sq m))) 0)
              (pos.evalList.piece_no_list_board (from_sq m))
              ((kpp_board_index (pos.board (from_sq m))).fb + InvSq (to_sq m)) i
            = pos.evalList.pieceListFb i := by
          intro i hi hin0 hin1
          rw [Function.update_noteq hin0, Function.update_noteq hin1]
        have hpack := package_two pos.evalList.pieceListFb
          (Function.update
            (Function.update pos.evalList.pieceListFb
              (pos.evalList.piece_no_list_board (behindSq pos.sideToMove (to_sq m))) 0)
            (pos.evalList.piece_no_list_board (from_sq m))
            ((kpp_board_index (pos.board (from_sq m))).fb + InvSq (to_sq m)))
          ((pos.evalList.pieceListFb (PIECE_NUMBER_KING + 1) - f_king) % 64)
          (pos.evalList.piece_no_list_board (from_sq m))
          (pos.evalList.piece_no_list_board (behindSq pos.sideToMove (to_sq m)))
          hn0lt30' hn1lt30' hne01 hagree hinjB hinjA
        rw [Function.update_same] at hpack
        rw [Function.update_noteq (Ne.symm hne01), Function.update_same] at hpack
        rw [if_pos hnzB0, if_pos hnzB1, if_pos hnzA,
          if_neg (by omega : ¬ ((0:Nat) ≠ 0))] at hpack
        simp only [Option.toList_some, Option.toList_none, List.singleton_append,
          List.append_nil] at hpack
        have hrem : (AppendChangedIndices (do_move pos m) Side.kFriend 1).1
            = [MakeIndex ((pos.evalList.pieceListFb
                (PIECE_NUMBER_KING + 1) - f_king) % 64)
                (pos.evalList.pieceListFb
                  (pos.evalList.piece_no_list_board (from_sq m))),
               MakeIndex ((pos.evalList.pieceListFb
                (PIECE_NUMBER_KING + 1) - f_king) % 64)
                (pos.evalList.pieceListFb
                  (pos.evalList.piece_no_list_board (behindSq pos.sideToMove (to_sq m))))] := by
          simp [AppendChangedIndices, hdnum, hdn0, hdn1, hcp0o, hcp1o, hGA2,
            hnotle0, hnotle1, hnzB0, hnzB1, ExtBonaPiece.fromPersp,
            BONA_PIECE_ZERO, WHITE]
        have hadd : (AppendChangedIndices (do_move pos m) Side.kFriend 1).2
            = [MakeIndex ((pos.evalList.pieceListFb
                (PIECE_NUMBER_KING + 1) - f_king) % 64)
                ((kpp_board_index (pos.board (from_sq m))).fb + InvSq (to_sq m))] := by
          simp [AppendChangedIndices, hdnum, hdn0, hdn1, hcp0n, hcp1n, hGA2,
            hnotle0, hnotle1, hnzA, ExtBonaPiece.fromPersp, BONA_PIECE_ZERO,
            WHITE]
        have hactB : AppendActiveIndices pos Side.kFriend 1
            = (List.range 30).filterMap (fun i =>
                if pos.evalList.pieceListFb i ≠ 0
                then some (MakeIndex ((pos.evalList.pieceListFb
                  (PIECE_NUMBER_KING + 1) - f_king) % 64)
                  (pos.evalList.pieceListFb i)) else none) := rfl
        have hactA : AppendActiveIndices (do_move pos m) Side.kFriend 1
            = (List.range 30).filterMap (fun i =>
                if Function.update
                  (Function.update pos.evalList.pieceListFb
                    (pos.evalList.piece_no_list_board (behindSq pos.sideToMove (to_sq m))) 0)
                  (pos.evalList.piece_no_list_board (from_sq m))
                  ((kpp_board_index (pos.board (from_sq m))).fb + InvSq (to_sq m)) i ≠ 0
                then some (MakeIndex ((pos.evalList.pieceListFb
                  (PIECE_NUMBER_KING + 1) - f_king) % 64)
                  (Function.update
                    (Function.update pos.evalList.pieceListFb
                      (pos.evalList.piece_no_list_board (behindSq pos.sideToMove (to_sq m))) 0)
                    (pos.evalList.piece_no_list_board (from_sq m))
                    ((kpp_board_index (pos.board (from_sq m))).fb + InvSq (to_sq m)) i))
                else none) := by
          simp only [AppendActiveIndices]
          rw [hGA1, hGA2]
          rfl
        unfold featureDeltaCorrect
        rw [hrem, hadd, hactB, hactA]
        exact hpack

    · have hn0t : pos.evalList.piece_no_list_board (from_sq m)
          ≠ PIECE_NUMBER_KING + 0 := by
        by_cases hk : piece_type (pos.board (from_sq m)) = KING
        · have hc : piece_color (pos.board (from_sq m)) ≠ 0 := by
            intro hceq
            exact hnk ⟨hk, by rw [hceq]; rfl⟩
          have hn0 := hking_f hk
          unfold PIECE_NUMBER_KING at hn0
          unfold PIECE_NUMBER_KING
          omega
        · have h30 := hnking_f hk
          unfold PIECE_NUMBER_KING at h30
          unfold PIECE_NUMBER_KING
          omega
      have hn1t : pos.evalList.piece_no_list_board (behindSq pos.sideToMove (to_sq m))
          ≠ PIECE_NUMBER_KING + 0 := by
        unfold PIECE_NUMBER_KING
        omega
      have hnotle1 : ¬ (PIECE_NUMBER_KING
          ≤ pos.evalList.piece_no_list_board (behindSq pos.sideToMove (to_sq m))) := by
        unfold PIECE_NUMBER_KING
        omega
      have hGA1 : (GetPieces (do_move pos m) Side.kEnemy 1).1
          = Function.update
              (Function.update pos.evalList.pieceListFb
                (pos.evalList.piece_no_list_board (behindSq pos.sideToMove (to_sq m))) 0)
              (pos.evalList.piece_no_list_board (from_sq m))
              ((kpp_board_index (pos.board (from_sq m))).fb + InvSq (to_sq m)) := hFb
      have hGA2 : (GetPieces (do_move pos m) Side.kEnemy 1).2
          = (pos.evalList.pieceListFb (PIECE_NUMBER_KING + 0) - f_king) % 64 := by
        show ((do_move pos m).evalList.pieceListFb (PIECE_NUMBER_KING + 0)
          - f_king) % 64 = _
        rw [hFb, Function.update_noteq (Ne.symm hn0t),
          Function.update_noteq (Ne.symm hn1t)]
      have hinjB : ∀ a b, a < 30 → b < 30 → pos.evalList.pieceListFb a ≠ 0 →
          pos.evalList.pieceListFb a = pos.evalList.pieceListFb b → a = b := by
        intro a b ha hb hne heq
        exact live_inj_fb pos hwf' a b (by unfold PIECE_NUMBER_NB; omega)
          (by unfold PIECE_NUMBER_NB; omega) hne heq
      have hnzB1 : pos.evalList.pieceListFb
          (pos.evalList.piece_no_list_board (behindSq pos.sideToMove (to_sq m))) ≠ 0 := by
        rw [hfb_t]
        have := kpp_fb_pos _ hvalid_t
        omega
      by_cases hk : piece_type (pos.board (from_sq m)) = KING
      · exact absurd hk hknot
      · have hn0lt30 := hnking_f hk
        have hn0lt30' : pos.evalList.piece_no_list_board (from_sq m) < 30 := by
          unfold PIECE_NUMBER_KING at hn0lt30
          omega
        have hnotle0 : ¬ (PIECE_NUMBER_KING
            ≤ pos.evalList.piece_no_list_board (from_sq m)) := by
          unfold PIECE_NUMBER_KING
          omega
        have hnzB0 : pos.evalList.pieceListFb
            (pos.evalList.piece_no_list_board (from_sq m)) ≠ 0 := by
          rw [hfb_f]
          have := kpp_fb_pos _ hvalid_f
          omega
        have hnzA : (kpp_board_index (pos.board (from_sq m))).fb + InvSq (to_sq m) ≠ 0 := by
          have := kpp_fb_pos _ hvalid_f
          omega
        have hfresh : ∀ j, j < 30 →
            j ≠ pos.evalList.piece_no_list_board (from_sq m) →
            j ≠ pos.evalList.piece_no_list_board (behindSq pos.sideToMove (to_sq m)) →
            pos.evalList.pieceListFb j ≠ 0 →
            pos.evalList.pieceListFb j
              ≠ (kpp_board_index (pos.board (from_sq m))).fb + InvSq (to_sq m) := by
          intro j hj hjn0 hjn1 hne
          exact fresh_fb pos hwf' (pos.board (from_sq m)) (to_sq m) hvalid_f htlt
            j hj (by rw [hmap_t]; unfold PIECE_NUMBER_NB; omega) hne
        have hinjA := live_inj_update2 pos.evalList.pieceListFb
          (pos.evalList.piece_no_list_board (from_sq m))
          (pos.evalList.piece_no_list_board (behindSq pos.sideToMove (to_sq m)))
          ((kpp_board_index (pos.board (from_sq m))).fb + InvSq (to_sq m))
          hne01 hinjB hfresh
        have hagree : ∀ i, i < 30 →
            i ≠ pos.evalList.piece_no_list_board (from_sq m) →
            i ≠ pos.evalList.piece_no_list_board (behindSq pos.sideToMove (to_sq m)) →
            Function.update
              (Function.update pos.evalList.pieceListFb
                (pos.evalList.piece_no_list_board (behindSq pos.sideToMove (to_sq m))) 0)
              (pos.evalList.piece_no_list_board (from_sq m))
              ((kpp_board_index (pos.board (from_sq m))).fb + InvSq (to_sq m)) i
            = pos.evalList.pieceListFb i := by
          intro i hi hin0 hin1
          rw [Function.update_noteq hin0, Function.update_noteq hin1]
        have hpack := package_two pos.evalList.pieceListFb
          (Function.update
            (Function.update pos.evalList.pieceListFb
              (pos.evalList.piece_no_list_board (behindSq pos.sideToMove (to_sq m))) 0)
            (pos.evalList.piece_no_list_board (from_sq m))
            ((kpp_board_index (pos.board (from_sq m))).fb + InvSq (to_sq m)))
          ((pos.evalList.pieceListFb (PIECE_NUMBER_KING + 0) - f_king) % 64)
          (pos.evalList.piece_no_list_board (from_sq m))
          (pos.evalList.piece_no_list_board (behindSq pos.sideToMove (to_sq m)))
          hn0lt30' hn1lt30' hne01 hagree hinjB hinjA
        rw [Function.update_same] at hpack
        rw [Function.update_noteq (Ne.symm hne01), Function.update_same] at hpack
        rw [if_pos hnzB0, if_pos hnzB1, if_pos hnzA,
          if_neg (by omega : ¬ ((0:Nat) ≠ 0))] at hpack
        simp only [Option.toList_some, Option.toList_none, List.singleton_append,
          List.append_nil] at hpack
        have hrem : (AppendChangedIndices (do_move pos m) Side.kEnemy 1).1
            = [MakeIndex ((pos.evalList.pieceListFb
                (PIECE_NUMBER_KING + 0) - f_king) % 64)
                (pos.evalList.pieceListFb
                  (pos.evalList.piece_no_list_board (from_sq m))),
               MakeIndex ((pos.evalList.pieceListFb
                (PIECE_NUMBER_KING + 0) - f_king) % 64)
                (pos.evalList.pieceListFb
                  (pos.evalList.piece_no_list_board (behindSq pos.sideToMove (to_sq m))))] := by
          simp [AppendChangedIndices, hdnum, hdn0, hdn1, hcp0o, hcp1o, hGA2,
            hnotle0, hnotle1, hnzB0, hnzB1, ExtBonaPiece.fromPersp,
            BONA_PIECE_ZERO, WHITE]
        have hadd : (AppendChangedIndices (do_move pos m) Side.kEnemy 1).2
            = [MakeIndex ((pos.evalList.pieceListFb
                (PIECE_NUMBER_KING + 0) - f_king) % 64)
                ((kpp_board_index (pos.board (from_sq m))).fb + InvSq (to_sq m))] := by
          simp [AppendChangedIndices, hdnum, hdn0, hdn1, hcp0n, hcp1n, hGA2,
            hnotle0, hnotle1, hnzA, ExtBonaPiece.fromPersp, BONA_PIECE_ZERO,
            WHITE]
        have hactB : AppendActiveIndices pos Side.kEnemy 1
            = (List.range 30).filterMap (fun i =>
                if pos.evalList.pieceListFb i ≠ 0
                then some (MakeIndex ((pos.evalList.pieceListFb
                  (PIECE_NUMBER_KING + 0) - f_king) % 64)
                  (pos.evalList.pieceListFb i)) else none) := rfl
        have hactA : AppendActiveIndices (do_move pos m) Side.kEnemy 1
            = (List.range 30).filterMap (fun i =>
                if Function.update
                  (Function.update pos.evalList.pieceListFb
                    (pos.evalList.piece_no_list_board (behindSq pos.sideToMove (to_sq m))) 0)
                  (pos.evalList.piece_no_list_board (from_sq m))
                  ((kpp_board_index (pos.board (from_sq m))).fb + InvSq (to_sq m)) i ≠ 0
                then some (MakeIndex ((pos.evalList.pieceListFb
                  (PIECE_NUMBER_KING + 0) - f_king) % 64)
                  (Function.update
                    (Function.update pos.evalList.pieceListFb
                      (pos.evalList.piece_no_list_board (behindSq pos.sideToMove (to_sq m))) 0)
                    (pos.evalList.piece_no_list_board (from_sq m))
                    ((kpp_board_index (pos.board (from_sq m))).fb + InvSq (to_sq m)) i))
                else none) := by
          simp only [AppendActiveIndices]
          rw [hGA1, hGA2]
          rfl
        unfold featureDeltaCorrect
        rw [hrem, hadd, hactB, hactA]
        exact hpack

set_option maxHeartbeats 8000000 in
theorem C2_delta_castling (pos : Position) (m : Nat) (side : Side)
    (persp : Nat) (h : MovePre pos m) (hp : persp ≤ 1)
    (hnk : ¬(piece_type (pos.board (from_sq m)) = KING ∧
      piece_color (pos.board (from_sq m)) = assocColor side persp))
    (hmt : move_type m = CASTLING) :
    featureDeltaCorrect pos m side persp := by
  obtain ⟨⟨hus, hft, hpc, hcol, hcount⟩, hwf, htarget, hpromo, hep, hcastle⟩ := h
  obtain ⟨hkingb, hrookb, hcntr, hgeom⟩ := hcastle hmt
  simp only [castleGeom] at hgeom
  obtain ⟨hfk, hfr, htk, htr, hkr, hbk, hbr⟩ := hgeom
  have hwf' : WFEval pos := hwf
  have hflt := from_sq_lt m
  have htlt := to_sq_lt m
  obtain ⟨hwsq, hwn⟩ := hwf
  have hklt : relative_square pos.sideToMove
      (if from_sq m < to_sq m then 6 else 2) < 64 :=
    relative_square_lt _ _ hus (by split <;> omega)
  have hrlt : relative_square pos.sideToMove
      (if from_sq m < to_sq m then 5 else 3) < 64 :=
    relative_square_lt _ _ hus (by split <;> omega)
  have hmap_kto := (hwsq _ hklt).1 hbk
  have hmap_rto := (hwsq _ hrlt).1 hbr
  have hrocc : pos.board (to_sq m) ≠ NO_PIECE := by
    rw [hrookb]
    exact make_piece_ne_zero _ _ (by decide)
  obtain ⟨hvalid_f, hn0lt, hking_f, hnking_f, hfw_f, hfb_f⟩ :=
    (hwsq (from_sq m) hflt).2 hpc
  obtain ⟨hvalid_t, hn1lt, hking_t, hnking_t, hfw_t, hfb_t⟩ :=
    (hwsq (to_sq m) htlt).2 hrocc
  have hkf : piece_type (pos.board (from_sq m)) = KING := by
    rw [hkingb]
    exact piece_type_make_piece _ _ (by decide)
  have hnp : piece_type (pos.board (from_sq m)) ≠ PAWN := by
    rw [hkf]
    decide
  have hkc : piece_type (pos.board (to_sq m)) ≠ KING := by
    rw [hrookb, piece_type_make_piece _ _ (by decide)]
    decide
  have hn1lt30 := hnking_t hkc
  have hn1lt30' : pos.evalList.piece_no_list_board (to_sq m) < 30 := by
    unfold PIECE_NUMBER_KING at hn1lt30
    omega
  have hvalidR : validPiece (make_piece pos.sideToMove ROOK) := by
    unfold validPiece
    rw [piece_type_make_piece _ _ (by decide),
      piece_color_make_piece _ _ (by decide)]
    exact ⟨by decide, by decide, hus⟩
  have hn0v : pos.evalList.piece_no_list_board (from_sq m)
      = PIECE_NUMBER_KING + pos.sideToMove := by
    rw [hking_f hkf, hcol]
  have hn0ge : PIECE_NUMBER_KING
      ≤ pos.evalList.piece_no_list_board (from_sq m) := by
    rw [hn0v]
    omega
  have hFw : (do_move pos m).evalList.pieceListFw
      = Function.update
          (Function.update pos.evalList.pieceListFw
            (pos.evalList.piece_no_list_board (from_sq m))
            ((kpp_board_index (make_piece pos.sideToMove KING)).fw
              + relative_square pos.sideToMove
                (if from_sq m < to_sq m then 6 else 2)))
          (pos.evalList.piece_no_list_board (to_sq m))
          ((kpp_board_index (make_piece pos.sideToMove ROOK)).fw
            + relative_square pos.sideToMove
              (if from_sq m < to_sq m then 5 else 3)) := by
    simp [do_move, hmt, hkingb, hrookb, hnp, do_castling_do,
      Position.movePiece, Position.removePiece, Position.putPiece,
      EvalList.piece_no_of_board, EvalList.put_piece,
      EvalList.set_piece_on_board, EvalList.setBoardNB]
  have hFb : (do_move pos m).evalList.pieceListFb
      = Function.update
          (Function.update pos.evalList.pieceListFb
            (pos.evalList.piece_no_list_board (from_sq m))
            ((kpp_board_index (make_piece pos.sideToMove KING)).fb
              + InvSq (relative_square pos.sideToMove
                (if from_sq m < to_sq m then 6 else 2))))
          (pos.evalList.piece_no_list_board (to_sq m))
          ((kpp_board_index (make_piece pos.sideToMove ROOK)).fb
            + InvSq (relative_square pos.sideToMove
              (if from_sq m < to_sq m then 5 else 3))) := by
    simp [do_move, hmt, hkingb, hrookb, hnp, do_castling_do,
      Position.movePiece, Position.removePiece, Position.putPiece,
      EvalList.piece_no_of_board, EvalList.put_piece,
      EvalList.set_piece_on_board, EvalList.setBoardNB]
  have hdnum : (do_move pos m).st.dirtyPiece.dirty_num = 2 := by
    simp [do_move, hmt, hkingb, hrookb, hnp, do_castling_do,
      Position.movePiece, Position.removePiece, Position.putPiece]
  have hdn0 : (do_move pos m).st.dirtyPiece.no0
      = pos.evalList.piece_no_list_board (from_sq m) := by
    simp [do_move, hmt, hkingb, hrookb, hnp, do_castling_do,
      EvalList.piece_no_of_board, Position.movePiece, Position.removePiece,
      Position.putPiece]
  have hdn1 : (do_move pos m).st.dirtyPiece.no1
      = pos.evalList.piece_no_list_board (to_sq m) := by
    simp [do_move, hmt, hkingb, hrookb, hnp, do_castling_do,
      EvalList.piece_no_of_board, Position.movePiece, Position.removePiece,
      Position.putPiece]
  have hcp1o : (do_move pos m).st.dirtyPiece.cp1.old_piece
      = ⟨pos.evalList.pieceListFw (pos.evalList.piece_no_list_board (to_sq m)),
         pos.evalList.pieceListFb (pos.evalList.piece_no_list_board (to_sq m))⟩
      := by
    have hne01' : pos.evalList.piece_no_list_board (to_sq m)
        ≠ pos.evalList.piece_no_list_board (from_sq m) := by
      unfold PIECE_NUMBER_KING at hn0ge
      omega
    simp [do_move, hmt, hkingb, hrookb, hnp, do_castling_do,
      EvalList.piece_no_of_board, EvalList.bona_piece, EvalList.put_piece,
      EvalList.set_piece_on_board, EvalList.setBoardNB, Position.movePiece,
      Position.removePiece, Position.putPiece, Function.update_apply, hne01']
  have hcp1n : (do_move pos m).st.dirtyPiece.cp1.new_piece
      = ⟨(kpp_board_index (make_piece pos.sideToMove ROOK)).fw
          + relative_square pos.sideToMove
            (if from_sq m < to_sq m then 5 else 3),
         (kpp_board_index (make_piece pos.sideToMove ROOK)).fb
          + InvSq (relative_square pos.sideToMove
            (if from_sq m < to_sq m then 5 else 3))⟩ := by
    simp [do_move, hmt, hkingb, hrookb, hnp, do_castling_do,
      EvalList.piece_no_of_board, EvalList.bona_piece, EvalList.put_piece,
      EvalList.set_piece_on_board, EvalList.setBoardNB, Position.movePiece,
      Position.removePiece, Position.putPiece, Function.update_apply]
  rcases Nat.le_one_iff_eq_zero_or_eq_one.1 hp with rfl | rfl
  · cases side
    · have hstmAC : pos.sideToMove ≠ 0 := by
        intro he
        exact hnk ⟨hkf, by rw [hcol]; exact he⟩
      have hn0t : pos.evalList.piece_no_list_board (from_sq m)
          ≠ PIECE_NUMBER_KING + 0 := by
        rw [hn0v]
        omega
      have hn1t : pos.evalList.piece_no_list_board (to_sq m)
          ≠ PIECE_NUMBER_KING + 0 := by
        unfold PIECE_NUMBER_KING
        omega
      have hnotle1 : ¬ (PIECE_NUMBER_KING
          ≤ pos.evalList.piece_no_list_board (to_sq m)) := by
        unfold PIECE_NUMBER_KING
        omega
      have hGA1 : (GetPieces (do_move pos m) Side.kFriend 0).1
          = Function.update
              (Function.update pos.evalList.pieceListFw
                (pos.evalList.piece_no_list_board (from_sq m))
                ((kpp_board_index (make_piece pos.sideToMove KING)).fw
                  + relative_square pos.sideToMove
                    (if from_sq m < to_sq m then 6 else 2)))
              (pos.evalList.piece_no_list_board (to_sq m))
              ((kpp_board_index (make_piece pos.sideToMove ROOK)).fw
                + relative_square pos.sideToMove
                  (if from_sq m < to_sq m then 5 else 3)) := hFw
      have hGA2 : (GetPieces (do_move pos m) Side.kFriend 0).2
          = (pos.evalList.pieceListFw (PIECE_NUMBER_KING + 0) - f_king) % 64 := by
        show ((do_move pos m).evalList.pieceListFw (PIECE_NUMBER_KING + 0)
          - f_king) % 64 = _
        rw [hFw, Function.update_noteq (Ne.symm hn1t),
          Function.update_noteq (Ne.symm hn0t)]
      have hinjB : ∀ a b, a < 30 → b < 30 → pos.evalList.pieceListFw a ≠ 0 →
          pos.evalList.pieceListFw a = pos.evalList.pieceListFw b → a = b := by
        intro a b ha hb hne heq
        exact live_inj_fw pos hwf' a b (by unfold PIECE_NUMBER_NB; omega)
          (by unfold PIECE_NUMBER_NB; omega) hne heq
      have hnzB1 : pos.evalList.pieceListFw
          (pos.evalList.piece_no_list_board (to_sq m)) ≠ 0 := by
        rw [hfw_t]
        have := kpp_fw_pos _ hvalid_t
        omega
      have hnzA : (kpp_board_index (make_piece pos.sideToMove ROOK)).fw
          + relative_square pos.sideToMove
            (if from_sq m < to_sq m then 5 else 3) ≠ 0 := by
        have := kpp_fw_pos _ hvalidR
        omega
      have hn0ge' : 30 ≤ pos.evalList.piece_no_list_board (from_sq m) := by
        unfold PIECE_NUMBER_KING at hn0ge
        omega
      have hfreshR : ∀ j, j < 30 →
          j ≠ pos.evalList.piece_no_list_board (to_sq m) →
          pos.evalList.pieceListFw j ≠ 0 →
          pos.evalList.pieceListFw j
            ≠ (kpp_board_index (make_piece pos.sideToMove ROOK)).fw
              + relative_square pos.sideToMove
                (if from_sq m < to_sq m then 5 else 3) := by
        intro j hj hjn1 hne
        exact fresh_fw pos hwf' (make_piece pos.sideToMove ROOK)
          (relative_square pos.sideToMove
            (if from_sq m < to_sq m then 5 else 3)) hvalidR hrlt
          j hj (by rw [hmap_rto]; unfold PIECE_NUMBER_NB; omega) hne
      have hagree : ∀ i, i < 30 →
          i ≠ pos.evalList.piece_no_list_board (to_sq m) →
          Function.update
            (Function.update pos.evalList.pieceListFw
              (pos.evalList.piece_no_list_board (from_sq m))
              ((kpp_board_index (make_piece pos.sideToMove KING)).fw
                + relative_square pos.sideToMove
                  (if from_sq m < to_sq m then 6 else 2)))
            (pos.evalList.piece_no_list_board (to_sq m))
            ((kpp_board_index (make_piece pos.sideToMove ROOK)).fw
              + relative_square pos.sideToMove
                (if from_sq m < to_sq m then 5 else 3)) i
          = pos.evalList.pieceListFw i := by
        intro i hi hin1
        rw [Function.update_noteq hin1, Function.update_noteq (by omega)]
      have hinjA : ∀ a b, a < 30 → b < 30 →
          Function.update
            (Function.update pos.evalList.pieceListFw
              (pos.evalList.piece_no_list_board (from_sq m))
              ((kpp_board_index (make_piece pos.sideToMove KING)).fw
                + relative_square pos.sideToMove
                  (if from_sq m < to_sq m then 6 else 2)))
            (pos.evalList.piece_no_list_board (to_sq m))
            ((kpp_board_index (make_piece pos.sideToMove ROOK)).fw
              + relative_square pos.sideToMove
                (if from_sq m < to_sq m then 5 else 3)) a ≠ 0 →
          Function.update
            (Function.update pos.evalList.pieceListFw
              (pos.evalList.piece_no_list_board (from_sq m))
              ((kpp_board_index (make_piece pos.sideToMove KING)).fw
                + relative_square pos.sideToMove
                  (if from_sq m < to_sq m then 6 else 2)))
            (pos.evalList.piece_no_list_board (to_sq m))
            ((kpp_board_index (make_piece pos.sideToMove ROOK)).fw
              + relative_square pos.sideToMove
                (if from_sq m < to_sq m then 5 else 3)) a
          = Function.update
            (Function.update pos.evalList.pieceListFw
              (pos.evalList.piece_no_list_board (from_sq m))
              ((kpp_board_index (make_piece pos.sideToMove KING)).fw
                + relative_square pos.sideToMove
                  (if from_sq m < to_sq m then 6 else 2)))
            (pos.evalList.piece_no_list_board (to_sq m))
            ((kpp_board_index (make_piece pos.sideToMove ROOK)).fw
              + relative_square pos.sideToMove
                (if from_sq m < to_sq m then 5 else 3)) b
          → a = b := by
        intro a b ha hb hlive heq
        rcases eq_or_ne a (pos.evalList.piece_no_list_board (to_sq m)) with
          rfl | han1
        · rw [Function.update_same] at hlive heq
          rcases eq_or_ne b (pos.evalList.piece_no_list_board (to_sq m)) with
            rfl | hbn1
          · rfl
          · rw [Function.update_noteq hbn1,
              Function.update_noteq (by omega : b ≠
                pos.evalList.piece_no_list_board (from_sq m))] at heq
            exact absurd heq.symm (hfreshR b hb hbn1 (heq ▸ hlive))
        · rw [Function.update_noteq han1,
            Function.update_noteq (by omega : a ≠
              pos.evalList.piece_no_list_board (from_sq m))] at hlive heq
          rcases eq_or_ne b (pos.evalList.piece_no_list_board (to_sq m)) with
            rfl | hbn1
          · rw [Function.update_same] at heq
            exact absurd heq (hfreshR a ha han1 hlive)
          · rw [Function.update_noteq hbn1,
              Function.update_noteq (by omega : b ≠
                pos.evalList.piece_no_list_board (from_sq m))] at heq
            exact hinjB a b ha hb hlive heq
      have hpack := package_one pos.evalList.pieceListFw
        (Function.update
          (Function.update pos.evalList.pieceListFw
            (pos.evalList.piece_no_list_board (from_sq m))
            ((kpp_board_index (make_piece pos.sideToMove KING)).fw
              + relative_square pos.sideToMove
                (if from_sq m < to_sq m then 6 else 2)))
          (pos.evalList.piece_no_list_board (to_sq m))
          ((kpp_board_index (make_piece pos.sideToMove ROOK)).fw
            + relative_square pos.sideToMove
              (if from_sq m < to_sq m then 5 else 3)))
        ((pos.evalList.pieceListFw (PIECE_NUMBER_KING + 0) - f_king) % 64)
        (pos.evalList.piece_no_list_board (to_sq m))
        hn1lt30' hagree hinjB hinjA
      rw [Function.update_same] at hpack
      rw [if_pos hnzB1, if_pos hnzA] at hpack
      simp only [Option.toList_some] at hpack
      have hrem : (AppendChangedIndices (do_move pos m) Side.kFriend 0).1
          = [MakeIndex ((pos.evalList.pieceListFw
              (PIECE_NUMBER_KING + 0) - f_king) % 64)
              (pos.evalList.pieceListFw
                (pos.evalList.piece_no_list_board (to_sq m)))] := by
        simp [AppendChangedIndices, hdnum, hdn0, hdn1, hcp1o, hGA2, hn0ge,
          hnotle1, hnzB1, ExtBonaPiece.fromPersp, BONA_PIECE_ZERO, WHITE]
      have hadd : (AppendChangedIndices (do_move pos m) Side.kFriend 0).2
          = [MakeIndex ((pos.evalList.pieceListFw
              (PIECE_NUMBER_KING + 0) - f_king) % 64)
              ((kpp_board_index (make_piece pos.sideToMove ROOK)).fw
                + relative_square pos.sideToMove
                  (if from_sq m < to_sq m then 5 else 3))] := by
        simp [AppendChangedIndices, hdnum, hdn0, hdn1, hcp1n, hGA2, hn0ge,
          hnotle1, hnzA, ExtBonaPiece.fromPersp, BONA_PIECE_ZERO, WHITE]
      have hactB : AppendActiveIndices pos Side.kFriend 0
          = (List.range 30).filterMap (fun i =>
              if pos.evalList.pieceListFw i ≠ 0
              then some (MakeIndex ((pos.evalList.pieceListFw
                (PIECE_NUMBER_KING + 0) - f_king) % 64)
                (pos.evalList.pieceListFw i)) else none) := rfl
      have hactA : AppendActiveIndices (do_move pos m) Side.kFriend 0
          = (List.range 30).filterMap (fun i =>
              if Function.update
                (Function.update pos.evalList.pieceListFw
                  (pos.evalList.piece_no_list_board (from_sq m))
                  ((kpp_board_index (make_piece pos.sideToMove KING)).fw
                    + relative_square pos.sideToMove
                      (if from_sq m < to_sq m then 6 else 2)))
                (pos.evalList.piece_no_list_board (to_sq m))
                ((kpp_board_index (make_piece pos.sideToMove ROOK)).fw
                  + relative_square pos.sideToMove
                    (if from_sq m < to_sq m then 5 else 3)) i ≠ 0
              then some (MakeIndex ((pos.evalList.pieceListFw
                (PIECE_NUMBER_KING + 0) - f_king) % 64)
                (Function.update
                  (Function.update pos.evalList.pieceListFw
                    (pos.evalList.piece_no_list_board (from_sq m))
                    ((kpp_board_index (make_piece pos.sideToMove KING)).fw
                      + relative_square pos.sideToMove
                        (if from_sq m < to_sq m then 6 else 2)))
                  (pos.evalList.piece_no_list_board (to_sq m))
                  ((kpp_board_index (make_piece pos.sideToMove ROOK)).fw
                    + relative_square pos.sideToMove
                      (if from_sq m < to_sq m then 5 else 3)) i))
              else none) := by
        simp only [AppendActiveIndices]
        rw [hGA1, hGA2]
        rfl
      unfold featureDeltaCorrect
      rw [hrem, hadd, hactB, hactA]
      exact hpack

    · have hstmAC : pos.sideToMove ≠ 1 := by
        intro he
        exact hnk ⟨hkf, by rw [hcol]; exact he⟩
      have hn0t : pos.evalList.piece_no_list_board (from_sq m)
          ≠ PIECE_NUMBER_KING + 1 := by
        rw [hn0v]
        omega
      have hn1t : pos.evalList.piece_no_list_board (to_sq m)
          ≠ PIECE_NUMBER_KING + 1 := by
        unfold PIECE_NUMBER_KING
        omega
      have hnotle1 : ¬ (PIECE_NUMBER_KING
          ≤ pos.evalList.piece_no_list_board (to_sq m)) := by
        unfold PIECE_NUMBER_KING
        omega
      have hGA1 : (GetPieces (do_move pos m) Side.kEnemy 0).1
          = Function.update
              (Function.update pos.evalList.pieceListFw
                (pos.evalList.piece_no_list_board (from_sq m))
                ((kpp_board_index (make_piece pos.sideToMove KING)).fw
                  + relative_square pos.sideToMove
                    (if from_sq m < to_sq m then 6 else 2)))
              (pos.evalList.piece_no_list_board (to_sq m))
              ((kpp_board_index (make_piece pos.sideToMove ROOK)).fw
                + relative_square pos.sideToMove
                  (if from_sq m < to_sq m then 5 else 3)) := hFw
      have hGA2 : (GetPieces (do_move pos m) Side.kEnemy 0).2
          = (pos.evalList.pieceListFw (PIECE_NUMBER_KING + 1) - f_king) % 64 := by
        show ((do_move pos m).evalList.pieceListFw (PIECE_NUMBER_KING + 1)
          - f_king) % 64 = _
        rw [hFw, Function.update_noteq (Ne.symm hn1t),
          Function.update_noteq (Ne.symm hn0t)]
      have hinjB : ∀ a b, a < 30 → b < 30 → pos.evalList.pieceListFw a ≠ 0 →
          pos.evalList.pieceListFw a = pos.evalList.pieceListFw b → a = b := by
        intro a b ha hb hne heq
        exact live_inj_fw pos hwf' a b (by unfold PIECE_NUMBER_NB; omega)
          (by unfold PIECE_NUMBER_NB; omega) hne heq
      have hnzB1 : pos.evalList.pieceListFw
          (pos.evalList.piece_no_list_board (to_sq m)) ≠ 0 := by
        rw [hfw_t]
        have := kpp_fw_pos _ hvalid_t
        omega
      have hnzA : (kpp_board_index (make_piece pos.sideToMove ROOK)).fw
          + relative_square pos.sideToMove
            (if from_sq m < to_sq m then 5 else 3) ≠ 0 := by
        have := kpp_fw_pos _ hvalidR
        omega
      have hn0ge' : 30 ≤ pos.evalList.piece_no_list_board (from_sq m) := by
        unfold PIECE_NUMBER_KING at hn0ge
        omega
      have hfreshR : ∀ j, j < 30 →
          j ≠ pos.evalList.piece_no_list_board (to_sq m) →
          pos.evalList.pieceListFw j ≠ 0 →
          pos.evalList.pieceListFw j
            ≠ (kpp_board_index (make_piece pos.sideToMove ROOK)).fw
              + relative_square pos.sideToMove
                (if from_sq m < to_sq m then 5 else 3) := by
        intro j hj hjn1 hne
        exact fresh_fw pos hwf' (make_piece pos.sideToMove ROOK)
          (relative_square pos.sideToMove
            (if from_sq m < to_sq m then 5 else 3)) hvalidR hrlt
          j hj (by rw [hmap_rto]; unfold PIECE_NUMBER_NB; omega) hne
      have hagree : ∀ i, i < 30 →
          i ≠ pos.evalList.piece_no_list_board (to_sq m) →
          Function.update
            (Function.update pos.evalList.pieceListFw
              (pos.evalList.piece_no_list_board (from_sq m))
              ((kpp_board_index (make_piece pos.sideToMove KING)).fw
                + relative_square pos.sideToMove
                  (if from_sq m < to_sq m then 6 else 2)))
            (pos.evalList.piece_no_list_board (to_sq m))
            ((kpp_board_index (make_piece pos.sideToMove ROOK)).fw
              + relative_square pos.sideToMove
                (if from_sq m < to_sq m then 5 else 3)) i
          = pos.evalList.pieceListFw i := by
        intro i hi hin1
        rw [Function.update_noteq hin1, Function.update_noteq (by omega)]
      have hinjA : ∀ a b, a < 30 → b < 30 →
          Function.update
            (Function.update pos.evalList.pieceListFw
              (pos.evalList.piece_no_list_board (from_sq m))
              ((kpp_board_index (make_piece pos.sideToMove KING)).fw
                + relative_square pos.sideToMove
                  (if from_sq m < to_sq m then 6 else 2)))
            (pos.evalList.piece_no_list_board (to_sq m))
            ((kpp_board_index (make_piece pos.sideToMove ROOK)).fw
              + relative_square pos.sideToMove
                (if from_sq m < to_sq m then 5 else 3)) a ≠ 0 →
          Function.update
            (Function.update pos.evalList.pieceListFw
              (pos.evalList.piece_no_list_board (from_sq m))
              ((kpp_board_index (make_piece pos.sideToMove KING)).fw
                + relative_square pos.sideToMove
                  (if from_sq m < to_sq m then 6 else 2)))
            (pos.evalList.piece_no_list_board (to_sq m))
            ((kpp_board_index (make_piece pos.sideToMove ROOK)).fw
              + relative_square pos.sideToMove
                (if from_sq m < to_sq m then 5 else 3)) a
          = Function.update
            (Function.update pos.evalList.pieceListFw
              (pos.evalList.piece_no_list_board (from_sq m))
              ((kpp_board_index (make_piece pos.sideToMove KING)).fw
                + relative_square pos.sideToMove
                  (if from_sq m < to_sq m then 6 else 2)))
            (pos.evalList.piece_no_list_board (to_sq m))
            ((kpp_board_index (make_piece pos.sideToMove ROOK)).fw
              + relative_square pos.sideToMove
                (if from_sq m < to_sq m then 5 else 3)) b
          → a = b := by
        intro a b ha hb hlive heq
        rcases eq_or_ne a (pos.evalList.piece_no_list_board (to_sq m)) with
          rfl | han1
        · rw [Function.update_same] at hlive heq
          rcases eq_or_ne b (pos.evalList.piece_no_list_board (to_sq m)) with
            rfl | hbn1
          · rfl
          · rw [Function.update_noteq hbn1,
              Function.update_noteq (by omega : b ≠
                pos.evalList.piece_no_list_board (from_sq m))] at heq
            exact absurd heq.symm (hfreshR b hb hbn1 (heq ▸ hlive))
        · rw [Function.update_noteq han1,
            Function.update_noteq (by omega : a ≠
              pos.evalList.piece_no_list_board (from_sq m))] at hlive heq
          rcases eq_or_ne b (pos.evalList.piece_no_list_board (to_sq m)) with
            rfl | hbn1
          · rw [Function.update_same] at heq
            exact absurd heq (hfreshR a ha han1 hlive)
          · rw [Function.update_noteq hbn1,
              Function.update_noteq (by omega : b ≠
                pos.evalList.piece_no_list_board (from_sq m))] at heq
            exact hinjB a b ha hb hlive heq
      have hpack := package_one pos.evalList.pieceListFw
        (Function.update
          (Function.update pos.evalList.pieceListFw
            (pos.evalList.piece_no_list_board (from_sq m))
            ((kpp_board_index (make_piece pos.sideToMove KING)).fw
              + relative_square pos.sideToMove
                (if from_sq m < to_sq m then 6 else 2)))
          (pos.evalList.piece_no_list_board (to_sq m))
          ((kpp_board_index (make_piece pos.sideToMove ROOK)).fw
            + relative_square pos.sideToMove
              (if from_sq m < to_sq m then 5 else 3)))
        ((pos.evalList.pieceListFw (PIECE_NUMBER_KING + 1) - f_king) % 64)
        (pos.evalList.piece_no_list_board (to_sq m))
        hn1lt30' hagree hinjB hinjA
      rw [Function.update_same] at hpack
      rw [if_pos hnzB1, if_pos hnzA] at hpack
      simp only [Option.toList_some] at hpack
      have hrem : (AppendChangedIndices (do_move pos m) Side.kEnemy 0).1
          = [MakeIndex ((pos.evalList.pieceListFw
              (PIECE_NUMBER_KING + 1) - f_king) % 64)
              (pos.evalList.pieceListFw
                (pos.evalList.piece_no_list_board (to_sq m)))] := by
        simp [AppendChangedIndices, hdnum, hdn0, hdn1, hcp1o, hGA2, hn0ge,
          hnotle1, hnzB1, ExtBonaPiece.fromPersp, BONA_PIECE_ZERO, WHITE]
      have hadd : (AppendChangedIndices (do_move pos m) Side.kEnemy 0).2
          = [MakeIndex ((pos.evalList.pieceListFw
              (PIECE_NUMBER_KING + 1) - f_king) % 64)
              ((kpp_board_index (make_piece pos.sideToMove ROOK)).fw
                + relative_square pos.sideToMove
                  (if from_sq m < to_sq m then 5 else 3))] := by
        simp [AppendChangedIndices, hdnum, hdn0, hdn1, hcp1n, hGA2, hn0ge,
          hnotle1, hnzA, ExtBonaPiece.fromPersp, BONA_PIECE_ZERO, WHITE]
      have hactB : AppendActiveIndices pos Side.kEnemy 0
          = (List.range 30).filterMap (fun i =>
              if pos.evalList.pieceListFw i ≠ 0
              then some (MakeIndex ((pos.evalList.pieceListFw
                (PIECE_NUMBER_KING + 1) - f_king) % 64)
                (pos.evalList.pieceListFw i)) else none) := rfl
      have hactA : AppendActiveIndices (do_move pos m) Side.kEnemy 0
          = (List.range 30).filterMap (fun i =>
              if Function.update
                (Function.update pos.evalList.pieceListFw
                  (pos.evalList.piece_no_list_board (from_sq m))
                  ((kpp_board_index (make_piece pos.sideToMove KING)).fw
                    + relative_square pos.sideToMove
                      (if from_sq m < to_sq m then 6 else 2)))
                (pos.evalList.piece_no_list_board (to_sq m))
                ((kpp_board_index (make_piece pos.sideToMove ROOK)).fw
                  + relative_square pos.sideToMove
                    (if from_sq m < to_sq m then 5 else 3)) i ≠ 0
              then some (MakeIndex ((pos.evalList.pieceListFw
                (PIECE_NUMBER_KING + 1) - f_king) % 64)
                (Function.update
                  (Function.update pos.evalList.pieceListFw
                    (pos.evalList.piece_no_list_board (from_sq m))
                    ((kpp_board_index (make_piece pos.sideToMove KING)).fw
                      + relative_square pos.sideToMove
                        (if from_sq m < to_sq m then 6 else 2)))
                  (pos.evalList.piece_no_list_board (to_sq m))
                  ((kpp_board_index (make_piece pos.sideToMove ROOK)).fw
                    + relative_square pos.sideToMove
                      (if from_sq m < to_sq m then 5 else 3)) i))
              else none) := by
        simp only [AppendActiveIndices]
        rw [hGA1, hGA2]
        rfl
      unfold featureDeltaCorrect
      rw [hrem, hadd, hactB, hactA]
      exact hpack

  · cases side
    · have hstmAC : pos.sideToMove ≠ 1 := by
        intro he
        exact hnk ⟨hkf, by rw [hcol]; exact he⟩
      have hn0t : pos.evalList.piece_no_list_board (from_sq m)
          ≠ PIECE_NUMBER_KING + 1 := by
        rw [hn0v]
        omega
      have hn1t : pos.evalList.piece_no_list_board (to_sq m)
          ≠ PIECE_NUMBER_KING + 1 := by
        unfold PIECE_NUMBER_KING
        omega
      have hnotle1 : ¬ (PIECE_NUMBER_KING
          ≤ pos.evalList.piece_no_list_board (to_sq m)) := by
        unfold PIECE_NUMBER_KING
        omega
      have hGA1 : (GetPieces (do_move pos m) Side.kFriend 1).1
          = Function.update
              (Function.update pos.evalList.pieceListFb
                (pos.evalList.piece_no_list_board (from_sq m))
                ((kpp_board_index (make_piece pos.sideToMove KING)).fb + InvSq (relative_square pos.sideToMove (if from_sq m < to_sq m then 6 else 2))))
              (pos.evalList.piece_no_list_board (to_sq m))
              ((kpp_board_index (make_piece pos.sideToMove ROOK)).fb + InvSq (relative_square pos.sideToMove (if from_sq m < to_sq m then 5 else 3))) := hFb
      have hGA2 : (GetPieces (do_move pos m) Side.kFriend 1).2
          = (pos.evalList.pieceListFb (PIECE_NUMBER_KING + 1) - f_king) % 64 := by
        show ((do_move pos m).evalList.pieceListFb (PIECE_NUMBER_KING + 1)
          - f_king) % 64 = _
        rw [hFb, Function.update_noteq (Ne.symm hn1t),
          Function.update_noteq (Ne.symm hn0t)]
      have hinjB : ∀ a b, a < 30 → b < 30 → pos.evalList.pieceListFb a ≠ 0 →
          pos.evalList.pieceListFb a = pos.evalList.pieceListFb b → a = b := by
        intro a b ha hb hne heq
        exact live_inj_fb pos hwf' a b (by unfold PIECE_NUMBER_NB; omega)
          (by unfold PIECE_NUMBER_NB; omega) hne heq
      have hnzB1 : pos.evalList.pieceListFb
          (pos.evalList.piece_no_list_board (to_sq m)) ≠ 0 := by
        rw [hfb_t]
        have := kpp_fb_pos _ hvalid_t
        omega
      have hnzA : (kpp_board_index (make_piece pos.sideToMove ROOK)).fb + InvSq (relative_square pos.sideToMove (if from_sq m < to_sq m then 5 else 3)) ≠ 0 := by
        have := kpp_fb_pos _ hvalidR
        omega
      have hn0ge' : 30 ≤ pos.evalList.piece_no_list_board (from_sq m) := by
        unfold PIECE_NUMBER_KING at hn0ge
        omega
      have hfreshR : ∀ j, j < 30 →
          j ≠ pos.evalList.piece_no_list_board (to_sq m) →
          pos.evalList.pieceListFb j ≠ 0 →
          pos.evalList.pieceListFb j
            ≠ (kpp_board_index (make_piece pos.sideToMove ROOK)).fb + InvSq (relative_square pos.sideToMove (if from_sq m < to_sq m then 5 else 3)) := by
        intro j hj hjn1 hne
        exact fresh_fb pos hwf' (make_piece pos.sideToMove ROOK)
          (relative_square pos.sideToMove
            (if from_sq m < to_sq m then 5 else 3)) hvalidR hrlt
          j hj (by rw [hmap_rto]; unfold PIECE_NUMBER_NB; omega) hne
      have hagree : ∀ i, i < 30 →
          i ≠ pos.evalList.piece_no_list_board (to_sq m) →
          Function.update
            (Function.update pos.evalList.pieceListFb
              (pos.evalList.piece_no_list_board (from_sq m))
              ((kpp_board_index (make_piece pos.sideToMove KING)).fb + InvSq (relative_square pos.sideToMove (if from_sq m < to_sq m then 6 else 2))))
            (pos.evalList.piece_no_list_board (to_sq m))
            ((kpp_board_index (make_piece pos.sideToMove ROOK)).fb + InvSq (relative_square pos.sideToMove (if from_sq m < to_sq m then 5 else 3))) i
          = pos.evalList.pieceListFb i := by
        intro i hi hin1
        rw [Function.update_noteq hin1, Function.update_noteq (by omega)]
      have hinjA : ∀ a b, a < 30 → b < 30 →
          Function.update
            (Function.update pos.evalList.pieceListFb
              (pos.evalList.piece_no_list_board (from_sq m))
              ((kpp_board_index (make_piece pos.sideToMove KING)).fb + InvSq (relative_square pos.sideToMove (if from_sq m < to_sq m then 6 else 2))))
            (pos.evalList.piece_no_list_board (to_sq m))
            ((kpp_board_index (make_piece pos.sideToMove ROOK)).fb + InvSq (relative_square pos.sideToMove (if from_sq m < to_sq m then 5 else 3))) a ≠ 0 →
          Function.update
            (Function.update pos.evalList.pieceListFb
              (pos.evalList.piece_no_list_board (from_sq m))
              ((kpp_board_index (make_piece pos.sideToMove KING)).fb + InvSq (relative_square pos.sideToMove (if from_sq m < to_sq m then 6 else 2))))
            (pos.evalList.piece_no_list_board (to_sq m))
            ((kpp_board_index (make_piece pos.sideToMove ROOK)).fb + InvSq (relative_square pos.sideToMove (if from_sq m < to_sq m then 5 else 3))) a
          = Function.update
            (Function.update pos.evalList.pieceListFb
              (pos.evalList.piece_no_list_board (from_sq m))
              ((kpp_board_index (make_piece pos.sideToMove KING)).fb + InvSq (relative_square pos.sideToMove (if from_sq m < to_sq m then 6 else 2))))
            (pos.evalList.piece_no_list_board (to_sq m))
            ((kpp_board_index (make_piece pos.sideToMove ROOK)).fb + InvSq (relative_square pos.sideToMove (if from_sq m < to_sq m then 5 else 3))) b
          → a = b := by
        intro a b ha hb hlive heq
        rcases eq_or_ne a (pos.evalList.piece_no_list_board (to_sq m)) with
          rfl | han1
        · rw [Function.update_same] at hlive heq
          rcases eq_or_ne b (pos.evalList.piece_no_list_board (to_sq m)) with
            rfl | hbn1
          · rfl
          · rw [Function.update_noteq hbn1,
              Function.update_noteq (by omega : b ≠
                pos.evalList.piece_no_list_board (from_sq m))] at heq
            exact absurd heq.symm (hfreshR b hb hbn1 (heq ▸ hlive))
        · rw [Function.update_noteq han1,
            Function.update_noteq (by omega : a ≠
              pos.evalList.piece_no_list_board (from_sq m))] at hlive heq
          rcases eq_or_ne b (pos.evalList.piece_no_list_board (to_sq m)) with
            rfl | hbn1
          · rw [Function.update_same] at heq
            exact absurd heq (hfreshR a ha han1 hlive)
          · rw [Function.update_noteq hbn1,
              Function.update_noteq (by omega : b ≠
                pos.evalList.piece_no_list_board (from_sq m))] at heq
            exact hinjB a b ha hb hlive heq
      have hpack := package_one pos.evalList.pieceListFb
        (Function.update
          (Function.update pos.evalList.pieceListFb
            (pos.evalList.piece_no_list_board (from_sq m))
            ((kpp_board_index (make_piece pos.sideToMove KING)).fb + InvSq (relative_square pos.sideToMove (if from_sq m < to_sq m then 6 else 2))))
          (pos.evalList.piece_no_list_board (to_sq m))
          ((kpp_board_index (make_piece pos.sideToMove ROOK)).fb + InvSq (relative_square pos.sideToMove (if from_sq m < to_sq m then 5 else 3))))
        ((pos.evalList.pieceListFb (PIECE_NUMBER_KING + 1) - f_king) % 64)
        (pos.evalList.piece_no_list_board (to_sq m))
        hn1lt30' hagree hinjB hinjA
      rw [Function.update_same] at hpack
      rw [if_pos hnzB1, if_pos hnzA] at hpack
      simp only [Option.toList_some] at hpack
      have hrem : (AppendChangedIndices (do_move pos m) Side.kFriend 1).1
          = [MakeIndex ((pos.evalList.pieceListFb
              (PIECE_NUMBER_KING + 1) - f_king) % 64)
              (pos.evalList.pieceListFb
                (pos.evalList.piece_no_list_board (to_sq m)))] := by
        simp [AppendChangedIndices, hdnum, hdn0, hdn1, hcp1o, hGA2, hn0ge,
          hnotle1, hnzB1, ExtBonaPiece.fromPersp, BONA_PIECE_ZERO, WHITE]
      have hadd : (AppendChangedIndices (do_move pos m) Side.kFriend 1).2
          = [MakeIndex ((pos.evalList.pieceListFb
              (PIECE_NUMBER_KING + 1) - f_king) % 64)
              ((kpp_board_index (make_piece pos.sideToMove ROOK)).fb + InvSq (relative_square pos.sideToMove (if from_sq m < to_sq m then 5 else 3)))] := by
        simp [AppendChangedIndices, hdnum, hdn0, hdn1, hcp1n, hGA2, hn0ge,
          hnotle1, hnzA, ExtBonaPiece.fromPersp, BONA_PIECE_ZERO, WHITE]
      have hactB : AppendActiveIndices pos Side.kFriend 1
          = (List.range 30).filterMap (fun i =>
              if pos.evalList.pieceListFb i ≠ 0
              then some (MakeIndex ((pos.evalList.pieceListFb
                (PIECE_NUMBER_KING + 1) - f_king) % 64)
                (pos.evalList.pieceListFb i)) else none) := rfl
      have hactA : AppendActiveIndices (do_move pos m) Side.kFriend 1
          = (List.range 30).filterMap (fun i =>
              if Function.update
                (Function.update pos.evalList.pieceListFb
                  (pos.evalList.piece_no_list_board (from_sq m))
                  ((kpp_board_index (make_piece pos.sideToMove KING)).fb + InvSq (relative_square pos.sideToMove (if from_sq m < to_sq m then 6 else 2))))
                (pos.evalList.piece_no_list_board (to_sq m))
                ((kpp_board_index (make_piece pos.sideToMove ROOK)).fb + InvSq (relative_square pos.sideToMove (if from_sq m < to_sq m then 5 else 3))) i ≠ 0
              then some (MakeIndex ((pos.evalList.pieceListFb
                (PIECE_NUMBER_KING + 1) - f_king) % 64)
                (Function.update
                  (Function.update pos.evalList.pieceListFb
                    (pos.evalList.piece_no_list_board (from_sq m))
                    ((kpp_board_index (make_piece pos.sideToMove KING)).fb + InvSq (relative_square pos.sideToMove (if from_sq m < to_sq m then 6 else 2))))
                  (pos.evalList.piece_no_list_board (to_sq m))
                  ((kpp_board_index (make_piece pos.sideToMove ROOK)).fb + InvSq (relative_square pos.sideToMove (if from_sq m < to_sq m then 5 else 3))) i))
              else none) := by
        simp only [AppendActiveIndices]
        rw [hGA1, hGA2]
        rfl
      unfold featureDeltaCorrect
      rw [hrem, hadd, hactB, hactA]
      exact hpack

    · have hstmAC : pos.sideToMove ≠ 0 := by
        intro he
        exact hnk ⟨hkf, by rw [hcol]; exact he⟩
      have hn0t : pos.evalList.piece_no_list_board (from_sq m)
          ≠ PIECE_NUMBER_KING + 0 := by
        rw [hn0v]
        omega
      have hn1t : pos.evalList.piece_no_list_board (to_sq m)
          ≠ PIECE_NUMBER_KING + 0 := by
        unfold PIECE_NUMBER_KING
        omega
      have hnotle1 : ¬ (PIECE_NUMBER_KING
          ≤ pos.evalList.piece_no_list_board (to_sq m)) := by
        unfold PIECE_NUMBER_KING
        omega
      have hGA1 : (GetPieces (do_move pos m) Side.kEnemy 1).1
          = Function.update
              (Function.update pos.evalList.pieceListFb
                (pos.evalList.piece_no_list_board (from_sq m))
                ((kpp_board_index (make_piece pos.sideToMove KING)).fb + InvSq (relative_square pos.sideToMove (if from_sq m < to_sq m then 6 else 2))))
              (pos.evalList.piece_no_list_board (to_sq m))
              ((kpp_board_index (make_piece pos.sideToMove ROOK)).fb + InvSq (relative_square pos.sideToMove (if from_sq m < to_sq m then 5 else 3))) := hFb
      have hGA2 : (GetPieces (do_move pos m) Side.kEnemy 1).2
          = (pos.evalList.pieceListFb (PIECE_NUMBER_KING + 0) - f_king) % 64 := by
        show ((do_move pos m).evalList.pieceListFb (PIECE_NUMBER_KING + 0)
          - f_king) % 64 = _
        rw [hFb, Function.update_noteq (Ne.symm hn1t),
          Function.update_noteq (Ne.symm hn0t)]
      have hinjB : ∀ a b, a < 30 → b < 30 → pos.evalList.pieceListFb a ≠ 0 →
          pos.evalList.pieceListFb a = pos.evalList.pieceListFb b → a = b := by
        intro a b ha hb hne heq
        exact live_inj_fb pos hwf' a b (by unfold PIECE_NUMBER_NB; omega)
          (by unfold PIECE_NUMBER_NB; omega) hne heq
      have hnzB1 : pos.evalList.pieceListFb
          (pos.evalList.piece_no_list_board (to_sq m)) ≠ 0 := by
        rw [hfb_t]
        have := kpp_fb_pos _ hvalid_t
        omega
      have hnzA : (kpp_board_index (make_piece pos.sideToMove ROOK)).fb + InvSq (relative_square pos.sideToMove (if from_sq m < to_sq m then 5 else 3)) ≠ 0 := by
        have := kpp_fb_pos _ hvalidR
        omega
      have hn0ge' : 30 ≤ pos.evalList.piece_no_list_board (from_sq m) := by
        unfold PIECE_NUMBER_KING at hn0ge
        omega
      have hfreshR : ∀ j, j < 30 →
          j ≠ pos.evalList.piece_no_list_board (to_sq m) →
          pos.evalList.pieceListFb j ≠ 0 →
          pos.evalList.pieceListFb j
            ≠ (kpp_board_index (make_piece pos.sideToMove ROOK)).fb + InvSq (relative_square pos.sideToMove (if from_sq m < to_sq m then 5 else 3)) := by
        intro j hj hjn1 hne
        exact fresh_fb pos hwf' (make_piece pos.sideToMove ROOK)
          (relative_square pos.sideToMove
            (if from_sq m < to_sq m then 5 else 3)) hvalidR hrlt
          j hj (by rw [hmap_rto]; unfold PIECE_NUMBER_NB; omega) hne
      have hagree : ∀ i, i < 30 →
          i ≠ pos.evalList.piece_no_list_board (to_sq m) →
          Function.update
            (Function.update pos.evalList.pieceListFb
              (pos.evalList.piece_no_list_board (from_sq m))
              ((kpp_board_index (make_piece pos.sideToMove KING)).fb + InvSq (relative_square pos.sideToMove (if from_sq m < to_sq m then 6 else 2))))
            (pos.evalList.piece_no_list_board (to_sq m))
            ((kpp_board_index (make_piece pos.sideToMove ROOK)).fb + InvSq (relative_square pos.sideToMove (if from_sq m < to_sq m then 5 else 3))) i
          = pos.evalList.pieceListFb i := by
        intro i hi hin1
        rw [Function.update_noteq hin1, Function.update_noteq (by omega)]
      have hinjA : ∀ a b, a < 30 → b < 30 →
          Function.update
            (Function.update pos.evalList.pieceListFb
              (pos.evalList.piece_no_list_board (from_sq m))
              ((kpp_board_index (make_piece pos.sideToMove KING)).fb + InvSq (relative_square pos.sideToMove (if from_sq m < to_sq m then 6 else 2))))
            (pos.evalList.piece_no_list_board (to_sq m))
            ((kpp_board_index (make_piece pos.sideToMove ROOK)).fb + InvSq (relative_square pos.sideToMove (if from_sq m < to_sq m then 5 else 3))) a ≠ 0 →
          Function.update
            (Function.update pos.evalList.pieceListFb
              (pos.evalList.piece_no_list_board (from_sq m))
              ((kpp_board_index (make_piece pos.sideToMove KING)).fb + InvSq (relative_square pos.sideToMove (if from_sq m < to_sq m then 6 else 2))))
            (pos.evalList.piece_no_list_board (to_sq m))
            ((kpp_board_index (make_piece pos.sideToMove ROOK)).fb + InvSq (relative_square pos.sideToMove (if from_sq m < to_sq m then 5 else 3))) a
          = Function.update
            (Function.update pos.evalList.pieceListFb
              (pos.evalList.piece_no_list_board (from_sq m))
              ((kpp_board_index (make_piece pos.sideToMove KING)).fb + InvSq (relative_square pos.sideToMove (if from_sq m < to_sq m then 6 else 2))))
            (pos.evalList.piece_no_list_board (to_sq m))
            ((kpp_board_index (make_piece pos.sideToMove ROOK)).fb + InvSq (relative_square pos.sideToMove (if from_sq m < to_sq m then 5 else 3))) b
          → a = b := by
        intro a b ha hb hlive heq
        rcases eq_or_ne a (pos.evalList.piece_no_list_board (to_sq m)) with
          rfl | han1
        · rw [Function.update_same] at hlive heq
          rcases eq_or_ne b (pos.evalList.piece_no_list_board (to_sq m)) with
            rfl | hbn1
          · rfl
          · rw [Function.update_noteq hbn1,
              Function.update_noteq (by omega : b ≠
                pos.evalList.piece_no_list_board (from_sq m))] at heq
            exact absurd heq.symm (hfreshR b hb hbn1 (heq ▸ hlive))
        · rw [Function.update_noteq han1,
            Function.update_noteq (by omega : a ≠
              pos.evalList.piece_no_list_board (from_sq m))] at hlive heq
          rcases eq_or_ne b (pos.evalList.piece_no_list_board (to_sq m)) with
            rfl | hbn1
          · rw [Function.update_same] at heq
            exact absurd heq (hfreshR a ha han1 hlive)
          · rw [Function.update_noteq hbn1,
              Function.update_noteq (by omega : b ≠
                pos.evalList.piece_no_list_board (from_sq m))] at heq
            exact hinjB a b ha hb hlive heq
      have hpack := package_one pos.evalList.pieceListFb
        (Function.update
          (Function.update pos.evalList.pieceListFb
            (pos.evalList.piece_no_list_board (from_sq m))
            ((kpp_board_index (make_piece pos.sideToMove KING)).fb + InvSq (relative_square pos.sideToMove (if from_sq m < to_sq m then 6 else 2))))
          (pos.evalList.piece_no_list_board (to_sq m))
          ((kpp_board_index (make_piece pos.sideToMove ROOK)).fb + InvSq (relative_square pos.sideToMove (if from_sq m < to_sq m then 5 else 3))))
        ((pos.evalList.pieceListFb (PIECE_NUMBER_KING + 0) - f_king) % 64)
        (pos.evalList.piece_no_list_board (to_sq m))
        hn1lt30' hagree hinjB hinjA
      rw [Function.update_same] at hpack
      rw [if_pos hnzB1, if_pos hnzA] at hpack
      simp only [Option.toList_some] at hpack
      have hrem : (AppendChangedIndices (do_move pos m) Side.kEnemy 1).1
          = [MakeIndex ((pos.evalList.pieceListFb
              (PIECE_NUMBER_KING + 0) - f_king) % 64)
              (pos.evalList.pieceListFb
                (pos.evalList.piece_no_list_board (to_sq m)))] := by
        simp [AppendChangedIndices, hdnum, hdn0, hdn1, hcp1o, hGA2, hn0ge,
          hnotle1, hnzB1, ExtBonaPiece.fromPersp, BONA_PIECE_ZERO, WHITE]
      have hadd : (AppendChangedIndices (do_move pos m) Side.kEnemy 1).2
          = [MakeIndex ((pos.evalList.pieceListFb
              (PIECE_NUMBER_KING + 0) - f_king) % 64)
              ((kpp_board_index (make_piece pos.sideToMove ROOK)).fb + InvSq (relative_square pos.sideToMove (if from_sq m < to_sq m then 5 else 3)))] := by
        simp [AppendChangedIndices, hdnum, hdn0, hdn1, hcp1n, hGA2, hn0ge,
          hnotle1, hnzA, ExtBonaPiece.fromPersp, BONA_PIECE_ZERO, WHITE]
      have hactB : AppendActiveIndices pos Side.kEnemy 1
          = (List.range 30).filterMap (fun i =>
              if pos.evalList.pieceListFb i ≠ 0
              then some (MakeIndex ((pos.evalList.pieceListFb
                (PIECE_NUMBER_KING + 0) - f_king) % 64)
                (pos.evalList.pieceListFb i)) else none) := rfl
      have hactA : AppendActiveIndices (do_move pos m) Side.kEnemy 1
          = (List.range 30).filterMap (fun i =>
              if Function.update
                (Function.update pos.evalList.pieceListFb
                  (pos.evalList.piece_no_list_board (from_sq m))
                  ((kpp_board_index (make_piece pos.sideToMove KING)).fb + InvSq (relative_square pos.sideToMove (if from_sq m < to_sq m then 6 else 2))))
                (pos.evalList.piece_no_list_board (to_sq m))
                ((kpp_board_index (make_piece pos.sideToMove ROOK)).fb + InvSq (relative_square pos.sideToMove (if from_sq m < to_sq m then 5 else 3))) i ≠ 0
              then some (MakeIndex ((pos.evalList.pieceListFb
                (PIECE_NUMBER_KING + 0) - f_king) % 64)
                (Function.update
                  (Function.update pos.evalList.pieceListFb
                    (pos.evalList.piece_no_list_board (from_sq m))
                    ((kpp_board_index (make_piece pos.sideToMove KING)).fb + InvSq (relative_square pos.sideToMove (if from_sq m < to_sq m then 6 else 2))))
                  (pos.evalList.piece_no_list_board (to_sq m))
                  ((kpp_board_index (make_piece pos.sideToMove ROOK)).fb + InvSq (relative_square pos.sideToMove (if from_sq m < to_sq m then 5 else 3))) i))
              else none) := by
        simp only [AppendActiveIndices]
        rw [hGA1, hGA2]
        rfl
      unfold featureDeltaCorrect
      rw [hrem, hadd, hactB, hactA]
      exact hpack

/-- C2 (amended): HalfKP feature-delta correctness for every legal move
that does not move the perspective-associated king.  The active-index
multiset before the move, minus the `removed` indices of
AppendChangedIndices (computed on the position after the move), plus the
`added` indices, equals the active-index multiset after the move; the
removed indices occur among the active ones and no list holds a duplicate.
For a move of the associated king (including castling by that side) the
property fails, because AppendChangedIndices skips king entries while the
king square re-bases every index: see the counterexample. -/
theorem C2_feature_delta_amended (pos : Position) (m : Nat) (side : Side)
    (persp : Nat) (h : MovePre pos m) (hp : persp ≤ 1)
    (hnk : ¬(piece_type (pos.board (from_sq m)) = KING ∧
      piece_color (pos.board (from_sq m)) = assocColor side persp)) :
    featureDeltaCorrect pos m side persp := by
  rcases move_type_cases m with hmt | hmt | hmt | hmt
  · by_cases hcap : pos.board (to_sq m) = NO_PIECE
    · exact C2_delta_normal_noncap pos m side persp h hp hnk hmt hcap
    · exact C2_delta_normal_cap pos m side persp h hp hnk hmt hcap
  · by_cases hcap : pos.board (to_sq m) = NO_PIECE
    · exact C2_delta_promo_noncap pos m side persp h hp hnk hmt hcap
    · exact C2_delta_promo_cap pos m side persp h hp hnk hmt hcap
  · exact C2_delta_enpassant pos m side persp h hp hnk hmt
  · exact C2_delta_castling pos m side persp h hp hnk hmt

set_option maxRecDepth 10000 in
/-- Witness for C2 at a concrete position and pawn push, white king
perspective. -/
theorem C2_feature_delta_witness :
    (MovePre posBase mvPawnPush ∧ (WHITE : Nat) ≤ 1 ∧
      ¬(piece_type (posBase.board (from_sq mvPawnPush)) = KING ∧
        piece_color (posBase.board (from_sq mvPawnPush))
          = assocColor Side.kFriend WHITE)) ∧
    featureDeltaCorrect posBase mvPawnPush Side.kFriend WHITE :=
  ⟨⟨by decide, by decide, by decide⟩,
   C2_feature_delta_amended posBase mvPawnPush Side.kFriend WHITE
     (by decide) (by decide) (by decide)⟩

set_option maxRecDepth 10000 in
/-- Counterexample to the unamended C2: a legal king move satisfies
do_move's preconditions, yet the feature-delta property fails for the
perspective whose associated king moved (AppendChangedIndices records
nothing for king entries while every HalfKP index is relative to the king
square). -/
theorem C2_feature_delta_counterexample :
    MovePre posBase mvKingMove ∧
    ¬ featureDeltaCorrect posBase mvKingMove Side.kFriend WHITE := by
  constructor
  · decide
  · intro hfd
    exact absurd hfd.2.1 (by decide)

/-! ## C10: the EnPassant feature has no incremental path -/

/-- C10: EnPassant::AppendChangedIndices never returns normally — its body
is an unconditional assert(false) ("Not implemented") — while
AppendActiveIndices (the full re-enumeration) returns normally on every
input, so only full re-enumeration is supported for this feature. -/
theorem C10_enpassant_changed_never_returns :
    (∀ ep persp removed added,
      enPassantAppendChangedIndices ep persp removed added
        = Except.error "assert(false): Not implemented") ∧
    (∀ rawMax ep persp active,
      (enPassantAppendActiveIndices rawMax ep persp active).isOk = true) := by
  constructor
  · intro ep persp removed added
    rfl
  · intro rawMax ep persp active
    unfold enPassantAppendActiveIndices
    rcases ep with _ | sq <;> by_cases h : rawMax < 1 <;>
      simp [h, Except.isOk, Except.toBool]

/-! ## C8: training-record filters -/

/-- C8 (amended): a pulled record is skipped — the worker retries with the
next record rather than stopping — when its score magnitude exceeds
eval_limit or its ply is below the drawn ply-skip threshold; the
validation-set (rmse hash) exclusion behaves that way only in the build
without EVAL_NNUE (learner.cpp:1937-1951 is under `#if !defined(EVAL_NNUE)`).
A record rejected by no filter is accepted. -/
theorem C8_training_filters (env : TrainEnv) (r : TrainRecord)
    (rest : List TrainRecord) :
    (env.evalLimit < |r.score| →
      nextTrainable env (r :: rest) = nextTrainable env rest) ∧
    (r.gamePly < r.plyThresh →
      nextTrainable env (r :: rest) = nextTrainable env rest) ∧
    (env.evalNNUE = false → env.isForRmse r.key = true →
      nextTrainable env (r :: rest) = nextTrainable env rest) ∧
    (rejected env r = false → nextTrainable env (r :: rest) = some r) := by
  refine ⟨?_, ?_, ?_, ?_⟩
  · intro h
    have hr : rejected env r = true := by
      unfold rejected
      simp [h]
    simp [nextTrainable, hr]
  · intro h
    have hr : rejected env r = true := by
      unfold rejected
      simp [h]
    simp [nextTrainable, hr]
  · intro hn hk
    have hr : rejected env r = true := by
      unfold rejected
      simp [hn, hk]
    simp [nextTrainable, hr]
  · intro h
    simp [nextTrainable, h]

/-- Witness for C8 at a concrete environment and record. -/
theorem C8_training_filters_witness :
    nextTrainable envC8
      [{ recC8 with score := 5000 }, recC8] = some recC8 := by
  have h := (C8_training_filters envC8 { recC8 with score := 5000 } [recC8]).1
    (by decide)
  rw [h]
  have h2 := (C8_training_filters envC8 recC8 []).2.2.2 (by decide)
  exact h2

/-- C8 counterexample to the claim as stated: in the EVAL_NNUE build a
record whose key collides with the held-out validation set is NOT rejected
— it is accepted for training. -/
theorem C8_counterexample_nnue_build :
    envC8.evalNNUE = true ∧ envC8.isForRmse recC8.key = true ∧
    nextTrainable envC8 [recC8] = some recC8 := by
  refine ⟨rfl, by decide, by decide⟩

/-! ## C5: newbob convergence -/

/-- C5: starting from a state with `trials` trials left, a known best
network, and a run of held-out losses none of which improves on the best
loss, the newbob policy of LearnerThink::save signals converged = true
(after exactly `trials` non-improving evaluations), and RestoreParameters
was called on the converging step and on every earlier step of the run. -/
theorem C5_newbob_convergence (decay : ℚ) (numTrials : Int) (dirName : Nat)
    (s : NewbobState) (losses : List ℚ)
    (htr : 0 < s.trials) (hlen : s.trials.toNat ≤ losses.length)
    (hni : ∀ l ∈ losses, lossLt l s.bestLoss = false)
    (hbest : s.bestDir.isSome = true) :
    newbobRun decay numTrials dirName s losses = some true := by
  induction losses generalizing s with
  | nil =>
    exfalso
    simp only [List.length_nil, Nat.le_zero, Int.toNat_eq_zero] at hlen
    omega
  | cons l ls ih =>
    have hl : lossLt l s.bestLoss = false := hni l (List.mem_cons_self l ls)
    rw [newbobRun]
    rw [newbobStep, hl]
    simp only [Bool.false_eq_true, if_false]
    by_cases hzero : s.trials - 1 = 0
    · simp [hzero, hbest]
    · have hrec : newbobRun decay numTrials dirName
          { trials := s.trials - 1, bestLoss := s.bestLoss,
            bestDir := s.bestDir,
            scale := if 0 < s.trials - 1 then s.scale * decay else s.scale }
          ls = some true := by
        apply ih
        · simp only
          omega
        · simp only [List.length_cons] at hlen
          simp only
          omega
        · intro x hx
          exact hni x (List.mem_cons_of_mem l hx)
        · simpa using hbest
      simp only [hzero, decide_False, Bool.false_eq_true, if_false]
      rw [hrec]
      simp [hbest]

/-- Witness for C5: trials = 2, best loss 1 with saved directory 0, and the
non-improving loss run [2, 3]. -/
theorem C5_newbob_convergence_witness :
    newbobRun (1/2 : ℚ) 2 5
      { trials := 2, bestLoss := some 1, bestDir := some 0, scale := 1 }
      [2, 3] = some true :=
  C5_newbob_convergence (1/2) 2 5
    { trials := 2, bestLoss := some 1, bestDir := some 0, scale := 1 }
    [2, 3] (by decide) (by decide) (by decide) (by decide)

/-! ## C7: outcome back-fill alternation -/

/-- The first record written by the flush loop carries `-isWin`. -/
theorem flushLoop_head_result (l : List PSV) (isWin : Int) (budget : Nat) :
    ∀ r ∈ (flushLoop isWin budget l).1.head?, r.game_result = -isWin := by
  cases l with
  | nil => simp [flushLoop]
  | cons p rest =>
    cases budget with
    | zero => simp [flushLoop]
    | succ b =>
      intro r hr
      simp only [flushLoop, Option.mem_def, List.head?_cons, Option.some_inj] at hr
      rw [← hr]

/-- Consecutive written records alternate in sign: each record's
game_result is the negation of the previous written one. -/
theorem flushLoop_chain (l : List PSV) (isWin : Int) (budget : Nat) :
    List.Chain' (fun a b => b.game_result = -a.game_result)
      (flushLoop isWin budget l).1 := by
  induction l generalizing isWin budget with
  | nil => simp [flushLoop]
  | cons p rest ih =>
    cases budget with
    | zero => simp [flushLoop]
    | succ b =>
      simp only [flushLoop]
      refine List.chain'_cons'.2 ⟨?_, ih (-isWin) b⟩
      intro y hy
      have := flushLoop_head_result rest (-isWin) b y hy
      simpa using this

/-- C7: walking the written records of a flushed game from the terminal
buffered record backward (= write order), game_result values alternate in
sign; in particular a terminal record back-filled with 1 is followed by -1
one ply earlier and +1 two plies earlier. -/
theorem C7_outcome_backfill_alternation (lastWin : Int) (a_psv : List PSV)
    (budget : Nat) :
    List.Chain' (fun a b => b.game_result = -a.game_result)
      (flush_psv lastWin a_psv budget).1 ∧
    (3 ≤ (flush_psv lastWin a_psv budget).1.length →
      ((flush_psv lastWin a_psv budget).1.getD 0 wjunk).game_result = 1 →
      ((flush_psv lastWin a_psv budget).1.getD 1 wjunk).game_result = -1 ∧
      ((flush_psv lastWin a_psv budget).1.getD 2 wjunk).game_result = 1) := by
  have hchain := flushLoop_chain a_psv.reverse lastWin budget
  refine ⟨hchain, ?_⟩
  intro hlen h0
  unfold flush_psv at hlen h0 ⊢
  set L := (flushLoop lastWin budget a_psv.reverse).1 with hL
  rw [List.chain'_iff_get] at hchain
  have hl0 : 0 < L.length := by omega
  have hl1 : 1 < L.length := by omega
  have hl2 : 2 < L.length := by omega
  rw [List.getD_eq_get L wjunk hl0] at h0
  rw [List.getD_eq_get L wjunk hl1, List.getD_eq_get L wjunk hl2]
  have h01 : (L.get ⟨1, hl1⟩).game_result = -(L.get ⟨0, hl0⟩).game_result :=
    hchain 0 (by omega)
  have h12 : (L.get ⟨2, hl2⟩).game_result = -(L.get ⟨1, hl1⟩).game_result :=
    hchain 1 (by omega)
  constructor
  · rw [h01, h0]
  · rw [h12, h01, h0]
    norm_num

/-- Witness for C7: a three-record game flushed with lastTurnIsWin = -1
writes results 1, -1, 1. -/
theorem C7_outcome_backfill_witness :
    ((flush_psv (-1) [⟨0, 0, 0⟩, ⟨0, 1, 0⟩, ⟨0, 2, 0⟩] 10).1.getD 1
        wjunk).game_result = -1 ∧
    ((flush_psv (-1) [⟨0, 0, 0⟩, ⟨0, 1, 0⟩, ⟨0, 2, 0⟩] 10).1.getD 2
        wjunk).game_result = 1 :=
  (C7_outcome_backfill_alternation (-1) [⟨0, 0, 0⟩, ⟨0, 1, 0⟩, ⟨0, 2, 0⟩]
    10).2 (by decide) (by decide)

/-! ## C6: quantize/dequantize round trip -/

/-- C6: with kWeightScale = S > 0 and the int8 weight range, a trainer
weight within the representable magnitude survives
DequantizeParameters ∘ QuantizeParameters to within one quantization step
1/S (round-to-nearest in fact loses at most half a step); a weight beyond
the range is clipped to ±kMaxWeightMagnitude (quantized ±127), and no
input ever quantizes outside [-127, 127] — there is no wrap-around. -/
theorem C6_quantize_dequantize_roundtrip (S w : ℚ) (hS : 0 < S) :
    (|w| ≤ kMaxWeightMagnitude S →
      |dequantizeWeight S (quantizeWeight S w) - w| ≤ 1 / S) ∧
    (kMaxWeightMagnitude S < w → quantizeWeight S w = 127) ∧
    (w < -kMaxWeightMagnitude S → quantizeWeight S w = -127) ∧
    |(quantizeWeight S w : ℚ)| ≤ 127 := by
  have hSne : S ≠ 0 := ne_of_gt hS
  have hM0 : 0 ≤ kMaxWeightMagnitude S := by
    unfold kMaxWeightMagnitude weightTypeMax
    positivity
  have hMS : kMaxWeightMagnitude S * S = 127 := by
    unfold kMaxWeightMagnitude weightTypeMax
    field_simp
  refine ⟨?_, ?_, ?_, ?_⟩
  · intro hw
    rw [abs_le] at hw
    have hclip : clipWeight S w = w := by
      unfold clipWeight
      rw [min_eq_right hw.2, max_eq_right hw.1]
    unfold dequantizeWeight quantizeWeight
    rw [hclip]
    have hrw : (round (w * S) : ℚ) / S - w = (round (w * S) - w * S) / S := by
      field_simp
      ring
    rw [hrw, abs_div, abs_of_pos hS, div_le_div_iff hS hS]
    have h1 : |(round (w * S) : ℚ) - w * S| ≤ 1 / 2 := by
      rw [abs_sub_comm]
      exact abs_sub_round (w * S)
    nlinarith [abs_nonneg ((round (w * S) : ℚ) - w * S)]
  · intro hw
    have hclip : clipWeight S w = kMaxWeightMagnitude S := by
      unfold clipWeight
      rw [min_eq_left (le_of_lt hw), max_eq_right (neg_le_self hM0)]
    unfold quantizeWeight
    rw [hclip, hMS]
    have : (127 : ℚ) = ((127 : ℤ) : ℚ) := by norm_num
    rw [this, round_intCast]
  · intro hw
    have hclip : clipWeight S w = -kMaxWeightMagnitude S := by
      unfold clipWeight
      have h1 : w ≤ kMaxWeightMagnitude S := by
        calc w ≤ -kMaxWeightMagnitude S := le_of_lt hw
        _ ≤ kMaxWeightMagnitude S := neg_le_self hM0
      rw [min_eq_right h1, max_eq_left (le_of_lt hw)]
    unfold quantizeWeight
    rw [hclip, neg_mul, hMS]
    have : (-127 : ℚ) = ((-127 : ℤ) : ℚ) := by norm_num
    rw [this, round_intCast]
  · have hlo : -kMaxWeightMagnitude S ≤ clipWeight S w := le_max_left _ _
    have hhi : clipWeight S w ≤ kMaxWeightMagnitude S := by
      apply max_le (neg_le_self hM0)
      exact min_le_left _ _
    have habs : |clipWeight S w * S| ≤ 127 := by
      rw [abs_mul, abs_of_pos hS]
      have hc : |clipWeight S w| ≤ kMaxWeightMagnitude S := abs_le.2 ⟨hlo, hhi⟩
      calc |clipWeight S w| * S ≤ kMaxWeightMagnitude S * S :=
            mul_le_mul_of_nonneg_right hc hS.le
        _ = 127 := hMS
    unfold quantizeWeight
    have h1 : |(round (clipWeight S w * S) : ℚ)| ≤ |clipWeight S w * S| + 1 / 2 := by
      have h2 := abs_sub_round (clipWeight S w * S)
      calc |(round (clipWeight S w * S) : ℚ)|
          = |clipWeight S w * S - (clipWeight S w * S - round (clipWeight S w * S))| := by
            rw [sub_sub_cancel]
        _ ≤ |clipWeight S w * S| + |clipWeight S w * S - round (clipWeight S w * S)| :=
            abs_sub _ _
        _ ≤ |clipWeight S w * S| + 1 / 2 := by linarith
    have h3 : |(round (clipWeight S w * S) : ℚ)| ≤ 127 + 1 / 2 := by linarith
    have h4 : ((|round (clipWeight S w * S)| : ℤ) : ℚ) < 128 := by
      rw [Int.cast_abs]
      linarith
    have h5 : |round (clipWeight S w * S)| < 128 := by exact_mod_cast h4
    have h6 : |round (clipWeight S w * S)| ≤ 127 := by omega
    calc |(round (clipWeight S w * S) : ℚ)|
        = ((|round (clipWeight S w * S)| : ℤ) : ℚ) := by rw [Int.cast_abs]
      _ ≤ ((127 : ℤ) : ℚ) := by exact_mod_cast h6
      _ = 127 := by norm_num

/-- Witness for C6 at the hidden-layer scale S = 64 and w = 1/2. -/
theorem C6_quantize_dequantize_witness :
    |dequantizeWeight 64 (quantizeWeight 64 (1/2)) - 1/2| ≤ 1 / 64 :=
  (C6_quantize_dequantize_roundtrip 64 (1/2) (by norm_num)).1
    (by unfold kMaxWeightMagnitude weightTypeMax; rw [abs_le]; norm_num)

/-! ## C3: the gensfen generation scenario -/

/-- The flush loop consumes one loop count per written record: written
records plus the remaining budget never exceed the starting budget. -/
theorem flushLoop_budget (l : List PSV) (isWin : Int) (budget : Nat) :
    (flushLoop isWin budget l).1.length + (flushLoop isWin budget l).2.1
      ≤ budget := by
  induction l generalizing isWin budget with
  | nil => simp [flushLoop]
  | cons p rest ih =>
    cases budget with
    | zero => simp [flushLoop]
    | succ b =>
      simp only [flushLoop, List.length_cons]
      have := ih (-isWin) b
      omega

/-- Every written record comes from the buffered list. -/
theorem flushLoop_mem (l : List PSV) (isWin : Int) (budget : Nat) :
    ∀ x ∈ (flushLoop isWin budget l).1, x.psv ∈ l := by
  induction l generalizing isWin budget with
  | nil => simp [flushLoop]
  | cons p rest ih =>
    cases budget with
    | zero => simp [flushLoop]
    | succ b =>
      intro x hx
      simp only [flushLoop, List.mem_cons] at hx
      rcases hx with hx | hx
      · rw [hx]
        exact List.mem_cons_self _ _
      · exact List.mem_cons_of_mem _ (ih (-isWin) b x hx)

/-- Buffered-record invariant of the game loop: every record buffered by
runGame was stored at a ply not below write_minply - 1 (the skip at
learner.cpp:655), with a search value strictly below eval_limit in
magnitude (the termination test at line 551 fires otherwise, before the
record is stored). -/
theorem runGame_records (cfg : GensfenCfg) :
    ∀ (trace : List PlyInfo) (ply : Nat) (a_psv : List PSV),
    (∀ r ∈ a_psv,
      cfg.writeMinply - 1 ≤ (r.gamePly : Int) ∧ |r.srcValue1| < cfg.evalLimit) →
    ∀ r ∈ (runGame cfg ply a_psv trace).1,
      cfg.writeMinply - 1 ≤ (r.gamePly : Int) ∧ |r.srcValue1| < cfg.evalLimit := by
  intro trace
  induction trace with
  | nil =>
    intro ply a_psv ha r hr
    exact ha r hr
  | cons pi rest ih =>
    intro ply a_psv ha r hr
    rw [runGame] at hr
    by_cases h1 : cfg.maxPly2 ≤ ply
    · rw [if_pos h1] at hr
      exact ha r hr
    rw [if_neg h1] at hr
    by_cases h2 : pi.isDrawTop = true
    · rw [if_pos h2] at hr
      exact ha r hr
    rw [if_neg h2] at hr
    by_cases h3 : pi.noLegalMoves = true
    · rw [if_pos h3] at hr
      exact ha r hr
    rw [if_neg h3] at hr
    by_cases h4 : cfg.evalLimit ≤ |pi.value1|
    · rw [if_pos h4] at hr
      exact ha r hr
    rw [if_neg h4] at hr
    by_cases h5 : pi.pvBad = true
    · rw [if_pos h5] at hr
      exact ha r hr
    rw [if_neg h5] at hr
    by_cases h6 : pi.isDrawAfter = true
    · rw [if_pos h6] at hr
      exact ha r hr
    rw [if_neg h6] at hr
    simp only at hr
    have ha1 : ∀ x ∈ (if (ply : Int) < cfg.writeMinply - 1 then []
        else if pi.hashHit = true then []
        else a_psv ++ [⟨pi.leafValue, ply, pi.value1⟩]),
        cfg.writeMinply - 1 ≤ (x.gamePly : Int) ∧
          |x.srcValue1| < cfg.evalLimit := by
      split_ifs with hmin hhash
      · intro x hx
        exact absurd hx (List.not_mem_nil x)
      · intro x hx
        exact absurd hx (List.not_mem_nil x)
      · intro x hx
        rcases List.mem_append.1 hx with hx | hx
        · exact ha x hx
        · rcases List.mem_singleton.1 hx with rfl
          exact ⟨by dsimp only; omega, by dsimp only; omega⟩
    by_cases h7 : pi.pvEmpty = true
    · rw [if_pos h7] at hr
      exact ha1 r hr
    rw [if_neg h7] at hr
    by_cases h8 : pi.randomMove = true
    · rw [if_pos h8] at hr
      exact ih (ply + 1) []
        (by intro x hx; exact absurd hx (List.not_mem_nil x)) r hr
    rw [if_neg h8] at hr
    exact ih (ply + 1) _ ha1 r hr

/-- Written records are drawn from the buffered list of some finished
game; the loop-count budget bounds their total number. -/
theorem runWorker_length (cfg : GensfenCfg) :
    ∀ (games : List (List PlyInfo)) (budget : Nat),
    (runWorker cfg budget games).length ≤ budget := by
  intro games
  induction games with
  | nil =>
    intro budget
    simp [runWorker]
  | cons g gs ih =>
    intro budget
    rw [runWorker]
    rcases hg : (runGame cfg 0 [] g).2 with _ | lastWin
    · exact ih budget
    · simp only
      have hb := flushLoop_budget (runGame cfg 0 [] g).1.reverse lastWin budget
      split_ifs with hq
      · unfold flush_psv
        omega
      · rw [List.length_append]
        have := ih (flush_psv lastWin (runGame cfg 0 [] g).1 budget).2.1
        unfold flush_psv at *
        omega

/-- Every record written by the worker is a buffered record of one of its
games. -/
theorem runWorker_mem (cfg : GensfenCfg) :
    ∀ (games : List (List PlyInfo)) (budget : Nat) (r : WrittenPSV),
    r ∈ runWorker cfg budget games →
    ∃ g ∈ games, r.psv ∈ (runGame cfg 0 [] g).1 := by
  intro games
  induction games with
  | nil =>
    intro budget r hr
    simp [runWorker] at hr
  | cons g gs ih =>
    intro budget r hr
    rw [runWorker] at hr
    rcases hg : (runGame cfg 0 [] g).2 with _ | lastWin
    · rw [hg] at hr
      obtain ⟨g2, hg2, hmem⟩ := ih budget r hr
      exact ⟨g2, List.mem_cons_of_mem _ hg2, hmem⟩
    · rw [hg] at hr
      simp only at hr
      split_ifs at hr with hq
      · have := flushLoop_mem (runGame cfg 0 [] g).1.reverse lastWin budget r hr
        exact ⟨g, List.mem_cons_self _ _, List.mem_reverse.1 this⟩
      · rcases List.mem_append.1 hr with hr | hr
        · have := flushLoop_mem (runGame cfg 0 [] g).1.reverse lastWin budget r hr
          exact ⟨g, List.mem_cons_self _ _, List.mem_reverse.1 this⟩
        · obtain ⟨g2, hg2, hmem⟩ := ih _ r hr
          exact ⟨g2, List.mem_cons_of_mem _ hg2, hmem⟩

/-- C3 (amended): a gensfen run over any games, with any loop budget,
writes at most `budget` records; every written record was buffered at a
ply ≥ write_minply - 1 (with write_minply = 1 the first buffered ply is
gamePly = 0, not 1), and at buffering time the search value — not the
stored leaf score — was strictly below eval_limit in magnitude. -/
theorem C3_gensfen_bounds (cfg : GensfenCfg) (games : List (List PlyInfo))
    (budget : Nat) :
    (runWorker cfg budget games).length ≤ budget ∧
    ∀ r ∈ runWorker cfg budget games,
      cfg.writeMinply - 1 ≤ (r.psv.gamePly : Int) ∧
      |r.psv.srcValue1| < cfg.evalLimit := by
  refine ⟨runWorker_length cfg games budget, ?_⟩
  intro r hr
  obtain ⟨g, hg, hmem⟩ := runWorker_mem cfg games budget r hr
  exact runGame_records cfg g 0 []
    (by intro x hx; exact absurd hx (List.not_mem_nil x)) r.psv hmem

/-- Witness for C3 at the concrete scenario (eval_limit 3000,
write_minply 1, loop budget 100, one two-ply game). -/
theorem C3_gensfen_bounds_witness :
    (runWorker cfgC3 100 [gameC3]).length ≤ 100 ∧
    cfgC3.writeMinply - 1 ≤
      (((⟨⟨3001, 0, 0⟩, 1⟩ : WrittenPSV)).psv.gamePly : Int) :=
  ⟨(C3_gensfen_bounds cfgC3 [gameC3] 100).1,
   ((C3_gensfen_bounds cfgC3 [gameC3] 100).2 ⟨⟨3001, 0, 0⟩, 1⟩ (by decide)).1⟩

/-- C3 counterexample to the claim as stated: with depth-1 searches,
loop = 100 and write_minply = 1, the standard-position game below writes a
record with gamePly = 0 (< 1) whose stored score 3001 exceeds
eval_limit = 3000 (the stored score is the PV-leaf evaluation,
learner.cpp:698, which the eval_limit test on the search value does not
bound). -/
theorem C3_gensfen_counterexample :
    (runWorker cfgC3 100 [gameC3]).map
        (fun r => (r.psv.gamePly, r.psv.score, r.game_result))
      = [(0, 3001, 1)] ∧
    ¬(∀ r ∈ runWorker cfgC3 100 [gameC3],
        1 ≤ r.psv.gamePly ∧ |r.psv.score| ≤ cfgC3.evalLimit) := by
  exact ⟨by decide, by decide⟩

/-! ## C4: draw back-fill -/

/-- C4: the code contradicts the documented draw convention.  flush_psv's
contract says "Pass 0 for a draw" (learner.cpp:413) and the maximum-ply
draw does flush 0s, but the repetition-draw branch after the search
(learner.cpp:574-580) calls flush_psv(1), so a repetition-drawn game is
back-filled with alternating ±1, not all zeros: the game below buffers two
records and ends by repetition, and its written game_result values are
-1 and 1. -/
theorem C4_draw_repetition_code_bug :
    (runGame cfgC3 0 [] gameC4).2 = some 1 ∧
    (runWorker cfgC3 100 [gameC4]).map (fun r => r.game_result) = [-1, 1] ∧
    ¬(∀ r ∈ runWorker cfgC3 100 [gameC4], r.game_result = 0) ∧
    (runWorker cfgC4maxply 100 [gameC4maxply]).map (fun r => r.game_result)
      = [0, 0] := by
  exact ⟨by decide, by decide, by decide, by decide⟩

/-! ## C9: the DirtyPiece bound -/

set_option maxHeartbeats 1000000 in
/-- C9: for every move applied by do_move, the new StateInfo's DirtyPiece
has dirty_num exactly 2 for a castling move or a capture (including en
passant, where the captured pawn is the one behind the target square), and
exactly 1 otherwise; in particular dirty_num never exceeds 2. -/
theorem C9_dirty_piece_bound (pos : Position) (m : Nat) :
    ((do_move pos m).st.dirtyPiece.dirty_num
      = if move_type m = CASTLING ∨
           (if move_type m = ENPASSANT
            then make_piece (flipColor pos.sideToMove) PAWN
            else pos.board (to_sq m)) ≠ NO_PIECE
        then 2 else 1) ∧
    (do_move pos m).st.dirtyPiece.dirty_num ≤ 2 := by
  have heq : (do_move pos m).st.dirtyPiece.dirty_num
      = if move_type m = CASTLING ∨
           (if move_type m = ENPASSANT
            then make_piece (flipColor pos.sideToMove) PAWN
            else pos.board (to_sq m)) ≠ NO_PIECE
        then 2 else 1 := by
    by_cases hc : move_type m = CASTLING
    · rw [if_pos (Or.inl hc)]
      simp [do_move, hc, do_castling_do, dm_dp_ite, dp_dn_ite, ite_self]
    · by_cases hcap : (if move_type m = ENPASSANT
          then make_piece (flipColor pos.sideToMove) PAWN
          else pos.board (to_sq m)) ≠ NO_PIECE
      · rw [if_pos (Or.inr hcap)]
        simp [do_move, hc, hcap, do_castling_do, dm_dp_ite, dp_dn_ite, ite_self]
      · rw [if_neg (by push_neg; exact ⟨hc, by simpa using hcap⟩)]
        simp [do_move, hc, hcap, do_castling_do, dm_dp_ite, dp_dn_ite, ite_self]
  refine ⟨heq, ?_⟩
  rw [heq]
  by_cases h : move_type m = CASTLING ∨
      (if move_type m = ENPASSANT
       then make_piece (flipColor pos.sideToMove) PAWN
       else pos.board (to_sq m)) ≠ NO_PIECE
  · rw [if_pos h]
  · rw [if_neg h]
    omega

end SfNnue
